import Mathlib

/-!
Verification of the instruction-table builder and deduplicating code-generation
engine of `src/opcodes/opcodes.cpp`.

The C++ program builds a flat store of micro-instruction records (one record
per clock cycle of each opcode's execution), sorts the store with a seven-key
comparator, and emits nested guarded blocks that collapse records sharing the
same (cycle, addressing mode, action text) triple.

The shallow embedding below mirrors the C++ source function by function:

* `Operation`, `AddressMode`, `Register`, `CpuMode` are the C `const char*`
  string constants (all constants have pairwise distinct contents, so the
  source's pointer/`strcmp` comparisons coincide with string comparison).
* `MicroInstruction` is the class of the same name; machine-width fields
  (`opcode`, `which`, `cycle` are `uint8_t` in C) are modelled as `Nat`
  reduced `% 256` wherever the C code can overflow (`flush_cycle`).
* `BuilderState` packages the two globals `g_mi` and `g_actions`.
* Each C builder/action function becomes a `BuilderState → BuilderState`
  function of the same name (the two C++ overloads of `assign` and `update`
  become `assign_n`/`assign_s` and `update_n`/`update_s`).
* The tables `gen_6502_instructions` / `gen_65832_instructions` are the exact
  call sequences of the source, split into parts only to keep elaboration
  shallow.
* `compare_mi_objects` is the sort comparator (returning -1/0/1; the C
  version returns the sign-equivalent `strcmp` values).
* `gen_code_for_action` / `gen_code_for_address_mode` / `gen_code_for_cycle`
  and the `main` loop are modelled as list-consuming functions returning the
  emitted guarded blocks together with the unconsumed remainder; a guarded
  block records, for every consumed micro-instruction, whether it contributed
  a fresh guard predicate (`true`) or only an "also:" annotation comment
  (`false`).
-/

set_option maxRecDepth 40000

namespace Ogege

abbrev Operation := String
abbrev AddressMode := String
abbrev Register := String
abbrev CpuMode := String

def OP_NONE : Operation := "NONE"
def OP_ADD : Operation := "ADD"
def OP_ADC : Operation := "ADC"
def OP_AND : Operation := "AND"
def OP_ASL : Operation := "ASL"
def OP_BEQ : Operation := "BEQ"
def OP_BIT : Operation := "BIT"
def OP_BBR : Operation := "BBR"
def OP_BBS : Operation := "BBS"
def OP_BCC : Operation := "BCC"
def OP_BCS : Operation := "BCS"
def OP_BMI : Operation := "BMI"
def OP_BNE : Operation := "BNE"
def OP_BPL : Operation := "BPL"
def OP_BRA : Operation := "BRA"
def OP_BRK : Operation := "BRK"
def OP_BVC : Operation := "BVC"
def OP_BVS : Operation := "BVS"
def OP_CLC : Operation := "CLC"
def OP_CLD : Operation := "CLD"
def OP_CLI : Operation := "CLI"
def OP_CLV : Operation := "CLV"
def OP_CMP : Operation := "CMP"
def OP_CPX : Operation := "CPX"
def OP_CPY : Operation := "CPY"
def OP_DEC : Operation := "DEC"
def OP_DEX : Operation := "DEX"
def OP_DEY : Operation := "DEY"
def OP_EOR : Operation := "EOR"
def OP_INC : Operation := "INC"
def OP_INX : Operation := "INX"
def OP_INY : Operation := "INY"
def OP_JMP : Operation := "JMP"
def OP_JSR : Operation := "JSR"
def OP_LDA : Operation := "LDA"
def OP_LDX : Operation := "LDX"
def OP_LDY : Operation := "LDY"
def OP_LSR : Operation := "LSR"
def OP_NOP : Operation := "NOP"
def OP_ORA : Operation := "ORA"
def OP_PHA : Operation := "PHA"
def OP_PHP : Operation := "PHP"
def OP_PHX : Operation := "PHX"
def OP_PHY : Operation := "PHY"
def OP_PLA : Operation := "PLA"
def OP_PLP : Operation := "PLP"
def OP_PLX : Operation := "PLX"
def OP_PLY : Operation := "PLY"
def OP_RMB : Operation := "RMB"
def OP_ROL : Operation := "ROL"
def OP_ROR : Operation := "ROR"
def OP_RTI : Operation := "RTI"
def OP_RTS : Operation := "RTS"
def OP_SBC : Operation := "SBC"
def OP_SEC : Operation := "SEC"
def OP_SED : Operation := "SED"
def OP_SEI : Operation := "SEI"
def OP_SMB : Operation := "SMB"
def OP_STA : Operation := "STA"
def OP_STP : Operation := "STP"
def OP_STX : Operation := "STX"
def OP_STY : Operation := "STY"
def OP_STZ : Operation := "STZ"
def OP_SUB : Operation := "SUB"
def OP_TAX : Operation := "TAX"
def OP_TAY : Operation := "TAY"
def OP_TRB : Operation := "TRB"
def OP_TSB : Operation := "TSB"
def OP_TSX : Operation := "TSX"
def OP_TXA : Operation := "TXA"
def OP_TXS : Operation := "TXS"
def OP_TYA : Operation := "TYA"
def OP_WAI : Operation := "WAI"

def AM_NONE : AddressMode := "AM_NONE"
def ABS_a : AddressMode := "ABS_a"
def AIIX_A_X : AddressMode := "AIIX_A_X"
def AIX_a_x : AddressMode := "AIX_a_x"
def AIY_a_y : AddressMode := "AIY_a_y"
def AIIY_A_y : AddressMode := "AIIY_A_y"
def AIA_A : AddressMode := "AIA_A"
def ACC_A : AddressMode := "ACC_A"
def IMM_m : AddressMode := "IMM_m"
def IMP_i : AddressMode := "IMP_i"
def PCR_r : AddressMode := "PCR_r"
def STK_s : AddressMode := "STK_s"
def ZPG_zp : AddressMode := "ZPG_zp"
def ZIIX_ZP_X : AddressMode := "ZIIX_ZP_X"
def ZIX_zp_x : AddressMode := "ZIX_zp_x"
def ZIY_zp_y : AddressMode := "ZIY_zp_y"
def ZPI_ZP : AddressMode := "ZPI_ZP"
def ZIIY_ZP_y : AddressMode := "ZIIY_ZP_y"

def A : Register := "`A"
def X : Register := "`X"
def Y : Register := "`Y"
def PC : Register := "`PC"
def SP : Register := "`SP"
def EA : Register := "`EA"
def EX : Register := "`EX"
def EY : Register := "`EY"
def EPC : Register := "`EPC"
def ESP : Register := "`ESP"
def P : Register := "P"
def N : Register := "`N"
def V : Register := "`V"
def U : Register := "`U"
def B : Register := "`B"
def D : Register := "`D"
def I : Register := "`I"
def Z : Register := "`Z"
def C : Register := "`C"
def RB : Register := "`RB"
def RHW : Register := "`RHW"
def RW : Register := "`RW"
def RDW : Register := "`RDW"
def RQW : Register := "`RQW"
def WB : Register := "`WB"
def WHW : Register := "`WHW"
def WW : Register := "`WW"
def WDW : Register := "`WDW"
def WQW : Register := "`WQW"
def ADDR : Register := "`ADDR"
def EADDR : Register := "`EADDR"

def MODE_NONE : CpuMode := "MODE_NONE"
def MODE_6502 : CpuMode := "MODE_6502"
def MODE_65832 : CpuMode := "MODE_65832"
def MODE_OVERLAY : CpuMode := "MODE_OVERLAY"

/-- The `MicroInstruction` class of the source.  `opcode`, `which` and
`cycle` are `uint8_t` in C and are kept in `0..255` by reducing `% 256` at
every point where the C code could wrap. -/
structure MicroInstruction where
  cpu_mode : CpuMode
  opcode : Nat
  operation : Operation
  address_mode : AddressMode
  which : Nat
  cycle : Nat
  action : String
deriving DecidableEq

/-- The default-constructed `MicroInstruction` (the initial value of the
global `g_mi`). -/
def MicroInstruction.init : MicroInstruction :=
  ⟨MODE_NONE, 0, OP_NONE, AM_NONE, 0, 0, ""⟩

/-- The two globals of the source: the pending record `g_mi` and the store
`g_actions`. -/
structure BuilderState where
  g_mi : MicroInstruction
  g_actions : List MicroInstruction
deriving DecidableEq

def BuilderState.init : BuilderState := ⟨MicroInstruction.init, []⟩

/-! ## The builder protocol (`save_instruction`, `flush_*`, `set_*`) -/

/-- `save_instruction`: copy the pending record into the store iff its
operation is a real mnemonic and its action text is nonempty, then clear the
pending action text. -/
def save_instruction (s : BuilderState) : BuilderState :=
  if s.g_mi.operation ≠ OP_NONE ∧ s.g_mi.action ≠ "" then
    ⟨{ s.g_mi with action := "" }, s.g_actions ++ [s.g_mi]⟩
  else
    ⟨{ s.g_mi with action := "" }, s.g_actions⟩

/-- `flush_instruction`: save, then reset the pending operation to `NONE`
and the pending cycle to 0 (note: `which` and `address_mode` are *not*
reset). -/
def flush_instruction (s : BuilderState) : BuilderState :=
  let s := save_instruction s
  ⟨{ s.g_mi with operation := OP_NONE, cycle := 0 }, s.g_actions⟩

/-- `flush_cycle`: save, then advance the pending cycle (a `uint8_t`, hence
the `% 256`). -/
def flush_cycle (s : BuilderState) : BuilderState :=
  let s := save_instruction s
  ⟨{ s.g_mi with cycle := (s.g_mi.cycle + 1) % 256 }, s.g_actions⟩

def flush_mode (s : BuilderState) : BuilderState :=
  flush_instruction s

def set_mode (cpu_mode : CpuMode) (s : BuilderState) : BuilderState :=
  let s := flush_mode s
  ⟨{ s.g_mi with cpu_mode := cpu_mode }, s.g_actions⟩

def set_opcode (opcode : Nat) (s : BuilderState) : BuilderState :=
  let s := flush_instruction s
  ⟨{ s.g_mi with opcode := opcode % 256 }, s.g_actions⟩

def set_operation (operation : Operation) (s : BuilderState) : BuilderState :=
  ⟨{ s.g_mi with operation := operation }, s.g_actions⟩

def set_address_mode (address_mode : AddressMode) (s : BuilderState) : BuilderState :=
  ⟨{ s.g_mi with address_mode := address_mode }, s.g_actions⟩

def set_which (which : Nat) (s : BuilderState) : BuilderState :=
  ⟨{ s.g_mi with which := which % 256 }, s.g_actions⟩

/-! ## Text helpers of the action builder (pure string construction) -/

def bit_of (reg : Register) (bit_nbr : Nat) : String :=
  reg ++ "[" ++ Nat.repr (bit_nbr % 256) ++ "]"

def part (reg : Register) (highest lowest : Nat) : String :=
  reg ++ "[" ++ Nat.repr (highest % 256) ++ ":" ++ Nat.repr (lowest % 256) ++ "]"

def bit (b : Nat) : String :=
  Nat.repr (b % 256)

def combine2 (a b : String) : String :=
  "\x7b" ++ a ++ "," ++ b ++ "\x7d"

def combine3 (a b c : String) : String :=
  "\x7b" ++ a ++ "," ++ b ++ "," ++ c ++ "\x7d"

def get_write_byte_action (address val : String) : String :=
  "`WRITE_BYTE(" ++ address ++ "," ++ val ++ ");"

def get_read_byte_action (address dst : String) : String :=
  "`READ_BYTE(" ++ address ++ "," ++ dst ++ ");"

/-! ## Action builder: assignments and updates -/

/-- `assign(Register, uint32_t)`: pending action becomes `reg <= n;`
(`%u` prints the 32-bit value in decimal). -/
def assign_n (reg : Register) (n : Nat) (s : BuilderState) : BuilderState :=
  let s := save_instruction s
  ⟨{ s.g_mi with action := reg ++ " <= " ++ Nat.repr (n % 4294967296) ++ ";" }, s.g_actions⟩

/-- `assign(Register, const char*)`: pending action becomes `reg <= val;`. -/
def assign_s (reg : Register) (val : String) (s : BuilderState) : BuilderState :=
  let s := save_instruction s
  ⟨{ s.g_mi with action := reg ++ " <= " ++ val ++ ";" }, s.g_actions⟩

/-- `update(Register, const char*, uint32_t)`: pending action becomes
`reg <= reg OP n;`. -/
def update_n (reg : Register) (oper : String) (n : Nat) (s : BuilderState) : BuilderState :=
  let s := save_instruction s
  ⟨{ s.g_mi with action :=
      reg ++ " <= " ++ reg ++ " " ++ oper ++ " " ++ Nat.repr (n % 4294967296) ++ ";" },
    s.g_actions⟩

/-- `update(Register, const char*, const char*)`. -/
def update_s (reg : Register) (oper : String) (val : String) (s : BuilderState) : BuilderState :=
  let s := save_instruction s
  ⟨{ s.g_mi with action := reg ++ " <= " ++ reg ++ " " ++ oper ++ " " ++ val ++ ";" },
    s.g_actions⟩

def add (reg : Register) (n : Nat) (s : BuilderState) : BuilderState :=
  update_n reg "+" n s

def inc (reg : Register) (s : BuilderState) : BuilderState :=
  add reg 1 s

def sub (reg : Register) (n : Nat) (s : BuilderState) : BuilderState :=
  update_n reg "-" n s

def dec (reg : Register) (s : BuilderState) : BuilderState :=
  sub reg 1 s

def copy (src dst : Register) (s : BuilderState) : BuilderState :=
  let s := save_instruction s
  ⟨{ s.g_mi with action := dst ++ " <= " ++ src ++ ";" }, s.g_actions⟩

def set_flag (reg : Register) (s : BuilderState) : BuilderState :=
  assign_n reg 1 s

def clear_flag (reg : Register) (s : BuilderState) : BuilderState :=
  assign_n reg 0 s

def increment (reg : Register) (s : BuilderState) : BuilderState :=
  add reg 1 s

def decrement (reg : Register) (s : BuilderState) : BuilderState :=
  sub reg 1 s

def bitwise_or (dst src : Register) (s : BuilderState) : BuilderState :=
  update_s dst "|" src s

/-! ## Single-byte bus primitives -/

/-- `push_byte`: one stack-write bus cycle. -/
def push_byte (val : String) (s : BuilderState) : BuilderState :=
  let s := save_instruction s
  let action := "tmp_SP = SP - 1;" ++ " " ++ get_write_byte_action "tmp_SP" val
      ++ " SP <= tmp_SP;"
  flush_cycle ⟨{ s.g_mi with action := action }, s.g_actions⟩

/-- `pop_byte`: one stack-read bus cycle. -/
def pop_byte (dst : String) (s : BuilderState) : BuilderState :=
  let s := save_instruction s
  let action := get_read_byte_action SP dst ++ " SP <= SP + 1;"
  flush_cycle ⟨{ s.g_mi with action := action }, s.g_actions⟩

/-- `load_byte`: one instruction-stream read bus cycle (with EPC
auto-increment folded into the action text). -/
def load_byte (dst : String) (s : BuilderState) : BuilderState :=
  let s := save_instruction s
  let action := get_read_byte_action EPC dst ++ " EPC <= EPC + 1;"
  flush_cycle ⟨{ s.g_mi with action := action }, s.g_actions⟩

/-- `read_byte`: one read bus cycle at an arbitrary address register. -/
def read_byte (address : Register) (dst : String) (s : BuilderState) : BuilderState :=
  let s := save_instruction s
  let action := get_read_byte_action address dst
  flush_cycle ⟨{ s.g_mi with action := action }, s.g_actions⟩

/-- `read_byte_with_inc`, exactly as in the source: the call to `inc` sets a
pending `address <= address + 1;` action which the very next line overwrites
with the bare read text. -/
def read_byte_with_inc (address : Register) (dst : String) (s : BuilderState) : BuilderState :=
  let s := save_instruction s
  let action := get_read_byte_action address dst
  let s := inc address s
  flush_cycle ⟨{ s.g_mi with action := action }, s.g_actions⟩

/-- `write_byte`: one write bus cycle at an arbitrary address register. -/
def write_byte (address : Register) (src : String) (s : BuilderState) : BuilderState :=
  let s := save_instruction s
  let action := get_write_byte_action address src
  flush_cycle ⟨{ s.g_mi with action := action }, s.g_actions⟩

/-- `write_byte_with_inc`, exactly as in the source (same overwrite as
`read_byte_with_inc`). -/
def write_byte_with_inc (address : Register) (src : String) (s : BuilderState) : BuilderState :=
  let s := save_instruction s
  let action := get_write_byte_action address src
  let s := inc address s
  flush_cycle ⟨{ s.g_mi with action := action }, s.g_actions⟩

/-! ## Composite multi-byte primitives -/

def push_half_word (val : Register) (s : BuilderState) : BuilderState :=
  let s := save_instruction s
  let s := assign_s (part WQW 7 0) (part val 7 0) s
  let s := push_byte (part val 15 8) s
  let s := push_byte (part WQW 7 0) s
  s

def push_word (val : Register) (s : BuilderState) : BuilderState :=
  let s := save_instruction s
  let s := assign_s (part WQW 23 0) (part val 23 0) s
  let s := push_byte (part val 31 24) s
  let s := push_byte (part WQW 23 16) s
  let s := push_byte (part WQW 15 8) s
  let s := push_byte (part WQW 7 0) s
  s

def push_double_word (val : Register) (s : BuilderState) : BuilderState :=
  let s := save_instruction s
  let s := assign_s (part WQW 55 0) (part val 55 0) s
  let s := push_byte (part val 63 56) s
  let s := push_byte (part WQW 55 48) s
  let s := push_byte (part WQW 47 40) s
  let s := push_byte (part WQW 39 32) s
  let s := push_byte (part WQW 31 24) s
  let s := push_byte (part WQW 23 16) s
  let s := push_byte (part WQW 15 8) s
  let s := push_byte (part WQW 7 0) s
  s

def push_quad_word (val : Register) (s : BuilderState) : BuilderState :=
  let s := save_instruction s
  let s := assign_s (part WQW 119 0) (part val 119 0) s
  let s := push_byte (part val 127 120) s
  let s := push_byte (part WQW 119 112) s
  let s := push_byte (part WQW 111 104) s
  let s := push_byte (part WQW 103 96) s
  let s := push_byte (part WQW 95 88) s
  let s := push_byte (part WQW 87 80) s
  let s := push_byte (part WQW 79 72) s
  let s := push_byte (part WQW 71 64) s
  let s := push_byte (part WQW 63 56) s
  let s := push_byte (part WQW 55 48) s
  let s := push_byte (part WQW 47 40) s
  let s := push_byte (part WQW 39 32) s
  let s := push_byte (part WQW 31 24) s
  let s := push_byte (part WQW 23 16) s
  let s := push_byte (part WQW 15 8) s
  let s := push_byte (part WQW 7 0) s
  s

def pop_half_word (dst : Register) (s : BuilderState) : BuilderState :=
  let s := save_instruction s
  let s := pop_byte (part RQW 7 0) s
  let s := assign_s (part dst 7 0) (part RQW 7 0) s
  let s := pop_byte (part dst 15 8) s
  s

def pop_word (dst : Register) (s : BuilderState) : BuilderState :=
  let s := save_instruction s
  let s := pop_byte (part RQW 7 0) s
  let s := pop_byte (part RQW 15 8) s
  let s := pop_byte (part RQW 23 16) s
  let s := assign_s (part dst 23 0) (part RQW 23 0) s
  let s := pop_byte (part dst 31 24) s
  s

def pop_double_word (dst : Register) (s : BuilderState) : BuilderState :=
  let s := save_instruction s
  let s := pop_byte (part RQW 7 0) s
  let s := pop_byte (part RQW 15 8) s
  let s := pop_byte (part RQW 23 16) s
  let s := pop_byte (part RQW 31 24) s
  let s := pop_byte (part RQW 39 32) s
  let s := pop_byte (part RQW 47 40) s
  let s := pop_byte (part RQW 55 48) s
  let s := assign_s (part dst 55 0) (part RQW 55 0) s
  let s := pop_byte (part dst 63 56) s
  s

def pop_quad_word (dst : Register) (s : BuilderState) : BuilderState :=
  let s := save_instruction s
  let s := pop_byte (part RQW 7 0) s
  let s := pop_byte (part RQW 15 8) s
  let s := pop_byte (part RQW 23 16) s
  let s := pop_byte (part RQW 31 24) s
  let s := pop_byte (part RQW 39 32) s
  let s := pop_byte (part RQW 47 40) s
  let s := pop_byte (part RQW 55 48) s
  let s := pop_byte (part RQW 63 56) s
  let s := pop_byte (part RQW 71 64) s
  let s := pop_byte (part RQW 79 72) s
  let s := pop_byte (part RQW 87 80) s
  let s := pop_byte (part RQW 95 88) s
  let s := pop_byte (part RQW 103 96) s
  let s := pop_byte (part RQW 111 104) s
  let s := pop_byte (part RQW 119 112) s
  let s := assign_s (part dst 119 0) (part RQW 119 0) s
  let s := pop_byte (part dst 127 120) s
  s

def load_half_word (dst : Register) (s : BuilderState) : BuilderState :=
  let s := save_instruction s
  let s := load_byte (part RQW 7 0) s
  let s := assign_s (part dst 7 0) (part RQW 7 0) s
  let s := load_byte (part dst 15 8) s
  s

def load_word (dst : Register) (s : BuilderState) : BuilderState :=
  let s := save_instruction s
  let s := load_byte (part RQW 7 0) s
  let s := load_byte (part RQW 15 8) s
  let s := load_byte (part RQW 23 16) s
  let s := assign_s (part dst 23 0) (part RQW 23 0) s
  let s := load_byte (part dst 31 24) s
  s

def load_double_word (dst : Register) (s : BuilderState) : BuilderState :=
  let s := save_instruction s
  let s := load_byte (part RQW 7 0) s
  let s := load_byte (part RQW 15 8) s
  let s := load_byte (part RQW 23 16) s
  let s := load_byte (part RQW 31 24) s
  let s := load_byte (part RQW 39 32) s
  let s := load_byte (part RQW 47 40) s
  let s := load_byte (part RQW 55 48) s
  let s := assign_s (part dst 55 0) (part RQW 55 0) s
  let s := load_byte (part dst 63 56) s
  s

def load_quad_word (dst : Register) (s : BuilderState) : BuilderState :=
  let s := save_instruction s
  let s := load_byte (part RQW 7 0) s
  let s := load_byte (part RQW 15 8) s
  let s := load_byte (part RQW 23 16) s
  let s := load_byte (part RQW 31 24) s
  let s := load_byte (part RQW 39 32) s
  let s := load_byte (part RQW 47 40) s
  let s := load_byte (part RQW 55 48) s
  let s := load_byte (part RQW 63 56) s
  let s := load_byte (part RQW 71 64) s
  let s := load_byte (part RQW 79 72) s
  let s := load_byte (part RQW 87 80) s
  let s := load_byte (part RQW 95 88) s
  let s := load_byte (part RQW 103 96) s
  let s := load_byte (part RQW 111 104) s
  let s := load_byte (part RQW 119 112) s
  let s := assign_s (part dst 119 0) (part RQW 119 0) s
  let s := load_byte (part dst 127 120) s
  s

def write_half_word (address : Register) (src : Register) (s : BuilderState) : BuilderState :=
  let s := save_instruction s
  let s := assign_s (part RQW 15 8) (part src 15 8) s
  let s := write_byte_with_inc address (part src 7 0) s
  let s := write_byte address (part RQW 15 8) s
  s

def write_word (address : Register) (src : Register) (s : BuilderState) : BuilderState :=
  let s := save_instruction s
  let s := assign_s (part RQW 31 8) (part RQW 31 8) s
  let s := write_byte_with_inc address (part src 7 0) s
  let s := write_byte_with_inc address (part RQW 15 8) s
  let s := write_byte_with_inc address (part RQW 23 16) s
  let s := write_byte address (part RQW 31 24) s
  s

def write_double_word (address : Register) (src : Register) (s : BuilderState) : BuilderState :=
  let s := save_instruction s
  let s := assign_s (part src 63 8) (part RQW 63 8) s
  let s := write_byte_with_inc address (part src 7 0) s
  let s := write_byte_with_inc address (part RQW 15 8) s
  let s := write_byte_with_inc address (part RQW 23 16) s
  let s := write_byte_with_inc address (part RQW 31 24) s
  let s := write_byte_with_inc address (part RQW 39 32) s
  let s := write_byte_with_inc address (part RQW 47 40) s
  let s := write_byte_with_inc address (part RQW 55 48) s
  let s := write_byte address (part RQW 63 56) s
  s

def write_quad_word (address : Register) (src : Register) (s : BuilderState) : BuilderState :=
  let s := save_instruction s
  let s := assign_s (part src 127 8) (part RQW 127 8) s
  let s := write_byte_with_inc address (part src 7 0) s
  let s := write_byte_with_inc address (part RQW 15 8) s
  let s := write_byte_with_inc address (part RQW 23 16) s
  let s := write_byte_with_inc address (part RQW 31 24) s
  let s := write_byte_with_inc address (part RQW 39 32) s
  let s := write_byte_with_inc address (part RQW 47 40) s
  let s := write_byte_with_inc address (part RQW 55 48) s
  let s := write_byte_with_inc address (part RQW 63 56) s
  let s := write_byte_with_inc address (part RQW 71 64) s
  let s := write_byte_with_inc address (part RQW 79 72) s
  let s := write_byte_with_inc address (part RQW 87 80) s
  let s := write_byte_with_inc address (part RQW 95 88) s
  let s := write_byte_with_inc address (part RQW 103 96) s
  let s := write_byte_with_inc address (part RQW 111 104) s
  let s := write_byte_with_inc address (part RQW 119 112) s
  let s := write_byte address (part RQW 127 120) s
  s

/-! ## Shift helper used by the 6502 table (`asl_byte`) -/

def asl_byte (reg : Register) (s : BuilderState) : BuilderState :=
  let s := save_instruction s
  let s := assign_s C (bit_of reg 7) s
  let s := assign_s reg (combine2 (part reg 6 0) (bit 0)) s
  s

/-! ## The sort comparator (`compare_mi_objects` / `compare_mi`)

`strcmp` / `std::string::compare` return an `int` whose only relevant
property is its sign; we model them by a three-valued comparison on the
underlying character lists (all strings involved are ASCII, so byte order
and code-point order agree). -/

def chars_cmp : List Char → List Char → Int
  | [], [] => 0
  | [], _ :: _ => -1
  | _ :: _, [] => 1
  | a :: as, b :: bs =>
    if a.toNat < b.toNat then -1
    else if b.toNat < a.toNat then 1
    else chars_cmp as bs

def str_cmp (a b : String) : Int := chars_cmp a.data b.data

def nat_cmp (a b : Nat) : Int :=
  if a < b then -1 else if b < a then 1 else 0

/-- First-nonzero-wins combination of comparator results (the shape of the
`if (cmp != 0) return cmp;` chain in the source). -/
def lex_step (c d : Int) : Int := if c ≠ 0 then c else d

/-- The seven-key comparator of the source, key order: cycle,
address mode, action, operation, cpu variant, which, opcode. -/
def compare_mi_objects (a b : MicroInstruction) : Int :=
  if a.cycle < b.cycle then -1 else
  if b.cycle < a.cycle then 1 else
  let cmp := str_cmp a.address_mode b.address_mode
  if cmp ≠ 0 then cmp else
  let cmp := str_cmp a.action b.action
  if cmp ≠ 0 then cmp else
  let cmp := str_cmp a.operation b.operation
  if cmp ≠ 0 then cmp else
  let cmp := str_cmp a.cpu_mode b.cpu_mode
  if cmp ≠ 0 then cmp else
  if a.which < b.which then -1 else
  if b.which < a.which then 1 else
  if a.opcode < b.opcode then -1 else
  if b.opcode < a.opcode then 1 else 0

/-- The strict "less-than" predicate handed to `std::sort`. -/
def compare_mi (a b : MicroInstruction) : Bool :=
  compare_mi_objects a b < 0

/-- The (non-strict) order induced by the comparator. -/
def mi_le (a b : MicroInstruction) : Prop := compare_mi_objects a b ≤ 0

instance : DecidableRel mi_le :=
  fun a b => inferInstanceAs (Decidable (compare_mi_objects a b ≤ 0))

def insert_mi (x : MicroInstruction) : List MicroInstruction → List MicroInstruction
  | [] => [x]
  | y :: ys => if compare_mi y x then y :: insert_mi x ys else x :: y :: ys

/-- `std::sort(g_actions.begin(), g_actions.end(), compare_mi)`: the
comparator is a total order whose equivalence classes are singletons on the
store (no two equal records), so any correct sort produces the same list;
we model it by insertion sort. -/
def sort_mi (l : List MicroInstruction) : List MicroInstruction :=
  l.foldr insert_mi []

/-! ## The emission engine

`gen_code_for_action` walks the sorted store from the current index,
consuming the run of records that agree with the first record on
(cycle, address mode, action).  Each consumed record either contributes a
fresh guard predicate (when its operation differs from the operation of the
last record that contributed a predicate) or only an "also:" annotation
comment.  We record each consumed record paired with that Boolean
(`true` = predicate, `false` = annotation), plus the block header data, in a
`GuardedBlock`.  The outer loops (`gen_code_for_address_mode`,
`gen_code_for_cycle`, the loop in `main`) only re-dispatch to
`gen_code_for_action`; they are modelled as functions returning the emitted
blocks together with the unconsumed remainder of the list. -/

/-- The run-extension test of `gen_code_for_action`'s while loop:
the three `break`s fire unless cycle, address mode and action all agree
with the first record of the run. -/
def tripleEq (a b : MicroInstruction) : Bool :=
  a.cycle == b.cycle && a.address_mode == b.address_mode && a.action == b.action

/-- One emitted guarded statement: header data plus the consumed records,
each marked `true` (guard predicate) or `false` (annotation comment). -/
structure GuardedBlock where
  cycle : Nat
  address_mode : AddressMode
  action : String
  entries : List (MicroInstruction × Bool)
deriving DecidableEq

/-- The while loop of `gen_code_for_action`: `first` is `first_mi`, `last`
is the `last_mi` pointer (`none` = `NULL`). -/
def gen_action_loop (first : MicroInstruction) (last : Option Operation) :
    List MicroInstruction → List (MicroInstruction × Bool) × List MicroInstruction
  | [] => ([], [])
  | mi :: rest =>
    if tripleEq mi first then
      match last with
      | some lop =>
        if lop == mi.operation then
          let r := gen_action_loop first last rest
          ((mi, false) :: r.1, r.2)
        else
          let r := gen_action_loop first (some mi.operation) rest
          ((mi, true) :: r.1, r.2)
      | none =>
        let r := gen_action_loop first (some mi.operation) rest
        ((mi, true) :: r.1, r.2)
    else ([], mi :: rest)

/-- `gen_code_for_action`: emit one guarded block for the action run
starting at the head, returning the block and the unconsumed remainder.
(The C function is never entered at an out-of-range index; the `[]` case is
a dummy.) -/
def gen_code_for_action : List MicroInstruction → GuardedBlock × List MicroInstruction
  | [] => (⟨0, AM_NONE, "", []⟩, [])
  | mi :: rest =>
    let r := gen_action_loop mi none (mi :: rest)
    (⟨mi.cycle, mi.address_mode, mi.action, r.1⟩, r.2)

theorem gen_action_loop_flatten (first : MicroInstruction) (last : Option Operation)
    (l : List MicroInstruction) :
    ((gen_action_loop first last l).1.map Prod.fst) ++ (gen_action_loop first last l).2 = l := by
  induction l generalizing last with
  | nil => simp [gen_action_loop]
  | cons mi rest ih =>
    simp only [gen_action_loop]
    by_cases h : tripleEq mi first
    · simp only [h, if_true]
      cases last with
      | none => simpa using ih (some mi.operation)
      | some lop =>
        by_cases h2 : lop == mi.operation
        · simp only [h2, if_true]
          simpa using ih (some lop)
        · simp only [h2, Bool.false_eq_true, if_false]
          simpa using ih (some mi.operation)
    · simp [h]

theorem gen_action_loop_rem_length (first : MicroInstruction) (last : Option Operation)
    (l : List MicroInstruction) :
    ((gen_action_loop first last l).2).length ≤ l.length := by
  conv_rhs => rw [← gen_action_loop_flatten first last l]
  simp

theorem tripleEq_self (mi : MicroInstruction) : tripleEq mi mi = true := by
  simp [tripleEq]

theorem gen_code_for_action_rem_length (mi : MicroInstruction)
    (rest : List MicroInstruction) :
    ((gen_code_for_action (mi :: rest)).2).length < (mi :: rest).length := by
  show ((gen_action_loop mi none (mi :: rest)).2).length < _
  simp only [gen_action_loop, tripleEq_self, if_true]
  have := gen_action_loop_rem_length mi (some mi.operation) rest
  simpa using Nat.lt_succ_of_le this

/-- The while loop of `gen_code_for_address_mode` (`first` is its
`first_mi`). -/
def gen_am_loop (first : MicroInstruction) (l : List MicroInstruction) :
    List GuardedBlock × List MicroInstruction :=
  match l with
  | [] => ([], [])
  | mi :: rest =>
    if mi.cycle == first.cycle && mi.address_mode == first.address_mode then
      let r := gen_code_for_action (mi :: rest)
      let r2 := gen_am_loop first r.2
      (r.1 :: r2.1, r2.2)
    else ([], mi :: rest)
termination_by l.length
decreasing_by
  exact gen_code_for_action_rem_length _ _

def gen_code_for_address_mode : List MicroInstruction → List GuardedBlock × List MicroInstruction
  | [] => ([], [])
  | mi :: rest => gen_am_loop mi (mi :: rest)

theorem gen_am_loop_rem_length (first : MicroInstruction) (l : List MicroInstruction) :
    ((gen_am_loop first l).2).length ≤ l.length := by
  match l with
  | [] => simp [gen_am_loop]
  | mi :: rest =>
    rw [gen_am_loop]
    by_cases hcond : (mi.cycle == first.cycle && mi.address_mode == first.address_mode) = true
    · simp only [hcond, if_true]
      have hlt := gen_code_for_action_rem_length mi rest
      have ih := gen_am_loop_rem_length first (gen_code_for_action (mi :: rest)).2
      exact le_trans ih (Nat.le_of_lt hlt)
    · simp [hcond]
termination_by l.length
decreasing_by
  exact gen_code_for_action_rem_length _ _

theorem gen_code_for_address_mode_rem_length (mi : MicroInstruction)
    (rest : List MicroInstruction) :
    ((gen_code_for_address_mode (mi :: rest)).2).length < (mi :: rest).length := by
  have hcond : (mi.cycle == mi.cycle && mi.address_mode == mi.address_mode) = true := by simp
  show ((gen_am_loop mi (mi :: rest)).2).length < _
  rw [gen_am_loop, if_pos hcond]
  exact Nat.lt_of_le_of_lt (gen_am_loop_rem_length mi _)
    (gen_code_for_action_rem_length mi rest)

/-- The while loop of `gen_code_for_cycle` (`first` is its `first_mi`). -/
def gen_cycle_loop (first : MicroInstruction) (l : List MicroInstruction) :
    List GuardedBlock × List MicroInstruction :=
  match l with
  | [] => ([], [])
  | mi :: rest =>
    if mi.cycle == first.cycle then
      let r := gen_code_for_address_mode (mi :: rest)
      let r2 := gen_cycle_loop first r.2
      (r.1 ++ r2.1, r2.2)
    else ([], mi :: rest)
termination_by l.length
decreasing_by
  exact gen_code_for_address_mode_rem_length _ _

def gen_code_for_cycle : List MicroInstruction → List GuardedBlock × List MicroInstruction
  | [] => ([], [])
  | mi :: rest => gen_cycle_loop mi (mi :: rest)

theorem gen_cycle_loop_rem_length (first : MicroInstruction) (l : List MicroInstruction) :
    ((gen_cycle_loop first l).2).length ≤ l.length := by
  match l with
  | [] => simp [gen_cycle_loop]
  | mi :: rest =>
    rw [gen_cycle_loop]
    by_cases hcond : (mi.cycle == first.cycle) = true
    · simp only [hcond, if_true]
      have hlt := gen_code_for_address_mode_rem_length mi rest
      have ih := gen_cycle_loop_rem_length first (gen_code_for_address_mode (mi :: rest)).2
      exact le_trans ih (Nat.le_of_lt hlt)
    · simp [hcond]
termination_by l.length
decreasing_by
  exact gen_code_for_address_mode_rem_length _ _

theorem gen_code_for_cycle_rem_length (mi : MicroInstruction)
    (rest : List MicroInstruction) :
    ((gen_code_for_cycle (mi :: rest)).2).length < (mi :: rest).length := by
  have hcond : (mi.cycle == mi.cycle) = true := by simp
  show ((gen_cycle_loop mi (mi :: rest)).2).length < _
  rw [gen_cycle_loop, if_pos hcond]
  exact Nat.lt_of_le_of_lt (gen_cycle_loop_rem_length mi _)
    (gen_code_for_address_mode_rem_length mi rest)

/-- The emission loop of `main`: repeatedly call `gen_code_for_cycle` until
the sorted store is exhausted; the result is the full ordered list of
emitted guarded blocks. -/
def main_emit_loop (l : List MicroInstruction) : List GuardedBlock :=
  match l with
  | [] => []
  | mi :: rest =>
    (gen_code_for_cycle (mi :: rest)).1 ++ main_emit_loop (gen_code_for_cycle (mi :: rest)).2
termination_by l.length
decreasing_by
  exact gen_code_for_cycle_rem_length _ _

/-- Flat reformulation of the emission pass: one `gen_code_for_action` run
after another.  (Proved equal to `main_emit_loop`; the nested cycle/mode
loops only decide which headers get printed, not how records are grouped.) -/
def emit_chunks (l : List MicroInstruction) : List GuardedBlock :=
  match l with
  | [] => []
  | mi :: rest =>
    (gen_code_for_action (mi :: rest)).1 :: emit_chunks (gen_code_for_action (mi :: rest)).2
termination_by l.length
decreasing_by
  exact gen_code_for_action_rem_length _ _

/-- Fuel-indexed, structurally recursive variant of `emit_chunks`, used so
that concrete runs of the emission pass can be evaluated by `decide`. -/
def chunks_fuel : Nat → List MicroInstruction → List GuardedBlock
  | 0, _ => []
  | _ + 1, [] => []
  | fuel + 1, mi :: rest =>
    match gen_code_for_action (mi :: rest) with
    | (blk, rem) => blk :: chunks_fuel fuel rem

/-! ## The instruction tables

The exact builder-call sequences of `gen_6502_instructions` and
`gen_65832_instructions` (the commented-out `gen_overlay_instructions` is
dead code and is not modelled), split into parts only to keep elaboration
shallow. -/

def gen_6502_instructions_part1 (s : BuilderState) : BuilderState :=
  s
    |> set_mode MODE_6502
    |> set_opcode 0x00
    |> set_operation OP_BRK
    |> set_address_mode STK_s
    |> set_flag I
    |> assign_n PC 0xFFFE
    |> push_half_word PC
    |> push_byte (combine3 (part P 7 5) (bit 1) (part P 3 0))
    |> set_opcode 0x01
    |> set_operation OP_ORA
    |> set_address_mode ZIIX_ZP_X
    |> set_opcode 0x02
    |> set_operation OP_ADD
    |> set_address_mode ZIIX_ZP_X
    |> set_opcode 0x04
    |> set_operation OP_TSB
    |> set_address_mode ZPG_zp
    |> set_opcode 0x05
    |> set_operation OP_ORA
    |> set_address_mode ZPG_zp
    |> set_opcode 0x06
    |> set_operation OP_ASL
    |> set_address_mode ZPG_zp
    |> set_opcode 0x07
    |> set_operation OP_RMB
    |> set_address_mode ZPG_zp
    |> set_which 0
    |> set_opcode 0x17
    |> set_operation OP_RMB
    |> set_address_mode ZPG_zp
    |> set_which 1
    |> set_opcode 0x27
    |> set_operation OP_RMB
    |> set_address_mode ZPG_zp
    |> set_which 2
    |> set_opcode 0x37
    |> set_operation OP_RMB
    |> set_address_mode ZPG_zp
    |> set_which 3
    |> set_opcode 0x47
    |> set_operation OP_RMB
    |> set_address_mode ZPG_zp
    |> set_which 4
    |> set_opcode 0x57
    |> set_operation OP_RMB
    |> set_address_mode ZPG_zp
    |> set_which 5
    |> set_opcode 0x67
    |> set_operation OP_RMB
    |> set_address_mode ZPG_zp
    |> set_which 6
    |> set_opcode 0x77
    |> set_operation OP_RMB
    |> set_address_mode ZPG_zp
    |> set_which 7
    |> set_opcode 0x08
    |> set_operation OP_PHP
    |> set_address_mode STK_s
    |> set_opcode 0x09
    |> set_operation OP_ORA

def gen_6502_instructions_part2 (s : BuilderState) : BuilderState :=
  s
    |> set_address_mode IMM_m
    |> set_opcode 0x0A
    |> set_operation OP_ASL
    |> set_address_mode ACC_A
    |> set_opcode 0x0C
    |> set_operation OP_TSB
    |> set_address_mode ABS_a
    |> set_opcode 0x0D
    |> set_operation OP_ORA
    |> set_address_mode ABS_a
    |> load_half_word ADDR
    |> read_byte ADDR RB
    |> bitwise_or A RB
    |> set_opcode 0x0E
    |> set_operation OP_ASL
    |> set_address_mode ABS_a
    |> load_half_word ADDR
    |> read_byte ADDR RB
    |> asl_byte RB
    |> write_byte ADDR RB
    |> set_opcode 0x0F
    |> set_operation OP_BBR
    |> set_address_mode PCR_r
    |> set_which 0
    |> set_opcode 0x1F
    |> set_operation OP_BBR
    |> set_address_mode PCR_r
    |> set_which 1
    |> set_opcode 0x2F
    |> set_operation OP_BBR
    |> set_address_mode PCR_r
    |> set_which 2
    |> set_opcode 0x3F
    |> set_operation OP_BBR
    |> set_address_mode PCR_r
    |> set_which 3
    |> set_opcode 0x4F
    |> set_operation OP_BBR
    |> set_address_mode PCR_r
    |> set_which 4
    |> set_opcode 0x5F
    |> set_operation OP_BBR
    |> set_address_mode PCR_r
    |> set_which 5
    |> set_opcode 0x6F
    |> set_operation OP_BBR
    |> set_address_mode PCR_r
    |> set_which 6
    |> set_opcode 0x7F
    |> set_operation OP_BBR
    |> set_address_mode PCR_r
    |> set_which 7
    |> set_opcode 0x10
    |> set_operation OP_BPL
    |> set_address_mode PCR_r
    |> set_opcode 0x11
    |> set_operation OP_ORA
    |> set_address_mode ZIIY_ZP_y
    |> set_opcode 0x12
    |> set_operation OP_ORA

def gen_6502_instructions_part3 (s : BuilderState) : BuilderState :=
  s
    |> set_address_mode ZPI_ZP
    |> set_opcode 0x14
    |> set_operation OP_TRB
    |> set_address_mode ZPG_zp
    |> set_opcode 0x15
    |> set_operation OP_ORA
    |> set_address_mode ZIX_zp_x
    |> set_opcode 0x16
    |> set_operation OP_ASL
    |> set_address_mode ZIX_zp_x
    |> set_opcode 0x18
    |> set_operation OP_CLC
    |> set_address_mode IMP_i
    |> clear_flag C
    |> set_opcode 0x19
    |> set_operation OP_ORA
    |> set_address_mode AIY_a_y
    |> set_opcode 0x1A
    |> set_operation OP_INC
    |> set_address_mode ACC_A
    |> set_opcode 0x1C
    |> set_operation OP_TRB
    |> set_address_mode ABS_a
    |> set_opcode 0x1D
    |> set_operation OP_ORA
    |> set_address_mode AIX_a_x
    |> set_opcode 0x1E
    |> set_operation OP_ASL
    |> set_address_mode AIX_a_x
    |> set_opcode 0x20
    |> set_operation OP_JSR
    |> set_address_mode ABS_a
    |> set_opcode 0x21
    |> set_operation OP_AND
    |> set_address_mode ZIIX_ZP_X
    |> set_opcode 0x22
    |> set_operation OP_JSR
    |> set_address_mode AIA_A
    |> set_opcode 0x23
    |> set_operation OP_SUB
    |> set_address_mode ZIIX_ZP_X
    |> set_opcode 0x24
    |> set_operation OP_BIT
    |> set_address_mode ZPG_zp
    |> set_opcode 0x25
    |> set_operation OP_AND
    |> set_address_mode ZPG_zp
    |> set_opcode 0x26
    |> set_operation OP_ROL
    |> set_address_mode ZPG_zp
    |> set_opcode 0x28
    |> set_operation OP_PLP
    |> set_address_mode STK_s
    |> set_opcode 0x29
    |> set_operation OP_AND
    |> set_address_mode IMM_m
    |> set_opcode 0x2A
    |> set_operation OP_ROL
    |> set_address_mode ACC_A
    |> set_opcode 0x2C

def gen_6502_instructions_part4 (s : BuilderState) : BuilderState :=
  s
    |> set_operation OP_BIT
    |> set_address_mode ABS_a
    |> set_opcode 0x2D
    |> set_operation OP_AND
    |> set_address_mode ABS_a
    |> set_opcode 0x2E
    |> set_operation OP_ROL
    |> set_address_mode ABS_a
    |> set_opcode 0x30
    |> set_operation OP_BMI
    |> set_address_mode PCR_r
    |> set_opcode 0x31
    |> set_operation OP_AND
    |> set_address_mode ZIIY_ZP_y
    |> set_opcode 0x32
    |> set_operation OP_AND
    |> set_address_mode ZPI_ZP
    |> set_opcode 0x34
    |> set_operation OP_BIT
    |> set_address_mode ZIX_zp_x
    |> set_opcode 0x35
    |> set_operation OP_AND
    |> set_address_mode ZIX_zp_x
    |> set_opcode 0x36
    |> set_operation OP_ROL
    |> set_address_mode ZIX_zp_x
    |> set_opcode 0x38
    |> set_operation OP_SEC
    |> set_address_mode IMP_i
    |> set_flag C
    |> set_opcode 0x39
    |> set_operation OP_AND
    |> set_address_mode AIY_a_y
    |> set_opcode 0x3A
    |> set_operation OP_DEC
    |> set_address_mode ACC_A
    |> set_opcode 0x3C
    |> set_operation OP_BIT
    |> set_address_mode AIX_a_x
    |> set_opcode 0x3D
    |> set_operation OP_AND
    |> set_address_mode AIX_a_x
    |> set_opcode 0x3E
    |> set_operation OP_ROL
    |> set_address_mode AIX_a_x
    |> set_opcode 0x40
    |> set_operation OP_RTI
    |> set_address_mode STK_s
    |> set_opcode 0x41
    |> set_operation OP_EOR
    |> set_address_mode ZIIX_ZP_X
    |> set_opcode 0x45
    |> set_operation OP_EOR
    |> set_address_mode ZPG_zp
    |> set_opcode 0x46
    |> set_operation OP_LSR
    |> set_address_mode ZPG_zp
    |> set_opcode 0x48
    |> set_operation OP_PHA
    |> set_address_mode STK_s

def gen_6502_instructions_part5 (s : BuilderState) : BuilderState :=
  s
    |> set_opcode 0x49
    |> set_operation OP_EOR
    |> set_address_mode IMM_m
    |> set_opcode 0x4A
    |> set_operation OP_LSR
    |> set_address_mode ACC_A
    |> set_opcode 0x4C
    |> set_operation OP_JMP
    |> set_address_mode ABS_a
    |> set_opcode 0x4D
    |> set_operation OP_EOR
    |> set_address_mode ABS_a
    |> set_opcode 0x4E
    |> set_operation OP_LSR
    |> set_address_mode ABS_a
    |> set_opcode 0x50
    |> set_operation OP_BVC
    |> set_address_mode PCR_r
    |> set_opcode 0x51
    |> set_operation OP_EOR
    |> set_address_mode ZIIY_ZP_y
    |> set_opcode 0x52
    |> set_operation OP_EOR
    |> set_address_mode ZPG_zp
    |> set_opcode 0x55
    |> set_operation OP_EOR
    |> set_address_mode ZIX_zp_x
    |> set_opcode 0x56
    |> set_operation OP_LSR
    |> set_address_mode ZIX_zp_x
    |> set_opcode 0x58
    |> set_operation OP_CLI
    |> set_address_mode IMP_i
    |> clear_flag I
    |> set_opcode 0x59
    |> set_operation OP_EOR
    |> set_address_mode AIY_a_y
    |> set_opcode 0x5A
    |> set_operation OP_PHY
    |> set_address_mode STK_s
    |> set_opcode 0x5C
    |> set_operation OP_JSR
    |> set_address_mode AIIX_A_X
    |> set_opcode 0x5D
    |> set_operation OP_EOR
    |> set_address_mode AIX_a_x
    |> set_opcode 0x5E
    |> set_operation OP_LSR
    |> set_address_mode AIX_a_x
    |> set_opcode 0x60
    |> set_operation OP_RTS
    |> set_address_mode STK_s
    |> set_opcode 0x61
    |> set_operation OP_ADC
    |> set_address_mode ZIIX_ZP_X
    |> set_opcode 0x64
    |> set_operation OP_STZ
    |> set_address_mode ZPG_zp
    |> set_opcode 0x65
    |> set_operation OP_ADC

def gen_6502_instructions_part6 (s : BuilderState) : BuilderState :=
  s
    |> set_address_mode ZPG_zp
    |> set_opcode 0x66
    |> set_operation OP_ROR
    |> set_address_mode ZPG_zp
    |> set_opcode 0x68
    |> set_operation OP_PLA
    |> set_address_mode STK_s
    |> set_opcode 0x69
    |> set_operation OP_ADC
    |> set_address_mode IMM_m
    |> set_opcode 0x6A
    |> set_operation OP_ROR
    |> set_address_mode ACC_A
    |> set_opcode 0x6C
    |> set_operation OP_JMP
    |> set_address_mode AIA_A
    |> set_opcode 0x6D
    |> set_operation OP_ADC
    |> set_address_mode ABS_a
    |> set_opcode 0x6E
    |> set_operation OP_ROR
    |> set_address_mode ABS_a
    |> set_opcode 0x70
    |> set_operation OP_BVS
    |> set_address_mode PCR_r
    |> set_opcode 0x71
    |> set_operation OP_ADC
    |> set_address_mode ZIIY_ZP_y
    |> set_opcode 0x72
    |> set_operation OP_ADC
    |> set_address_mode ZPI_ZP
    |> set_opcode 0x74
    |> set_operation OP_STZ
    |> set_address_mode ZIX_zp_x
    |> set_opcode 0x75
    |> set_operation OP_ADC
    |> set_address_mode ZIX_zp_x
    |> set_opcode 0x76
    |> set_operation OP_ROR
    |> set_address_mode ZIX_zp_x
    |> set_opcode 0x78
    |> set_operation OP_SEI
    |> set_address_mode IMP_i
    |> set_flag I
    |> set_opcode 0x79
    |> set_operation OP_ADC
    |> set_address_mode AIY_a_y
    |> set_opcode 0x7A
    |> set_operation OP_PLY
    |> set_address_mode STK_s
    |> set_opcode 0x7C
    |> set_operation OP_JMP
    |> set_address_mode AIIX_A_X
    |> set_opcode 0x7D
    |> set_operation OP_ADC
    |> set_address_mode AIX_a_x
    |> set_opcode 0x7E
    |> set_operation OP_ROR
    |> set_address_mode AIX_a_x
    |> set_opcode 0x80

def gen_6502_instructions_part7 (s : BuilderState) : BuilderState :=
  s
    |> set_operation OP_BRA
    |> set_address_mode PCR_r
    |> set_opcode 0x81
    |> set_operation OP_STA
    |> set_address_mode ZIIX_ZP_X
    |> set_opcode 0x84
    |> set_operation OP_STY
    |> set_address_mode ZPG_zp
    |> set_opcode 0x85
    |> set_operation OP_STA
    |> set_address_mode ZPG_zp
    |> set_opcode 0x86
    |> set_operation OP_STX
    |> set_address_mode ZPG_zp
    |> set_opcode 0x87
    |> set_operation OP_SMB
    |> set_address_mode ZPG_zp
    |> set_which 0
    |> set_opcode 0x97
    |> set_operation OP_SMB
    |> set_address_mode ZPG_zp
    |> set_which 1
    |> set_opcode 0xA7
    |> set_operation OP_SMB
    |> set_address_mode ZPG_zp
    |> set_which 2
    |> set_opcode 0xB7
    |> set_operation OP_SMB
    |> set_address_mode ZPG_zp
    |> set_which 3
    |> set_opcode 0xC7
    |> set_operation OP_SMB
    |> set_address_mode ZPG_zp
    |> set_which 4
    |> set_opcode 0xD7
    |> set_operation OP_SMB
    |> set_address_mode ZPG_zp
    |> set_which 5
    |> set_opcode 0xE7
    |> set_operation OP_SMB
    |> set_address_mode ZPG_zp
    |> set_which 6
    |> set_opcode 0xF7
    |> set_operation OP_SMB
    |> set_address_mode ZPG_zp
    |> set_which 7
    |> set_opcode 0x88
    |> set_operation OP_DEY
    |> set_address_mode IMP_i
    |> decrement Y
    |> set_opcode 0x89
    |> set_operation OP_BIT
    |> set_address_mode IMM_m
    |> set_opcode 0x8A
    |> set_operation OP_TXA
    |> set_address_mode IMP_i
    |> copy X A
    |> set_opcode 0x8C
    |> set_operation OP_STY
    |> set_address_mode ABS_a

def gen_6502_instructions_part8 (s : BuilderState) : BuilderState :=
  s
    |> set_opcode 0x8D
    |> set_operation OP_STA
    |> set_address_mode ABS_a
    |> set_opcode 0x8E
    |> set_operation OP_STX
    |> set_address_mode ABS_a
    |> set_opcode 0x8F
    |> set_operation OP_BBS
    |> set_address_mode PCR_r
    |> set_which 0
    |> set_opcode 0x9F
    |> set_operation OP_BBS
    |> set_address_mode PCR_r
    |> set_which 1
    |> set_opcode 0xAF
    |> set_operation OP_BBS
    |> set_address_mode PCR_r
    |> set_which 2
    |> set_opcode 0xBF
    |> set_operation OP_BBS
    |> set_address_mode PCR_r
    |> set_which 3
    |> set_opcode 0xCF
    |> set_operation OP_BBS
    |> set_address_mode PCR_r
    |> set_which 4
    |> set_opcode 0xDF
    |> set_operation OP_BBS
    |> set_address_mode PCR_r
    |> set_which 5
    |> set_opcode 0xEF
    |> set_operation OP_BBS
    |> set_address_mode PCR_r
    |> set_which 6
    |> set_opcode 0xFF
    |> set_operation OP_BBS
    |> set_address_mode PCR_r
    |> set_which 7
    |> set_opcode 0x90
    |> set_operation OP_BCC
    |> set_address_mode PCR_r
    |> set_opcode 0x91
    |> set_operation OP_STA
    |> set_address_mode ZIIY_ZP_y
    |> set_opcode 0x92
    |> set_operation OP_STA
    |> set_address_mode ZIY_zp_y
    |> set_opcode 0x94
    |> set_operation OP_STY
    |> set_address_mode ZIX_zp_x
    |> set_opcode 0x95
    |> set_operation OP_STA
    |> set_address_mode ZIX_zp_x
    |> set_opcode 0x96
    |> set_operation OP_STX
    |> set_address_mode ZIY_zp_y
    |> set_opcode 0x98
    |> set_operation OP_TYA
    |> set_address_mode IMP_i
    |> copy Y A

def gen_6502_instructions_part9 (s : BuilderState) : BuilderState :=
  s
    |> set_opcode 0x99
    |> set_operation OP_STA
    |> set_address_mode AIY_a_y
    |> set_opcode 0x9A
    |> set_operation OP_TXS
    |> set_address_mode IMP_i
    |> copy X SP
    |> set_opcode 0x9C
    |> set_operation OP_STZ
    |> set_address_mode ABS_a
    |> set_opcode 0x9D
    |> set_operation OP_STA
    |> set_address_mode AIX_a_x
    |> set_opcode 0x9E
    |> set_operation OP_STZ
    |> set_address_mode AIX_a_x
    |> set_opcode 0xA0
    |> set_operation OP_LDY
    |> set_address_mode IMM_m
    |> set_opcode 0xA1
    |> set_operation OP_LDA
    |> set_address_mode ZIIX_ZP_X
    |> set_opcode 0xA2
    |> set_operation OP_LDX
    |> set_address_mode IMM_m
    |> set_opcode 0xA4
    |> set_operation OP_LDY
    |> set_address_mode ZPG_zp
    |> set_opcode 0xA5
    |> set_operation OP_LDA
    |> set_address_mode ZPG_zp
    |> set_opcode 0xA6
    |> set_operation OP_LDX
    |> set_address_mode ZPG_zp
    |> set_opcode 0xA8
    |> set_operation OP_TAY
    |> set_address_mode IMP_i
    |> copy A Y
    |> set_opcode 0xA9
    |> set_operation OP_LDA
    |> set_address_mode IMM_m
    |> set_opcode 0xAA
    |> set_operation OP_TAX
    |> set_address_mode IMP_i
    |> copy A X
    |> set_opcode 0xAC
    |> set_operation OP_LDY
    |> set_address_mode ABS_a
    |> set_opcode 0xAD
    |> set_operation OP_LDA
    |> set_address_mode ABS_a
    |> set_opcode 0xAE
    |> set_operation OP_LDX
    |> set_address_mode ABS_a
    |> set_opcode 0xB0
    |> set_operation OP_BCS
    |> set_address_mode PCR_r
    |> set_opcode 0xB1
    |> set_operation OP_LDA
    |> set_address_mode ZIIY_ZP_y

def gen_6502_instructions_part10 (s : BuilderState) : BuilderState :=
  s
    |> set_opcode 0xB2
    |> set_operation OP_LDA
    |> set_address_mode ZPI_ZP
    |> set_opcode 0xB4
    |> set_operation OP_LDY
    |> set_address_mode ZIX_zp_x
    |> set_opcode 0xB5
    |> set_operation OP_LDA
    |> set_address_mode ZIX_zp_x
    |> set_opcode 0xB6
    |> set_operation OP_LDX
    |> set_address_mode ZIY_zp_y
    |> set_opcode 0xB8
    |> set_operation OP_CLV
    |> set_address_mode IMP_i
    |> clear_flag V
    |> set_opcode 0xB9
    |> set_operation OP_LDA
    |> set_address_mode AIY_a_y
    |> set_opcode 0xBA
    |> set_operation OP_TSX
    |> set_address_mode IMP_i
    |> copy SP X
    |> set_opcode 0xBC
    |> set_operation OP_LDY
    |> set_address_mode AIX_a_x
    |> set_opcode 0xBD
    |> set_operation OP_LDA
    |> set_address_mode AIX_a_x
    |> set_opcode 0xBE
    |> set_operation OP_LDX
    |> set_address_mode AIY_a_y
    |> set_opcode 0xC0
    |> set_operation OP_CPY
    |> set_address_mode IMM_m
    |> set_opcode 0xC1
    |> set_operation OP_CMP
    |> set_address_mode ZIIX_ZP_X
    |> set_opcode 0xC4
    |> set_operation OP_CPY
    |> set_address_mode ZPG_zp
    |> set_opcode 0xC5
    |> set_operation OP_CMP
    |> set_address_mode ZPG_zp
    |> set_opcode 0xC6
    |> set_operation OP_DEC
    |> set_address_mode ZPG_zp
    |> set_opcode 0xC8
    |> set_operation OP_INY
    |> set_address_mode IMP_i
    |> increment Y
    |> set_opcode 0xC9
    |> set_operation OP_CMP
    |> set_address_mode IMM_m
    |> set_opcode 0xCA
    |> set_operation OP_DEX
    |> set_address_mode IMP_i
    |> decrement X
    |> set_opcode 0xCB
    |> set_operation OP_WAI

def gen_6502_instructions_part11 (s : BuilderState) : BuilderState :=
  s
    |> set_address_mode IMP_i
    |> set_opcode 0xCC
    |> set_operation OP_CPY
    |> set_address_mode ABS_a
    |> set_opcode 0xCD
    |> set_operation OP_CMP
    |> set_address_mode ABS_a
    |> set_opcode 0xCE
    |> set_operation OP_DEC
    |> set_address_mode ABS_a
    |> set_opcode 0xD0
    |> set_operation OP_BNE
    |> set_address_mode PCR_r
    |> set_opcode 0xD1
    |> set_operation OP_CMP
    |> set_address_mode ZIIY_ZP_y
    |> set_opcode 0xD2
    |> set_operation OP_CMP
    |> set_address_mode ZPI_ZP
    |> set_opcode 0xD5
    |> set_operation OP_CMP
    |> set_address_mode ZIX_zp_x
    |> set_opcode 0xD6
    |> set_operation OP_DEC
    |> set_address_mode ZIX_zp_x
    |> set_opcode 0xD8
    |> set_operation OP_CLD
    |> set_address_mode IMP_i
    |> clear_flag D
    |> set_opcode 0xD9
    |> set_operation OP_CMP
    |> set_address_mode AIY_a_y
    |> set_opcode 0xDA
    |> set_operation OP_PHX
    |> set_address_mode STK_s
    |> set_opcode 0xDB
    |> set_operation OP_STP
    |> set_address_mode IMP_i
    |> set_opcode 0xDD
    |> set_operation OP_CMP
    |> set_address_mode AIX_a_x
    |> set_opcode 0xDE
    |> set_operation OP_DEC
    |> set_address_mode AIX_a_x
    |> set_opcode 0xE0
    |> set_operation OP_CPX
    |> set_address_mode IMM_m
    |> set_opcode 0xE1
    |> set_operation OP_SBC
    |> set_address_mode ZIIX_ZP_X
    |> set_opcode 0xE4
    |> set_operation OP_CPX
    |> set_address_mode ZPG_zp
    |> set_opcode 0xE5
    |> set_operation OP_SBC
    |> set_address_mode ZPG_zp
    |> set_opcode 0xE6
    |> set_operation OP_INC
    |> set_address_mode ZPG_zp
    |> set_opcode 0xE8

def gen_6502_instructions_part12 (s : BuilderState) : BuilderState :=
  s
    |> set_operation OP_INX
    |> set_address_mode IMP_i
    |> increment X
    |> set_opcode 0xE9
    |> set_operation OP_SBC
    |> set_address_mode IMM_m
    |> set_opcode 0xEA
    |> set_operation OP_NOP
    |> set_address_mode IMP_i
    |> set_opcode 0xEC
    |> set_operation OP_CPX
    |> set_address_mode ABS_a
    |> set_opcode 0xED
    |> set_operation OP_SBC
    |> set_address_mode ABS_a
    |> set_opcode 0xEE
    |> set_operation OP_INC
    |> set_address_mode ABS_a
    |> set_opcode 0xF0
    |> set_operation OP_BEQ
    |> set_address_mode PCR_r
    |> set_opcode 0xF1
    |> set_operation OP_SBC
    |> set_address_mode ZIIY_ZP_y
    |> set_opcode 0xF2
    |> set_operation OP_SBC
    |> set_address_mode ZPI_ZP
    |> set_opcode 0xF5
    |> set_operation OP_SBC
    |> set_address_mode ZIX_zp_x
    |> set_opcode 0xF6
    |> set_operation OP_INC
    |> set_address_mode ZIX_zp_x
    |> set_opcode 0xF8
    |> set_operation OP_SED
    |> set_address_mode IMP_i
    |> set_flag D
    |> set_opcode 0xF9
    |> set_operation OP_SBC
    |> set_address_mode AIY_a_y
    |> set_opcode 0xFA
    |> set_operation OP_PLX
    |> set_address_mode STK_s
    |> set_opcode 0xFD
    |> set_operation OP_SBC
    |> set_address_mode AIX_a_x
    |> set_opcode 0xFE
    |> set_operation OP_INC
    |> set_address_mode AIX_a_x
    |> flush_instruction

def gen_6502_instructions (s : BuilderState) : BuilderState :=
  s
    |> gen_6502_instructions_part1
    |> gen_6502_instructions_part2
    |> gen_6502_instructions_part3
    |> gen_6502_instructions_part4
    |> gen_6502_instructions_part5
    |> gen_6502_instructions_part6
    |> gen_6502_instructions_part7
    |> gen_6502_instructions_part8
    |> gen_6502_instructions_part9
    |> gen_6502_instructions_part10
    |> gen_6502_instructions_part11
    |> gen_6502_instructions_part12

def gen_65832_instructions_part1 (s : BuilderState) : BuilderState :=
  s
    |> set_mode MODE_65832
    |> set_opcode 0x00
    |> set_operation OP_BRK
    |> set_address_mode STK_s
    |> set_opcode 0x01
    |> set_operation OP_ORA
    |> set_address_mode AIIX_A_X
    |> set_opcode 0x06
    |> set_operation OP_ASL
    |> set_address_mode ABS_a
    |> set_opcode 0x08
    |> set_operation OP_PHP
    |> set_address_mode STK_s
    |> set_opcode 0x09
    |> set_operation OP_ORA
    |> set_address_mode IMM_m
    |> set_opcode 0x0A
    |> set_operation OP_ASL
    |> set_address_mode ACC_A
    |> set_opcode 0x0C
    |> set_operation OP_TSB
    |> set_address_mode ABS_a
    |> set_opcode 0x0D
    |> set_operation OP_ORA
    |> set_address_mode ABS_a
    |> set_opcode 0x10
    |> set_operation OP_BPL
    |> set_address_mode PCR_r
    |> set_opcode 0x11
    |> set_operation OP_ORA
    |> set_address_mode AIIY_A_y
    |> set_opcode 0x12
    |> set_operation OP_ORA
    |> set_address_mode AIA_A
    |> set_opcode 0x16
    |> set_operation OP_ASL
    |> set_address_mode AIX_a_x
    |> set_opcode 0x18
    |> set_operation OP_CLC
    |> set_address_mode IMP_i
    |> clear_flag C
    |> set_opcode 0x19
    |> set_operation OP_ORA
    |> set_address_mode AIY_a_y
    |> set_opcode 0x1A
    |> set_operation OP_INC
    |> set_address_mode ACC_A
    |> set_opcode 0x1C
    |> set_operation OP_TRB
    |> set_address_mode ABS_a
    |> set_opcode 0x1D
    |> set_operation OP_ORA
    |> set_address_mode AIX_a_x
    |> set_opcode 0x20
    |> set_operation OP_JSR
    |> set_address_mode ABS_a
    |> set_opcode 0x21
    |> set_operation OP_AND
    |> set_address_mode AIIX_A_X
    |> set_opcode 0x22

def gen_65832_instructions_part2 (s : BuilderState) : BuilderState :=
  s
    |> set_operation OP_JSR
    |> set_address_mode AIA_A
    |> set_opcode 0x26
    |> set_operation OP_ROL
    |> set_address_mode ABS_a
    |> set_opcode 0x28
    |> set_operation OP_PLP
    |> set_address_mode STK_s
    |> set_opcode 0x29
    |> set_operation OP_AND
    |> set_address_mode IMM_m
    |> set_opcode 0x2A
    |> set_operation OP_ROL
    |> set_address_mode ACC_A
    |> set_opcode 0x2C
    |> set_operation OP_BIT
    |> set_address_mode ABS_a
    |> set_opcode 0x2D
    |> set_operation OP_AND
    |> set_address_mode ABS_a
    |> set_opcode 0x30
    |> set_operation OP_BMI
    |> set_address_mode PCR_r
    |> set_opcode 0x31
    |> set_operation OP_AND
    |> set_address_mode AIIY_A_y
    |> set_opcode 0x32
    |> set_operation OP_AND
    |> set_address_mode AIA_A
    |> set_opcode 0x36
    |> set_operation OP_ROL
    |> set_address_mode AIX_a_x
    |> set_opcode 0x38
    |> set_operation OP_SEC
    |> set_address_mode IMP_i
    |> set_flag C
    |> set_opcode 0x39
    |> set_operation OP_AND
    |> set_address_mode AIY_a_y
    |> set_opcode 0x3A
    |> set_operation OP_DEC
    |> set_address_mode ACC_A
    |> set_opcode 0x3C
    |> set_operation OP_BIT
    |> set_address_mode AIX_a_x
    |> set_opcode 0x3D
    |> set_operation OP_AND
    |> set_address_mode AIX_a_x
    |> set_opcode 0x40
    |> set_operation OP_RTI
    |> set_address_mode STK_s
    |> set_opcode 0x41
    |> set_operation OP_EOR
    |> set_address_mode AIIX_A_X
    |> set_opcode 0x46
    |> set_operation OP_LSR
    |> set_address_mode ABS_a
    |> set_opcode 0x48
    |> set_operation OP_PHA
    |> set_address_mode STK_s

def gen_65832_instructions_part3 (s : BuilderState) : BuilderState :=
  s
    |> set_opcode 0x49
    |> set_operation OP_EOR
    |> set_address_mode IMM_m
    |> set_opcode 0x4A
    |> set_operation OP_LSR
    |> set_address_mode ACC_A
    |> set_opcode 0x4C
    |> set_operation OP_JMP
    |> set_address_mode ABS_a
    |> set_opcode 0x4D
    |> set_operation OP_EOR
    |> set_address_mode ABS_a
    |> set_opcode 0x50
    |> set_operation OP_BVC
    |> set_address_mode PCR_r
    |> set_opcode 0x51
    |> set_operation OP_EOR
    |> set_address_mode AIIY_A_y
    |> set_opcode 0x52
    |> set_operation OP_EOR
    |> set_address_mode AIA_A
    |> set_opcode 0x56
    |> set_operation OP_LSR
    |> set_address_mode AIX_a_x
    |> set_opcode 0x58
    |> set_operation OP_CLI
    |> set_address_mode IMP_i
    |> clear_flag I
    |> set_opcode 0x59
    |> set_operation OP_EOR
    |> set_address_mode AIY_a_y
    |> set_opcode 0x5A
    |> set_operation OP_PHY
    |> set_address_mode STK_s
    |> set_opcode 0x5C
    |> set_operation OP_JSR
    |> set_address_mode AIIX_A_X
    |> set_opcode 0x5D
    |> set_operation OP_EOR
    |> set_address_mode AIX_a_x
    |> set_opcode 0x60
    |> set_operation OP_RTS
    |> set_address_mode STK_s
    |> set_opcode 0x61
    |> set_operation OP_ADC
    |> set_address_mode AIIX_A_X
    |> set_opcode 0x66
    |> set_operation OP_ROR
    |> set_address_mode ABS_a
    |> set_opcode 0x68
    |> set_operation OP_PLA
    |> set_address_mode STK_s
    |> set_opcode 0x69
    |> set_operation OP_ADC
    |> set_address_mode IMM_m
    |> set_opcode 0x6A
    |> set_operation OP_ROR
    |> set_address_mode ACC_A
    |> set_opcode 0x6C
    |> set_operation OP_JMP

def gen_65832_instructions_part4 (s : BuilderState) : BuilderState :=
  s
    |> set_address_mode AIA_A
    |> set_opcode 0x6D
    |> set_operation OP_ADC
    |> set_address_mode ABS_a
    |> set_opcode 0x70
    |> set_operation OP_BVS
    |> set_address_mode PCR_r
    |> set_opcode 0x71
    |> set_operation OP_ADC
    |> set_address_mode AIIY_A_y
    |> set_opcode 0x72
    |> set_operation OP_ADC
    |> set_address_mode AIA_A
    |> set_opcode 0x76
    |> set_operation OP_ROR
    |> set_address_mode AIX_a_x
    |> set_opcode 0x78
    |> set_operation OP_SEI
    |> set_address_mode IMP_i
    |> set_flag I
    |> set_opcode 0x79
    |> set_operation OP_ADC
    |> set_address_mode AIY_a_y
    |> set_opcode 0x7A
    |> set_operation OP_PLY
    |> set_address_mode STK_s
    |> set_opcode 0x7C
    |> set_operation OP_JMP
    |> set_address_mode AIIX_A_X
    |> set_opcode 0x7D
    |> set_operation OP_ADC
    |> set_address_mode AIX_a_x
    |> set_opcode 0x80
    |> set_operation OP_BRA
    |> set_address_mode PCR_r
    |> set_opcode 0x81
    |> set_operation OP_STA
    |> set_address_mode AIIX_A_X
    |> set_opcode 0x86
    |> set_operation OP_STX
    |> set_address_mode ABS_a
    |> set_opcode 0x88
    |> set_operation OP_DEY
    |> set_address_mode IMP_i
    |> decrement Y
    |> set_opcode 0x89
    |> set_operation OP_BIT
    |> set_address_mode IMM_m
    |> set_opcode 0x8A
    |> set_operation OP_TXA
    |> set_address_mode IMP_i
    |> copy X A
    |> set_opcode 0x8C
    |> set_operation OP_STY
    |> set_address_mode ABS_a
    |> set_opcode 0x8D
    |> set_operation OP_STA
    |> set_address_mode ABS_a
    |> set_opcode 0x8E
    |> set_operation OP_STX

def gen_65832_instructions_part5 (s : BuilderState) : BuilderState :=
  s
    |> set_address_mode ABS_a
    |> set_opcode 0x90
    |> set_operation OP_BCC
    |> set_address_mode PCR_r
    |> set_opcode 0x91
    |> set_operation OP_STA
    |> set_address_mode AIIY_A_y
    |> set_opcode 0x92
    |> set_operation OP_STA
    |> set_address_mode AIA_A
    |> set_opcode 0x96
    |> set_operation OP_STZ
    |> set_address_mode AIX_a_x
    |> set_opcode 0x98
    |> set_operation OP_TYA
    |> set_address_mode IMP_i
    |> copy Y A
    |> set_opcode 0x99
    |> set_operation OP_STA
    |> set_address_mode AIY_a_y
    |> set_opcode 0x9A
    |> set_operation OP_TXS
    |> set_address_mode IMP_i
    |> copy X SP
    |> set_opcode 0x9C
    |> set_operation OP_STY
    |> set_address_mode AIX_a_x
    |> set_opcode 0x9D
    |> set_operation OP_STA
    |> set_address_mode AIX_a_x
    |> set_opcode 0x9E
    |> set_operation OP_STX
    |> set_address_mode AIY_a_y
    |> set_opcode 0xA0
    |> set_operation OP_LDY
    |> set_address_mode IMM_m
    |> set_opcode 0xA1
    |> set_operation OP_LDA
    |> set_address_mode AIIX_A_X
    |> set_opcode 0xA2
    |> set_operation OP_LDX
    |> set_address_mode IMM_m
    |> set_opcode 0xA8
    |> set_operation OP_TAY
    |> set_address_mode IMP_i
    |> copy A Y
    |> set_opcode 0xA9
    |> set_operation OP_LDA
    |> set_address_mode IMM_m
    |> set_opcode 0xAA
    |> set_operation OP_TAX
    |> set_address_mode IMP_i
    |> copy A X
    |> set_opcode 0xAC
    |> set_operation OP_LDY
    |> set_address_mode ABS_a
    |> set_opcode 0xAD
    |> set_operation OP_LDA
    |> set_address_mode ABS_a
    |> set_opcode 0xAE

def gen_65832_instructions_part6 (s : BuilderState) : BuilderState :=
  s
    |> set_operation OP_LDX
    |> set_address_mode ABS_a
    |> set_opcode 0xB0
    |> set_operation OP_BCS
    |> set_address_mode PCR_r
    |> set_opcode 0xB1
    |> set_operation OP_LDA
    |> set_address_mode AIIY_A_y
    |> set_opcode 0xB2
    |> set_operation OP_LDA
    |> set_address_mode AIA_A
    |> set_opcode 0xB8
    |> set_operation OP_CLV
    |> set_address_mode IMP_i
    |> clear_flag V
    |> set_opcode 0xB9
    |> set_operation OP_LDA
    |> set_address_mode AIY_a_y
    |> set_opcode 0xBA
    |> set_operation OP_TSX
    |> set_address_mode IMP_i
    |> copy SP X
    |> set_opcode 0xBC
    |> set_operation OP_LDY
    |> set_address_mode AIX_a_x
    |> set_opcode 0xBD
    |> set_operation OP_LDA
    |> set_address_mode AIX_a_x
    |> set_opcode 0xBE
    |> set_operation OP_LDX
    |> set_address_mode AIY_a_y
    |> set_opcode 0xC0
    |> set_operation OP_CPY
    |> set_address_mode IMM_m
    |> set_opcode 0xC1
    |> set_operation OP_CMP
    |> set_address_mode AIIX_A_X
    |> set_opcode 0xC6
    |> set_operation OP_DEC
    |> set_address_mode ABS_a
    |> set_opcode 0xC8
    |> set_operation OP_INY
    |> set_address_mode IMP_i
    |> increment Y
    |> set_opcode 0xC9
    |> set_operation OP_CMP
    |> set_address_mode IMM_m
    |> set_opcode 0xCA
    |> set_operation OP_DEX
    |> set_address_mode IMP_i
    |> decrement X
    |> set_opcode 0xCC
    |> set_operation OP_CPY
    |> set_address_mode ABS_a
    |> set_opcode 0xCD
    |> set_operation OP_CMP
    |> set_address_mode ABS_a
    |> set_opcode 0xD0
    |> set_operation OP_BNE
    |> set_address_mode PCR_r

def gen_65832_instructions_part7 (s : BuilderState) : BuilderState :=
  s
    |> set_opcode 0xD1
    |> set_operation OP_CMP
    |> set_address_mode AIIY_A_y
    |> set_opcode 0xD2
    |> set_operation OP_CMP
    |> set_address_mode AIA_A
    |> set_opcode 0xD6
    |> set_operation OP_DEC
    |> set_address_mode AIX_a_x
    |> set_opcode 0xD8
    |> set_operation OP_CLD
    |> set_address_mode IMP_i
    |> clear_flag D
    |> set_opcode 0xD9
    |> set_operation OP_CMP
    |> set_address_mode AIY_a_y
    |> set_opcode 0xDA
    |> set_operation OP_PHX
    |> set_address_mode STK_s
    |> set_opcode 0xDD
    |> set_operation OP_CMP
    |> set_address_mode AIX_a_x
    |> set_opcode 0xE0
    |> set_operation OP_CPX
    |> set_address_mode IMM_m
    |> set_opcode 0xE1
    |> set_operation OP_SBC
    |> set_address_mode AIIX_A_X
    |> set_opcode 0xE6
    |> set_operation OP_INC
    |> set_address_mode ABS_a
    |> set_opcode 0xE8
    |> set_operation OP_INX
    |> set_address_mode IMP_i
    |> increment X
    |> set_opcode 0xE9
    |> set_operation OP_SBC
    |> set_address_mode IMM_m
    |> set_opcode 0xEA
    |> set_operation OP_NOP
    |> set_address_mode IMP_i
    |> set_opcode 0xEC
    |> set_operation OP_CPX
    |> set_address_mode ABS_a
    |> set_opcode 0xED
    |> set_operation OP_SBC
    |> set_address_mode ABS_a
    |> set_opcode 0xF0
    |> set_operation OP_BEQ
    |> set_address_mode PCR_r
    |> set_opcode 0xF1
    |> set_operation OP_SBC
    |> set_address_mode AIIY_A_y
    |> set_opcode 0xF2
    |> set_operation OP_SBC
    |> set_address_mode AIA_A
    |> set_opcode 0xF6
    |> set_operation OP_INC
    |> set_address_mode AIX_a_x
    |> set_opcode 0xF8

def gen_65832_instructions_part8 (s : BuilderState) : BuilderState :=
  s
    |> set_operation OP_SED
    |> set_address_mode IMP_i
    |> set_flag D
    |> set_opcode 0xF9
    |> set_operation OP_SBC
    |> set_address_mode AIY_a_y
    |> set_opcode 0xFA
    |> set_operation OP_PLX
    |> set_address_mode STK_s
    |> set_opcode 0xFD
    |> set_operation OP_SBC
    |> set_address_mode AIX_a_x
    |> flush_instruction

def gen_65832_instructions (s : BuilderState) : BuilderState :=
  s
    |> gen_65832_instructions_part1
    |> gen_65832_instructions_part2
    |> gen_65832_instructions_part3
    |> gen_65832_instructions_part4
    |> gen_65832_instructions_part5
    |> gen_65832_instructions_part6
    |> gen_65832_instructions_part7
    |> gen_65832_instructions_part8

/-- The `main` build phase: populate both variants' tables, then flush the
last pending instruction (`flush_mode()`), starting from the
default-constructed globals.  `the_store` is `g_actions` at the moment
`main` sorts it. -/
def the_store : List MicroInstruction :=
  (flush_mode (gen_65832_instructions (gen_6502_instructions BuilderState.init))).g_actions

/-- The store as sorted by `main` just before emission. -/
def sorted_store : List MicroInstruction :=
  sort_mi the_store

/-! ## Concrete evaluation of the build phase

The kernel evaluates the build phase one table part at a time; the chain of
`table_step_*` lemmas yields the store as an explicit list of records. -/

def table_state_1 : BuilderState :=
  ⟨⟨"MODE_6502", 9, "ORA", "STK_s", 7, 0, ""⟩,
   [⟨"MODE_6502", 0, "BRK", "STK_s", 0, 0, "`I <= 1;"⟩,
    ⟨"MODE_6502", 0, "BRK", "STK_s", 0, 0, "`PC <= 65534;"⟩,
    ⟨"MODE_6502", 0, "BRK", "STK_s", 0, 0, "`WQW[7:0] <= `PC[7:0];"⟩,
    ⟨"MODE_6502", 0, "BRK", "STK_s", 0, 0, "tmp_SP = SP - 1; `WRITE_BYTE(tmp_SP,`PC[15:8]); SP <= tmp_SP;"⟩,
    ⟨"MODE_6502", 0, "BRK", "STK_s", 0, 1, "tmp_SP = SP - 1; `WRITE_BYTE(tmp_SP,`WQW[7:0]); SP <= tmp_SP;"⟩,
    ⟨"MODE_6502", 0, "BRK", "STK_s", 0, 2, "tmp_SP = SP - 1; `WRITE_BYTE(tmp_SP,\x7bP[7:5],1,P[3:0]\x7d); SP <= tmp_SP;"⟩]⟩

theorem table_step_1 :
    gen_6502_instructions_part1 BuilderState.init = table_state_1 := by
  decide

def table_state_2 : BuilderState :=
  ⟨⟨"MODE_6502", 18, "ORA", "ZIIY_ZP_y", 7, 0, ""⟩,
   [⟨"MODE_6502", 0, "BRK", "STK_s", 0, 0, "`I <= 1;"⟩,
    ⟨"MODE_6502", 0, "BRK", "STK_s", 0, 0, "`PC <= 65534;"⟩,
    ⟨"MODE_6502", 0, "BRK", "STK_s", 0, 0, "`WQW[7:0] <= `PC[7:0];"⟩,
    ⟨"MODE_6502", 0, "BRK", "STK_s", 0, 0, "tmp_SP = SP - 1; `WRITE_BYTE(tmp_SP,`PC[15:8]); SP <= tmp_SP;"⟩,
    ⟨"MODE_6502", 0, "BRK", "STK_s", 0, 1, "tmp_SP = SP - 1; `WRITE_BYTE(tmp_SP,`WQW[7:0]); SP <= tmp_SP;"⟩,
    ⟨"MODE_6502", 0, "BRK", "STK_s", 0, 2, "tmp_SP = SP - 1; `WRITE_BYTE(tmp_SP,\x7bP[7:5],1,P[3:0]\x7d); SP <= tmp_SP;"⟩,
    ⟨"MODE_6502", 13, "ORA", "ABS_a", 7, 0, "`READ_BYTE(`EPC,`RQW[7:0]); EPC <= EPC + 1;"⟩,
    ⟨"MODE_6502", 13, "ORA", "ABS_a", 7, 1, "`ADDR[7:0] <= `RQW[7:0];"⟩,
    ⟨"MODE_6502", 13, "ORA", "ABS_a", 7, 1, "`READ_BYTE(`EPC,`ADDR[15:8]); EPC <= EPC + 1;"⟩,
    ⟨"MODE_6502", 13, "ORA", "ABS_a", 7, 2, "`READ_BYTE(`ADDR,`RB);"⟩,
    ⟨"MODE_6502", 13, "ORA", "ABS_a", 7, 3, "`A <= `A | `RB;"⟩,
    ⟨"MODE_6502", 14, "ASL", "ABS_a", 7, 0, "`READ_BYTE(`EPC,`RQW[7:0]); EPC <= EPC + 1;"⟩,
    ⟨"MODE_6502", 14, "ASL", "ABS_a", 7, 1, "`ADDR[7:0] <= `RQW[7:0];"⟩,
    ⟨"MODE_6502", 14, "ASL", "ABS_a", 7, 1, "`READ_BYTE(`EPC,`ADDR[15:8]); EPC <= EPC + 1;"⟩,
    ⟨"MODE_6502", 14, "ASL", "ABS_a", 7, 2, "`READ_BYTE(`ADDR,`RB);"⟩,
    ⟨"MODE_6502", 14, "ASL", "ABS_a", 7, 3, "`C <= `RB[7];"⟩,
    ⟨"MODE_6502", 14, "ASL", "ABS_a", 7, 3, "`RB <= \x7b`RB[6:0],0\x7d;"⟩,
    ⟨"MODE_6502", 14, "ASL", "ABS_a", 7, 3, "`WRITE_BYTE(`ADDR,`RB);"⟩]⟩

theorem table_step_2 :
    gen_6502_instructions_part2 table_state_1 = table_state_2 := by
  decide

def table_state_3 : BuilderState :=
  ⟨⟨"MODE_6502", 44, "NONE", "ACC_A", 7, 0, ""⟩,
   [⟨"MODE_6502", 0, "BRK", "STK_s", 0, 0, "`I <= 1;"⟩,
    ⟨"MODE_6502", 0, "BRK", "STK_s", 0, 0, "`PC <= 65534;"⟩,
    ⟨"MODE_6502", 0, "BRK", "STK_s", 0, 0, "`WQW[7:0] <= `PC[7:0];"⟩,
    ⟨"MODE_6502", 0, "BRK", "STK_s", 0, 0, "tmp_SP = SP - 1; `WRITE_BYTE(tmp_SP,`PC[15:8]); SP <= tmp_SP;"⟩,
    ⟨"MODE_6502", 0, "BRK", "STK_s", 0, 1, "tmp_SP = SP - 1; `WRITE_BYTE(tmp_SP,`WQW[7:0]); SP <= tmp_SP;"⟩,
    ⟨"MODE_6502", 0, "BRK", "STK_s", 0, 2, "tmp_SP = SP - 1; `WRITE_BYTE(tmp_SP,\x7bP[7:5],1,P[3:0]\x7d); SP <= tmp_SP;"⟩,
    ⟨"MODE_6502", 13, "ORA", "ABS_a", 7, 0, "`READ_BYTE(`EPC,`RQW[7:0]); EPC <= EPC + 1;"⟩,
    ⟨"MODE_6502", 13, "ORA", "ABS_a", 7, 1, "`ADDR[7:0] <= `RQW[7:0];"⟩,
    ⟨"MODE_6502", 13, "ORA", "ABS_a", 7, 1, "`READ_BYTE(`EPC,`ADDR[15:8]); EPC <= EPC + 1;"⟩,
    ⟨"MODE_6502", 13, "ORA", "ABS_a", 7, 2, "`READ_BYTE(`ADDR,`RB);"⟩,
    ⟨"MODE_6502", 13, "ORA", "ABS_a", 7, 3, "`A <= `A | `RB;"⟩,
    ⟨"MODE_6502", 14, "ASL", "ABS_a", 7, 0, "`READ_BYTE(`EPC,`RQW[7:0]); EPC <= EPC + 1;"⟩,
    ⟨"MODE_6502", 14, "ASL", "ABS_a", 7, 1, "`ADDR[7:0] <= `RQW[7:0];"⟩,
    ⟨"MODE_6502", 14, "ASL", "ABS_a", 7, 1, "`READ_BYTE(`EPC,`ADDR[15:8]); EPC <= EPC + 1;"⟩,
    ⟨"MODE_6502", 14, "ASL", "ABS_a", 7, 2, "`READ_BYTE(`ADDR,`RB);"⟩,
    ⟨"MODE_6502", 14, "ASL", "ABS_a", 7, 3, "`C <= `RB[7];"⟩,
    ⟨"MODE_6502", 14, "ASL", "ABS_a", 7, 3, "`RB <= \x7b`RB[6:0],0\x7d;"⟩,
    ⟨"MODE_6502", 14, "ASL", "ABS_a", 7, 3, "`WRITE_BYTE(`ADDR,`RB);"⟩,
    ⟨"MODE_6502", 24, "CLC", "IMP_i", 7, 0, "`C <= 0;"⟩]⟩

theorem table_step_3 :
    gen_6502_instructions_part3 table_state_2 = table_state_3 := by
  decide

def table_state_4 : BuilderState :=
  ⟨⟨"MODE_6502", 72, "PHA", "STK_s", 7, 0, ""⟩,
   [⟨"MODE_6502", 0, "BRK", "STK_s", 0, 0, "`I <= 1;"⟩,
    ⟨"MODE_6502", 0, "BRK", "STK_s", 0, 0, "`PC <= 65534;"⟩,
    ⟨"MODE_6502", 0, "BRK", "STK_s", 0, 0, "`WQW[7:0] <= `PC[7:0];"⟩,
    ⟨"MODE_6502", 0, "BRK", "STK_s", 0, 0, "tmp_SP = SP - 1; `WRITE_BYTE(tmp_SP,`PC[15:8]); SP <= tmp_SP;"⟩,
    ⟨"MODE_6502", 0, "BRK", "STK_s", 0, 1, "tmp_SP = SP - 1; `WRITE_BYTE(tmp_SP,`WQW[7:0]); SP <= tmp_SP;"⟩,
    ⟨"MODE_6502", 0, "BRK", "STK_s", 0, 2, "tmp_SP = SP - 1; `WRITE_BYTE(tmp_SP,\x7bP[7:5],1,P[3:0]\x7d); SP <= tmp_SP;"⟩,
    ⟨"MODE_6502", 13, "ORA", "ABS_a", 7, 0, "`READ_BYTE(`EPC,`RQW[7:0]); EPC <= EPC + 1;"⟩,
    ⟨"MODE_6502", 13, "ORA", "ABS_a", 7, 1, "`ADDR[7:0] <= `RQW[7:0];"⟩,
    ⟨"MODE_6502", 13, "ORA", "ABS_a", 7, 1, "`READ_BYTE(`EPC,`ADDR[15:8]); EPC <= EPC + 1;"⟩,
    ⟨"MODE_6502", 13, "ORA", "ABS_a", 7, 2, "`READ_BYTE(`ADDR,`RB);"⟩,
    ⟨"MODE_6502", 13, "ORA", "ABS_a", 7, 3, "`A <= `A | `RB;"⟩,
    ⟨"MODE_6502", 14, "ASL", "ABS_a", 7, 0, "`READ_BYTE(`EPC,`RQW[7:0]); EPC <= EPC + 1;"⟩,
    ⟨"MODE_6502", 14, "ASL", "ABS_a", 7, 1, "`ADDR[7:0] <= `RQW[7:0];"⟩,
    ⟨"MODE_6502", 14, "ASL", "ABS_a", 7, 1, "`READ_BYTE(`EPC,`ADDR[15:8]); EPC <= EPC + 1;"⟩,
    ⟨"MODE_6502", 14, "ASL", "ABS_a", 7, 2, "`READ_BYTE(`ADDR,`RB);"⟩,
    ⟨"MODE_6502", 14, "ASL", "ABS_a", 7, 3, "`C <= `RB[7];"⟩,
    ⟨"MODE_6502", 14, "ASL", "ABS_a", 7, 3, "`RB <= \x7b`RB[6:0],0\x7d;"⟩,
    ⟨"MODE_6502", 14, "ASL", "ABS_a", 7, 3, "`WRITE_BYTE(`ADDR,`RB);"⟩,
    ⟨"MODE_6502", 24, "CLC", "IMP_i", 7, 0, "`C <= 0;"⟩,
    ⟨"MODE_6502", 56, "SEC", "IMP_i", 7, 0, "`C <= 1;"⟩]⟩

theorem table_step_4 :
    gen_6502_instructions_part4 table_state_3 = table_state_4 := by
  decide

def table_state_5 : BuilderState :=
  ⟨⟨"MODE_6502", 101, "ADC", "ZPG_zp", 7, 0, ""⟩,
   [⟨"MODE_6502", 0, "BRK", "STK_s", 0, 0, "`I <= 1;"⟩,
    ⟨"MODE_6502", 0, "BRK", "STK_s", 0, 0, "`PC <= 65534;"⟩,
    ⟨"MODE_6502", 0, "BRK", "STK_s", 0, 0, "`WQW[7:0] <= `PC[7:0];"⟩,
    ⟨"MODE_6502", 0, "BRK", "STK_s", 0, 0, "tmp_SP = SP - 1; `WRITE_BYTE(tmp_SP,`PC[15:8]); SP <= tmp_SP;"⟩,
    ⟨"MODE_6502", 0, "BRK", "STK_s", 0, 1, "tmp_SP = SP - 1; `WRITE_BYTE(tmp_SP,`WQW[7:0]); SP <= tmp_SP;"⟩,
    ⟨"MODE_6502", 0, "BRK", "STK_s", 0, 2, "tmp_SP = SP - 1; `WRITE_BYTE(tmp_SP,\x7bP[7:5],1,P[3:0]\x7d); SP <= tmp_SP;"⟩,
    ⟨"MODE_6502", 13, "ORA", "ABS_a", 7, 0, "`READ_BYTE(`EPC,`RQW[7:0]); EPC <= EPC + 1;"⟩,
    ⟨"MODE_6502", 13, "ORA", "ABS_a", 7, 1, "`ADDR[7:0] <= `RQW[7:0];"⟩,
    ⟨"MODE_6502", 13, "ORA", "ABS_a", 7, 1, "`READ_BYTE(`EPC,`ADDR[15:8]); EPC <= EPC + 1;"⟩,
    ⟨"MODE_6502", 13, "ORA", "ABS_a", 7, 2, "`READ_BYTE(`ADDR,`RB);"⟩,
    ⟨"MODE_6502", 13, "ORA", "ABS_a", 7, 3, "`A <= `A | `RB;"⟩,
    ⟨"MODE_6502", 14, "ASL", "ABS_a", 7, 0, "`READ_BYTE(`EPC,`RQW[7:0]); EPC <= EPC + 1;"⟩,
    ⟨"MODE_6502", 14, "ASL", "ABS_a", 7, 1, "`ADDR[7:0] <= `RQW[7:0];"⟩,
    ⟨"MODE_6502", 14, "ASL", "ABS_a", 7, 1, "`READ_BYTE(`EPC,`ADDR[15:8]); EPC <= EPC + 1;"⟩,
    ⟨"MODE_6502", 14, "ASL", "ABS_a", 7, 2, "`READ_BYTE(`ADDR,`RB);"⟩,
    ⟨"MODE_6502", 14, "ASL", "ABS_a", 7, 3, "`C <= `RB[7];"⟩,
    ⟨"MODE_6502", 14, "ASL", "ABS_a", 7, 3, "`RB <= \x7b`RB[6:0],0\x7d;"⟩,
    ⟨"MODE_6502", 14, "ASL", "ABS_a", 7, 3, "`WRITE_BYTE(`ADDR,`RB);"⟩,
    ⟨"MODE_6502", 24, "CLC", "IMP_i", 7, 0, "`C <= 0;"⟩,
    ⟨"MODE_6502", 56, "SEC", "IMP_i", 7, 0, "`C <= 1;"⟩,
    ⟨"MODE_6502", 88, "CLI", "IMP_i", 7, 0, "`I <= 0;"⟩]⟩

theorem table_step_5 :
    gen_6502_instructions_part5 table_state_4 = table_state_5 := by
  decide

def table_state_6 : BuilderState :=
  ⟨⟨"MODE_6502", 128, "NONE", "AIX_a_x", 7, 0, ""⟩,
   [⟨"MODE_6502", 0, "BRK", "STK_s", 0, 0, "`I <= 1;"⟩,
    ⟨"MODE_6502", 0, "BRK", "STK_s", 0, 0, "`PC <= 65534;"⟩,
    ⟨"MODE_6502", 0, "BRK", "STK_s", 0, 0, "`WQW[7:0] <= `PC[7:0];"⟩,
    ⟨"MODE_6502", 0, "BRK", "STK_s", 0, 0, "tmp_SP = SP - 1; `WRITE_BYTE(tmp_SP,`PC[15:8]); SP <= tmp_SP;"⟩,
    ⟨"MODE_6502", 0, "BRK", "STK_s", 0, 1, "tmp_SP = SP - 1; `WRITE_BYTE(tmp_SP,`WQW[7:0]); SP <= tmp_SP;"⟩,
    ⟨"MODE_6502", 0, "BRK", "STK_s", 0, 2, "tmp_SP = SP - 1; `WRITE_BYTE(tmp_SP,\x7bP[7:5],1,P[3:0]\x7d); SP <= tmp_SP;"⟩,
    ⟨"MODE_6502", 13, "ORA", "ABS_a", 7, 0, "`READ_BYTE(`EPC,`RQW[7:0]); EPC <= EPC + 1;"⟩,
    ⟨"MODE_6502", 13, "ORA", "ABS_a", 7, 1, "`ADDR[7:0] <= `RQW[7:0];"⟩,
    ⟨"MODE_6502", 13, "ORA", "ABS_a", 7, 1, "`READ_BYTE(`EPC,`ADDR[15:8]); EPC <= EPC + 1;"⟩,
    ⟨"MODE_6502", 13, "ORA", "ABS_a", 7, 2, "`READ_BYTE(`ADDR,`RB);"⟩,
    ⟨"MODE_6502", 13, "ORA", "ABS_a", 7, 3, "`A <= `A | `RB;"⟩,
    ⟨"MODE_6502", 14, "ASL", "ABS_a", 7, 0, "`READ_BYTE(`EPC,`RQW[7:0]); EPC <= EPC + 1;"⟩,
    ⟨"MODE_6502", 14, "ASL", "ABS_a", 7, 1, "`ADDR[7:0] <= `RQW[7:0];"⟩,
    ⟨"MODE_6502", 14, "ASL", "ABS_a", 7, 1, "`READ_BYTE(`EPC,`ADDR[15:8]); EPC <= EPC + 1;"⟩,
    ⟨"MODE_6502", 14, "ASL", "ABS_a", 7, 2, "`READ_BYTE(`ADDR,`RB);"⟩,
    ⟨"MODE_6502", 14, "ASL", "ABS_a", 7, 3, "`C <= `RB[7];"⟩,
    ⟨"MODE_6502", 14, "ASL", "ABS_a", 7, 3, "`RB <= \x7b`RB[6:0],0\x7d;"⟩,
    ⟨"MODE_6502", 14, "ASL", "ABS_a", 7, 3, "`WRITE_BYTE(`ADDR,`RB);"⟩,
    ⟨"MODE_6502", 24, "CLC", "IMP_i", 7, 0, "`C <= 0;"⟩,
    ⟨"MODE_6502", 56, "SEC", "IMP_i", 7, 0, "`C <= 1;"⟩,
    ⟨"MODE_6502", 88, "CLI", "IMP_i", 7, 0, "`I <= 0;"⟩,
    ⟨"MODE_6502", 120, "SEI", "IMP_i", 7, 0, "`I <= 1;"⟩]⟩

theorem table_step_6 :
    gen_6502_instructions_part6 table_state_5 = table_state_6 := by
  decide

def table_state_7 : BuilderState :=
  ⟨⟨"MODE_6502", 140, "STY", "ABS_a", 7, 0, ""⟩,
   [⟨"MODE_6502", 0, "BRK", "STK_s", 0, 0, "`I <= 1;"⟩,
    ⟨"MODE_6502", 0, "BRK", "STK_s", 0, 0, "`PC <= 65534;"⟩,
    ⟨"MODE_6502", 0, "BRK", "STK_s", 0, 0, "`WQW[7:0] <= `PC[7:0];"⟩,
    ⟨"MODE_6502", 0, "BRK", "STK_s", 0, 0, "tmp_SP = SP - 1; `WRITE_BYTE(tmp_SP,`PC[15:8]); SP <= tmp_SP;"⟩,
    ⟨"MODE_6502", 0, "BRK", "STK_s", 0, 1, "tmp_SP = SP - 1; `WRITE_BYTE(tmp_SP,`WQW[7:0]); SP <= tmp_SP;"⟩,
    ⟨"MODE_6502", 0, "BRK", "STK_s", 0, 2, "tmp_SP = SP - 1; `WRITE_BYTE(tmp_SP,\x7bP[7:5],1,P[3:0]\x7d); SP <= tmp_SP;"⟩,
    ⟨"MODE_6502", 13, "ORA", "ABS_a", 7, 0, "`READ_BYTE(`EPC,`RQW[7:0]); EPC <= EPC + 1;"⟩,
    ⟨"MODE_6502", 13, "ORA", "ABS_a", 7, 1, "`ADDR[7:0] <= `RQW[7:0];"⟩,
    ⟨"MODE_6502", 13, "ORA", "ABS_a", 7, 1, "`READ_BYTE(`EPC,`ADDR[15:8]); EPC <= EPC + 1;"⟩,
    ⟨"MODE_6502", 13, "ORA", "ABS_a", 7, 2, "`READ_BYTE(`ADDR,`RB);"⟩,
    ⟨"MODE_6502", 13, "ORA", "ABS_a", 7, 3, "`A <= `A | `RB;"⟩,
    ⟨"MODE_6502", 14, "ASL", "ABS_a", 7, 0, "`READ_BYTE(`EPC,`RQW[7:0]); EPC <= EPC + 1;"⟩,
    ⟨"MODE_6502", 14, "ASL", "ABS_a", 7, 1, "`ADDR[7:0] <= `RQW[7:0];"⟩,
    ⟨"MODE_6502", 14, "ASL", "ABS_a", 7, 1, "`READ_BYTE(`EPC,`ADDR[15:8]); EPC <= EPC + 1;"⟩,
    ⟨"MODE_6502", 14, "ASL", "ABS_a", 7, 2, "`READ_BYTE(`ADDR,`RB);"⟩,
    ⟨"MODE_6502", 14, "ASL", "ABS_a", 7, 3, "`C <= `RB[7];"⟩,
    ⟨"MODE_6502", 14, "ASL", "ABS_a", 7, 3, "`RB <= \x7b`RB[6:0],0\x7d;"⟩,
    ⟨"MODE_6502", 14, "ASL", "ABS_a", 7, 3, "`WRITE_BYTE(`ADDR,`RB);"⟩,
    ⟨"MODE_6502", 24, "CLC", "IMP_i", 7, 0, "`C <= 0;"⟩,
    ⟨"MODE_6502", 56, "SEC", "IMP_i", 7, 0, "`C <= 1;"⟩,
    ⟨"MODE_6502", 88, "CLI", "IMP_i", 7, 0, "`I <= 0;"⟩,
    ⟨"MODE_6502", 120, "SEI", "IMP_i", 7, 0, "`I <= 1;"⟩,
    ⟨"MODE_6502", 136, "DEY", "IMP_i", 7, 0, "`Y <= `Y - 1;"⟩,
    ⟨"MODE_6502", 138, "TXA", "IMP_i", 7, 0, "`A <= `X;"⟩]⟩

theorem table_step_7 :
    gen_6502_instructions_part7 table_state_6 = table_state_7 := by
  decide

def table_state_8 : BuilderState :=
  ⟨⟨"MODE_6502", 152, "TYA", "IMP_i", 7, 0, "`A <= `Y;"⟩,
   [⟨"MODE_6502", 0, "BRK", "STK_s", 0, 0, "`I <= 1;"⟩,
    ⟨"MODE_6502", 0, "BRK", "STK_s", 0, 0, "`PC <= 65534;"⟩,
    ⟨"MODE_6502", 0, "BRK", "STK_s", 0, 0, "`WQW[7:0] <= `PC[7:0];"⟩,
    ⟨"MODE_6502", 0, "BRK", "STK_s", 0, 0, "tmp_SP = SP - 1; `WRITE_BYTE(tmp_SP,`PC[15:8]); SP <= tmp_SP;"⟩,
    ⟨"MODE_6502", 0, "BRK", "STK_s", 0, 1, "tmp_SP = SP - 1; `WRITE_BYTE(tmp_SP,`WQW[7:0]); SP <= tmp_SP;"⟩,
    ⟨"MODE_6502", 0, "BRK", "STK_s", 0, 2, "tmp_SP = SP - 1; `WRITE_BYTE(tmp_SP,\x7bP[7:5],1,P[3:0]\x7d); SP <= tmp_SP;"⟩,
    ⟨"MODE_6502", 13, "ORA", "ABS_a", 7, 0, "`READ_BYTE(`EPC,`RQW[7:0]); EPC <= EPC + 1;"⟩,
    ⟨"MODE_6502", 13, "ORA", "ABS_a", 7, 1, "`ADDR[7:0] <= `RQW[7:0];"⟩,
    ⟨"MODE_6502", 13, "ORA", "ABS_a", 7, 1, "`READ_BYTE(`EPC,`ADDR[15:8]); EPC <= EPC + 1;"⟩,
    ⟨"MODE_6502", 13, "ORA", "ABS_a", 7, 2, "`READ_BYTE(`ADDR,`RB);"⟩,
    ⟨"MODE_6502", 13, "ORA", "ABS_a", 7, 3, "`A <= `A | `RB;"⟩,
    ⟨"MODE_6502", 14, "ASL", "ABS_a", 7, 0, "`READ_BYTE(`EPC,`RQW[7:0]); EPC <= EPC + 1;"⟩,
    ⟨"MODE_6502", 14, "ASL", "ABS_a", 7, 1, "`ADDR[7:0] <= `RQW[7:0];"⟩,
    ⟨"MODE_6502", 14, "ASL", "ABS_a", 7, 1, "`READ_BYTE(`EPC,`ADDR[15:8]); EPC <= EPC + 1;"⟩,
    ⟨"MODE_6502", 14, "ASL", "ABS_a", 7, 2, "`READ_BYTE(`ADDR,`RB);"⟩,
    ⟨"MODE_6502", 14, "ASL", "ABS_a", 7, 3, "`C <= `RB[7];"⟩,
    ⟨"MODE_6502", 14, "ASL", "ABS_a", 7, 3, "`RB <= \x7b`RB[6:0],0\x7d;"⟩,
    ⟨"MODE_6502", 14, "ASL", "ABS_a", 7, 3, "`WRITE_BYTE(`ADDR,`RB);"⟩,
    ⟨"MODE_6502", 24, "CLC", "IMP_i", 7, 0, "`C <= 0;"⟩,
    ⟨"MODE_6502", 56, "SEC", "IMP_i", 7, 0, "`C <= 1;"⟩,
    ⟨"MODE_6502", 88, "CLI", "IMP_i", 7, 0, "`I <= 0;"⟩,
    ⟨"MODE_6502", 120, "SEI", "IMP_i", 7, 0, "`I <= 1;"⟩,
    ⟨"MODE_6502", 136, "DEY", "IMP_i", 7, 0, "`Y <= `Y - 1;"⟩,
    ⟨"MODE_6502", 138, "TXA", "IMP_i", 7, 0, "`A <= `X;"⟩]⟩

theorem table_step_8 :
    gen_6502_instructions_part8 table_state_7 = table_state_8 := by
  decide

def table_state_9 : BuilderState :=
  ⟨⟨"MODE_6502", 177, "LDA", "ZIIY_ZP_y", 7, 0, ""⟩,
   [⟨"MODE_6502", 0, "BRK", "STK_s", 0, 0, "`I <= 1;"⟩,
    ⟨"MODE_6502", 0, "BRK", "STK_s", 0, 0, "`PC <= 65534;"⟩,
    ⟨"MODE_6502", 0, "BRK", "STK_s", 0, 0, "`WQW[7:0] <= `PC[7:0];"⟩,
    ⟨"MODE_6502", 0, "BRK", "STK_s", 0, 0, "tmp_SP = SP - 1; `WRITE_BYTE(tmp_SP,`PC[15:8]); SP <= tmp_SP;"⟩,
    ⟨"MODE_6502", 0, "BRK", "STK_s", 0, 1, "tmp_SP = SP - 1; `WRITE_BYTE(tmp_SP,`WQW[7:0]); SP <= tmp_SP;"⟩,
    ⟨"MODE_6502", 0, "BRK", "STK_s", 0, 2, "tmp_SP = SP - 1; `WRITE_BYTE(tmp_SP,\x7bP[7:5],1,P[3:0]\x7d); SP <= tmp_SP;"⟩,
    ⟨"MODE_6502", 13, "ORA", "ABS_a", 7, 0, "`READ_BYTE(`EPC,`RQW[7:0]); EPC <= EPC + 1;"⟩,
    ⟨"MODE_6502", 13, "ORA", "ABS_a", 7, 1, "`ADDR[7:0] <= `RQW[7:0];"⟩,
    ⟨"MODE_6502", 13, "ORA", "ABS_a", 7, 1, "`READ_BYTE(`EPC,`ADDR[15:8]); EPC <= EPC + 1;"⟩,
    ⟨"MODE_6502", 13, "ORA", "ABS_a", 7, 2, "`READ_BYTE(`ADDR,`RB);"⟩,
    ⟨"MODE_6502", 13, "ORA", "ABS_a", 7, 3, "`A <= `A | `RB;"⟩,
    ⟨"MODE_6502", 14, "ASL", "ABS_a", 7, 0, "`READ_BYTE(`EPC,`RQW[7:0]); EPC <= EPC + 1;"⟩,
    ⟨"MODE_6502", 14, "ASL", "ABS_a", 7, 1, "`ADDR[7:0] <= `RQW[7:0];"⟩,
    ⟨"MODE_6502", 14, "ASL", "ABS_a", 7, 1, "`READ_BYTE(`EPC,`ADDR[15:8]); EPC <= EPC + 1;"⟩,
    ⟨"MODE_6502", 14, "ASL", "ABS_a", 7, 2, "`READ_BYTE(`ADDR,`RB);"⟩,
    ⟨"MODE_6502", 14, "ASL", "ABS_a", 7, 3, "`C <= `RB[7];"⟩,
    ⟨"MODE_6502", 14, "ASL", "ABS_a", 7, 3, "`RB <= \x7b`RB[6:0],0\x7d;"⟩,
    ⟨"MODE_6502", 14, "ASL", "ABS_a", 7, 3, "`WRITE_BYTE(`ADDR,`RB);"⟩,
    ⟨"MODE_6502", 24, "CLC", "IMP_i", 7, 0, "`C <= 0;"⟩,
    ⟨"MODE_6502", 56, "SEC", "IMP_i", 7, 0, "`C <= 1;"⟩,
    ⟨"MODE_6502", 88, "CLI", "IMP_i", 7, 0, "`I <= 0;"⟩,
    ⟨"MODE_6502", 120, "SEI", "IMP_i", 7, 0, "`I <= 1;"⟩,
    ⟨"MODE_6502", 136, "DEY", "IMP_i", 7, 0, "`Y <= `Y - 1;"⟩,
    ⟨"MODE_6502", 138, "TXA", "IMP_i", 7, 0, "`A <= `X;"⟩,
    ⟨"MODE_6502", 152, "TYA", "IMP_i", 7, 0, "`A <= `Y;"⟩,
    ⟨"MODE_6502", 154, "TXS", "IMP_i", 7, 0, "`SP <= `X;"⟩,
    ⟨"MODE_6502", 168, "TAY", "IMP_i", 7, 0, "`Y <= `A;"⟩,
    ⟨"MODE_6502", 170, "TAX", "IMP_i", 7, 0, "`X <= `A;"⟩]⟩

theorem table_step_9 :
    gen_6502_instructions_part9 table_state_8 = table_state_9 := by
  decide

def table_state_10 : BuilderState :=
  ⟨⟨"MODE_6502", 203, "WAI", "IMP_i", 7, 0, ""⟩,
   [⟨"MODE_6502", 0, "BRK", "STK_s", 0, 0, "`I <= 1;"⟩,
    ⟨"MODE_6502", 0, "BRK", "STK_s", 0, 0, "`PC <= 65534;"⟩,
    ⟨"MODE_6502", 0, "BRK", "STK_s", 0, 0, "`WQW[7:0] <= `PC[7:0];"⟩,
    ⟨"MODE_6502", 0, "BRK", "STK_s", 0, 0, "tmp_SP = SP - 1; `WRITE_BYTE(tmp_SP,`PC[15:8]); SP <= tmp_SP;"⟩,
    ⟨"MODE_6502", 0, "BRK", "STK_s", 0, 1, "tmp_SP = SP - 1; `WRITE_BYTE(tmp_SP,`WQW[7:0]); SP <= tmp_SP;"⟩,
    ⟨"MODE_6502", 0, "BRK", "STK_s", 0, 2, "tmp_SP = SP - 1; `WRITE_BYTE(tmp_SP,\x7bP[7:5],1,P[3:0]\x7d); SP <= tmp_SP;"⟩,
    ⟨"MODE_6502", 13, "ORA", "ABS_a", 7, 0, "`READ_BYTE(`EPC,`RQW[7:0]); EPC <= EPC + 1;"⟩,
    ⟨"MODE_6502", 13, "ORA", "ABS_a", 7, 1, "`ADDR[7:0] <= `RQW[7:0];"⟩,
    ⟨"MODE_6502", 13, "ORA", "ABS_a", 7, 1, "`READ_BYTE(`EPC,`ADDR[15:8]); EPC <= EPC + 1;"⟩,
    ⟨"MODE_6502", 13, "ORA", "ABS_a", 7, 2, "`READ_BYTE(`ADDR,`RB);"⟩,
    ⟨"MODE_6502", 13, "ORA", "ABS_a", 7, 3, "`A <= `A | `RB;"⟩,
    ⟨"MODE_6502", 14, "ASL", "ABS_a", 7, 0, "`READ_BYTE(`EPC,`RQW[7:0]); EPC <= EPC + 1;"⟩,
    ⟨"MODE_6502", 14, "ASL", "ABS_a", 7, 1, "`ADDR[7:0] <= `RQW[7:0];"⟩,
    ⟨"MODE_6502", 14, "ASL", "ABS_a", 7, 1, "`READ_BYTE(`EPC,`ADDR[15:8]); EPC <= EPC + 1;"⟩,
    ⟨"MODE_6502", 14, "ASL", "ABS_a", 7, 2, "`READ_BYTE(`ADDR,`RB);"⟩,
    ⟨"MODE_6502", 14, "ASL", "ABS_a", 7, 3, "`C <= `RB[7];"⟩,
    ⟨"MODE_6502", 14, "ASL", "ABS_a", 7, 3, "`RB <= \x7b`RB[6:0],0\x7d;"⟩,
    ⟨"MODE_6502", 14, "ASL", "ABS_a", 7, 3, "`WRITE_BYTE(`ADDR,`RB);"⟩,
    ⟨"MODE_6502", 24, "CLC", "IMP_i", 7, 0, "`C <= 0;"⟩,
    ⟨"MODE_6502", 56, "SEC", "IMP_i", 7, 0, "`C <= 1;"⟩,
    ⟨"MODE_6502", 88, "CLI", "IMP_i", 7, 0, "`I <= 0;"⟩,
    ⟨"MODE_6502", 120, "SEI", "IMP_i", 7, 0, "`I <= 1;"⟩,
    ⟨"MODE_6502", 136, "DEY", "IMP_i", 7, 0, "`Y <= `Y - 1;"⟩,
    ⟨"MODE_6502", 138, "TXA", "IMP_i", 7, 0, "`A <= `X;"⟩,
    ⟨"MODE_6502", 152, "TYA", "IMP_i", 7, 0, "`A <= `Y;"⟩,
    ⟨"MODE_6502", 154, "TXS", "IMP_i", 7, 0, "`SP <= `X;"⟩,
    ⟨"MODE_6502", 168, "TAY", "IMP_i", 7, 0, "`Y <= `A;"⟩,
    ⟨"MODE_6502", 170, "TAX", "IMP_i", 7, 0, "`X <= `A;"⟩,
    ⟨"MODE_6502", 184, "CLV", "IMP_i", 7, 0, "`V <= 0;"⟩,
    ⟨"MODE_6502", 186, "TSX", "IMP_i", 7, 0, "`X <= `SP;"⟩,
    ⟨"MODE_6502", 200, "INY", "IMP_i", 7, 0, "`Y <= `Y + 1;"⟩,
    ⟨"MODE_6502", 202, "DEX", "IMP_i", 7, 0, "`X <= `X - 1;"⟩]⟩

theorem table_step_10 :
    gen_6502_instructions_part10 table_state_9 = table_state_10 := by
  decide

def table_state_11 : BuilderState :=
  ⟨⟨"MODE_6502", 232, "NONE", "ZPG_zp", 7, 0, ""⟩,
   [⟨"MODE_6502", 0, "BRK", "STK_s", 0, 0, "`I <= 1;"⟩,
    ⟨"MODE_6502", 0, "BRK", "STK_s", 0, 0, "`PC <= 65534;"⟩,
    ⟨"MODE_6502", 0, "BRK", "STK_s", 0, 0, "`WQW[7:0] <= `PC[7:0];"⟩,
    ⟨"MODE_6502", 0, "BRK", "STK_s", 0, 0, "tmp_SP = SP - 1; `WRITE_BYTE(tmp_SP,`PC[15:8]); SP <= tmp_SP;"⟩,
    ⟨"MODE_6502", 0, "BRK", "STK_s", 0, 1, "tmp_SP = SP - 1; `WRITE_BYTE(tmp_SP,`WQW[7:0]); SP <= tmp_SP;"⟩,
    ⟨"MODE_6502", 0, "BRK", "STK_s", 0, 2, "tmp_SP = SP - 1; `WRITE_BYTE(tmp_SP,\x7bP[7:5],1,P[3:0]\x7d); SP <= tmp_SP;"⟩,
    ⟨"MODE_6502", 13, "ORA", "ABS_a", 7, 0, "`READ_BYTE(`EPC,`RQW[7:0]); EPC <= EPC + 1;"⟩,
    ⟨"MODE_6502", 13, "ORA", "ABS_a", 7, 1, "`ADDR[7:0] <= `RQW[7:0];"⟩,
    ⟨"MODE_6502", 13, "ORA", "ABS_a", 7, 1, "`READ_BYTE(`EPC,`ADDR[15:8]); EPC <= EPC + 1;"⟩,
    ⟨"MODE_6502", 13, "ORA", "ABS_a", 7, 2, "`READ_BYTE(`ADDR,`RB);"⟩,
    ⟨"MODE_6502", 13, "ORA", "ABS_a", 7, 3, "`A <= `A | `RB;"⟩,
    ⟨"MODE_6502", 14, "ASL", "ABS_a", 7, 0, "`READ_BYTE(`EPC,`RQW[7:0]); EPC <= EPC + 1;"⟩,
    ⟨"MODE_6502", 14, "ASL", "ABS_a", 7, 1, "`ADDR[7:0] <= `RQW[7:0];"⟩,
    ⟨"MODE_6502", 14, "ASL", "ABS_a", 7, 1, "`READ_BYTE(`EPC,`ADDR[15:8]); EPC <= EPC + 1;"⟩,
    ⟨"MODE_6502", 14, "ASL", "ABS_a", 7, 2, "`READ_BYTE(`ADDR,`RB);"⟩,
    ⟨"MODE_6502", 14, "ASL", "ABS_a", 7, 3, "`C <= `RB[7];"⟩,
    ⟨"MODE_6502", 14, "ASL", "ABS_a", 7, 3, "`RB <= \x7b`RB[6:0],0\x7d;"⟩,
    ⟨"MODE_6502", 14, "ASL", "ABS_a", 7, 3, "`WRITE_BYTE(`ADDR,`RB);"⟩,
    ⟨"MODE_6502", 24, "CLC", "IMP_i", 7, 0, "`C <= 0;"⟩,
    ⟨"MODE_6502", 56, "SEC", "IMP_i", 7, 0, "`C <= 1;"⟩,
    ⟨"MODE_6502", 88, "CLI", "IMP_i", 7, 0, "`I <= 0;"⟩,
    ⟨"MODE_6502", 120, "SEI", "IMP_i", 7, 0, "`I <= 1;"⟩,
    ⟨"MODE_6502", 136, "DEY", "IMP_i", 7, 0, "`Y <= `Y - 1;"⟩,
    ⟨"MODE_6502", 138, "TXA", "IMP_i", 7, 0, "`A <= `X;"⟩,
    ⟨"MODE_6502", 152, "TYA", "IMP_i", 7, 0, "`A <= `Y;"⟩,
    ⟨"MODE_6502", 154, "TXS", "IMP_i", 7, 0, "`SP <= `X;"⟩,
    ⟨"MODE_6502", 168, "TAY", "IMP_i", 7, 0, "`Y <= `A;"⟩,
    ⟨"MODE_6502", 170, "TAX", "IMP_i", 7, 0, "`X <= `A;"⟩,
    ⟨"MODE_6502", 184, "CLV", "IMP_i", 7, 0, "`V <= 0;"⟩,
    ⟨"MODE_6502", 186, "TSX", "IMP_i", 7, 0, "`X <= `SP;"⟩,
    ⟨"MODE_6502", 200, "INY", "IMP_i", 7, 0, "`Y <= `Y + 1;"⟩,
    ⟨"MODE_6502", 202, "DEX", "IMP_i", 7, 0, "`X <= `X - 1;"⟩,
    ⟨"MODE_6502", 216, "CLD", "IMP_i", 7, 0, "`D <= 0;"⟩]⟩

theorem table_step_11 :
    gen_6502_instructions_part11 table_state_10 = table_state_11 := by
  decide

def table_state_12 : BuilderState :=
  ⟨⟨"MODE_6502", 254, "NONE", "AIX_a_x", 7, 0, ""⟩,
   [⟨"MODE_6502", 0, "BRK", "STK_s", 0, 0, "`I <= 1;"⟩,
    ⟨"MODE_6502", 0, "BRK", "STK_s", 0, 0, "`PC <= 65534;"⟩,
    ⟨"MODE_6502", 0, "BRK", "STK_s", 0, 0, "`WQW[7:0] <= `PC[7:0];"⟩,
    ⟨"MODE_6502", 0, "BRK", "STK_s", 0, 0, "tmp_SP = SP - 1; `WRITE_BYTE(tmp_SP,`PC[15:8]); SP <= tmp_SP;"⟩,
    ⟨"MODE_6502", 0, "BRK", "STK_s", 0, 1, "tmp_SP = SP - 1; `WRITE_BYTE(tmp_SP,`WQW[7:0]); SP <= tmp_SP;"⟩,
    ⟨"MODE_6502", 0, "BRK", "STK_s", 0, 2, "tmp_SP = SP - 1; `WRITE_BYTE(tmp_SP,\x7bP[7:5],1,P[3:0]\x7d); SP <= tmp_SP;"⟩,
    ⟨"MODE_6502", 13, "ORA", "ABS_a", 7, 0, "`READ_BYTE(`EPC,`RQW[7:0]); EPC <= EPC + 1;"⟩,
    ⟨"MODE_6502", 13, "ORA", "ABS_a", 7, 1, "`ADDR[7:0] <= `RQW[7:0];"⟩,
    ⟨"MODE_6502", 13, "ORA", "ABS_a", 7, 1, "`READ_BYTE(`EPC,`ADDR[15:8]); EPC <= EPC + 1;"⟩,
    ⟨"MODE_6502", 13, "ORA", "ABS_a", 7, 2, "`READ_BYTE(`ADDR,`RB);"⟩,
    ⟨"MODE_6502", 13, "ORA", "ABS_a", 7, 3, "`A <= `A | `RB;"⟩,
    ⟨"MODE_6502", 14, "ASL", "ABS_a", 7, 0, "`READ_BYTE(`EPC,`RQW[7:0]); EPC <= EPC + 1;"⟩,
    ⟨"MODE_6502", 14, "ASL", "ABS_a", 7, 1, "`ADDR[7:0] <= `RQW[7:0];"⟩,
    ⟨"MODE_6502", 14, "ASL", "ABS_a", 7, 1, "`READ_BYTE(`EPC,`ADDR[15:8]); EPC <= EPC + 1;"⟩,
    ⟨"MODE_6502", 14, "ASL", "ABS_a", 7, 2, "`READ_BYTE(`ADDR,`RB);"⟩,
    ⟨"MODE_6502", 14, "ASL", "ABS_a", 7, 3, "`C <= `RB[7];"⟩,
    ⟨"MODE_6502", 14, "ASL", "ABS_a", 7, 3, "`RB <= \x7b`RB[6:0],0\x7d;"⟩,
    ⟨"MODE_6502", 14, "ASL", "ABS_a", 7, 3, "`WRITE_BYTE(`ADDR,`RB);"⟩,
    ⟨"MODE_6502", 24, "CLC", "IMP_i", 7, 0, "`C <= 0;"⟩,
    ⟨"MODE_6502", 56, "SEC", "IMP_i", 7, 0, "`C <= 1;"⟩,
    ⟨"MODE_6502", 88, "CLI", "IMP_i", 7, 0, "`I <= 0;"⟩,
    ⟨"MODE_6502", 120, "SEI", "IMP_i", 7, 0, "`I <= 1;"⟩,
    ⟨"MODE_6502", 136, "DEY", "IMP_i", 7, 0, "`Y <= `Y - 1;"⟩,
    ⟨"MODE_6502", 138, "TXA", "IMP_i", 7, 0, "`A <= `X;"⟩,
    ⟨"MODE_6502", 152, "TYA", "IMP_i", 7, 0, "`A <= `Y;"⟩,
    ⟨"MODE_6502", 154, "TXS", "IMP_i", 7, 0, "`SP <= `X;"⟩,
    ⟨"MODE_6502", 168, "TAY", "IMP_i", 7, 0, "`Y <= `A;"⟩,
    ⟨"MODE_6502", 170, "TAX", "IMP_i", 7, 0, "`X <= `A;"⟩,
    ⟨"MODE_6502", 184, "CLV", "IMP_i", 7, 0, "`V <= 0;"⟩,
    ⟨"MODE_6502", 186, "TSX", "IMP_i", 7, 0, "`X <= `SP;"⟩,
    ⟨"MODE_6502", 200, "INY", "IMP_i", 7, 0, "`Y <= `Y + 1;"⟩,
    ⟨"MODE_6502", 202, "DEX", "IMP_i", 7, 0, "`X <= `X - 1;"⟩,
    ⟨"MODE_6502", 216, "CLD", "IMP_i", 7, 0, "`D <= 0;"⟩,
    ⟨"MODE_6502", 232, "INX", "IMP_i", 7, 0, "`X <= `X + 1;"⟩,
    ⟨"MODE_6502", 248, "SED", "IMP_i", 7, 0, "`D <= 1;"⟩]⟩

theorem table_step_12 :
    gen_6502_instructions_part12 table_state_11 = table_state_12 := by
  decide

def table_state_13 : BuilderState :=
  ⟨⟨"MODE_65832", 34, "NONE", "AIIX_A_X", 7, 0, ""⟩,
   [⟨"MODE_6502", 0, "BRK", "STK_s", 0, 0, "`I <= 1;"⟩,
    ⟨"MODE_6502", 0, "BRK", "STK_s", 0, 0, "`PC <= 65534;"⟩,
    ⟨"MODE_6502", 0, "BRK", "STK_s", 0, 0, "`WQW[7:0] <= `PC[7:0];"⟩,
    ⟨"MODE_6502", 0, "BRK", "STK_s", 0, 0, "tmp_SP = SP - 1; `WRITE_BYTE(tmp_SP,`PC[15:8]); SP <= tmp_SP;"⟩,
    ⟨"MODE_6502", 0, "BRK", "STK_s", 0, 1, "tmp_SP = SP - 1; `WRITE_BYTE(tmp_SP,`WQW[7:0]); SP <= tmp_SP;"⟩,
    ⟨"MODE_6502", 0, "BRK", "STK_s", 0, 2, "tmp_SP = SP - 1; `WRITE_BYTE(tmp_SP,\x7bP[7:5],1,P[3:0]\x7d); SP <= tmp_SP;"⟩,
    ⟨"MODE_6502", 13, "ORA", "ABS_a", 7, 0, "`READ_BYTE(`EPC,`RQW[7:0]); EPC <= EPC + 1;"⟩,
    ⟨"MODE_6502", 13, "ORA", "ABS_a", 7, 1, "`ADDR[7:0] <= `RQW[7:0];"⟩,
    ⟨"MODE_6502", 13, "ORA", "ABS_a", 7, 1, "`READ_BYTE(`EPC,`ADDR[15:8]); EPC <= EPC + 1;"⟩,
    ⟨"MODE_6502", 13, "ORA", "ABS_a", 7, 2, "`READ_BYTE(`ADDR,`RB);"⟩,
    ⟨"MODE_6502", 13, "ORA", "ABS_a", 7, 3, "`A <= `A | `RB;"⟩,
    ⟨"MODE_6502", 14, "ASL", "ABS_a", 7, 0, "`READ_BYTE(`EPC,`RQW[7:0]); EPC <= EPC + 1;"⟩,
    ⟨"MODE_6502", 14, "ASL", "ABS_a", 7, 1, "`ADDR[7:0] <= `RQW[7:0];"⟩,
    ⟨"MODE_6502", 14, "ASL", "ABS_a", 7, 1, "`READ_BYTE(`EPC,`ADDR[15:8]); EPC <= EPC + 1;"⟩,
    ⟨"MODE_6502", 14, "ASL", "ABS_a", 7, 2, "`READ_BYTE(`ADDR,`RB);"⟩,
    ⟨"MODE_6502", 14, "ASL", "ABS_a", 7, 3, "`C <= `RB[7];"⟩,
    ⟨"MODE_6502", 14, "ASL", "ABS_a", 7, 3, "`RB <= \x7b`RB[6:0],0\x7d;"⟩,
    ⟨"MODE_6502", 14, "ASL", "ABS_a", 7, 3, "`WRITE_BYTE(`ADDR,`RB);"⟩,
    ⟨"MODE_6502", 24, "CLC", "IMP_i", 7, 0, "`C <= 0;"⟩,
    ⟨"MODE_6502", 56, "SEC", "IMP_i", 7, 0, "`C <= 1;"⟩,
    ⟨"MODE_6502", 88, "CLI", "IMP_i", 7, 0, "`I <= 0;"⟩,
    ⟨"MODE_6502", 120, "SEI", "IMP_i", 7, 0, "`I <= 1;"⟩,
    ⟨"MODE_6502", 136, "DEY", "IMP_i", 7, 0, "`Y <= `Y - 1;"⟩,
    ⟨"MODE_6502", 138, "TXA", "IMP_i", 7, 0, "`A <= `X;"⟩,
    ⟨"MODE_6502", 152, "TYA", "IMP_i", 7, 0, "`A <= `Y;"⟩,
    ⟨"MODE_6502", 154, "TXS", "IMP_i", 7, 0, "`SP <= `X;"⟩,
    ⟨"MODE_6502", 168, "TAY", "IMP_i", 7, 0, "`Y <= `A;"⟩,
    ⟨"MODE_6502", 170, "TAX", "IMP_i", 7, 0, "`X <= `A;"⟩,
    ⟨"MODE_6502", 184, "CLV", "IMP_i", 7, 0, "`V <= 0;"⟩,
    ⟨"MODE_6502", 186, "TSX", "IMP_i", 7, 0, "`X <= `SP;"⟩,
    ⟨"MODE_6502", 200, "INY", "IMP_i", 7, 0, "`Y <= `Y + 1;"⟩,
    ⟨"MODE_6502", 202, "DEX", "IMP_i", 7, 0, "`X <= `X - 1;"⟩,
    ⟨"MODE_6502", 216, "CLD", "IMP_i", 7, 0, "`D <= 0;"⟩,
    ⟨"MODE_6502", 232, "INX", "IMP_i", 7, 0, "`X <= `X + 1;"⟩,
    ⟨"MODE_6502", 248, "SED", "IMP_i", 7, 0, "`D <= 1;"⟩,
    ⟨"MODE_65832", 24, "CLC", "IMP_i", 7, 0, "`C <= 0;"⟩]⟩

theorem table_step_13 :
    gen_65832_instructions_part1 table_state_12 = table_state_13 := by
  decide

def table_state_14 : BuilderState :=
  ⟨⟨"MODE_65832", 72, "PHA", "STK_s", 7, 0, ""⟩,
   [⟨"MODE_6502", 0, "BRK", "STK_s", 0, 0, "`I <= 1;"⟩,
    ⟨"MODE_6502", 0, "BRK", "STK_s", 0, 0, "`PC <= 65534;"⟩,
    ⟨"MODE_6502", 0, "BRK", "STK_s", 0, 0, "`WQW[7:0] <= `PC[7:0];"⟩,
    ⟨"MODE_6502", 0, "BRK", "STK_s", 0, 0, "tmp_SP = SP - 1; `WRITE_BYTE(tmp_SP,`PC[15:8]); SP <= tmp_SP;"⟩,
    ⟨"MODE_6502", 0, "BRK", "STK_s", 0, 1, "tmp_SP = SP - 1; `WRITE_BYTE(tmp_SP,`WQW[7:0]); SP <= tmp_SP;"⟩,
    ⟨"MODE_6502", 0, "BRK", "STK_s", 0, 2, "tmp_SP = SP - 1; `WRITE_BYTE(tmp_SP,\x7bP[7:5],1,P[3:0]\x7d); SP <= tmp_SP;"⟩,
    ⟨"MODE_6502", 13, "ORA", "ABS_a", 7, 0, "`READ_BYTE(`EPC,`RQW[7:0]); EPC <= EPC + 1;"⟩,
    ⟨"MODE_6502", 13, "ORA", "ABS_a", 7, 1, "`ADDR[7:0] <= `RQW[7:0];"⟩,
    ⟨"MODE_6502", 13, "ORA", "ABS_a", 7, 1, "`READ_BYTE(`EPC,`ADDR[15:8]); EPC <= EPC + 1;"⟩,
    ⟨"MODE_6502", 13, "ORA", "ABS_a", 7, 2, "`READ_BYTE(`ADDR,`RB);"⟩,
    ⟨"MODE_6502", 13, "ORA", "ABS_a", 7, 3, "`A <= `A | `RB;"⟩,
    ⟨"MODE_6502", 14, "ASL", "ABS_a", 7, 0, "`READ_BYTE(`EPC,`RQW[7:0]); EPC <= EPC + 1;"⟩,
    ⟨"MODE_6502", 14, "ASL", "ABS_a", 7, 1, "`ADDR[7:0] <= `RQW[7:0];"⟩,
    ⟨"MODE_6502", 14, "ASL", "ABS_a", 7, 1, "`READ_BYTE(`EPC,`ADDR[15:8]); EPC <= EPC + 1;"⟩,
    ⟨"MODE_6502", 14, "ASL", "ABS_a", 7, 2, "`READ_BYTE(`ADDR,`RB);"⟩,
    ⟨"MODE_6502", 14, "ASL", "ABS_a", 7, 3, "`C <= `RB[7];"⟩,
    ⟨"MODE_6502", 14, "ASL", "ABS_a", 7, 3, "`RB <= \x7b`RB[6:0],0\x7d;"⟩,
    ⟨"MODE_6502", 14, "ASL", "ABS_a", 7, 3, "`WRITE_BYTE(`ADDR,`RB);"⟩,
    ⟨"MODE_6502", 24, "CLC", "IMP_i", 7, 0, "`C <= 0;"⟩,
    ⟨"MODE_6502", 56, "SEC", "IMP_i", 7, 0, "`C <= 1;"⟩,
    ⟨"MODE_6502", 88, "CLI", "IMP_i", 7, 0, "`I <= 0;"⟩,
    ⟨"MODE_6502", 120, "SEI", "IMP_i", 7, 0, "`I <= 1;"⟩,
    ⟨"MODE_6502", 136, "DEY", "IMP_i", 7, 0, "`Y <= `Y - 1;"⟩,
    ⟨"MODE_6502", 138, "TXA", "IMP_i", 7, 0, "`A <= `X;"⟩,
    ⟨"MODE_6502", 152, "TYA", "IMP_i", 7, 0, "`A <= `Y;"⟩,
    ⟨"MODE_6502", 154, "TXS", "IMP_i", 7, 0, "`SP <= `X;"⟩,
    ⟨"MODE_6502", 168, "TAY", "IMP_i", 7, 0, "`Y <= `A;"⟩,
    ⟨"MODE_6502", 170, "TAX", "IMP_i", 7, 0, "`X <= `A;"⟩,
    ⟨"MODE_6502", 184, "CLV", "IMP_i", 7, 0, "`V <= 0;"⟩,
    ⟨"MODE_6502", 186, "TSX", "IMP_i", 7, 0, "`X <= `SP;"⟩,
    ⟨"MODE_6502", 200, "INY", "IMP_i", 7, 0, "`Y <= `Y + 1;"⟩,
    ⟨"MODE_6502", 202, "DEX", "IMP_i", 7, 0, "`X <= `X - 1;"⟩,
    ⟨"MODE_6502", 216, "CLD", "IMP_i", 7, 0, "`D <= 0;"⟩,
    ⟨"MODE_6502", 232, "INX", "IMP_i", 7, 0, "`X <= `X + 1;"⟩,
    ⟨"MODE_6502", 248, "SED", "IMP_i", 7, 0, "`D <= 1;"⟩,
    ⟨"MODE_65832", 24, "CLC", "IMP_i", 7, 0, "`C <= 0;"⟩,
    ⟨"MODE_65832", 56, "SEC", "IMP_i", 7, 0, "`C <= 1;"⟩]⟩

theorem table_step_14 :
    gen_65832_instructions_part2 table_state_13 = table_state_14 := by
  decide

def table_state_15 : BuilderState :=
  ⟨⟨"MODE_65832", 108, "JMP", "ACC_A", 7, 0, ""⟩,
   [⟨"MODE_6502", 0, "BRK", "STK_s", 0, 0, "`I <= 1;"⟩,
    ⟨"MODE_6502", 0, "BRK", "STK_s", 0, 0, "`PC <= 65534;"⟩,
    ⟨"MODE_6502", 0, "BRK", "STK_s", 0, 0, "`WQW[7:0] <= `PC[7:0];"⟩,
    ⟨"MODE_6502", 0, "BRK", "STK_s", 0, 0, "tmp_SP = SP - 1; `WRITE_BYTE(tmp_SP,`PC[15:8]); SP <= tmp_SP;"⟩,
    ⟨"MODE_6502", 0, "BRK", "STK_s", 0, 1, "tmp_SP = SP - 1; `WRITE_BYTE(tmp_SP,`WQW[7:0]); SP <= tmp_SP;"⟩,
    ⟨"MODE_6502", 0, "BRK", "STK_s", 0, 2, "tmp_SP = SP - 1; `WRITE_BYTE(tmp_SP,\x7bP[7:5],1,P[3:0]\x7d); SP <= tmp_SP;"⟩,
    ⟨"MODE_6502", 13, "ORA", "ABS_a", 7, 0, "`READ_BYTE(`EPC,`RQW[7:0]); EPC <= EPC + 1;"⟩,
    ⟨"MODE_6502", 13, "ORA", "ABS_a", 7, 1, "`ADDR[7:0] <= `RQW[7:0];"⟩,
    ⟨"MODE_6502", 13, "ORA", "ABS_a", 7, 1, "`READ_BYTE(`EPC,`ADDR[15:8]); EPC <= EPC + 1;"⟩,
    ⟨"MODE_6502", 13, "ORA", "ABS_a", 7, 2, "`READ_BYTE(`ADDR,`RB);"⟩,
    ⟨"MODE_6502", 13, "ORA", "ABS_a", 7, 3, "`A <= `A | `RB;"⟩,
    ⟨"MODE_6502", 14, "ASL", "ABS_a", 7, 0, "`READ_BYTE(`EPC,`RQW[7:0]); EPC <= EPC + 1;"⟩,
    ⟨"MODE_6502", 14, "ASL", "ABS_a", 7, 1, "`ADDR[7:0] <= `RQW[7:0];"⟩,
    ⟨"MODE_6502", 14, "ASL", "ABS_a", 7, 1, "`READ_BYTE(`EPC,`ADDR[15:8]); EPC <= EPC + 1;"⟩,
    ⟨"MODE_6502", 14, "ASL", "ABS_a", 7, 2, "`READ_BYTE(`ADDR,`RB);"⟩,
    ⟨"MODE_6502", 14, "ASL", "ABS_a", 7, 3, "`C <= `RB[7];"⟩,
    ⟨"MODE_6502", 14, "ASL", "ABS_a", 7, 3, "`RB <= \x7b`RB[6:0],0\x7d;"⟩,
    ⟨"MODE_6502", 14, "ASL", "ABS_a", 7, 3, "`WRITE_BYTE(`ADDR,`RB);"⟩,
    ⟨"MODE_6502", 24, "CLC", "IMP_i", 7, 0, "`C <= 0;"⟩,
    ⟨"MODE_6502", 56, "SEC", "IMP_i", 7, 0, "`C <= 1;"⟩,
    ⟨"MODE_6502", 88, "CLI", "IMP_i", 7, 0, "`I <= 0;"⟩,
    ⟨"MODE_6502", 120, "SEI", "IMP_i", 7, 0, "`I <= 1;"⟩,
    ⟨"MODE_6502", 136, "DEY", "IMP_i", 7, 0, "`Y <= `Y - 1;"⟩,
    ⟨"MODE_6502", 138, "TXA", "IMP_i", 7, 0, "`A <= `X;"⟩,
    ⟨"MODE_6502", 152, "TYA", "IMP_i", 7, 0, "`A <= `Y;"⟩,
    ⟨"MODE_6502", 154, "TXS", "IMP_i", 7, 0, "`SP <= `X;"⟩,
    ⟨"MODE_6502", 168, "TAY", "IMP_i", 7, 0, "`Y <= `A;"⟩,
    ⟨"MODE_6502", 170, "TAX", "IMP_i", 7, 0, "`X <= `A;"⟩,
    ⟨"MODE_6502", 184, "CLV", "IMP_i", 7, 0, "`V <= 0;"⟩,
    ⟨"MODE_6502", 186, "TSX", "IMP_i", 7, 0, "`X <= `SP;"⟩,
    ⟨"MODE_6502", 200, "INY", "IMP_i", 7, 0, "`Y <= `Y + 1;"⟩,
    ⟨"MODE_6502", 202, "DEX", "IMP_i", 7, 0, "`X <= `X - 1;"⟩,
    ⟨"MODE_6502", 216, "CLD", "IMP_i", 7, 0, "`D <= 0;"⟩,
    ⟨"MODE_6502", 232, "INX", "IMP_i", 7, 0, "`X <= `X + 1;"⟩,
    ⟨"MODE_6502", 248, "SED", "IMP_i", 7, 0, "`D <= 1;"⟩,
    ⟨"MODE_65832", 24, "CLC", "IMP_i", 7, 0, "`C <= 0;"⟩,
    ⟨"MODE_65832", 56, "SEC", "IMP_i", 7, 0, "`C <= 1;"⟩,
    ⟨"MODE_65832", 88, "CLI", "IMP_i", 7, 0, "`I <= 0;"⟩]⟩

theorem table_step_15 :
    gen_65832_instructions_part3 table_state_14 = table_state_15 := by
  decide

def table_state_16 : BuilderState :=
  ⟨⟨"MODE_65832", 142, "STX", "ABS_a", 7, 0, ""⟩,
   [⟨"MODE_6502", 0, "BRK", "STK_s", 0, 0, "`I <= 1;"⟩,
    ⟨"MODE_6502", 0, "BRK", "STK_s", 0, 0, "`PC <= 65534;"⟩,
    ⟨"MODE_6502", 0, "BRK", "STK_s", 0, 0, "`WQW[7:0] <= `PC[7:0];"⟩,
    ⟨"MODE_6502", 0, "BRK", "STK_s", 0, 0, "tmp_SP = SP - 1; `WRITE_BYTE(tmp_SP,`PC[15:8]); SP <= tmp_SP;"⟩,
    ⟨"MODE_6502", 0, "BRK", "STK_s", 0, 1, "tmp_SP = SP - 1; `WRITE_BYTE(tmp_SP,`WQW[7:0]); SP <= tmp_SP;"⟩,
    ⟨"MODE_6502", 0, "BRK", "STK_s", 0, 2, "tmp_SP = SP - 1; `WRITE_BYTE(tmp_SP,\x7bP[7:5],1,P[3:0]\x7d); SP <= tmp_SP;"⟩,
    ⟨"MODE_6502", 13, "ORA", "ABS_a", 7, 0, "`READ_BYTE(`EPC,`RQW[7:0]); EPC <= EPC + 1;"⟩,
    ⟨"MODE_6502", 13, "ORA", "ABS_a", 7, 1, "`ADDR[7:0] <= `RQW[7:0];"⟩,
    ⟨"MODE_6502", 13, "ORA", "ABS_a", 7, 1, "`READ_BYTE(`EPC,`ADDR[15:8]); EPC <= EPC + 1;"⟩,
    ⟨"MODE_6502", 13, "ORA", "ABS_a", 7, 2, "`READ_BYTE(`ADDR,`RB);"⟩,
    ⟨"MODE_6502", 13, "ORA", "ABS_a", 7, 3, "`A <= `A | `RB;"⟩,
    ⟨"MODE_6502", 14, "ASL", "ABS_a", 7, 0, "`READ_BYTE(`EPC,`RQW[7:0]); EPC <= EPC + 1;"⟩,
    ⟨"MODE_6502", 14, "ASL", "ABS_a", 7, 1, "`ADDR[7:0] <= `RQW[7:0];"⟩,
    ⟨"MODE_6502", 14, "ASL", "ABS_a", 7, 1, "`READ_BYTE(`EPC,`ADDR[15:8]); EPC <= EPC + 1;"⟩,
    ⟨"MODE_6502", 14, "ASL", "ABS_a", 7, 2, "`READ_BYTE(`ADDR,`RB);"⟩,
    ⟨"MODE_6502", 14, "ASL", "ABS_a", 7, 3, "`C <= `RB[7];"⟩,
    ⟨"MODE_6502", 14, "ASL", "ABS_a", 7, 3, "`RB <= \x7b`RB[6:0],0\x7d;"⟩,
    ⟨"MODE_6502", 14, "ASL", "ABS_a", 7, 3, "`WRITE_BYTE(`ADDR,`RB);"⟩,
    ⟨"MODE_6502", 24, "CLC", "IMP_i", 7, 0, "`C <= 0;"⟩,
    ⟨"MODE_6502", 56, "SEC", "IMP_i", 7, 0, "`C <= 1;"⟩,
    ⟨"MODE_6502", 88, "CLI", "IMP_i", 7, 0, "`I <= 0;"⟩,
    ⟨"MODE_6502", 120, "SEI", "IMP_i", 7, 0, "`I <= 1;"⟩,
    ⟨"MODE_6502", 136, "DEY", "IMP_i", 7, 0, "`Y <= `Y - 1;"⟩,
    ⟨"MODE_6502", 138, "TXA", "IMP_i", 7, 0, "`A <= `X;"⟩,
    ⟨"MODE_6502", 152, "TYA", "IMP_i", 7, 0, "`A <= `Y;"⟩,
    ⟨"MODE_6502", 154, "TXS", "IMP_i", 7, 0, "`SP <= `X;"⟩,
    ⟨"MODE_6502", 168, "TAY", "IMP_i", 7, 0, "`Y <= `A;"⟩,
    ⟨"MODE_6502", 170, "TAX", "IMP_i", 7, 0, "`X <= `A;"⟩,
    ⟨"MODE_6502", 184, "CLV", "IMP_i", 7, 0, "`V <= 0;"⟩,
    ⟨"MODE_6502", 186, "TSX", "IMP_i", 7, 0, "`X <= `SP;"⟩,
    ⟨"MODE_6502", 200, "INY", "IMP_i", 7, 0, "`Y <= `Y + 1;"⟩,
    ⟨"MODE_6502", 202, "DEX", "IMP_i", 7, 0, "`X <= `X - 1;"⟩,
    ⟨"MODE_6502", 216, "CLD", "IMP_i", 7, 0, "`D <= 0;"⟩,
    ⟨"MODE_6502", 232, "INX", "IMP_i", 7, 0, "`X <= `X + 1;"⟩,
    ⟨"MODE_6502", 248, "SED", "IMP_i", 7, 0, "`D <= 1;"⟩,
    ⟨"MODE_65832", 24, "CLC", "IMP_i", 7, 0, "`C <= 0;"⟩,
    ⟨"MODE_65832", 56, "SEC", "IMP_i", 7, 0, "`C <= 1;"⟩,
    ⟨"MODE_65832", 88, "CLI", "IMP_i", 7, 0, "`I <= 0;"⟩,
    ⟨"MODE_65832", 120, "SEI", "IMP_i", 7, 0, "`I <= 1;"⟩,
    ⟨"MODE_65832", 136, "DEY", "IMP_i", 7, 0, "`Y <= `Y - 1;"⟩,
    ⟨"MODE_65832", 138, "TXA", "IMP_i", 7, 0, "`A <= `X;"⟩]⟩

theorem table_step_16 :
    gen_65832_instructions_part4 table_state_15 = table_state_16 := by
  decide

def table_state_17 : BuilderState :=
  ⟨⟨"MODE_65832", 174, "NONE", "ABS_a", 7, 0, ""⟩,
   [⟨"MODE_6502", 0, "BRK", "STK_s", 0, 0, "`I <= 1;"⟩,
    ⟨"MODE_6502", 0, "BRK", "STK_s", 0, 0, "`PC <= 65534;"⟩,
    ⟨"MODE_6502", 0, "BRK", "STK_s", 0, 0, "`WQW[7:0] <= `PC[7:0];"⟩,
    ⟨"MODE_6502", 0, "BRK", "STK_s", 0, 0, "tmp_SP = SP - 1; `WRITE_BYTE(tmp_SP,`PC[15:8]); SP <= tmp_SP;"⟩,
    ⟨"MODE_6502", 0, "BRK", "STK_s", 0, 1, "tmp_SP = SP - 1; `WRITE_BYTE(tmp_SP,`WQW[7:0]); SP <= tmp_SP;"⟩,
    ⟨"MODE_6502", 0, "BRK", "STK_s", 0, 2, "tmp_SP = SP - 1; `WRITE_BYTE(tmp_SP,\x7bP[7:5],1,P[3:0]\x7d); SP <= tmp_SP;"⟩,
    ⟨"MODE_6502", 13, "ORA", "ABS_a", 7, 0, "`READ_BYTE(`EPC,`RQW[7:0]); EPC <= EPC + 1;"⟩,
    ⟨"MODE_6502", 13, "ORA", "ABS_a", 7, 1, "`ADDR[7:0] <= `RQW[7:0];"⟩,
    ⟨"MODE_6502", 13, "ORA", "ABS_a", 7, 1, "`READ_BYTE(`EPC,`ADDR[15:8]); EPC <= EPC + 1;"⟩,
    ⟨"MODE_6502", 13, "ORA", "ABS_a", 7, 2, "`READ_BYTE(`ADDR,`RB);"⟩,
    ⟨"MODE_6502", 13, "ORA", "ABS_a", 7, 3, "`A <= `A | `RB;"⟩,
    ⟨"MODE_6502", 14, "ASL", "ABS_a", 7, 0, "`READ_BYTE(`EPC,`RQW[7:0]); EPC <= EPC + 1;"⟩,
    ⟨"MODE_6502", 14, "ASL", "ABS_a", 7, 1, "`ADDR[7:0] <= `RQW[7:0];"⟩,
    ⟨"MODE_6502", 14, "ASL", "ABS_a", 7, 1, "`READ_BYTE(`EPC,`ADDR[15:8]); EPC <= EPC + 1;"⟩,
    ⟨"MODE_6502", 14, "ASL", "ABS_a", 7, 2, "`READ_BYTE(`ADDR,`RB);"⟩,
    ⟨"MODE_6502", 14, "ASL", "ABS_a", 7, 3, "`C <= `RB[7];"⟩,
    ⟨"MODE_6502", 14, "ASL", "ABS_a", 7, 3, "`RB <= \x7b`RB[6:0],0\x7d;"⟩,
    ⟨"MODE_6502", 14, "ASL", "ABS_a", 7, 3, "`WRITE_BYTE(`ADDR,`RB);"⟩,
    ⟨"MODE_6502", 24, "CLC", "IMP_i", 7, 0, "`C <= 0;"⟩,
    ⟨"MODE_6502", 56, "SEC", "IMP_i", 7, 0, "`C <= 1;"⟩,
    ⟨"MODE_6502", 88, "CLI", "IMP_i", 7, 0, "`I <= 0;"⟩,
    ⟨"MODE_6502", 120, "SEI", "IMP_i", 7, 0, "`I <= 1;"⟩,
    ⟨"MODE_6502", 136, "DEY", "IMP_i", 7, 0, "`Y <= `Y - 1;"⟩,
    ⟨"MODE_6502", 138, "TXA", "IMP_i", 7, 0, "`A <= `X;"⟩,
    ⟨"MODE_6502", 152, "TYA", "IMP_i", 7, 0, "`A <= `Y;"⟩,
    ⟨"MODE_6502", 154, "TXS", "IMP_i", 7, 0, "`SP <= `X;"⟩,
    ⟨"MODE_6502", 168, "TAY", "IMP_i", 7, 0, "`Y <= `A;"⟩,
    ⟨"MODE_6502", 170, "TAX", "IMP_i", 7, 0, "`X <= `A;"⟩,
    ⟨"MODE_6502", 184, "CLV", "IMP_i", 7, 0, "`V <= 0;"⟩,
    ⟨"MODE_6502", 186, "TSX", "IMP_i", 7, 0, "`X <= `SP;"⟩,
    ⟨"MODE_6502", 200, "INY", "IMP_i", 7, 0, "`Y <= `Y + 1;"⟩,
    ⟨"MODE_6502", 202, "DEX", "IMP_i", 7, 0, "`X <= `X - 1;"⟩,
    ⟨"MODE_6502", 216, "CLD", "IMP_i", 7, 0, "`D <= 0;"⟩,
    ⟨"MODE_6502", 232, "INX", "IMP_i", 7, 0, "`X <= `X + 1;"⟩,
    ⟨"MODE_6502", 248, "SED", "IMP_i", 7, 0, "`D <= 1;"⟩,
    ⟨"MODE_65832", 24, "CLC", "IMP_i", 7, 0, "`C <= 0;"⟩,
    ⟨"MODE_65832", 56, "SEC", "IMP_i", 7, 0, "`C <= 1;"⟩,
    ⟨"MODE_65832", 88, "CLI", "IMP_i", 7, 0, "`I <= 0;"⟩,
    ⟨"MODE_65832", 120, "SEI", "IMP_i", 7, 0, "`I <= 1;"⟩,
    ⟨"MODE_65832", 136, "DEY", "IMP_i", 7, 0, "`Y <= `Y - 1;"⟩,
    ⟨"MODE_65832", 138, "TXA", "IMP_i", 7, 0, "`A <= `X;"⟩,
    ⟨"MODE_65832", 152, "TYA", "IMP_i", 7, 0, "`A <= `Y;"⟩,
    ⟨"MODE_65832", 154, "TXS", "IMP_i", 7, 0, "`SP <= `X;"⟩,
    ⟨"MODE_65832", 168, "TAY", "IMP_i", 7, 0, "`Y <= `A;"⟩,
    ⟨"MODE_65832", 170, "TAX", "IMP_i", 7, 0, "`X <= `A;"⟩]⟩

theorem table_step_17 :
    gen_65832_instructions_part5 table_state_16 = table_state_17 := by
  decide

def table_state_18 : BuilderState :=
  ⟨⟨"MODE_65832", 208, "BNE", "PCR_r", 7, 0, ""⟩,
   [⟨"MODE_6502", 0, "BRK", "STK_s", 0, 0, "`I <= 1;"⟩,
    ⟨"MODE_6502", 0, "BRK", "STK_s", 0, 0, "`PC <= 65534;"⟩,
    ⟨"MODE_6502", 0, "BRK", "STK_s", 0, 0, "`WQW[7:0] <= `PC[7:0];"⟩,
    ⟨"MODE_6502", 0, "BRK", "STK_s", 0, 0, "tmp_SP = SP - 1; `WRITE_BYTE(tmp_SP,`PC[15:8]); SP <= tmp_SP;"⟩,
    ⟨"MODE_6502", 0, "BRK", "STK_s", 0, 1, "tmp_SP = SP - 1; `WRITE_BYTE(tmp_SP,`WQW[7:0]); SP <= tmp_SP;"⟩,
    ⟨"MODE_6502", 0, "BRK", "STK_s", 0, 2, "tmp_SP = SP - 1; `WRITE_BYTE(tmp_SP,\x7bP[7:5],1,P[3:0]\x7d); SP <= tmp_SP;"⟩,
    ⟨"MODE_6502", 13, "ORA", "ABS_a", 7, 0, "`READ_BYTE(`EPC,`RQW[7:0]); EPC <= EPC + 1;"⟩,
    ⟨"MODE_6502", 13, "ORA", "ABS_a", 7, 1, "`ADDR[7:0] <= `RQW[7:0];"⟩,
    ⟨"MODE_6502", 13, "ORA", "ABS_a", 7, 1, "`READ_BYTE(`EPC,`ADDR[15:8]); EPC <= EPC + 1;"⟩,
    ⟨"MODE_6502", 13, "ORA", "ABS_a", 7, 2, "`READ_BYTE(`ADDR,`RB);"⟩,
    ⟨"MODE_6502", 13, "ORA", "ABS_a", 7, 3, "`A <= `A | `RB;"⟩,
    ⟨"MODE_6502", 14, "ASL", "ABS_a", 7, 0, "`READ_BYTE(`EPC,`RQW[7:0]); EPC <= EPC + 1;"⟩,
    ⟨"MODE_6502", 14, "ASL", "ABS_a", 7, 1, "`ADDR[7:0] <= `RQW[7:0];"⟩,
    ⟨"MODE_6502", 14, "ASL", "ABS_a", 7, 1, "`READ_BYTE(`EPC,`ADDR[15:8]); EPC <= EPC + 1;"⟩,
    ⟨"MODE_6502", 14, "ASL", "ABS_a", 7, 2, "`READ_BYTE(`ADDR,`RB);"⟩,
    ⟨"MODE_6502", 14, "ASL", "ABS_a", 7, 3, "`C <= `RB[7];"⟩,
    ⟨"MODE_6502", 14, "ASL", "ABS_a", 7, 3, "`RB <= \x7b`RB[6:0],0\x7d;"⟩,
    ⟨"MODE_6502", 14, "ASL", "ABS_a", 7, 3, "`WRITE_BYTE(`ADDR,`RB);"⟩,
    ⟨"MODE_6502", 24, "CLC", "IMP_i", 7, 0, "`C <= 0;"⟩,
    ⟨"MODE_6502", 56, "SEC", "IMP_i", 7, 0, "`C <= 1;"⟩,
    ⟨"MODE_6502", 88, "CLI", "IMP_i", 7, 0, "`I <= 0;"⟩,
    ⟨"MODE_6502", 120, "SEI", "IMP_i", 7, 0, "`I <= 1;"⟩,
    ⟨"MODE_6502", 136, "DEY", "IMP_i", 7, 0, "`Y <= `Y - 1;"⟩,
    ⟨"MODE_6502", 138, "TXA", "IMP_i", 7, 0, "`A <= `X;"⟩,
    ⟨"MODE_6502", 152, "TYA", "IMP_i", 7, 0, "`A <= `Y;"⟩,
    ⟨"MODE_6502", 154, "TXS", "IMP_i", 7, 0, "`SP <= `X;"⟩,
    ⟨"MODE_6502", 168, "TAY", "IMP_i", 7, 0, "`Y <= `A;"⟩,
    ⟨"MODE_6502", 170, "TAX", "IMP_i", 7, 0, "`X <= `A;"⟩,
    ⟨"MODE_6502", 184, "CLV", "IMP_i", 7, 0, "`V <= 0;"⟩,
    ⟨"MODE_6502", 186, "TSX", "IMP_i", 7, 0, "`X <= `SP;"⟩,
    ⟨"MODE_6502", 200, "INY", "IMP_i", 7, 0, "`Y <= `Y + 1;"⟩,
    ⟨"MODE_6502", 202, "DEX", "IMP_i", 7, 0, "`X <= `X - 1;"⟩,
    ⟨"MODE_6502", 216, "CLD", "IMP_i", 7, 0, "`D <= 0;"⟩,
    ⟨"MODE_6502", 232, "INX", "IMP_i", 7, 0, "`X <= `X + 1;"⟩,
    ⟨"MODE_6502", 248, "SED", "IMP_i", 7, 0, "`D <= 1;"⟩,
    ⟨"MODE_65832", 24, "CLC", "IMP_i", 7, 0, "`C <= 0;"⟩,
    ⟨"MODE_65832", 56, "SEC", "IMP_i", 7, 0, "`C <= 1;"⟩,
    ⟨"MODE_65832", 88, "CLI", "IMP_i", 7, 0, "`I <= 0;"⟩,
    ⟨"MODE_65832", 120, "SEI", "IMP_i", 7, 0, "`I <= 1;"⟩,
    ⟨"MODE_65832", 136, "DEY", "IMP_i", 7, 0, "`Y <= `Y - 1;"⟩,
    ⟨"MODE_65832", 138, "TXA", "IMP_i", 7, 0, "`A <= `X;"⟩,
    ⟨"MODE_65832", 152, "TYA", "IMP_i", 7, 0, "`A <= `Y;"⟩,
    ⟨"MODE_65832", 154, "TXS", "IMP_i", 7, 0, "`SP <= `X;"⟩,
    ⟨"MODE_65832", 168, "TAY", "IMP_i", 7, 0, "`Y <= `A;"⟩,
    ⟨"MODE_65832", 170, "TAX", "IMP_i", 7, 0, "`X <= `A;"⟩,
    ⟨"MODE_65832", 184, "CLV", "IMP_i", 7, 0, "`V <= 0;"⟩,
    ⟨"MODE_65832", 186, "TSX", "IMP_i", 7, 0, "`X <= `SP;"⟩,
    ⟨"MODE_65832", 200, "INY", "IMP_i", 7, 0, "`Y <= `Y + 1;"⟩,
    ⟨"MODE_65832", 202, "DEX", "IMP_i", 7, 0, "`X <= `X - 1;"⟩]⟩

theorem table_step_18 :
    gen_65832_instructions_part6 table_state_17 = table_state_18 := by
  decide

def table_state_19 : BuilderState :=
  ⟨⟨"MODE_65832", 248, "NONE", "AIX_a_x", 7, 0, ""⟩,
   [⟨"MODE_6502", 0, "BRK", "STK_s", 0, 0, "`I <= 1;"⟩,
    ⟨"MODE_6502", 0, "BRK", "STK_s", 0, 0, "`PC <= 65534;"⟩,
    ⟨"MODE_6502", 0, "BRK", "STK_s", 0, 0, "`WQW[7:0] <= `PC[7:0];"⟩,
    ⟨"MODE_6502", 0, "BRK", "STK_s", 0, 0, "tmp_SP = SP - 1; `WRITE_BYTE(tmp_SP,`PC[15:8]); SP <= tmp_SP;"⟩,
    ⟨"MODE_6502", 0, "BRK", "STK_s", 0, 1, "tmp_SP = SP - 1; `WRITE_BYTE(tmp_SP,`WQW[7:0]); SP <= tmp_SP;"⟩,
    ⟨"MODE_6502", 0, "BRK", "STK_s", 0, 2, "tmp_SP = SP - 1; `WRITE_BYTE(tmp_SP,\x7bP[7:5],1,P[3:0]\x7d); SP <= tmp_SP;"⟩,
    ⟨"MODE_6502", 13, "ORA", "ABS_a", 7, 0, "`READ_BYTE(`EPC,`RQW[7:0]); EPC <= EPC + 1;"⟩,
    ⟨"MODE_6502", 13, "ORA", "ABS_a", 7, 1, "`ADDR[7:0] <= `RQW[7:0];"⟩,
    ⟨"MODE_6502", 13, "ORA", "ABS_a", 7, 1, "`READ_BYTE(`EPC,`ADDR[15:8]); EPC <= EPC + 1;"⟩,
    ⟨"MODE_6502", 13, "ORA", "ABS_a", 7, 2, "`READ_BYTE(`ADDR,`RB);"⟩,
    ⟨"MODE_6502", 13, "ORA", "ABS_a", 7, 3, "`A <= `A | `RB;"⟩,
    ⟨"MODE_6502", 14, "ASL", "ABS_a", 7, 0, "`READ_BYTE(`EPC,`RQW[7:0]); EPC <= EPC + 1;"⟩,
    ⟨"MODE_6502", 14, "ASL", "ABS_a", 7, 1, "`ADDR[7:0] <= `RQW[7:0];"⟩,
    ⟨"MODE_6502", 14, "ASL", "ABS_a", 7, 1, "`READ_BYTE(`EPC,`ADDR[15:8]); EPC <= EPC + 1;"⟩,
    ⟨"MODE_6502", 14, "ASL", "ABS_a", 7, 2, "`READ_BYTE(`ADDR,`RB);"⟩,
    ⟨"MODE_6502", 14, "ASL", "ABS_a", 7, 3, "`C <= `RB[7];"⟩,
    ⟨"MODE_6502", 14, "ASL", "ABS_a", 7, 3, "`RB <= \x7b`RB[6:0],0\x7d;"⟩,
    ⟨"MODE_6502", 14, "ASL", "ABS_a", 7, 3, "`WRITE_BYTE(`ADDR,`RB);"⟩,
    ⟨"MODE_6502", 24, "CLC", "IMP_i", 7, 0, "`C <= 0;"⟩,
    ⟨"MODE_6502", 56, "SEC", "IMP_i", 7, 0, "`C <= 1;"⟩,
    ⟨"MODE_6502", 88, "CLI", "IMP_i", 7, 0, "`I <= 0;"⟩,
    ⟨"MODE_6502", 120, "SEI", "IMP_i", 7, 0, "`I <= 1;"⟩,
    ⟨"MODE_6502", 136, "DEY", "IMP_i", 7, 0, "`Y <= `Y - 1;"⟩,
    ⟨"MODE_6502", 138, "TXA", "IMP_i", 7, 0, "`A <= `X;"⟩,
    ⟨"MODE_6502", 152, "TYA", "IMP_i", 7, 0, "`A <= `Y;"⟩,
    ⟨"MODE_6502", 154, "TXS", "IMP_i", 7, 0, "`SP <= `X;"⟩,
    ⟨"MODE_6502", 168, "TAY", "IMP_i", 7, 0, "`Y <= `A;"⟩,
    ⟨"MODE_6502", 170, "TAX", "IMP_i", 7, 0, "`X <= `A;"⟩,
    ⟨"MODE_6502", 184, "CLV", "IMP_i", 7, 0, "`V <= 0;"⟩,
    ⟨"MODE_6502", 186, "TSX", "IMP_i", 7, 0, "`X <= `SP;"⟩,
    ⟨"MODE_6502", 200, "INY", "IMP_i", 7, 0, "`Y <= `Y + 1;"⟩,
    ⟨"MODE_6502", 202, "DEX", "IMP_i", 7, 0, "`X <= `X - 1;"⟩,
    ⟨"MODE_6502", 216, "CLD", "IMP_i", 7, 0, "`D <= 0;"⟩,
    ⟨"MODE_6502", 232, "INX", "IMP_i", 7, 0, "`X <= `X + 1;"⟩,
    ⟨"MODE_6502", 248, "SED", "IMP_i", 7, 0, "`D <= 1;"⟩,
    ⟨"MODE_65832", 24, "CLC", "IMP_i", 7, 0, "`C <= 0;"⟩,
    ⟨"MODE_65832", 56, "SEC", "IMP_i", 7, 0, "`C <= 1;"⟩,
    ⟨"MODE_65832", 88, "CLI", "IMP_i", 7, 0, "`I <= 0;"⟩,
    ⟨"MODE_65832", 120, "SEI", "IMP_i", 7, 0, "`I <= 1;"⟩,
    ⟨"MODE_65832", 136, "DEY", "IMP_i", 7, 0, "`Y <= `Y - 1;"⟩,
    ⟨"MODE_65832", 138, "TXA", "IMP_i", 7, 0, "`A <= `X;"⟩,
    ⟨"MODE_65832", 152, "TYA", "IMP_i", 7, 0, "`A <= `Y;"⟩,
    ⟨"MODE_65832", 154, "TXS", "IMP_i", 7, 0, "`SP <= `X;"⟩,
    ⟨"MODE_65832", 168, "TAY", "IMP_i", 7, 0, "`Y <= `A;"⟩,
    ⟨"MODE_65832", 170, "TAX", "IMP_i", 7, 0, "`X <= `A;"⟩,
    ⟨"MODE_65832", 184, "CLV", "IMP_i", 7, 0, "`V <= 0;"⟩,
    ⟨"MODE_65832", 186, "TSX", "IMP_i", 7, 0, "`X <= `SP;"⟩,
    ⟨"MODE_65832", 200, "INY", "IMP_i", 7, 0, "`Y <= `Y + 1;"⟩,
    ⟨"MODE_65832", 202, "DEX", "IMP_i", 7, 0, "`X <= `X - 1;"⟩,
    ⟨"MODE_65832", 216, "CLD", "IMP_i", 7, 0, "`D <= 0;"⟩,
    ⟨"MODE_65832", 232, "INX", "IMP_i", 7, 0, "`X <= `X + 1;"⟩]⟩

theorem table_step_19 :
    gen_65832_instructions_part7 table_state_18 = table_state_19 := by
  decide

def table_state_20 : BuilderState :=
  ⟨⟨"MODE_65832", 253, "NONE", "AIX_a_x", 7, 0, ""⟩,
   [⟨"MODE_6502", 0, "BRK", "STK_s", 0, 0, "`I <= 1;"⟩,
    ⟨"MODE_6502", 0, "BRK", "STK_s", 0, 0, "`PC <= 65534;"⟩,
    ⟨"MODE_6502", 0, "BRK", "STK_s", 0, 0, "`WQW[7:0] <= `PC[7:0];"⟩,
    ⟨"MODE_6502", 0, "BRK", "STK_s", 0, 0, "tmp_SP = SP - 1; `WRITE_BYTE(tmp_SP,`PC[15:8]); SP <= tmp_SP;"⟩,
    ⟨"MODE_6502", 0, "BRK", "STK_s", 0, 1, "tmp_SP = SP - 1; `WRITE_BYTE(tmp_SP,`WQW[7:0]); SP <= tmp_SP;"⟩,
    ⟨"MODE_6502", 0, "BRK", "STK_s", 0, 2, "tmp_SP = SP - 1; `WRITE_BYTE(tmp_SP,\x7bP[7:5],1,P[3:0]\x7d); SP <= tmp_SP;"⟩,
    ⟨"MODE_6502", 13, "ORA", "ABS_a", 7, 0, "`READ_BYTE(`EPC,`RQW[7:0]); EPC <= EPC + 1;"⟩,
    ⟨"MODE_6502", 13, "ORA", "ABS_a", 7, 1, "`ADDR[7:0] <= `RQW[7:0];"⟩,
    ⟨"MODE_6502", 13, "ORA", "ABS_a", 7, 1, "`READ_BYTE(`EPC,`ADDR[15:8]); EPC <= EPC + 1;"⟩,
    ⟨"MODE_6502", 13, "ORA", "ABS_a", 7, 2, "`READ_BYTE(`ADDR,`RB);"⟩,
    ⟨"MODE_6502", 13, "ORA", "ABS_a", 7, 3, "`A <= `A | `RB;"⟩,
    ⟨"MODE_6502", 14, "ASL", "ABS_a", 7, 0, "`READ_BYTE(`EPC,`RQW[7:0]); EPC <= EPC + 1;"⟩,
    ⟨"MODE_6502", 14, "ASL", "ABS_a", 7, 1, "`ADDR[7:0] <= `RQW[7:0];"⟩,
    ⟨"MODE_6502", 14, "ASL", "ABS_a", 7, 1, "`READ_BYTE(`EPC,`ADDR[15:8]); EPC <= EPC + 1;"⟩,
    ⟨"MODE_6502", 14, "ASL", "ABS_a", 7, 2, "`READ_BYTE(`ADDR,`RB);"⟩,
    ⟨"MODE_6502", 14, "ASL", "ABS_a", 7, 3, "`C <= `RB[7];"⟩,
    ⟨"MODE_6502", 14, "ASL", "ABS_a", 7, 3, "`RB <= \x7b`RB[6:0],0\x7d;"⟩,
    ⟨"MODE_6502", 14, "ASL", "ABS_a", 7, 3, "`WRITE_BYTE(`ADDR,`RB);"⟩,
    ⟨"MODE_6502", 24, "CLC", "IMP_i", 7, 0, "`C <= 0;"⟩,
    ⟨"MODE_6502", 56, "SEC", "IMP_i", 7, 0, "`C <= 1;"⟩,
    ⟨"MODE_6502", 88, "CLI", "IMP_i", 7, 0, "`I <= 0;"⟩,
    ⟨"MODE_6502", 120, "SEI", "IMP_i", 7, 0, "`I <= 1;"⟩,
    ⟨"MODE_6502", 136, "DEY", "IMP_i", 7, 0, "`Y <= `Y - 1;"⟩,
    ⟨"MODE_6502", 138, "TXA", "IMP_i", 7, 0, "`A <= `X;"⟩,
    ⟨"MODE_6502", 152, "TYA", "IMP_i", 7, 0, "`A <= `Y;"⟩,
    ⟨"MODE_6502", 154, "TXS", "IMP_i", 7, 0, "`SP <= `X;"⟩,
    ⟨"MODE_6502", 168, "TAY", "IMP_i", 7, 0, "`Y <= `A;"⟩,
    ⟨"MODE_6502", 170, "TAX", "IMP_i", 7, 0, "`X <= `A;"⟩,
    ⟨"MODE_6502", 184, "CLV", "IMP_i", 7, 0, "`V <= 0;"⟩,
    ⟨"MODE_6502", 186, "TSX", "IMP_i", 7, 0, "`X <= `SP;"⟩,
    ⟨"MODE_6502", 200, "INY", "IMP_i", 7, 0, "`Y <= `Y + 1;"⟩,
    ⟨"MODE_6502", 202, "DEX", "IMP_i", 7, 0, "`X <= `X - 1;"⟩,
    ⟨"MODE_6502", 216, "CLD", "IMP_i", 7, 0, "`D <= 0;"⟩,
    ⟨"MODE_6502", 232, "INX", "IMP_i", 7, 0, "`X <= `X + 1;"⟩,
    ⟨"MODE_6502", 248, "SED", "IMP_i", 7, 0, "`D <= 1;"⟩,
    ⟨"MODE_65832", 24, "CLC", "IMP_i", 7, 0, "`C <= 0;"⟩,
    ⟨"MODE_65832", 56, "SEC", "IMP_i", 7, 0, "`C <= 1;"⟩,
    ⟨"MODE_65832", 88, "CLI", "IMP_i", 7, 0, "`I <= 0;"⟩,
    ⟨"MODE_65832", 120, "SEI", "IMP_i", 7, 0, "`I <= 1;"⟩,
    ⟨"MODE_65832", 136, "DEY", "IMP_i", 7, 0, "`Y <= `Y - 1;"⟩,
    ⟨"MODE_65832", 138, "TXA", "IMP_i", 7, 0, "`A <= `X;"⟩,
    ⟨"MODE_65832", 152, "TYA", "IMP_i", 7, 0, "`A <= `Y;"⟩,
    ⟨"MODE_65832", 154, "TXS", "IMP_i", 7, 0, "`SP <= `X;"⟩,
    ⟨"MODE_65832", 168, "TAY", "IMP_i", 7, 0, "`Y <= `A;"⟩,
    ⟨"MODE_65832", 170, "TAX", "IMP_i", 7, 0, "`X <= `A;"⟩,
    ⟨"MODE_65832", 184, "CLV", "IMP_i", 7, 0, "`V <= 0;"⟩,
    ⟨"MODE_65832", 186, "TSX", "IMP_i", 7, 0, "`X <= `SP;"⟩,
    ⟨"MODE_65832", 200, "INY", "IMP_i", 7, 0, "`Y <= `Y + 1;"⟩,
    ⟨"MODE_65832", 202, "DEX", "IMP_i", 7, 0, "`X <= `X - 1;"⟩,
    ⟨"MODE_65832", 216, "CLD", "IMP_i", 7, 0, "`D <= 0;"⟩,
    ⟨"MODE_65832", 232, "INX", "IMP_i", 7, 0, "`X <= `X + 1;"⟩,
    ⟨"MODE_65832", 248, "SED", "IMP_i", 7, 0, "`D <= 1;"⟩]⟩

theorem table_step_20 :
    gen_65832_instructions_part8 table_state_19 = table_state_20 := by
  decide

theorem gen_6502_instructions_init_eq :
    gen_6502_instructions BuilderState.init = table_state_12 := by
  rw [gen_6502_instructions, table_step_1, table_step_2, table_step_3, table_step_4, table_step_5, table_step_6, table_step_7, table_step_8, table_step_9, table_step_10, table_step_11, table_step_12]

theorem gen_65832_instructions_next_eq :
    gen_65832_instructions table_state_12 = table_state_20 := by
  rw [gen_65832_instructions, table_step_13, table_step_14, table_step_15, table_step_16, table_step_17, table_step_18, table_step_19, table_step_20]

/-- The 52 records of the store, as computed by the build phase (proved
equal to `the_store` in `the_store_eq`). -/
def the_store_literal : List MicroInstruction :=
  [⟨"MODE_6502", 0, "BRK", "STK_s", 0, 0, "`I <= 1;"⟩,
   ⟨"MODE_6502", 0, "BRK", "STK_s", 0, 0, "`PC <= 65534;"⟩,
   ⟨"MODE_6502", 0, "BRK", "STK_s", 0, 0, "`WQW[7:0] <= `PC[7:0];"⟩,
   ⟨"MODE_6502", 0, "BRK", "STK_s", 0, 0, "tmp_SP = SP - 1; `WRITE_BYTE(tmp_SP,`PC[15:8]); SP <= tmp_SP;"⟩,
   ⟨"MODE_6502", 0, "BRK", "STK_s", 0, 1, "tmp_SP = SP - 1; `WRITE_BYTE(tmp_SP,`WQW[7:0]); SP <= tmp_SP;"⟩,
   ⟨"MODE_6502", 0, "BRK", "STK_s", 0, 2, "tmp_SP = SP - 1; `WRITE_BYTE(tmp_SP,\x7bP[7:5],1,P[3:0]\x7d); SP <= tmp_SP;"⟩,
   ⟨"MODE_6502", 13, "ORA", "ABS_a", 7, 0, "`READ_BYTE(`EPC,`RQW[7:0]); EPC <= EPC + 1;"⟩,
   ⟨"MODE_6502", 13, "ORA", "ABS_a", 7, 1, "`ADDR[7:0] <= `RQW[7:0];"⟩,
   ⟨"MODE_6502", 13, "ORA", "ABS_a", 7, 1, "`READ_BYTE(`EPC,`ADDR[15:8]); EPC <= EPC + 1;"⟩,
   ⟨"MODE_6502", 13, "ORA", "ABS_a", 7, 2, "`READ_BYTE(`ADDR,`RB);"⟩,
   ⟨"MODE_6502", 13, "ORA", "ABS_a", 7, 3, "`A <= `A | `RB;"⟩,
   ⟨"MODE_6502", 14, "ASL", "ABS_a", 7, 0, "`READ_BYTE(`EPC,`RQW[7:0]); EPC <= EPC + 1;"⟩,
   ⟨"MODE_6502", 14, "ASL", "ABS_a", 7, 1, "`ADDR[7:0] <= `RQW[7:0];"⟩,
   ⟨"MODE_6502", 14, "ASL", "ABS_a", 7, 1, "`READ_BYTE(`EPC,`ADDR[15:8]); EPC <= EPC + 1;"⟩,
   ⟨"MODE_6502", 14, "ASL", "ABS_a", 7, 2, "`READ_BYTE(`ADDR,`RB);"⟩,
   ⟨"MODE_6502", 14, "ASL", "ABS_a", 7, 3, "`C <= `RB[7];"⟩,
   ⟨"MODE_6502", 14, "ASL", "ABS_a", 7, 3, "`RB <= \x7b`RB[6:0],0\x7d;"⟩,
   ⟨"MODE_6502", 14, "ASL", "ABS_a", 7, 3, "`WRITE_BYTE(`ADDR,`RB);"⟩,
   ⟨"MODE_6502", 24, "CLC", "IMP_i", 7, 0, "`C <= 0;"⟩,
   ⟨"MODE_6502", 56, "SEC", "IMP_i", 7, 0, "`C <= 1;"⟩,
   ⟨"MODE_6502", 88, "CLI", "IMP_i", 7, 0, "`I <= 0;"⟩,
   ⟨"MODE_6502", 120, "SEI", "IMP_i", 7, 0, "`I <= 1;"⟩,
   ⟨"MODE_6502", 136, "DEY", "IMP_i", 7, 0, "`Y <= `Y - 1;"⟩,
   ⟨"MODE_6502", 138, "TXA", "IMP_i", 7, 0, "`A <= `X;"⟩,
   ⟨"MODE_6502", 152, "TYA", "IMP_i", 7, 0, "`A <= `Y;"⟩,
   ⟨"MODE_6502", 154, "TXS", "IMP_i", 7, 0, "`SP <= `X;"⟩,
   ⟨"MODE_6502", 168, "TAY", "IMP_i", 7, 0, "`Y <= `A;"⟩,
   ⟨"MODE_6502", 170, "TAX", "IMP_i", 7, 0, "`X <= `A;"⟩,
   ⟨"MODE_6502", 184, "CLV", "IMP_i", 7, 0, "`V <= 0;"⟩,
   ⟨"MODE_6502", 186, "TSX", "IMP_i", 7, 0, "`X <= `SP;"⟩,
   ⟨"MODE_6502", 200, "INY", "IMP_i", 7, 0, "`Y <= `Y + 1;"⟩,
   ⟨"MODE_6502", 202, "DEX", "IMP_i", 7, 0, "`X <= `X - 1;"⟩,
   ⟨"MODE_6502", 216, "CLD", "IMP_i", 7, 0, "`D <= 0;"⟩,
   ⟨"MODE_6502", 232, "INX", "IMP_i", 7, 0, "`X <= `X + 1;"⟩,
   ⟨"MODE_6502", 248, "SED", "IMP_i", 7, 0, "`D <= 1;"⟩,
   ⟨"MODE_65832", 24, "CLC", "IMP_i", 7, 0, "`C <= 0;"⟩,
   ⟨"MODE_65832", 56, "SEC", "IMP_i", 7, 0, "`C <= 1;"⟩,
   ⟨"MODE_65832", 88, "CLI", "IMP_i", 7, 0, "`I <= 0;"⟩,
   ⟨"MODE_65832", 120, "SEI", "IMP_i", 7, 0, "`I <= 1;"⟩,
   ⟨"MODE_65832", 136, "DEY", "IMP_i", 7, 0, "`Y <= `Y - 1;"⟩,
   ⟨"MODE_65832", 138, "TXA", "IMP_i", 7, 0, "`A <= `X;"⟩,
   ⟨"MODE_65832", 152, "TYA", "IMP_i", 7, 0, "`A <= `Y;"⟩,
   ⟨"MODE_65832", 154, "TXS", "IMP_i", 7, 0, "`SP <= `X;"⟩,
   ⟨"MODE_65832", 168, "TAY", "IMP_i", 7, 0, "`Y <= `A;"⟩,
   ⟨"MODE_65832", 170, "TAX", "IMP_i", 7, 0, "`X <= `A;"⟩,
   ⟨"MODE_65832", 184, "CLV", "IMP_i", 7, 0, "`V <= 0;"⟩,
   ⟨"MODE_65832", 186, "TSX", "IMP_i", 7, 0, "`X <= `SP;"⟩,
   ⟨"MODE_65832", 200, "INY", "IMP_i", 7, 0, "`Y <= `Y + 1;"⟩,
   ⟨"MODE_65832", 202, "DEX", "IMP_i", 7, 0, "`X <= `X - 1;"⟩,
   ⟨"MODE_65832", 216, "CLD", "IMP_i", 7, 0, "`D <= 0;"⟩,
   ⟨"MODE_65832", 232, "INX", "IMP_i", 7, 0, "`X <= `X + 1;"⟩,
   ⟨"MODE_65832", 248, "SED", "IMP_i", 7, 0, "`D <= 1;"⟩]

theorem the_store_eq : the_store = the_store_literal := by
  rw [the_store, gen_6502_instructions_init_eq, gen_65832_instructions_next_eq]
  decide

/-- `the_store` in comparator order (proved equal to `sorted_store` in
`sorted_store_eq`). -/
def sorted_store_literal : List MicroInstruction :=
  [⟨"MODE_6502", 14, "ASL", "ABS_a", 7, 0, "`READ_BYTE(`EPC,`RQW[7:0]); EPC <= EPC + 1;"⟩,
   ⟨"MODE_6502", 13, "ORA", "ABS_a", 7, 0, "`READ_BYTE(`EPC,`RQW[7:0]); EPC <= EPC + 1;"⟩,
   ⟨"MODE_6502", 138, "TXA", "IMP_i", 7, 0, "`A <= `X;"⟩,
   ⟨"MODE_65832", 138, "TXA", "IMP_i", 7, 0, "`A <= `X;"⟩,
   ⟨"MODE_6502", 152, "TYA", "IMP_i", 7, 0, "`A <= `Y;"⟩,
   ⟨"MODE_65832", 152, "TYA", "IMP_i", 7, 0, "`A <= `Y;"⟩,
   ⟨"MODE_6502", 24, "CLC", "IMP_i", 7, 0, "`C <= 0;"⟩,
   ⟨"MODE_65832", 24, "CLC", "IMP_i", 7, 0, "`C <= 0;"⟩,
   ⟨"MODE_6502", 56, "SEC", "IMP_i", 7, 0, "`C <= 1;"⟩,
   ⟨"MODE_65832", 56, "SEC", "IMP_i", 7, 0, "`C <= 1;"⟩,
   ⟨"MODE_6502", 216, "CLD", "IMP_i", 7, 0, "`D <= 0;"⟩,
   ⟨"MODE_65832", 216, "CLD", "IMP_i", 7, 0, "`D <= 0;"⟩,
   ⟨"MODE_6502", 248, "SED", "IMP_i", 7, 0, "`D <= 1;"⟩,
   ⟨"MODE_65832", 248, "SED", "IMP_i", 7, 0, "`D <= 1;"⟩,
   ⟨"MODE_6502", 88, "CLI", "IMP_i", 7, 0, "`I <= 0;"⟩,
   ⟨"MODE_65832", 88, "CLI", "IMP_i", 7, 0, "`I <= 0;"⟩,
   ⟨"MODE_6502", 120, "SEI", "IMP_i", 7, 0, "`I <= 1;"⟩,
   ⟨"MODE_65832", 120, "SEI", "IMP_i", 7, 0, "`I <= 1;"⟩,
   ⟨"MODE_6502", 154, "TXS", "IMP_i", 7, 0, "`SP <= `X;"⟩,
   ⟨"MODE_65832", 154, "TXS", "IMP_i", 7, 0, "`SP <= `X;"⟩,
   ⟨"MODE_6502", 184, "CLV", "IMP_i", 7, 0, "`V <= 0;"⟩,
   ⟨"MODE_65832", 184, "CLV", "IMP_i", 7, 0, "`V <= 0;"⟩,
   ⟨"MODE_6502", 170, "TAX", "IMP_i", 7, 0, "`X <= `A;"⟩,
   ⟨"MODE_65832", 170, "TAX", "IMP_i", 7, 0, "`X <= `A;"⟩,
   ⟨"MODE_6502", 186, "TSX", "IMP_i", 7, 0, "`X <= `SP;"⟩,
   ⟨"MODE_65832", 186, "TSX", "IMP_i", 7, 0, "`X <= `SP;"⟩,
   ⟨"MODE_6502", 232, "INX", "IMP_i", 7, 0, "`X <= `X + 1;"⟩,
   ⟨"MODE_65832", 232, "INX", "IMP_i", 7, 0, "`X <= `X + 1;"⟩,
   ⟨"MODE_6502", 202, "DEX", "IMP_i", 7, 0, "`X <= `X - 1;"⟩,
   ⟨"MODE_65832", 202, "DEX", "IMP_i", 7, 0, "`X <= `X - 1;"⟩,
   ⟨"MODE_6502", 168, "TAY", "IMP_i", 7, 0, "`Y <= `A;"⟩,
   ⟨"MODE_65832", 168, "TAY", "IMP_i", 7, 0, "`Y <= `A;"⟩,
   ⟨"MODE_6502", 200, "INY", "IMP_i", 7, 0, "`Y <= `Y + 1;"⟩,
   ⟨"MODE_65832", 200, "INY", "IMP_i", 7, 0, "`Y <= `Y + 1;"⟩,
   ⟨"MODE_6502", 136, "DEY", "IMP_i", 7, 0, "`Y <= `Y - 1;"⟩,
   ⟨"MODE_65832", 136, "DEY", "IMP_i", 7, 0, "`Y <= `Y - 1;"⟩,
   ⟨"MODE_6502", 0, "BRK", "STK_s", 0, 0, "`I <= 1;"⟩,
   ⟨"MODE_6502", 0, "BRK", "STK_s", 0, 0, "`PC <= 65534;"⟩,
   ⟨"MODE_6502", 0, "BRK", "STK_s", 0, 0, "`WQW[7:0] <= `PC[7:0];"⟩,
   ⟨"MODE_6502", 0, "BRK", "STK_s", 0, 0, "tmp_SP = SP - 1; `WRITE_BYTE(tmp_SP,`PC[15:8]); SP <= tmp_SP;"⟩,
   ⟨"MODE_6502", 14, "ASL", "ABS_a", 7, 1, "`ADDR[7:0] <= `RQW[7:0];"⟩,
   ⟨"MODE_6502", 13, "ORA", "ABS_a", 7, 1, "`ADDR[7:0] <= `RQW[7:0];"⟩,
   ⟨"MODE_6502", 14, "ASL", "ABS_a", 7, 1, "`READ_BYTE(`EPC,`ADDR[15:8]); EPC <= EPC + 1;"⟩,
   ⟨"MODE_6502", 13, "ORA", "ABS_a", 7, 1, "`READ_BYTE(`EPC,`ADDR[15:8]); EPC <= EPC + 1;"⟩,
   ⟨"MODE_6502", 0, "BRK", "STK_s", 0, 1, "tmp_SP = SP - 1; `WRITE_BYTE(tmp_SP,`WQW[7:0]); SP <= tmp_SP;"⟩,
   ⟨"MODE_6502", 14, "ASL", "ABS_a", 7, 2, "`READ_BYTE(`ADDR,`RB);"⟩,
   ⟨"MODE_6502", 13, "ORA", "ABS_a", 7, 2, "`READ_BYTE(`ADDR,`RB);"⟩,
   ⟨"MODE_6502", 0, "BRK", "STK_s", 0, 2, "tmp_SP = SP - 1; `WRITE_BYTE(tmp_SP,\x7bP[7:5],1,P[3:0]\x7d); SP <= tmp_SP;"⟩,
   ⟨"MODE_6502", 13, "ORA", "ABS_a", 7, 3, "`A <= `A | `RB;"⟩,
   ⟨"MODE_6502", 14, "ASL", "ABS_a", 7, 3, "`C <= `RB[7];"⟩,
   ⟨"MODE_6502", 14, "ASL", "ABS_a", 7, 3, "`RB <= \x7b`RB[6:0],0\x7d;"⟩,
   ⟨"MODE_6502", 14, "ASL", "ABS_a", 7, 3, "`WRITE_BYTE(`ADDR,`RB);"⟩]

theorem sorted_store_eq : sorted_store = sorted_store_literal := by
  rw [sorted_store, the_store_eq]
  decide

/-! ## Order theory of the comparator

`chars_cmp`, `nat_cmp` and their `lex_step` combinations are three-valued
comparators; `IsCmp` packages the three facts every later proof needs
(zero means equality, antisymmetry of sign, transitivity of strict
negativity), and `prod_cmp` combines comparators lexicographically. -/

/-- A well-behaved three-valued comparator. -/
structure IsCmp {α : Type} (f : α → α → Int) : Prop where
  eq_zero : ∀ x y, f x y = 0 ↔ x = y
  antisymm : ∀ x y, f x y = -(f y x)
  lt_trans : ∀ x y z, f x y < 0 → f y z < 0 → f x z < 0

theorem IsCmp.le_trans {α : Type} {f : α → α → Int} (hf : IsCmp f) {x y z : α} :
    f x y ≤ 0 → f y z ≤ 0 → f x z ≤ 0 := by
  intro hxy hyz
  rcases lt_or_eq_of_le hxy with h | h
  · rcases lt_or_eq_of_le hyz with h2 | h2
    · exact le_of_lt (hf.lt_trans x y z h h2)
    · have : y = z := (hf.eq_zero y z).mp h2
      subst this
      exact le_of_lt h
  · have : x = y := (hf.eq_zero x y).mp h
    subst this
    exact hyz

/-- Lexicographic combination on pairs. -/
def prod_cmp {α β : Type} (f : α → α → Int) (g : β → β → Int)
    (x y : α × β) : Int :=
  lex_step (f x.1 y.1) (g x.2 y.2)

theorem lex_step_eq_zero_iff (c d : Int) : lex_step c d = 0 ↔ c = 0 ∧ d = 0 := by
  by_cases h : c = 0 <;> simp [lex_step, h]

theorem lex_step_neg (c d : Int) : lex_step (-c) (-d) = -(lex_step c d) := by
  by_cases h : c = 0 <;> simp [lex_step, h] <;> omega

theorem lex_step_assoc (c d e : Int) :
    lex_step (lex_step c d) e = lex_step c (lex_step d e) := by
  by_cases hc : c = 0 <;> by_cases hd : d = 0 <;> simp [lex_step, hc, hd]

theorem IsCmp.prod {α β : Type} {f : α → α → Int} {g : β → β → Int}
    (hf : IsCmp f) (hg : IsCmp g) : IsCmp (prod_cmp f g) where
  eq_zero x y := by
    rw [prod_cmp, lex_step_eq_zero_iff, hf.eq_zero, hg.eq_zero]
    constructor
    · rintro ⟨h1, h2⟩
      exact Prod.ext h1 h2
    · rintro rfl
      exact ⟨rfl, rfl⟩
  antisymm x y := by
    rw [prod_cmp, prod_cmp, hf.antisymm, hg.antisymm, lex_step_neg]
  lt_trans x y z hxy hyz := by
    rw [prod_cmp, lex_step] at *
    by_cases h1 : f x.1 y.1 = 0
    · have e1 : x.1 = y.1 := (hf.eq_zero _ _).mp h1
      simp only [h1, if_neg (by simp : ¬ (0 : Int) ≠ 0)] at hxy
      by_cases h2 : f y.1 z.1 = 0
      · have e2 : y.1 = z.1 := (hf.eq_zero _ _).mp h2
        have h3 : f x.1 z.1 = 0 := (hf.eq_zero _ _).mpr (e1.trans e2)
        simp only [h2, if_neg (by simp : ¬ (0 : Int) ≠ 0)] at hyz
        simp only [h3, if_neg (by simp : ¬ (0 : Int) ≠ 0)]
        exact hg.lt_trans _ _ _ hxy hyz
      · simp only [h2, if_pos h2] at hyz
        have h3 : f x.1 z.1 < 0 := by rw [(hf.eq_zero _ _).mp h1]; exact hyz
        simp [if_pos (by omega : f x.1 z.1 ≠ 0), h3]
    · simp only [if_pos h1] at hxy
      by_cases h2 : f y.1 z.1 = 0
      · have e2 : y.1 = z.1 := (hf.eq_zero _ _).mp h2
        have h3 : f x.1 z.1 < 0 := by rw [← e2]; exact hxy
        simp [if_pos (by omega : f x.1 z.1 ≠ 0), h3]
      · simp only [if_pos h2] at hyz
        have h3 : f x.1 z.1 < 0 := hf.lt_trans _ _ _ hxy hyz
        simp [if_pos (by omega : f x.1 z.1 ≠ 0), h3]

theorem nat_cmp_isCmp : IsCmp nat_cmp where
  eq_zero x y := by
    rcases Nat.lt_trichotomy x y with h | h | h
    · simp [nat_cmp, h, Nat.ne_of_lt h]
    · subst h; simp [nat_cmp]
    · simp [nat_cmp, h, Nat.lt_asymm h, Ne.symm (Nat.ne_of_lt h)]
  antisymm x y := by
    rcases Nat.lt_trichotomy x y with h | h | h
    · simp [nat_cmp, h, Nat.lt_asymm h]
    · subst h; simp [nat_cmp]
    · simp [nat_cmp, h, Nat.lt_asymm h]
  lt_trans x y z hxy hyz := by
    unfold nat_cmp at *
    split_ifs at * <;> omega

theorem chars_cmp_isCmp : IsCmp chars_cmp where
  eq_zero x y := by
    induction x generalizing y with
    | nil => cases y <;> simp [chars_cmp]
    | cons a as ih =>
      cases y with
      | nil => simp [chars_cmp]
      | cons b bs =>
        rw [chars_cmp]
        by_cases h1 : a.toNat < b.toNat
        · have hne : a ≠ b := fun h => by subst h; omega
          simp [h1, hne]
        · by_cases h2 : b.toNat < a.toNat
          · have hne : a ≠ b := fun h => by subst h; omega
            simp [h1, h2, hne]
          · have hn : a.toNat = b.toNat := by omega
            have hab : a = b :=
              Char.eq_of_val_eq (UInt32.eq_of_toBitVec_eq (BitVec.eq_of_toNat_eq hn))
            simp [h1, h2, hab, ih]
  antisymm x y := by
    induction x generalizing y with
    | nil => cases y <;> simp [chars_cmp]
    | cons a as ih =>
      cases y with
      | nil => simp [chars_cmp]
      | cons b bs =>
        rw [chars_cmp, chars_cmp]
        rcases Nat.lt_trichotomy a.toNat b.toNat with h | h | h
        · simp [if_pos h, if_neg (Nat.lt_asymm h)]
        · have hab : ¬ a.toNat < b.toNat := by omega
          have hba : ¬ b.toNat < a.toNat := by omega
          simp only [if_neg hab, if_neg hba]
          exact ih bs
        · simp [if_pos h, if_neg (Nat.lt_asymm h)]
  lt_trans x y z hxy hyz := by
    induction x generalizing y z with
    | nil =>
      cases y with
      | nil => simpa [chars_cmp] using hxy
      | cons b bs =>
        cases z with
        | nil => simpa [chars_cmp] using hyz
        | cons c cs => simp [chars_cmp]
    | cons a as ih =>
      cases y with
      | nil => simp [chars_cmp] at hxy
      | cons b bs =>
        cases z with
        | nil => simp [chars_cmp] at hyz
        | cons c cs =>
          rw [chars_cmp] at hxy hyz ⊢
          by_cases h1 : a.toNat < b.toNat
          · by_cases h2 : b.toNat < c.toNat
            · rw [if_pos (Nat.lt_trans h1 h2)]
              decide
            · by_cases h3 : c.toNat < b.toNat
              · rw [if_neg h2, if_pos h3] at hyz
                exact absurd hyz (by decide)
              · have hbc : b.toNat = c.toNat :=
                  Nat.le_antisymm (Nat.le_of_not_lt h3) (Nat.le_of_not_lt h2)
                rw [if_pos (hbc ▸ h1)]
                decide
          · by_cases h1b : b.toNat < a.toNat
            · rw [if_neg h1, if_pos h1b] at hxy
              exact absurd hxy (by decide)
            · have hab : a.toNat = b.toNat :=
                Nat.le_antisymm (Nat.le_of_not_lt h1b) (Nat.le_of_not_lt h1)
              rw [if_neg h1, if_neg h1b] at hxy
              by_cases h2 : b.toNat < c.toNat
              · rw [if_pos (hab.symm ▸ h2)]
                decide
              · by_cases h3 : c.toNat < b.toNat
                · rw [if_neg h2, if_pos h3] at hyz
                  exact absurd hyz (by decide)
                · rw [if_neg h2, if_neg h3] at hyz
                  rw [if_neg (show ¬ a.toNat < c.toNat by omega),
                    if_neg (show ¬ c.toNat < a.toNat by omega)]
                  exact ih bs cs hxy hyz

theorem str_cmp_isCmp : IsCmp str_cmp where
  eq_zero x y := by
    rw [str_cmp, chars_cmp_isCmp.eq_zero]
    constructor
    · intro h
      cases x; cases y
      exact congrArg String.mk h
    · rintro rfl; rfl
  antisymm x y := chars_cmp_isCmp.antisymm x.data y.data
  lt_trans x y z := chars_cmp_isCmp.lt_trans x.data y.data z.data

/-! ## Normal form of `compare_mi_objects` and the triple order -/

/-- The grouping key: (cycle, address mode, action). -/
def key3 (r : MicroInstruction) : Nat × String × String :=
  (r.cycle, r.address_mode, r.action)

/-- Lexicographic comparator on grouping keys. -/
def cmp3 : (Nat × String × String) → (Nat × String × String) → Int :=
  prod_cmp nat_cmp (prod_cmp str_cmp str_cmp)

theorem cmp3_isCmp : IsCmp cmp3 :=
  nat_cmp_isCmp.prod (str_cmp_isCmp.prod str_cmp_isCmp)

/-- The tail of the comparator below the grouping key. -/
def rest_cmp (a b : MicroInstruction) : Int :=
  lex_step (str_cmp a.operation b.operation) (lex_step (str_cmp a.cpu_mode b.cpu_mode)
    (lex_step (nat_cmp a.which b.which) (nat_cmp a.opcode b.opcode)))

theorem lex_step_zero (d : Int) : lex_step 0 d = d := by
  simp [lex_step]

theorem lex_step_right_zero (c : Int) : lex_step c 0 = c := by
  by_cases h : c = 0 <;> simp [lex_step, h]

theorem nat_cmp_lt {a b : Nat} (h : a < b) : nat_cmp a b = -1 := by
  simp [nat_cmp, h]

theorem nat_cmp_gt {a b : Nat} (h : b < a) : nat_cmp a b = 1 := by
  simp [nat_cmp, h, Nat.lt_asymm h]

theorem ite_nat_cmp (p q : Nat) (X : Int) :
    (if p < q then (-1 : Int) else if q < p then 1 else X) = lex_step (nat_cmp p q) X := by
  rcases Nat.lt_trichotomy p q with h | h | h
  · rw [if_pos h, nat_cmp_lt h]
    simp [lex_step]
  · subst h
    rw [if_neg (Nat.lt_irrefl p), if_neg (Nat.lt_irrefl p),
      (nat_cmp_isCmp.eq_zero p p).mpr rfl, lex_step_zero]
  · rw [if_neg (Nat.lt_asymm h), if_pos h, nat_cmp_gt h]
    simp [lex_step]

theorem compare_mi_objects_eq_chain (a b : MicroInstruction) :
    compare_mi_objects a b =
      lex_step (nat_cmp a.cycle b.cycle) (lex_step (str_cmp a.address_mode b.address_mode)
        (lex_step (str_cmp a.action b.action) (lex_step (str_cmp a.operation b.operation)
          (lex_step (str_cmp a.cpu_mode b.cpu_mode) (lex_step (nat_cmp a.which b.which)
            (nat_cmp a.opcode b.opcode)))))) := by
  unfold compare_mi_objects
  rw [ite_nat_cmp, ite_nat_cmp, ite_nat_cmp, lex_step_right_zero]
  rfl

theorem compare_mi_objects_eq_key (a b : MicroInstruction) :
    compare_mi_objects a b = lex_step (cmp3 (key3 a) (key3 b)) (rest_cmp a b) := by
  rw [compare_mi_objects_eq_chain]
  unfold cmp3 prod_cmp key3 rest_cmp
  rw [lex_step_assoc, lex_step_assoc]

theorem tripleEq_iff_key3 (a b : MicroInstruction) :
    tripleEq a b = true ↔ key3 a = key3 b := by
  simp [tripleEq, key3, Prod.ext_iff, and_assoc]

theorem mi_le_triple_le {a b : MicroInstruction} (h : mi_le a b) :
    cmp3 (key3 a) (key3 b) ≤ 0 := by
  rw [mi_le, compare_mi_objects_eq_key, lex_step] at h
  by_cases hc : cmp3 (key3 a) (key3 b) = 0
  · omega
  · rw [if_pos hc] at h
    exact h

theorem mi_le_op_le {a b : MicroInstruction} (ht : cmp3 (key3 a) (key3 b) = 0)
    (h : mi_le a b) : str_cmp a.operation b.operation ≤ 0 := by
  rw [mi_le, compare_mi_objects_eq_key, ht, lex_step, if_neg (by simp), rest_cmp,
    lex_step] at h
  by_cases hc : str_cmp a.operation b.operation = 0
  · omega
  · rw [if_pos hc] at h
    exact h

/-! ## The specification-side comparator (for claim C3)

`compare_mi_spec` is written from the specification text: "cycle
(ascending), addressing_mode, action text, operation, cpu_variant (each
lexicographic), which (ascending), opcode (ascending)", combined in
priority order; two records compare equal only when all seven keys do. -/

def nat_ord (a b : Nat) : Ordering :=
  if a < b then .lt else if b < a then .gt else .eq

/-- Lexicographic character-list order on code points. -/
def chars_lex : List Char → List Char → Ordering
  | [], [] => .eq
  | [], _ :: _ => .lt
  | _ :: _, [] => .gt
  | a :: as, b :: bs =>
    if a.toNat < b.toNat then .lt else if b.toNat < a.toNat then .gt else chars_lex as bs

def str_lex (a b : String) : Ordering := chars_lex a.data b.data

/-- The sort key mandated by the spec, in priority order. -/
def compare_mi_spec (a b : MicroInstruction) : Ordering :=
  (nat_ord a.cycle b.cycle).then ((str_lex a.address_mode b.address_mode).then
    ((str_lex a.action b.action).then ((str_lex a.operation b.operation).then
      ((str_lex a.cpu_mode b.cpu_mode).then ((nat_ord a.which b.which).then
        (nat_ord a.opcode b.opcode))))))

def int_to_ord (i : Int) : Ordering :=
  if i < 0 then .lt else if i = 0 then .eq else .gt

theorem int_to_ord_lex_step (c d : Int) :
    int_to_ord (lex_step c d) = (int_to_ord c).then (int_to_ord d) := by
  by_cases hc : c = 0
  · simp [lex_step, int_to_ord, hc, Ordering.then]
  · rcases lt_or_gt_of_ne hc with h | h
    · simp [lex_step, int_to_ord, hc, h, Ordering.then]
    · simp [lex_step, int_to_ord, hc, h, (by omega : ¬ c < 0), Ordering.then]

theorem int_to_ord_nat_cmp (a b : Nat) : int_to_ord (nat_cmp a b) = nat_ord a b := by
  rcases Nat.lt_trichotomy a b with h | h | h
  · simp [nat_cmp, nat_ord, int_to_ord, h, Nat.lt_asymm h]
  · subst h; simp [nat_cmp, nat_ord, int_to_ord]
  · simp [nat_cmp, nat_ord, int_to_ord, h, Nat.lt_asymm h]

theorem int_to_ord_chars_cmp (x y : List Char) :
    int_to_ord (chars_cmp x y) = chars_lex x y := by
  induction x generalizing y with
  | nil => cases y <;> simp [chars_cmp, chars_lex, int_to_ord]
  | cons a as ih =>
    cases y with
    | nil => simp [chars_cmp, chars_lex, int_to_ord]
    | cons b bs =>
      rw [chars_cmp, chars_lex]
      rcases Nat.lt_trichotomy a.toNat b.toNat with h | h | h
      · simp [h, int_to_ord]
      · have h1 : ¬ a.toNat < b.toNat := by omega
        have h2 : ¬ b.toNat < a.toNat := by omega
        simp [h1, h2, ih]
      · simp [h, Nat.lt_asymm h, int_to_ord]

theorem int_to_ord_str_cmp (a b : String) :
    int_to_ord (str_cmp a b) = str_lex a b :=
  int_to_ord_chars_cmp a.data b.data

/-! ## Claim C3: the sort key -/

/-- C3: the comparator `compare_mi_objects` used to sort the Store orders
any two records by cycle ascending first, then addressing mode, then action
text, then operation, then cpu variant (each lexicographically), then which
ascending, then opcode ascending (i.e. its sign agrees with the
specification's priority-ordered lexicographic key `compare_mi_spec`), and
it reports two records equal (result 0) exactly when all seven fields are
equal. -/
theorem claim_C3 : ∀ a b : MicroInstruction,
    int_to_ord (compare_mi_objects a b) = compare_mi_spec a b ∧
    (compare_mi_objects a b = 0 ↔
      a.cycle = b.cycle ∧ a.address_mode = b.address_mode ∧ a.action = b.action ∧
      a.operation = b.operation ∧ a.cpu_mode = b.cpu_mode ∧ a.which = b.which ∧
      a.opcode = b.opcode) := by
  intro a b
  constructor
  · rw [compare_mi_objects_eq_chain]
    simp only [int_to_ord_lex_step, int_to_ord_nat_cmp, int_to_ord_str_cmp]
    rfl
  · rw [compare_mi_objects_eq_chain]
    simp only [lex_step_eq_zero_iff, nat_cmp_isCmp.eq_zero, str_cmp_isCmp.eq_zero]

/-! ## Claim C5: the retention rule of `save_instruction` -/

/-- C5: finalizing the pending record copies it into the store if and only
if its operation is a real mnemonic (≠ "NONE") and its action text is
nonempty; consequently an opcode for which no action is produced before the
next opcode change, variant change or final flush contributes zero records
to the store (and the embedding has no error channel: nothing else in the
state changes, no diagnostic exists). -/
theorem claim_C5 : ∀ s : BuilderState,
    ((save_instruction s).g_actions =
      if s.g_mi.operation ≠ OP_NONE ∧ s.g_mi.action ≠ "" then s.g_actions ++ [s.g_mi]
      else s.g_actions) ∧
    (s.g_mi.action = "" →
      ∀ (op : Operation) (am : AddressMode) (mode : CpuMode) (n₁ n₂ : Nat),
        (set_opcode n₂ (set_address_mode am (set_operation op (set_opcode n₁ s)))).g_actions
          = s.g_actions ∧
        (set_mode mode (set_address_mode am (set_operation op (set_opcode n₁ s)))).g_actions
          = s.g_actions ∧
        (flush_instruction (set_address_mode am (set_operation op (set_opcode n₁ s)))).g_actions
          = s.g_actions) := by
  intro s
  constructor
  · unfold save_instruction
    split_ifs <;> rfl
  · intro h op am mode n₁ n₂
    refine ⟨?_, ?_, ?_⟩ <;>
      simp [set_opcode, set_address_mode, set_operation, set_mode, flush_mode,
        flush_instruction, save_instruction, h]

/-- Witness for C5 at a concrete builder state (pending CLC record with no
action yet). -/
theorem claim_C5_witness :
    (save_instruction ⟨⟨MODE_6502, 0x18, OP_CLC, IMP_i, 0, 0, ""⟩, []⟩).g_actions =
        (if (⟨⟨MODE_6502, 0x18, OP_CLC, IMP_i, 0, 0, ""⟩, []⟩ : BuilderState).g_mi.operation ≠ OP_NONE ∧
            (⟨⟨MODE_6502, 0x18, OP_CLC, IMP_i, 0, 0, ""⟩, []⟩ : BuilderState).g_mi.action ≠ ""
         then (⟨⟨MODE_6502, 0x18, OP_CLC, IMP_i, 0, 0, ""⟩, []⟩ : BuilderState).g_actions ++
              [(⟨⟨MODE_6502, 0x18, OP_CLC, IMP_i, 0, 0, ""⟩, []⟩ : BuilderState).g_mi]
         else (⟨⟨MODE_6502, 0x18, OP_CLC, IMP_i, 0, 0, ""⟩, []⟩ : BuilderState).g_actions) ∧
      (set_opcode 0x19 (set_address_mode ZPG_zp (set_operation OP_ORA
          (set_opcode 0x18 (⟨⟨MODE_6502, 0x18, OP_CLC, IMP_i, 0, 0, ""⟩, []⟩ : BuilderState))))).g_actions = [] := by
  refine ⟨(claim_C5 _).1, ?_⟩
  exact ((claim_C5 _).2 rfl OP_ORA ZPG_zp MODE_6502 0x18 0x19).1

/-! ## Claim C10: `part` does not validate its bit range -/

/-- Counterexample to C10 as stated: a call with lowest (5) greater than
highest (2) is not rejected at the point of the call; it produces the
malformed field-extraction text "`A[2:5]". -/
theorem claim_C10_counterexample :
    2 < 5 ∧ part A 2 5 = "`A[2:5]" ∧ part A 2 5 ≠ "" := by
  refine ⟨by decide, by decide, by decide⟩

/-- C10 (amended): `part` applies no validation at all — for any register
text and any in-range bit numbers with lowest > highest it still returns
the (malformed) formatted text `reg[highest:lowest]`, which in particular
is nonempty, rather than failing fast. -/
theorem claim_C10 : ∀ (reg : Register) (highest lowest : Nat),
    highest < 256 → lowest < 256 → highest < lowest →
    part reg highest lowest =
        reg ++ "[" ++ Nat.repr highest ++ ":" ++ Nat.repr lowest ++ "]" ∧
    part reg highest lowest ≠ "" := by
  intro reg highest lowest h1 h2 _
  constructor
  · rw [part, Nat.mod_eq_of_lt h1, Nat.mod_eq_of_lt h2]
  · rw [part]
    intro hcontra
    have : (reg ++ "[" ++ Nat.repr (highest % 256) ++ ":" ++ Nat.repr (lowest % 256) ++ "]").data.length
        = (0 : Nat) := by rw [hcontra]; rfl
    simp [String.data_append] at this

/-- Witness for C10 at `part X 3 7`. -/
theorem claim_C10_witness :
    part X 3 7 = X ++ "[" ++ Nat.repr 3 ++ ":" ++ Nat.repr 7 ++ "]" ∧ part X 3 7 ≠ "" :=
  claim_C10 X 3 7 (by decide) (by decide) (by decide)

/-! ## Claim C8: the auto-increment bus primitives lose the increment -/

/-- A builder state in the middle of describing an opcode (operation LDA,
pending cycle 2, no pending action). -/
def s_C8 : BuilderState := ⟨⟨MODE_6502, 0xAD, OP_LDA, ABS_a, 0, 2, ""⟩, []⟩

/-- C8, evaluated at the failing input: `read_byte_with_inc`/
`write_byte_with_inc` do finalize exactly one record at the current pending
cycle and advance the cycle by one, but the captured action text is the bare
bus transfer — the `inc(address)` text is overwritten before the flush, so
no `+`/increment appears anywhere in the captured action, contradicting the
claim that the action both transfers and increments the address register. -/
theorem claim_C8_divergence :
    (read_byte_with_inc ADDR RB s_C8).g_actions =
      [⟨MODE_6502, 0xAD, OP_LDA, ABS_a, 0, 2, "`READ_BYTE(`ADDR,`RB);"⟩] ∧
    (read_byte_with_inc ADDR RB s_C8).g_mi.cycle = 3 ∧
    ((read_byte_with_inc ADDR RB s_C8).g_actions.all
      (fun r => r.action.data.all (fun ch => ch != '+'))) = true ∧
    (write_byte_with_inc ADDR RB s_C8).g_actions =
      [⟨MODE_6502, 0xAD, OP_LDA, ABS_a, 0, 2, "`WRITE_BYTE(`ADDR,`RB);"⟩] ∧
    (write_byte_with_inc ADDR RB s_C8).g_mi.cycle = 3 ∧
    ((write_byte_with_inc ADDR RB s_C8).g_actions.all
      (fun r => r.action.data.all (fun ch => ch != '+'))) = true := by
  decide

/-! ## Claim C9: stale `which` values -/

/-- The per-bit operation family. -/
def per_bit_ops : List Operation := [OP_BBR, OP_BBS, OP_RMB, OP_SMB]

/-- C9, evaluated at the failing input: `flush_instruction` resets only
`operation` and `cycle`, never `which`, so the stale `which = 7` left by the
SMB block leaks into the DEY record of opcode 0x88 (MODE_6502), and the
store as a whole violates "non-per-bit records have which = 0". -/
theorem claim_C9_divergence :
    ((the_store.filter (fun r => r.cpu_mode == MODE_6502 && r.opcode == 0x88)).map
        (fun r => (r.operation, r.which))) = [(OP_DEY, 7)] ∧
    (the_store.all (fun r => per_bit_ops.contains r.operation || (r.which == 0))) = false := by
  rw [the_store_eq]
  decide

/-! ## Claim C4: cycle numbering within one opcode -/

/-- The cycle values, in capture order, of the records a given
(variant, opcode) pair contributed to a store. -/
def cycles_of (l : List MicroInstruction) (mode : CpuMode) (opc : Nat) : List Nat :=
  (l.filter (fun r => r.cpu_mode == mode && r.opcode == opc)).map (fun r => r.cycle)

/-- Adjacent cycle steps are 0 or +1. -/
def steps_ok : Nat → List Nat → Bool
  | _, [] => true
  | prev, c :: rest => (c == prev || c == prev + 1) && steps_ok c rest

/-- A per-opcode cycle list is "gapless": starts at 0; every subsequent
value repeats the previous one or exceeds it by exactly 1. -/
def gapless (l : List Nat) : Bool :=
  match l with
  | [] => true
  | c :: rest => c == 0 && steps_ok c rest

/-- Counterexample to C4 as stated: the records captured for opcode 0x00
(BRK, MODE_6502) have cycle values [0, 0, 0, 0, 1, 2] — four records share
cycle 0 because assignments and flag updates do not advance the cycle — so
the per-opcode cycle values are not the duplicate-free sequence
0, 1, ..., k-1. -/
theorem claim_C4_counterexample :
    cycles_of the_store MODE_6502 0x00 = [0, 0, 0, 0, 1, 2] ∧
    cycles_of the_store MODE_6502 0x00 ≠
      List.range (cycles_of the_store MODE_6502 0x00).length := by
  rw [cycles_of, the_store_eq]
  decide

/-- C4 (amended): for every (variant, opcode) pair present in the store,
the captured cycle values, in capture order, start at 0 and each subsequent
record's cycle either repeats the previous record's cycle (actions that do
not end a bus cycle) or is exactly one greater (bus-cycle flushes); in
particular the set of cycle values of each opcode is a gapless
{0, ..., k-1}. -/
theorem claim_C4 :
    ((the_store.map (fun r => (r.cpu_mode, r.opcode))).dedup.all
      (fun p => gapless (cycles_of the_store p.1 p.2))) = true := by
  rw [the_store_eq]
  decide

/-! ## Claim C1: total consumption and the block count

First the flatten lemmas: at every loop level, the entries of the emitted
blocks concatenate (in order) with the unconsumed remainder to give back the
input list. -/

theorem gen_code_for_action_flatten (mi : MicroInstruction) (rest : List MicroInstruction) :
    ((gen_code_for_action (mi :: rest)).1.entries.map Prod.fst)
      ++ (gen_code_for_action (mi :: rest)).2 = mi :: rest :=
  gen_action_loop_flatten mi none (mi :: rest)

theorem gen_am_loop_flatten (first : MicroInstruction) (l : List MicroInstruction) :
    ((gen_am_loop first l).1.map (fun b => b.entries.map Prod.fst)).flatten
      ++ (gen_am_loop first l).2 = l := by
  match l with
  | [] => simp [gen_am_loop]
  | mi :: rest =>
    rw [gen_am_loop]
    by_cases hcond : (mi.cycle == first.cycle && mi.address_mode == first.address_mode) = true
    · have ih := gen_am_loop_flatten first (gen_code_for_action (mi :: rest)).2
      have h1 := gen_code_for_action_flatten mi rest
      simp only [hcond, if_true, List.map_cons, List.flatten_cons, List.append_assoc]
      rw [ih]
      exact h1
    · simp [hcond]
termination_by l.length
decreasing_by
  exact gen_code_for_action_rem_length _ _

theorem gen_cycle_loop_flatten (first : MicroInstruction) (l : List MicroInstruction) :
    ((gen_cycle_loop first l).1.map (fun b => b.entries.map Prod.fst)).flatten
      ++ (gen_cycle_loop first l).2 = l := by
  match l with
  | [] => simp [gen_cycle_loop]
  | mi :: rest =>
    rw [gen_cycle_loop]
    by_cases hcond : (mi.cycle == first.cycle) = true
    · have ih := gen_cycle_loop_flatten first (gen_code_for_address_mode (mi :: rest)).2
      have h1 : ((gen_code_for_address_mode (mi :: rest)).1.map
            (fun b => b.entries.map Prod.fst)).flatten
          ++ (gen_code_for_address_mode (mi :: rest)).2 = mi :: rest :=
        gen_am_loop_flatten mi (mi :: rest)
      simp only [hcond, if_true, List.map_append, List.flatten_append, List.append_assoc]
      rw [ih]
      exact h1
    · simp [hcond]
termination_by l.length
decreasing_by
  exact gen_code_for_address_mode_rem_length _ _

theorem main_emit_loop_flatten (l : List MicroInstruction) :
    ((main_emit_loop l).map (fun b => b.entries.map Prod.fst)).flatten = l := by
  match l with
  | [] => simp [main_emit_loop]
  | mi :: rest =>
    rw [main_emit_loop]
    have ih := main_emit_loop_flatten (gen_code_for_cycle (mi :: rest)).2
    have h1 : ((gen_code_for_cycle (mi :: rest)).1.map
          (fun b => b.entries.map Prod.fst)).flatten
        ++ (gen_code_for_cycle (mi :: rest)).2 = mi :: rest :=
      gen_cycle_loop_flatten mi (mi :: rest)
    simp only [List.map_append, List.flatten_append]
    rw [ih]
    exact h1
termination_by l.length
decreasing_by
  exact gen_code_for_cycle_rem_length _ _

/-! Equivalence of the nested emission loops with the flat chunk
decomposition: the nested conditions only decide when control returns to an
outer loop, which immediately re-dispatches, so the emitted guarded blocks
are exactly one `gen_code_for_action` run after another. -/

theorem emit_chunks_eq_am (first : MicroInstruction) (l : List MicroInstruction) :
    emit_chunks l = (gen_am_loop first l).1 ++ emit_chunks (gen_am_loop first l).2 := by
  match l with
  | [] => simp [gen_am_loop, emit_chunks]
  | mi :: rest =>
    rw [gen_am_loop]
    by_cases hcond : (mi.cycle == first.cycle && mi.address_mode == first.address_mode) = true
    · have ih := emit_chunks_eq_am first (gen_code_for_action (mi :: rest)).2
      simp only [hcond, if_true]
      rw [emit_chunks]
      rw [ih]
      simp
    · simp [hcond]
termination_by l.length
decreasing_by
  exact gen_code_for_action_rem_length _ _

theorem emit_chunks_eq_cycle (first : MicroInstruction) (l : List MicroInstruction) :
    emit_chunks l = (gen_cycle_loop first l).1 ++ emit_chunks (gen_cycle_loop first l).2 := by
  match l with
  | [] => simp [gen_cycle_loop, emit_chunks]
  | mi :: rest =>
    rw [gen_cycle_loop]
    by_cases hcond : (mi.cycle == first.cycle) = true
    · have ih := emit_chunks_eq_cycle first (gen_code_for_address_mode (mi :: rest)).2
      have h1 : emit_chunks (mi :: rest) =
          (gen_code_for_address_mode (mi :: rest)).1
            ++ emit_chunks ((gen_code_for_address_mode (mi :: rest)).2) :=
        emit_chunks_eq_am mi (mi :: rest)
      simp only [hcond, if_true]
      rw [h1, ih]
      simp
    · simp [hcond]
termination_by l.length
decreasing_by
  exact gen_code_for_address_mode_rem_length _ _

theorem main_emit_eq_chunks (l : List MicroInstruction) :
    main_emit_loop l = emit_chunks l := by
  match l with
  | [] => simp [main_emit_loop, emit_chunks]
  | mi :: rest =>
    rw [main_emit_loop]
    have ih := main_emit_eq_chunks (gen_code_for_cycle (mi :: rest)).2
    rw [ih]
    exact (emit_chunks_eq_cycle mi (mi :: rest)).symm
termination_by l.length
decreasing_by
  exact gen_code_for_cycle_rem_length _ _

theorem chunks_fuel_eq (fuel : Nat) (l : List MicroInstruction) (h : l.length ≤ fuel) :
    chunks_fuel fuel l = emit_chunks l := by
  induction fuel generalizing l with
  | zero =>
    have : l = [] := List.length_eq_zero.mp (Nat.le_zero.mp h)
    subst this
    simp [chunks_fuel, emit_chunks]
  | succ fuel ih =>
    match l with
    | [] => simp [chunks_fuel, emit_chunks]
    | mi :: rest =>
      rw [emit_chunks, chunks_fuel]
      have hrem := gen_code_for_action_rem_length mi rest
      split
      case _ blk rem heq =>
        rw [heq] at hrem
        rw [ih rem (by simp at hrem h ⊢; omega), heq]

/-- C1: the emission pass consumes every micro-instruction of its input in
exactly one emitted guarded block (the entries of the emitted blocks,
concatenated in emission order, are exactly the input list — proved for
every input list, hence for the sorted store the program emits), and on the
program's own store the number of emitted action bodies (one per guarded
block) equals the number of distinct (cycle, addressing mode, action)
triples present in the store, which differs from the number of
(variant, opcode) entries.  The sorted store used is a permutation of the
built store, ordered by the comparator. -/
theorem claim_C1 :
    (∀ l : List MicroInstruction,
      ((main_emit_loop l).map (fun b => b.entries.map Prod.fst)).flatten = l) ∧
    List.Pairwise mi_le sorted_store ∧
    sorted_store.Perm the_store ∧
    (main_emit_loop sorted_store).length = ((the_store.map key3).dedup).length ∧
    (main_emit_loop sorted_store).length ≠
      ((the_store.map (fun r => (r.cpu_mode, r.opcode))).dedup).length := by
  refine ⟨main_emit_loop_flatten, ?_, ?_, ?_, ?_⟩
  · rw [sorted_store_eq]
    decide
  · rw [sorted_store_eq, the_store_eq]
    decide
  · rw [main_emit_eq_chunks, sorted_store_eq,
      ← chunks_fuel_eq 52 sorted_store_literal (by decide), the_store_eq]
    decide
  · rw [main_emit_eq_chunks, sorted_store_eq,
      ← chunks_fuel_eq 52 sorted_store_literal (by decide), the_store_eq]
    decide

/-! ## Claims C6/C7: the composite multi-byte primitives

`is_bus_action` detects a single-byte bus access in an action text (the
generated `READ_BYTE`/`WRITE_BYTE` macro invocations).  The `*_run` lemmas
below symbolically execute one builder step each; the per-primitive run
lemmas chain them. -/

def substr_b (needle hay : List Char) : Bool :=
  hay.tails.any (fun t => needle.isPrefixOf t)

/-- An action text performs a single-byte bus access iff it contains a
`READ_BYTE` or `WRITE_BYTE` macro invocation. -/
def is_bus_action (a : String) : Bool :=
  substr_b "`READ_BYTE(".data a.data || substr_b "`WRITE_BYTE(".data a.data

theorem append_ne_empty_right (a b : String) (hb : b ≠ "") : a ++ b ≠ "" := by
  intro h
  apply hb
  have hd := congrArg String.data h
  rw [String.data_append] at hd
  have hb2 : b.data = [] := (List.append_eq_nil.mp hd).2
  cases b
  exact congrArg String.mk hb2

theorem assign_text_ne (reg val : String) :
    (reg ++ " <= " ++ val ++ ";" ≠ "") = True :=
  eq_true (append_ne_empty_right _ _ (by decide))

theorem push_text_ne (val : String) :
    ("tmp_SP = SP - 1;" ++ " " ++ get_write_byte_action "tmp_SP" val
      ++ " SP <= tmp_SP;" ≠ "") = True :=
  eq_true (append_ne_empty_right _ _ (by decide))

theorem pop_text_ne (dst : String) :
    (get_read_byte_action SP dst ++ " SP <= SP + 1;" ≠ "") = True :=
  eq_true (append_ne_empty_right _ _ (by decide))

theorem load_text_ne (dst : String) :
    (get_read_byte_action EPC dst ++ " EPC <= EPC + 1;" ≠ "") = True :=
  eq_true (append_ne_empty_right _ _ (by decide))

theorem write_text_ne (address src : String) :
    (get_write_byte_action address src ≠ "") = True := by
  rw [get_write_byte_action]
  exact eq_true (append_ne_empty_right _ _ (by decide))

theorem save_instruction_run (cm : CpuMode) (opc : Nat) (opn : Operation)
    (am : AddressMode) (wh cyc : Nat) (acts : List MicroInstruction) :
    save_instruction ⟨⟨cm, opc, opn, am, wh, cyc, ""⟩, acts⟩ =
      ⟨⟨cm, opc, opn, am, wh, cyc, ""⟩, acts⟩ := by
  simp [save_instruction]

theorem assign_s_run (reg val : String) (cm : CpuMode) (opc : Nat) (opn : Operation)
    (am : AddressMode) (wh cyc : Nat) (acts : List MicroInstruction) :
    assign_s reg val ⟨⟨cm, opc, opn, am, wh, cyc, ""⟩, acts⟩ =
      ⟨⟨cm, opc, opn, am, wh, cyc, reg ++ " <= " ++ val ++ ";"⟩, acts⟩ := by
  rw [assign_s, save_instruction_run]

theorem push_byte_run (val : String) (cm : CpuMode) (opc : Nat) (opn : Operation)
    (am : AddressMode) (wh cyc : Nat) (act : String) (acts : List MicroInstruction)
    (hop : opn ≠ OP_NONE) (hact : act ≠ "") :
    push_byte val ⟨⟨cm, opc, opn, am, wh, cyc, act⟩, acts⟩ =
      ⟨⟨cm, opc, opn, am, wh, (cyc + 1) % 256, ""⟩,
       acts ++ [⟨cm, opc, opn, am, wh, cyc, act⟩,
                ⟨cm, opc, opn, am, wh, cyc,
                 "tmp_SP = SP - 1;" ++ " " ++ get_write_byte_action "tmp_SP" val
                   ++ " SP <= tmp_SP;"⟩]⟩ := by
  simp [push_byte, save_instruction, flush_cycle, hop, hact,
    append_ne_empty_right _ _ (by decide : (" SP <= tmp_SP;" : String) ≠ "")]

theorem push_byte_run_empty (val : String) (cm : CpuMode) (opc : Nat) (opn : Operation)
    (am : AddressMode) (wh cyc : Nat) (acts : List MicroInstruction)
    (hop : opn ≠ OP_NONE) :
    push_byte val ⟨⟨cm, opc, opn, am, wh, cyc, ""⟩, acts⟩ =
      ⟨⟨cm, opc, opn, am, wh, (cyc + 1) % 256, ""⟩,
       acts ++ [⟨cm, opc, opn, am, wh, cyc,
                 "tmp_SP = SP - 1;" ++ " " ++ get_write_byte_action "tmp_SP" val
                   ++ " SP <= tmp_SP;"⟩]⟩ := by
  simp [push_byte, save_instruction, flush_cycle, hop,
    append_ne_empty_right _ _ (by decide : (" SP <= tmp_SP;" : String) ≠ "")]

theorem pop_byte_run (dst : String) (cm : CpuMode) (opc : Nat) (opn : Operation)
    (am : AddressMode) (wh cyc : Nat) (act : String) (acts : List MicroInstruction)
    (hop : opn ≠ OP_NONE) (hact : act ≠ "") :
    pop_byte dst ⟨⟨cm, opc, opn, am, wh, cyc, act⟩, acts⟩ =
      ⟨⟨cm, opc, opn, am, wh, (cyc + 1) % 256, ""⟩,
       acts ++ [⟨cm, opc, opn, am, wh, cyc, act⟩,
                ⟨cm, opc, opn, am, wh, cyc,
                 get_read_byte_action SP dst ++ " SP <= SP + 1;"⟩]⟩ := by
  simp [pop_byte, save_instruction, flush_cycle, hop, hact,
    append_ne_empty_right _ _ (by decide : (" SP <= SP + 1;" : String) ≠ "")]

theorem pop_byte_run_empty (dst : String) (cm : CpuMode) (opc : Nat) (opn : Operation)
    (am : AddressMode) (wh cyc : Nat) (acts : List MicroInstruction)
    (hop : opn ≠ OP_NONE) :
    pop_byte dst ⟨⟨cm, opc, opn, am, wh, cyc, ""⟩, acts⟩ =
      ⟨⟨cm, opc, opn, am, wh, (cyc + 1) % 256, ""⟩,
       acts ++ [⟨cm, opc, opn, am, wh, cyc,
                 get_read_byte_action SP dst ++ " SP <= SP + 1;"⟩]⟩ := by
  simp [pop_byte, save_instruction, flush_cycle, hop,
    append_ne_empty_right _ _ (by decide : (" SP <= SP + 1;" : String) ≠ "")]

theorem load_byte_run (dst : String) (cm : CpuMode) (opc : Nat) (opn : Operation)
    (am : AddressMode) (wh cyc : Nat) (act : String) (acts : List MicroInstruction)
    (hop : opn ≠ OP_NONE) (hact : act ≠ "") :
    load_byte dst ⟨⟨cm, opc, opn, am, wh, cyc, act⟩, acts⟩ =
      ⟨⟨cm, opc, opn, am, wh, (cyc + 1) % 256, ""⟩,
       acts ++ [⟨cm, opc, opn, am, wh, cyc, act⟩,
                ⟨cm, opc, opn, am, wh, cyc,
                 get_read_byte_action EPC dst ++ " EPC <= EPC + 1;"⟩]⟩ := by
  simp [load_byte, save_instruction, flush_cycle, hop, hact,
    append_ne_empty_right _ _ (by decide : (" EPC <= EPC + 1;" : String) ≠ "")]

theorem load_byte_run_empty (dst : String) (cm : CpuMode) (opc : Nat) (opn : Operation)
    (am : AddressMode) (wh cyc : Nat) (acts : List MicroInstruction)
    (hop : opn ≠ OP_NONE) :
    load_byte dst ⟨⟨cm, opc, opn, am, wh, cyc, ""⟩, acts⟩ =
      ⟨⟨cm, opc, opn, am, wh, (cyc + 1) % 256, ""⟩,
       acts ++ [⟨cm, opc, opn, am, wh, cyc,
                 get_read_byte_action EPC dst ++ " EPC <= EPC + 1;"⟩]⟩ := by
  simp [load_byte, save_instruction, flush_cycle, hop,
    append_ne_empty_right _ _ (by decide : (" EPC <= EPC + 1;" : String) ≠ "")]

theorem write_byte_run_empty (address : Register) (src : String) (cm : CpuMode)
    (opc : Nat) (opn : Operation) (am : AddressMode) (wh cyc : Nat)
    (acts : List MicroInstruction) (hop : opn ≠ OP_NONE) :
    write_byte address src ⟨⟨cm, opc, opn, am, wh, cyc, ""⟩, acts⟩ =
      ⟨⟨cm, opc, opn, am, wh, (cyc + 1) % 256, ""⟩,
       acts ++ [⟨cm, opc, opn, am, wh, cyc, get_write_byte_action address src⟩]⟩ := by
  simp [write_byte, save_instruction, flush_cycle, hop, write_text_ne]

theorem write_byte_with_inc_run (address : Register) (src : String) (cm : CpuMode)
    (opc : Nat) (opn : Operation) (am : AddressMode) (wh cyc : Nat) (act : String)
    (acts : List MicroInstruction) (hop : opn ≠ OP_NONE) (hact : act ≠ "") :
    write_byte_with_inc address src ⟨⟨cm, opc, opn, am, wh, cyc, act⟩, acts⟩ =
      ⟨⟨cm, opc, opn, am, wh, (cyc + 1) % 256, ""⟩,
       acts ++ [⟨cm, opc, opn, am, wh, cyc, act⟩,
                ⟨cm, opc, opn, am, wh, cyc, get_write_byte_action address src⟩]⟩ := by
  simp [write_byte_with_inc, inc, add, update_n, save_instruction, flush_cycle, hop,
    hact, write_text_ne]

theorem write_byte_with_inc_run_empty (address : Register) (src : String) (cm : CpuMode)
    (opc : Nat) (opn : Operation) (am : AddressMode) (wh cyc : Nat)
    (acts : List MicroInstruction) (hop : opn ≠ OP_NONE) :
    write_byte_with_inc address src ⟨⟨cm, opc, opn, am, wh, cyc, ""⟩, acts⟩ =
      ⟨⟨cm, opc, opn, am, wh, (cyc + 1) % 256, ""⟩,
       acts ++ [⟨cm, opc, opn, am, wh, cyc, get_write_byte_action address src⟩]⟩ := by
  simp [write_byte_with_inc, inc, add, update_n, save_instruction, flush_cycle, hop,
    write_text_ne]

/-- The records captured by one `push_half_word` call, starting at pending cycle
`cyc`. -/
def push_half_word_records (cm : CpuMode) (opc : Nat) (opn : Operation) (am : AddressMode)
    (wh cyc : Nat) : List MicroInstruction :=
  [⟨cm, opc, opn, am, wh, cyc, part WQW 7 0 ++ " <= " ++ part PC 7 0 ++ ";"⟩,
   ⟨cm, opc, opn, am, wh, cyc, "tmp_SP = SP - 1;" ++ " " ++ get_write_byte_action "tmp_SP" (part PC 15 8) ++ " SP <= tmp_SP;"⟩,
   ⟨cm, opc, opn, am, wh, cyc + 1, "tmp_SP = SP - 1;" ++ " " ++ get_write_byte_action "tmp_SP" (part WQW 7 0) ++ " SP <= tmp_SP;"⟩]

theorem push_half_word_run (cm : CpuMode) (opc : Nat) (opn : Operation) (am : AddressMode)
    (wh cyc : Nat) (acts : List MicroInstruction)
    (hop : opn ≠ OP_NONE) (hcyc : cyc ≤ 239) :
    push_half_word PC ⟨⟨cm, opc, opn, am, wh, cyc, ""⟩, acts⟩ =
      ⟨⟨cm, opc, opn, am, wh, cyc + 2, ""⟩,
       acts ++ push_half_word_records cm opc opn am wh cyc⟩ := by
  have e1 : (cyc + 1) % 256 = cyc + 1 := by omega
  have e2 : (cyc + 1 + 1) % 256 = cyc + 2 := by omega
  simp only [push_half_word, push_half_word_records, save_instruction_run, assign_s_run, push_byte_run,
    push_byte_run_empty, pop_byte_run, pop_byte_run_empty, load_byte_run,
    load_byte_run_empty, write_byte_run_empty, write_byte_with_inc_run,
    write_byte_with_inc_run_empty, eq_true hop, assign_text_ne, push_text_ne,
    pop_text_ne, load_text_ne, write_text_ne, ne_eq, not_false_eq_true,
    e1, e2,
    List.append_assoc, List.cons_append, List.nil_append, List.singleton_append]

/-- The records captured by one `push_word` call, starting at pending cycle
`cyc`. -/
def push_word_records (cm : CpuMode) (opc : Nat) (opn : Operation) (am : AddressMode)
    (wh cyc : Nat) : List MicroInstruction :=
  [⟨cm, opc, opn, am, wh, cyc, part WQW 23 0 ++ " <= " ++ part PC 23 0 ++ ";"⟩,
   ⟨cm, opc, opn, am, wh, cyc, "tmp_SP = SP - 1;" ++ " " ++ get_write_byte_action "tmp_SP" (part PC 31 24) ++ " SP <= tmp_SP;"⟩,
   ⟨cm, opc, opn, am, wh, cyc + 1, "tmp_SP = SP - 1;" ++ " " ++ get_write_byte_action "tmp_SP" (part WQW 23 16) ++ " SP <= tmp_SP;"⟩,
   ⟨cm, opc, opn, am, wh, cyc + 2, "tmp_SP = SP - 1;" ++ " " ++ get_write_byte_action "tmp_SP" (part WQW 15 8) ++ " SP <= tmp_SP;"⟩,
   ⟨cm, opc, opn, am, wh, cyc + 3, "tmp_SP = SP - 1;" ++ " " ++ get_write_byte_action "tmp_SP" (part WQW 7 0) ++ " SP <= tmp_SP;"⟩]

theorem push_word_run (cm : CpuMode) (opc : Nat) (opn : Operation) (am : AddressMode)
    (wh cyc : Nat) (acts : List MicroInstruction)
    (hop : opn ≠ OP_NONE) (hcyc : cyc ≤ 239) :
    push_word PC ⟨⟨cm, opc, opn, am, wh, cyc, ""⟩, acts⟩ =
      ⟨⟨cm, opc, opn, am, wh, cyc + 4, ""⟩,
       acts ++ push_word_records cm opc opn am wh cyc⟩ := by
  have e1 : (cyc + 1) % 256 = cyc + 1 := by omega
  have e2 : (cyc + 1 + 1) % 256 = cyc + 2 := by omega
  have e3 : (cyc + 2 + 1) % 256 = cyc + 3 := by omega
  have e4 : (cyc + 3 + 1) % 256 = cyc + 4 := by omega
  simp only [push_word, push_word_records, save_instruction_run, assign_s_run, push_byte_run,
    push_byte_run_empty, pop_byte_run, pop_byte_run_empty, load_byte_run,
    load_byte_run_empty, write_byte_run_empty, write_byte_with_inc_run,
    write_byte_with_inc_run_empty, eq_true hop, assign_text_ne, push_text_ne,
    pop_text_ne, load_text_ne, write_text_ne, ne_eq, not_false_eq_true,
    e1, e2, e3, e4,
    List.append_assoc, List.cons_append, List.nil_append, List.singleton_append]

/-- The records captured by one `push_double_word` call, starting at pending cycle
`cyc`. -/
def push_double_word_records (cm : CpuMode) (opc : Nat) (opn : Operation) (am : AddressMode)
    (wh cyc : Nat) : List MicroInstruction :=
  [⟨cm, opc, opn, am, wh, cyc, part WQW 55 0 ++ " <= " ++ part PC 55 0 ++ ";"⟩,
   ⟨cm, opc, opn, am, wh, cyc, "tmp_SP = SP - 1;" ++ " " ++ get_write_byte_action "tmp_SP" (part PC 63 56) ++ " SP <= tmp_SP;"⟩,
   ⟨cm, opc, opn, am, wh, cyc + 1, "tmp_SP = SP - 1;" ++ " " ++ get_write_byte_action "tmp_SP" (part WQW 55 48) ++ " SP <= tmp_SP;"⟩,
   ⟨cm, opc, opn, am, wh, cyc + 2, "tmp_SP = SP - 1;" ++ " " ++ get_write_byte_action "tmp_SP" (part WQW 47 40) ++ " SP <= tmp_SP;"⟩,
   ⟨cm, opc, opn, am, wh, cyc + 3, "tmp_SP = SP - 1;" ++ " " ++ get_write_byte_action "tmp_SP" (part WQW 39 32) ++ " SP <= tmp_SP;"⟩,
   ⟨cm, opc, opn, am, wh, cyc + 4, "tmp_SP = SP - 1;" ++ " " ++ get_write_byte_action "tmp_SP" (part WQW 31 24) ++ " SP <= tmp_SP;"⟩,
   ⟨cm, opc, opn, am, wh, cyc + 5, "tmp_SP = SP - 1;" ++ " " ++ get_write_byte_action "tmp_SP" (part WQW 23 16) ++ " SP <= tmp_SP;"⟩,
   ⟨cm, opc, opn, am, wh, cyc + 6, "tmp_SP = SP - 1;" ++ " " ++ get_write_byte_action "tmp_SP" (part WQW 15 8) ++ " SP <= tmp_SP;"⟩,
   ⟨cm, opc, opn, am, wh, cyc + 7, "tmp_SP = SP - 1;" ++ " " ++ get_write_byte_action "tmp_SP" (part WQW 7 0) ++ " SP <= tmp_SP;"⟩]

theorem push_double_word_run (cm : CpuMode) (opc : Nat) (opn : Operation) (am : AddressMode)
    (wh cyc : Nat) (acts : List MicroInstruction)
    (hop : opn ≠ OP_NONE) (hcyc : cyc ≤ 239) :
    push_double_word PC ⟨⟨cm, opc, opn, am, wh, cyc, ""⟩, acts⟩ =
      ⟨⟨cm, opc, opn, am, wh, cyc + 8, ""⟩,
       acts ++ push_double_word_records cm opc opn am wh cyc⟩ := by
  have e1 : (cyc + 1) % 256 = cyc + 1 := by omega
  have e2 : (cyc + 1 + 1) % 256 = cyc + 2 := by omega
  have e3 : (cyc + 2 + 1) % 256 = cyc + 3 := by omega
  have e4 : (cyc + 3 + 1) % 256 = cyc + 4 := by omega
  have e5 : (cyc + 4 + 1) % 256 = cyc + 5 := by omega
  have e6 : (cyc + 5 + 1) % 256 = cyc + 6 := by omega
  have e7 : (cyc + 6 + 1) % 256 = cyc + 7 := by omega
  have e8 : (cyc + 7 + 1) % 256 = cyc + 8 := by omega
  simp only [push_double_word, push_double_word_records, save_instruction_run, assign_s_run, push_byte_run,
    push_byte_run_empty, pop_byte_run, pop_byte_run_empty, load_byte_run,
    load_byte_run_empty, write_byte_run_empty, write_byte_with_inc_run,
    write_byte_with_inc_run_empty, eq_true hop, assign_text_ne, push_text_ne,
    pop_text_ne, load_text_ne, write_text_ne, ne_eq, not_false_eq_true,
    e1, e2, e3, e4, e5, e6, e7, e8,
    List.append_assoc, List.cons_append, List.nil_append, List.singleton_append]

/-- The records captured by one `push_quad_word` call, starting at pending cycle
`cyc`. -/
def push_quad_word_records (cm : CpuMode) (opc : Nat) (opn : Operation) (am : AddressMode)
    (wh cyc : Nat) : List MicroInstruction :=
  [⟨cm, opc, opn, am, wh, cyc, part WQW 119 0 ++ " <= " ++ part PC 119 0 ++ ";"⟩,
   ⟨cm, opc, opn, am, wh, cyc, "tmp_SP = SP - 1;" ++ " " ++ get_write_byte_action "tmp_SP" (part PC 127 120) ++ " SP <= tmp_SP;"⟩,
   ⟨cm, opc, opn, am, wh, cyc + 1, "tmp_SP = SP - 1;" ++ " " ++ get_write_byte_action "tmp_SP" (part WQW 119 112) ++ " SP <= tmp_SP;"⟩,
   ⟨cm, opc, opn, am, wh, cyc + 2, "tmp_SP = SP - 1;" ++ " " ++ get_write_byte_action "tmp_SP" (part WQW 111 104) ++ " SP <= tmp_SP;"⟩,
   ⟨cm, opc, opn, am, wh, cyc + 3, "tmp_SP = SP - 1;" ++ " " ++ get_write_byte_action "tmp_SP" (part WQW 103 96) ++ " SP <= tmp_SP;"⟩,
   ⟨cm, opc, opn, am, wh, cyc + 4, "tmp_SP = SP - 1;" ++ " " ++ get_write_byte_action "tmp_SP" (part WQW 95 88) ++ " SP <= tmp_SP;"⟩,
   ⟨cm, opc, opn, am, wh, cyc + 5, "tmp_SP = SP - 1;" ++ " " ++ get_write_byte_action "tmp_SP" (part WQW 87 80) ++ " SP <= tmp_SP;"⟩,
   ⟨cm, opc, opn, am, wh, cyc + 6, "tmp_SP = SP - 1;" ++ " " ++ get_write_byte_action "tmp_SP" (part WQW 79 72) ++ " SP <= tmp_SP;"⟩,
   ⟨cm, opc, opn, am, wh, cyc + 7, "tmp_SP = SP - 1;" ++ " " ++ get_write_byte_action "tmp_SP" (part WQW 71 64) ++ " SP <= tmp_SP;"⟩,
   ⟨cm, opc, opn, am, wh, cyc + 8, "tmp_SP = SP - 1;" ++ " " ++ get_write_byte_action "tmp_SP" (part WQW 63 56) ++ " SP <= tmp_SP;"⟩,
   ⟨cm, opc, opn, am, wh, cyc + 9, "tmp_SP = SP - 1;" ++ " " ++ get_write_byte_action "tmp_SP" (part WQW 55 48) ++ " SP <= tmp_SP;"⟩,
   ⟨cm, opc, opn, am, wh, cyc + 10, "tmp_SP = SP - 1;" ++ " " ++ get_write_byte_action "tmp_SP" (part WQW 47 40) ++ " SP <= tmp_SP;"⟩,
   ⟨cm, opc, opn, am, wh, cyc + 11, "tmp_SP = SP - 1;" ++ " " ++ get_write_byte_action "tmp_SP" (part WQW 39 32) ++ " SP <= tmp_SP;"⟩,
   ⟨cm, opc, opn, am, wh, cyc + 12, "tmp_SP = SP - 1;" ++ " " ++ get_write_byte_action "tmp_SP" (part WQW 31 24) ++ " SP <= tmp_SP;"⟩,
   ⟨cm, opc, opn, am, wh, cyc + 13, "tmp_SP = SP - 1;" ++ " " ++ get_write_byte_action "tmp_SP" (part WQW 23 16) ++ " SP <= tmp_SP;"⟩,
   ⟨cm, opc, opn, am, wh, cyc + 14, "tmp_SP = SP - 1;" ++ " " ++ get_write_byte_action "tmp_SP" (part WQW 15 8) ++ " SP <= tmp_SP;"⟩,
   ⟨cm, opc, opn, am, wh, cyc + 15, "tmp_SP = SP - 1;" ++ " " ++ get_write_byte_action "tmp_SP" (part WQW 7 0) ++ " SP <= tmp_SP;"⟩]

theorem push_quad_word_run (cm : CpuMode) (opc : Nat) (opn : Operation) (am : AddressMode)
    (wh cyc : Nat) (acts : List MicroInstruction)
    (hop : opn ≠ OP_NONE) (hcyc : cyc ≤ 239) :
    push_quad_word PC ⟨⟨cm, opc, opn, am, wh, cyc, ""⟩, acts⟩ =
      ⟨⟨cm, opc, opn, am, wh, cyc + 16, ""⟩,
       acts ++ push_quad_word_records cm opc opn am wh cyc⟩ := by
  have e1 : (cyc + 1) % 256 = cyc + 1 := by omega
  have e2 : (cyc + 1 + 1) % 256 = cyc + 2 := by omega
  have e3 : (cyc + 2 + 1) % 256 = cyc + 3 := by omega
  have e4 : (cyc + 3 + 1) % 256 = cyc + 4 := by omega
  have e5 : (cyc + 4 + 1) % 256 = cyc + 5 := by omega
  have e6 : (cyc + 5 + 1) % 256 = cyc + 6 := by omega
  have e7 : (cyc + 6 + 1) % 256 = cyc + 7 := by omega
  have e8 : (cyc + 7 + 1) % 256 = cyc + 8 := by omega
  have e9 : (cyc + 8 + 1) % 256 = cyc + 9 := by omega
  have e10 : (cyc + 9 + 1) % 256 = cyc + 10 := by omega
  have e11 : (cyc + 10 + 1) % 256 = cyc + 11 := by omega
  have e12 : (cyc + 11 + 1) % 256 = cyc + 12 := by omega
  have e13 : (cyc + 12 + 1) % 256 = cyc + 13 := by omega
  have e14 : (cyc + 13 + 1) % 256 = cyc + 14 := by omega
  have e15 : (cyc + 14 + 1) % 256 = cyc + 15 := by omega
  have e16 : (cyc + 15 + 1) % 256 = cyc + 16 := by omega
  simp only [push_quad_word, push_quad_word_records, save_instruction_run, assign_s_run, push_byte_run,
    push_byte_run_empty, pop_byte_run, pop_byte_run_empty, load_byte_run,
    load_byte_run_empty, write_byte_run_empty, write_byte_with_inc_run,
    write_byte_with_inc_run_empty, eq_true hop, assign_text_ne, push_text_ne,
    pop_text_ne, load_text_ne, write_text_ne, ne_eq, not_false_eq_true,
    e1, e2, e3, e4, e5, e6, e7, e8, e9, e10, e11, e12, e13, e14, e15, e16,
    List.append_assoc, List.cons_append, List.nil_append, List.singleton_append]

/-- The records captured by one `pop_half_word` call, starting at pending cycle
`cyc`. -/
def pop_half_word_records (cm : CpuMode) (opc : Nat) (opn : Operation) (am : AddressMode)
    (wh cyc : Nat) : List MicroInstruction :=
  [⟨cm, opc, opn, am, wh, cyc, get_read_byte_action SP (part RQW 7 0) ++ " SP <= SP + 1;"⟩,
   ⟨cm, opc, opn, am, wh, cyc + 1, part X 7 0 ++ " <= " ++ part RQW 7 0 ++ ";"⟩,
   ⟨cm, opc, opn, am, wh, cyc + 1, get_read_byte_action SP (part X 15 8) ++ " SP <= SP + 1;"⟩]

theorem pop_half_word_run (cm : CpuMode) (opc : Nat) (opn : Operation) (am : AddressMode)
    (wh cyc : Nat) (acts : List MicroInstruction)
    (hop : opn ≠ OP_NONE) (hcyc : cyc ≤ 239) :
    pop_half_word X ⟨⟨cm, opc, opn, am, wh, cyc, ""⟩, acts⟩ =
      ⟨⟨cm, opc, opn, am, wh, cyc + 2, ""⟩,
       acts ++ pop_half_word_records cm opc opn am wh cyc⟩ := by
  have e1 : (cyc + 1) % 256 = cyc + 1 := by omega
  have e2 : (cyc + 1 + 1) % 256 = cyc + 2 := by omega
  simp only [pop_half_word, pop_half_word_records, save_instruction_run, assign_s_run, push_byte_run,
    push_byte_run_empty, pop_byte_run, pop_byte_run_empty, load_byte_run,
    load_byte_run_empty, write_byte_run_empty, write_byte_with_inc_run,
    write_byte_with_inc_run_empty, eq_true hop, assign_text_ne, push_text_ne,
    pop_text_ne, load_text_ne, write_text_ne, ne_eq, not_false_eq_true,
    e1, e2,
    List.append_assoc, List.cons_append, List.nil_append, List.singleton_append]

/-- The records captured by one `pop_word` call, starting at pending cycle
`cyc`. -/
def pop_word_records (cm : CpuMode) (opc : Nat) (opn : Operation) (am : AddressMode)
    (wh cyc : Nat) : List MicroInstruction :=
  [⟨cm, opc, opn, am, wh, cyc, get_read_byte_action SP (part RQW 7 0) ++ " SP <= SP + 1;"⟩,
   ⟨cm, opc, opn, am, wh, cyc + 1, get_read_byte_action SP (part RQW 15 8) ++ " SP <= SP + 1;"⟩,
   ⟨cm, opc, opn, am, wh, cyc + 2, get_read_byte_action SP (part RQW 23 16) ++ " SP <= SP + 1;"⟩,
   ⟨cm, opc, opn, am, wh, cyc + 3, part X 23 0 ++ " <= " ++ part RQW 23 0 ++ ";"⟩,
   ⟨cm, opc, opn, am, wh, cyc + 3, get_read_byte_action SP (part X 31 24) ++ " SP <= SP + 1;"⟩]

theorem pop_word_run (cm : CpuMode) (opc : Nat) (opn : Operation) (am : AddressMode)
    (wh cyc : Nat) (acts : List MicroInstruction)
    (hop : opn ≠ OP_NONE) (hcyc : cyc ≤ 239) :
    pop_word X ⟨⟨cm, opc, opn, am, wh, cyc, ""⟩, acts⟩ =
      ⟨⟨cm, opc, opn, am, wh, cyc + 4, ""⟩,
       acts ++ pop_word_records cm opc opn am wh cyc⟩ := by
  have e1 : (cyc + 1) % 256 = cyc + 1 := by omega
  have e2 : (cyc + 1 + 1) % 256 = cyc + 2 := by omega
  have e3 : (cyc + 2 + 1) % 256 = cyc + 3 := by omega
  have e4 : (cyc + 3 + 1) % 256 = cyc + 4 := by omega
  simp only [pop_word, pop_word_records, save_instruction_run, assign_s_run, push_byte_run,
    push_byte_run_empty, pop_byte_run, pop_byte_run_empty, load_byte_run,
    load_byte_run_empty, write_byte_run_empty, write_byte_with_inc_run,
    write_byte_with_inc_run_empty, eq_true hop, assign_text_ne, push_text_ne,
    pop_text_ne, load_text_ne, write_text_ne, ne_eq, not_false_eq_true,
    e1, e2, e3, e4,
    List.append_assoc, List.cons_append, List.nil_append, List.singleton_append]

/-- The records captured by one `pop_double_word` call, starting at pending cycle
`cyc`. -/
def pop_double_word_records (cm : CpuMode) (opc : Nat) (opn : Operation) (am : AddressMode)
    (wh cyc : Nat) : List MicroInstruction :=
  [⟨cm, opc, opn, am, wh, cyc, get_read_byte_action SP (part RQW 7 0) ++ " SP <= SP + 1;"⟩,
   ⟨cm, opc, opn, am, wh, cyc + 1, get_read_byte_action SP (part RQW 15 8) ++ " SP <= SP + 1;"⟩,
   ⟨cm, opc, opn, am, wh, cyc + 2, get_read_byte_action SP (part RQW 23 16) ++ " SP <= SP + 1;"⟩,
   ⟨cm, opc, opn, am, wh, cyc + 3, get_read_byte_action SP (part RQW 31 24) ++ " SP <= SP + 1;"⟩,
   ⟨cm, opc, opn, am, wh, cyc + 4, get_read_byte_action SP (part RQW 39 32) ++ " SP <= SP + 1;"⟩,
   ⟨cm, opc, opn, am, wh, cyc + 5, get_read_byte_action SP (part RQW 47 40) ++ " SP <= SP + 1;"⟩,
   ⟨cm, opc, opn, am, wh, cyc + 6, get_read_byte_action SP (part RQW 55 48) ++ " SP <= SP + 1;"⟩,
   ⟨cm, opc, opn, am, wh, cyc + 7, part X 55 0 ++ " <= " ++ part RQW 55 0 ++ ";"⟩,
   ⟨cm, opc, opn, am, wh, cyc + 7, get_read_byte_action SP (part X 63 56) ++ " SP <= SP + 1;"⟩]

theorem pop_double_word_run (cm : CpuMode) (opc : Nat) (opn : Operation) (am : AddressMode)
    (wh cyc : Nat) (acts : List MicroInstruction)
    (hop : opn ≠ OP_NONE) (hcyc : cyc ≤ 239) :
    pop_double_word X ⟨⟨cm, opc, opn, am, wh, cyc, ""⟩, acts⟩ =
      ⟨⟨cm, opc, opn, am, wh, cyc + 8, ""⟩,
       acts ++ pop_double_word_records cm opc opn am wh cyc⟩ := by
  have e1 : (cyc + 1) % 256 = cyc + 1 := by omega
  have e2 : (cyc + 1 + 1) % 256 = cyc + 2 := by omega
  have e3 : (cyc + 2 + 1) % 256 = cyc + 3 := by omega
  have e4 : (cyc + 3 + 1) % 256 = cyc + 4 := by omega
  have e5 : (cyc + 4 + 1) % 256 = cyc + 5 := by omega
  have e6 : (cyc + 5 + 1) % 256 = cyc + 6 := by omega
  have e7 : (cyc + 6 + 1) % 256 = cyc + 7 := by omega
  have e8 : (cyc + 7 + 1) % 256 = cyc + 8 := by omega
  simp only [pop_double_word, pop_double_word_records, save_instruction_run, assign_s_run, push_byte_run,
    push_byte_run_empty, pop_byte_run, pop_byte_run_empty, load_byte_run,
    load_byte_run_empty, write_byte_run_empty, write_byte_with_inc_run,
    write_byte_with_inc_run_empty, eq_true hop, assign_text_ne, push_text_ne,
    pop_text_ne, load_text_ne, write_text_ne, ne_eq, not_false_eq_true,
    e1, e2, e3, e4, e5, e6, e7, e8,
    List.append_assoc, List.cons_append, List.nil_append, List.singleton_append]

/-- The records captured by one `pop_quad_word` call, starting at pending cycle
`cyc`. -/
def pop_quad_word_records (cm : CpuMode) (opc : Nat) (opn : Operation) (am : AddressMode)
    (wh cyc : Nat) : List MicroInstruction :=
  [⟨cm, opc, opn, am, wh, cyc, get_read_byte_action SP (part RQW 7 0) ++ " SP <= SP + 1;"⟩,
   ⟨cm, opc, opn, am, wh, cyc + 1, get_read_byte_action SP (part RQW 15 8) ++ " SP <= SP + 1;"⟩,
   ⟨cm, opc, opn, am, wh, cyc + 2, get_read_byte_action SP (part RQW 23 16) ++ " SP <= SP + 1;"⟩,
   ⟨cm, opc, opn, am, wh, cyc + 3, get_read_byte_action SP (part RQW 31 24) ++ " SP <= SP + 1;"⟩,
   ⟨cm, opc, opn, am, wh, cyc + 4, get_read_byte_action SP (part RQW 39 32) ++ " SP <= SP + 1;"⟩,
   ⟨cm, opc, opn, am, wh, cyc + 5, get_read_byte_action SP (part RQW 47 40) ++ " SP <= SP + 1;"⟩,
   ⟨cm, opc, opn, am, wh, cyc + 6, get_read_byte_action SP (part RQW 55 48) ++ " SP <= SP + 1;"⟩,
   ⟨cm, opc, opn, am, wh, cyc + 7, get_read_byte_action SP (part RQW 63 56) ++ " SP <= SP + 1;"⟩,
   ⟨cm, opc, opn, am, wh, cyc + 8, get_read_byte_action SP (part RQW 71 64) ++ " SP <= SP + 1;"⟩,
   ⟨cm, opc, opn, am, wh, cyc + 9, get_read_byte_action SP (part RQW 79 72) ++ " SP <= SP + 1;"⟩,
   ⟨cm, opc, opn, am, wh, cyc + 10, get_read_byte_action SP (part RQW 87 80) ++ " SP <= SP + 1;"⟩,
   ⟨cm, opc, opn, am, wh, cyc + 11, get_read_byte_action SP (part RQW 95 88) ++ " SP <= SP + 1;"⟩,
   ⟨cm, opc, opn, am, wh, cyc + 12, get_read_byte_action SP (part RQW 103 96) ++ " SP <= SP + 1;"⟩,
   ⟨cm, opc, opn, am, wh, cyc + 13, get_read_byte_action SP (part RQW 111 104) ++ " SP <= SP + 1;"⟩,
   ⟨cm, opc, opn, am, wh, cyc + 14, get_read_byte_action SP (part RQW 119 112) ++ " SP <= SP + 1;"⟩,
   ⟨cm, opc, opn, am, wh, cyc + 15, part X 119 0 ++ " <= " ++ part RQW 119 0 ++ ";"⟩,
   ⟨cm, opc, opn, am, wh, cyc + 15, get_read_byte_action SP (part X 127 120) ++ " SP <= SP + 1;"⟩]

theorem pop_quad_word_run (cm : CpuMode) (opc : Nat) (opn : Operation) (am : AddressMode)
    (wh cyc : Nat) (acts : List MicroInstruction)
    (hop : opn ≠ OP_NONE) (hcyc : cyc ≤ 239) :
    pop_quad_word X ⟨⟨cm, opc, opn, am, wh, cyc, ""⟩, acts⟩ =
      ⟨⟨cm, opc, opn, am, wh, cyc + 16, ""⟩,
       acts ++ pop_quad_word_records cm opc opn am wh cyc⟩ := by
  have e1 : (cyc + 1) % 256 = cyc + 1 := by omega
  have e2 : (cyc + 1 + 1) % 256 = cyc + 2 := by omega
  have e3 : (cyc + 2 + 1) % 256 = cyc + 3 := by omega
  have e4 : (cyc + 3 + 1) % 256 = cyc + 4 := by omega
  have e5 : (cyc + 4 + 1) % 256 = cyc + 5 := by omega
  have e6 : (cyc + 5 + 1) % 256 = cyc + 6 := by omega
  have e7 : (cyc + 6 + 1) % 256 = cyc + 7 := by omega
  have e8 : (cyc + 7 + 1) % 256 = cyc + 8 := by omega
  have e9 : (cyc + 8 + 1) % 256 = cyc + 9 := by omega
  have e10 : (cyc + 9 + 1) % 256 = cyc + 10 := by omega
  have e11 : (cyc + 10 + 1) % 256 = cyc + 11 := by omega
  have e12 : (cyc + 11 + 1) % 256 = cyc + 12 := by omega
  have e13 : (cyc + 12 + 1) % 256 = cyc + 13 := by omega
  have e14 : (cyc + 13 + 1) % 256 = cyc + 14 := by omega
  have e15 : (cyc + 14 + 1) % 256 = cyc + 15 := by omega
  have e16 : (cyc + 15 + 1) % 256 = cyc + 16 := by omega
  simp only [pop_quad_word, pop_quad_word_records, save_instruction_run, assign_s_run, push_byte_run,
    push_byte_run_empty, pop_byte_run, pop_byte_run_empty, load_byte_run,
    load_byte_run_empty, write_byte_run_empty, write_byte_with_inc_run,
    write_byte_with_inc_run_empty, eq_true hop, assign_text_ne, push_text_ne,
    pop_text_ne, load_text_ne, write_text_ne, ne_eq, not_false_eq_true,
    e1, e2, e3, e4, e5, e6, e7, e8, e9, e10, e11, e12, e13, e14, e15, e16,
    List.append_assoc, List.cons_append, List.nil_append, List.singleton_append]

/-- The records captured by one `load_half_word` call, starting at pending cycle
`cyc`. -/
def load_half_word_records (cm : CpuMode) (opc : Nat) (opn : Operation) (am : AddressMode)
    (wh cyc : Nat) : List MicroInstruction :=
  [⟨cm, opc, opn, am, wh, cyc, get_read_byte_action EPC (part RQW 7 0) ++ " EPC <= EPC + 1;"⟩,
   ⟨cm, opc, opn, am, wh, cyc + 1, part ADDR 7 0 ++ " <= " ++ part RQW 7 0 ++ ";"⟩,
   ⟨cm, opc, opn, am, wh, cyc + 1, get_read_byte_action EPC (part ADDR 15 8) ++ " EPC <= EPC + 1;"⟩]

theorem load_half_word_run (cm : CpuMode) (opc : Nat) (opn : Operation) (am : AddressMode)
    (wh cyc : Nat) (acts : List MicroInstruction)
    (hop : opn ≠ OP_NONE) (hcyc : cyc ≤ 239) :
    load_half_word ADDR ⟨⟨cm, opc, opn, am, wh, cyc, ""⟩, acts⟩ =
      ⟨⟨cm, opc, opn, am, wh, cyc + 2, ""⟩,
       acts ++ load_half_word_records cm opc opn am wh cyc⟩ := by
  have e1 : (cyc + 1) % 256 = cyc + 1 := by omega
  have e2 : (cyc + 1 + 1) % 256 = cyc + 2 := by omega
  simp only [load_half_word, load_half_word_records, save_instruction_run, assign_s_run, push_byte_run,
    push_byte_run_empty, pop_byte_run, pop_byte_run_empty, load_byte_run,
    load_byte_run_empty, write_byte_run_empty, write_byte_with_inc_run,
    write_byte_with_inc_run_empty, eq_true hop, assign_text_ne, push_text_ne,
    pop_text_ne, load_text_ne, write_text_ne, ne_eq, not_false_eq_true,
    e1, e2,
    List.append_assoc, List.cons_append, List.nil_append, List.singleton_append]

/-- The records captured by one `load_word` call, starting at pending cycle
`cyc`. -/
def load_word_records (cm : CpuMode) (opc : Nat) (opn : Operation) (am : AddressMode)
    (wh cyc : Nat) : List MicroInstruction :=
  [⟨cm, opc, opn, am, wh, cyc, get_read_byte_action EPC (part RQW 7 0) ++ " EPC <= EPC + 1;"⟩,
   ⟨cm, opc, opn, am, wh, cyc + 1, get_read_byte_action EPC (part RQW 15 8) ++ " EPC <= EPC + 1;"⟩,
   ⟨cm, opc, opn, am, wh, cyc + 2, get_read_byte_action EPC (part RQW 23 16) ++ " EPC <= EPC + 1;"⟩,
   ⟨cm, opc, opn, am, wh, cyc + 3, part ADDR 23 0 ++ " <= " ++ part RQW 23 0 ++ ";"⟩,
   ⟨cm, opc, opn, am, wh, cyc + 3, get_read_byte_action EPC (part ADDR 31 24) ++ " EPC <= EPC + 1;"⟩]

theorem load_word_run (cm : CpuMode) (opc : Nat) (opn : Operation) (am : AddressMode)
    (wh cyc : Nat) (acts : List MicroInstruction)
    (hop : opn ≠ OP_NONE) (hcyc : cyc ≤ 239) :
    load_word ADDR ⟨⟨cm, opc, opn, am, wh, cyc, ""⟩, acts⟩ =
      ⟨⟨cm, opc, opn, am, wh, cyc + 4, ""⟩,
       acts ++ load_word_records cm opc opn am wh cyc⟩ := by
  have e1 : (cyc + 1) % 256 = cyc + 1 := by omega
  have e2 : (cyc + 1 + 1) % 256 = cyc + 2 := by omega
  have e3 : (cyc + 2 + 1) % 256 = cyc + 3 := by omega
  have e4 : (cyc + 3 + 1) % 256 = cyc + 4 := by omega
  simp only [load_word, load_word_records, save_instruction_run, assign_s_run, push_byte_run,
    push_byte_run_empty, pop_byte_run, pop_byte_run_empty, load_byte_run,
    load_byte_run_empty, write_byte_run_empty, write_byte_with_inc_run,
    write_byte_with_inc_run_empty, eq_true hop, assign_text_ne, push_text_ne,
    pop_text_ne, load_text_ne, write_text_ne, ne_eq, not_false_eq_true,
    e1, e2, e3, e4,
    List.append_assoc, List.cons_append, List.nil_append, List.singleton_append]

/-- The records captured by one `load_double_word` call, starting at pending cycle
`cyc`. -/
def load_double_word_records (cm : CpuMode) (opc : Nat) (opn : Operation) (am : AddressMode)
    (wh cyc : Nat) : List MicroInstruction :=
  [⟨cm, opc, opn, am, wh, cyc, get_read_byte_action EPC (part RQW 7 0) ++ " EPC <= EPC + 1;"⟩,
   ⟨cm, opc, opn, am, wh, cyc + 1, get_read_byte_action EPC (part RQW 15 8) ++ " EPC <= EPC + 1;"⟩,
   ⟨cm, opc, opn, am, wh, cyc + 2, get_read_byte_action EPC (part RQW 23 16) ++ " EPC <= EPC + 1;"⟩,
   ⟨cm, opc, opn, am, wh, cyc + 3, get_read_byte_action EPC (part RQW 31 24) ++ " EPC <= EPC + 1;"⟩,
   ⟨cm, opc, opn, am, wh, cyc + 4, get_read_byte_action EPC (part RQW 39 32) ++ " EPC <= EPC + 1;"⟩,
   ⟨cm, opc, opn, am, wh, cyc + 5, get_read_byte_action EPC (part RQW 47 40) ++ " EPC <= EPC + 1;"⟩,
   ⟨cm, opc, opn, am, wh, cyc + 6, get_read_byte_action EPC (part RQW 55 48) ++ " EPC <= EPC + 1;"⟩,
   ⟨cm, opc, opn, am, wh, cyc + 7, part ADDR 55 0 ++ " <= " ++ part RQW 55 0 ++ ";"⟩,
   ⟨cm, opc, opn, am, wh, cyc + 7, get_read_byte_action EPC (part ADDR 63 56) ++ " EPC <= EPC + 1;"⟩]

theorem load_double_word_run (cm : CpuMode) (opc : Nat) (opn : Operation) (am : AddressMode)
    (wh cyc : Nat) (acts : List MicroInstruction)
    (hop : opn ≠ OP_NONE) (hcyc : cyc ≤ 239) :
    load_double_word ADDR ⟨⟨cm, opc, opn, am, wh, cyc, ""⟩, acts⟩ =
      ⟨⟨cm, opc, opn, am, wh, cyc + 8, ""⟩,
       acts ++ load_double_word_records cm opc opn am wh cyc⟩ := by
  have e1 : (cyc + 1) % 256 = cyc + 1 := by omega
  have e2 : (cyc + 1 + 1) % 256 = cyc + 2 := by omega
  have e3 : (cyc + 2 + 1) % 256 = cyc + 3 := by omega
  have e4 : (cyc + 3 + 1) % 256 = cyc + 4 := by omega
  have e5 : (cyc + 4 + 1) % 256 = cyc + 5 := by omega
  have e6 : (cyc + 5 + 1) % 256 = cyc + 6 := by omega
  have e7 : (cyc + 6 + 1) % 256 = cyc + 7 := by omega
  have e8 : (cyc + 7 + 1) % 256 = cyc + 8 := by omega
  simp only [load_double_word, load_double_word_records, save_instruction_run, assign_s_run, push_byte_run,
    push_byte_run_empty, pop_byte_run, pop_byte_run_empty, load_byte_run,
    load_byte_run_empty, write_byte_run_empty, write_byte_with_inc_run,
    write_byte_with_inc_run_empty, eq_true hop, assign_text_ne, push_text_ne,
    pop_text_ne, load_text_ne, write_text_ne, ne_eq, not_false_eq_true,
    e1, e2, e3, e4, e5, e6, e7, e8,
    List.append_assoc, List.cons_append, List.nil_append, List.singleton_append]

/-- The records captured by one `load_quad_word` call, starting at pending cycle
`cyc`. -/
def load_quad_word_records (cm : CpuMode) (opc : Nat) (opn : Operation) (am : AddressMode)
    (wh cyc : Nat) : List MicroInstruction :=
  [⟨cm, opc, opn, am, wh, cyc, get_read_byte_action EPC (part RQW 7 0) ++ " EPC <= EPC + 1;"⟩,
   ⟨cm, opc, opn, am, wh, cyc + 1, get_read_byte_action EPC (part RQW 15 8) ++ " EPC <= EPC + 1;"⟩,
   ⟨cm, opc, opn, am, wh, cyc + 2, get_read_byte_action EPC (part RQW 23 16) ++ " EPC <= EPC + 1;"⟩,
   ⟨cm, opc, opn, am, wh, cyc + 3, get_read_byte_action EPC (part RQW 31 24) ++ " EPC <= EPC + 1;"⟩,
   ⟨cm, opc, opn, am, wh, cyc + 4, get_read_byte_action EPC (part RQW 39 32) ++ " EPC <= EPC + 1;"⟩,
   ⟨cm, opc, opn, am, wh, cyc + 5, get_read_byte_action EPC (part RQW 47 40) ++ " EPC <= EPC + 1;"⟩,
   ⟨cm, opc, opn, am, wh, cyc + 6, get_read_byte_action EPC (part RQW 55 48) ++ " EPC <= EPC + 1;"⟩,
   ⟨cm, opc, opn, am, wh, cyc + 7, get_read_byte_action EPC (part RQW 63 56) ++ " EPC <= EPC + 1;"⟩,
   ⟨cm, opc, opn, am, wh, cyc + 8, get_read_byte_action EPC (part RQW 71 64) ++ " EPC <= EPC + 1;"⟩,
   ⟨cm, opc, opn, am, wh, cyc + 9, get_read_byte_action EPC (part RQW 79 72) ++ " EPC <= EPC + 1;"⟩,
   ⟨cm, opc, opn, am, wh, cyc + 10, get_read_byte_action EPC (part RQW 87 80) ++ " EPC <= EPC + 1;"⟩,
   ⟨cm, opc, opn, am, wh, cyc + 11, get_read_byte_action EPC (part RQW 95 88) ++ " EPC <= EPC + 1;"⟩,
   ⟨cm, opc, opn, am, wh, cyc + 12, get_read_byte_action EPC (part RQW 103 96) ++ " EPC <= EPC + 1;"⟩,
   ⟨cm, opc, opn, am, wh, cyc + 13, get_read_byte_action EPC (part RQW 111 104) ++ " EPC <= EPC + 1;"⟩,
   ⟨cm, opc, opn, am, wh, cyc + 14, get_read_byte_action EPC (part RQW 119 112) ++ " EPC <= EPC + 1;"⟩,
   ⟨cm, opc, opn, am, wh, cyc + 15, part ADDR 119 0 ++ " <= " ++ part RQW 119 0 ++ ";"⟩,
   ⟨cm, opc, opn, am, wh, cyc + 15, get_read_byte_action EPC (part ADDR 127 120) ++ " EPC <= EPC + 1;"⟩]

theorem load_quad_word_run (cm : CpuMode) (opc : Nat) (opn : Operation) (am : AddressMode)
    (wh cyc : Nat) (acts : List MicroInstruction)
    (hop : opn ≠ OP_NONE) (hcyc : cyc ≤ 239) :
    load_quad_word ADDR ⟨⟨cm, opc, opn, am, wh, cyc, ""⟩, acts⟩ =
      ⟨⟨cm, opc, opn, am, wh, cyc + 16, ""⟩,
       acts ++ load_quad_word_records cm opc opn am wh cyc⟩ := by
  have e1 : (cyc + 1) % 256 = cyc + 1 := by omega
  have e2 : (cyc + 1 + 1) % 256 = cyc + 2 := by omega
  have e3 : (cyc + 2 + 1) % 256 = cyc + 3 := by omega
  have e4 : (cyc + 3 + 1) % 256 = cyc + 4 := by omega
  have e5 : (cyc + 4 + 1) % 256 = cyc + 5 := by omega
  have e6 : (cyc + 5 + 1) % 256 = cyc + 6 := by omega
  have e7 : (cyc + 6 + 1) % 256 = cyc + 7 := by omega
  have e8 : (cyc + 7 + 1) % 256 = cyc + 8 := by omega
  have e9 : (cyc + 8 + 1) % 256 = cyc + 9 := by omega
  have e10 : (cyc + 9 + 1) % 256 = cyc + 10 := by omega
  have e11 : (cyc + 10 + 1) % 256 = cyc + 11 := by omega
  have e12 : (cyc + 11 + 1) % 256 = cyc + 12 := by omega
  have e13 : (cyc + 12 + 1) % 256 = cyc + 13 := by omega
  have e14 : (cyc + 13 + 1) % 256 = cyc + 14 := by omega
  have e15 : (cyc + 14 + 1) % 256 = cyc + 15 := by omega
  have e16 : (cyc + 15 + 1) % 256 = cyc + 16 := by omega
  simp only [load_quad_word, load_quad_word_records, save_instruction_run, assign_s_run, push_byte_run,
    push_byte_run_empty, pop_byte_run, pop_byte_run_empty, load_byte_run,
    load_byte_run_empty, write_byte_run_empty, write_byte_with_inc_run,
    write_byte_with_inc_run_empty, eq_true hop, assign_text_ne, push_text_ne,
    pop_text_ne, load_text_ne, write_text_ne, ne_eq, not_false_eq_true,
    e1, e2, e3, e4, e5, e6, e7, e8, e9, e10, e11, e12, e13, e14, e15, e16,
    List.append_assoc, List.cons_append, List.nil_append, List.singleton_append]

/-- The records captured by one `write_half_word` call, starting at pending cycle
`cyc`. -/
def write_half_word_records (cm : CpuMode) (opc : Nat) (opn : Operation) (am : AddressMode)
    (wh cyc : Nat) : List MicroInstruction :=
  [⟨cm, opc, opn, am, wh, cyc, part RQW 15 8 ++ " <= " ++ part A 15 8 ++ ";"⟩,
   ⟨cm, opc, opn, am, wh, cyc, get_write_byte_action EA (part A 7 0)⟩,
   ⟨cm, opc, opn, am, wh, cyc + 1, get_write_byte_action EA (part RQW 15 8)⟩]

theorem write_half_word_run (cm : CpuMode) (opc : Nat) (opn : Operation) (am : AddressMode)
    (wh cyc : Nat) (acts : List MicroInstruction)
    (hop : opn ≠ OP_NONE) (hcyc : cyc ≤ 239) :
    write_half_word EA A ⟨⟨cm, opc, opn, am, wh, cyc, ""⟩, acts⟩ =
      ⟨⟨cm, opc, opn, am, wh, cyc + 2, ""⟩,
       acts ++ write_half_word_records cm opc opn am wh cyc⟩ := by
  have e1 : (cyc + 1) % 256 = cyc + 1 := by omega
  have e2 : (cyc + 1 + 1) % 256 = cyc + 2 := by omega
  simp only [write_half_word, write_half_word_records, save_instruction_run, assign_s_run, push_byte_run,
    push_byte_run_empty, pop_byte_run, pop_byte_run_empty, load_byte_run,
    load_byte_run_empty, write_byte_run_empty, write_byte_with_inc_run,
    write_byte_with_inc_run_empty, eq_true hop, assign_text_ne, push_text_ne,
    pop_text_ne, load_text_ne, write_text_ne, ne_eq, not_false_eq_true,
    e1, e2,
    List.append_assoc, List.cons_append, List.nil_append, List.singleton_append]

/-- The records captured by one `write_word` call, starting at pending cycle
`cyc`. -/
def write_word_records (cm : CpuMode) (opc : Nat) (opn : Operation) (am : AddressMode)
    (wh cyc : Nat) : List MicroInstruction :=
  [⟨cm, opc, opn, am, wh, cyc, part RQW 31 8 ++ " <= " ++ part RQW 31 8 ++ ";"⟩,
   ⟨cm, opc, opn, am, wh, cyc, get_write_byte_action EA (part A 7 0)⟩,
   ⟨cm, opc, opn, am, wh, cyc + 1, get_write_byte_action EA (part RQW 15 8)⟩,
   ⟨cm, opc, opn, am, wh, cyc + 2, get_write_byte_action EA (part RQW 23 16)⟩,
   ⟨cm, opc, opn, am, wh, cyc + 3, get_write_byte_action EA (part RQW 31 24)⟩]

theorem write_word_run (cm : CpuMode) (opc : Nat) (opn : Operation) (am : AddressMode)
    (wh cyc : Nat) (acts : List MicroInstruction)
    (hop : opn ≠ OP_NONE) (hcyc : cyc ≤ 239) :
    write_word EA A ⟨⟨cm, opc, opn, am, wh, cyc, ""⟩, acts⟩ =
      ⟨⟨cm, opc, opn, am, wh, cyc + 4, ""⟩,
       acts ++ write_word_records cm opc opn am wh cyc⟩ := by
  have e1 : (cyc + 1) % 256 = cyc + 1 := by omega
  have e2 : (cyc + 1 + 1) % 256 = cyc + 2 := by omega
  have e3 : (cyc + 2 + 1) % 256 = cyc + 3 := by omega
  have e4 : (cyc + 3 + 1) % 256 = cyc + 4 := by omega
  simp only [write_word, write_word_records, save_instruction_run, assign_s_run, push_byte_run,
    push_byte_run_empty, pop_byte_run, pop_byte_run_empty, load_byte_run,
    load_byte_run_empty, write_byte_run_empty, write_byte_with_inc_run,
    write_byte_with_inc_run_empty, eq_true hop, assign_text_ne, push_text_ne,
    pop_text_ne, load_text_ne, write_text_ne, ne_eq, not_false_eq_true,
    e1, e2, e3, e4,
    List.append_assoc, List.cons_append, List.nil_append, List.singleton_append]

/-- The records captured by one `write_double_word` call, starting at pending cycle
`cyc`. -/
def write_double_word_records (cm : CpuMode) (opc : Nat) (opn : Operation) (am : AddressMode)
    (wh cyc : Nat) : List MicroInstruction :=
  [⟨cm, opc, opn, am, wh, cyc, part A 63 8 ++ " <= " ++ part RQW 63 8 ++ ";"⟩,
   ⟨cm, opc, opn, am, wh, cyc, get_write_byte_action EA (part A 7 0)⟩,
   ⟨cm, opc, opn, am, wh, cyc + 1, get_write_byte_action EA (part RQW 15 8)⟩,
   ⟨cm, opc, opn, am, wh, cyc + 2, get_write_byte_action EA (part RQW 23 16)⟩,
   ⟨cm, opc, opn, am, wh, cyc + 3, get_write_byte_action EA (part RQW 31 24)⟩,
   ⟨cm, opc, opn, am, wh, cyc + 4, get_write_byte_action EA (part RQW 39 32)⟩,
   ⟨cm, opc, opn, am, wh, cyc + 5, get_write_byte_action EA (part RQW 47 40)⟩,
   ⟨cm, opc, opn, am, wh, cyc + 6, get_write_byte_action EA (part RQW 55 48)⟩,
   ⟨cm, opc, opn, am, wh, cyc + 7, get_write_byte_action EA (part RQW 63 56)⟩]

theorem write_double_word_run (cm : CpuMode) (opc : Nat) (opn : Operation) (am : AddressMode)
    (wh cyc : Nat) (acts : List MicroInstruction)
    (hop : opn ≠ OP_NONE) (hcyc : cyc ≤ 239) :
    write_double_word EA A ⟨⟨cm, opc, opn, am, wh, cyc, ""⟩, acts⟩ =
      ⟨⟨cm, opc, opn, am, wh, cyc + 8, ""⟩,
       acts ++ write_double_word_records cm opc opn am wh cyc⟩ := by
  have e1 : (cyc + 1) % 256 = cyc + 1 := by omega
  have e2 : (cyc + 1 + 1) % 256 = cyc + 2 := by omega
  have e3 : (cyc + 2 + 1) % 256 = cyc + 3 := by omega
  have e4 : (cyc + 3 + 1) % 256 = cyc + 4 := by omega
  have e5 : (cyc + 4 + 1) % 256 = cyc + 5 := by omega
  have e6 : (cyc + 5 + 1) % 256 = cyc + 6 := by omega
  have e7 : (cyc + 6 + 1) % 256 = cyc + 7 := by omega
  have e8 : (cyc + 7 + 1) % 256 = cyc + 8 := by omega
  simp only [write_double_word, write_double_word_records, save_instruction_run, assign_s_run, push_byte_run,
    push_byte_run_empty, pop_byte_run, pop_byte_run_empty, load_byte_run,
    load_byte_run_empty, write_byte_run_empty, write_byte_with_inc_run,
    write_byte_with_inc_run_empty, eq_true hop, assign_text_ne, push_text_ne,
    pop_text_ne, load_text_ne, write_text_ne, ne_eq, not_false_eq_true,
    e1, e2, e3, e4, e5, e6, e7, e8,
    List.append_assoc, List.cons_append, List.nil_append, List.singleton_append]

/-- The records captured by one `write_quad_word` call, starting at pending cycle
`cyc`. -/
def write_quad_word_records (cm : CpuMode) (opc : Nat) (opn : Operation) (am : AddressMode)
    (wh cyc : Nat) : List MicroInstruction :=
  [⟨cm, opc, opn, am, wh, cyc, part A 127 8 ++ " <= " ++ part RQW 127 8 ++ ";"⟩,
   ⟨cm, opc, opn, am, wh, cyc, get_write_byte_action EA (part A 7 0)⟩,
   ⟨cm, opc, opn, am, wh, cyc + 1, get_write_byte_action EA (part RQW 15 8)⟩,
   ⟨cm, opc, opn, am, wh, cyc + 2, get_write_byte_action EA (part RQW 23 16)⟩,
   ⟨cm, opc, opn, am, wh, cyc + 3, get_write_byte_action EA (part RQW 31 24)⟩,
   ⟨cm, opc, opn, am, wh, cyc + 4, get_write_byte_action EA (part RQW 39 32)⟩,
   ⟨cm, opc, opn, am, wh, cyc + 5, get_write_byte_action EA (part RQW 47 40)⟩,
   ⟨cm, opc, opn, am, wh, cyc + 6, get_write_byte_action EA (part RQW 55 48)⟩,
   ⟨cm, opc, opn, am, wh, cyc + 7, get_write_byte_action EA (part RQW 63 56)⟩,
   ⟨cm, opc, opn, am, wh, cyc + 8, get_write_byte_action EA (part RQW 71 64)⟩,
   ⟨cm, opc, opn, am, wh, cyc + 9, get_write_byte_action EA (part RQW 79 72)⟩,
   ⟨cm, opc, opn, am, wh, cyc + 10, get_write_byte_action EA (part RQW 87 80)⟩,
   ⟨cm, opc, opn, am, wh, cyc + 11, get_write_byte_action EA (part RQW 95 88)⟩,
   ⟨cm, opc, opn, am, wh, cyc + 12, get_write_byte_action EA (part RQW 103 96)⟩,
   ⟨cm, opc, opn, am, wh, cyc + 13, get_write_byte_action EA (part RQW 111 104)⟩,
   ⟨cm, opc, opn, am, wh, cyc + 14, get_write_byte_action EA (part RQW 119 112)⟩,
   ⟨cm, opc, opn, am, wh, cyc + 15, get_write_byte_action EA (part RQW 127 120)⟩]

theorem write_quad_word_run (cm : CpuMode) (opc : Nat) (opn : Operation) (am : AddressMode)
    (wh cyc : Nat) (acts : List MicroInstruction)
    (hop : opn ≠ OP_NONE) (hcyc : cyc ≤ 239) :
    write_quad_word EA A ⟨⟨cm, opc, opn, am, wh, cyc, ""⟩, acts⟩ =
      ⟨⟨cm, opc, opn, am, wh, cyc + 16, ""⟩,
       acts ++ write_quad_word_records cm opc opn am wh cyc⟩ := by
  have e1 : (cyc + 1) % 256 = cyc + 1 := by omega
  have e2 : (cyc + 1 + 1) % 256 = cyc + 2 := by omega
  have e3 : (cyc + 2 + 1) % 256 = cyc + 3 := by omega
  have e4 : (cyc + 3 + 1) % 256 = cyc + 4 := by omega
  have e5 : (cyc + 4 + 1) % 256 = cyc + 5 := by omega
  have e6 : (cyc + 5 + 1) % 256 = cyc + 6 := by omega
  have e7 : (cyc + 6 + 1) % 256 = cyc + 7 := by omega
  have e8 : (cyc + 7 + 1) % 256 = cyc + 8 := by omega
  have e9 : (cyc + 8 + 1) % 256 = cyc + 9 := by omega
  have e10 : (cyc + 9 + 1) % 256 = cyc + 10 := by omega
  have e11 : (cyc + 10 + 1) % 256 = cyc + 11 := by omega
  have e12 : (cyc + 11 + 1) % 256 = cyc + 12 := by omega
  have e13 : (cyc + 12 + 1) % 256 = cyc + 13 := by omega
  have e14 : (cyc + 13 + 1) % 256 = cyc + 14 := by omega
  have e15 : (cyc + 14 + 1) % 256 = cyc + 15 := by omega
  have e16 : (cyc + 15 + 1) % 256 = cyc + 16 := by omega
  simp only [write_quad_word, write_quad_word_records, save_instruction_run, assign_s_run, push_byte_run,
    push_byte_run_empty, pop_byte_run, pop_byte_run_empty, load_byte_run,
    load_byte_run_empty, write_byte_run_empty, write_byte_with_inc_run,
    write_byte_with_inc_run_empty, eq_true hop, assign_text_ne, push_text_ne,
    pop_text_ne, load_text_ne, write_text_ne, ne_eq, not_false_eq_true,
    e1, e2, e3, e4, e5, e6, e7, e8, e9, e10, e11, e12, e13, e14, e15, e16,
    List.append_assoc, List.cons_append, List.nil_append, List.singleton_append]

theorem busf_1 : is_bus_action (part WQW 7 0 ++ " <= " ++ part PC 7 0 ++ ";") = false := by decide

theorem busf_2 : is_bus_action ("tmp_SP = SP - 1; " ++ get_write_byte_action "tmp_SP" (part PC 15 8) ++ " SP <= tmp_SP;") = true := by decide

theorem busf_3 : is_bus_action ("tmp_SP = SP - 1; " ++ get_write_byte_action "tmp_SP" (part WQW 7 0) ++ " SP <= tmp_SP;") = true := by decide

theorem busf_4 : is_bus_action (part WQW 23 0 ++ " <= " ++ part PC 23 0 ++ ";") = false := by decide

theorem busf_5 : is_bus_action ("tmp_SP = SP - 1; " ++ get_write_byte_action "tmp_SP" (part PC 31 24) ++ " SP <= tmp_SP;") = true := by decide

theorem busf_6 : is_bus_action ("tmp_SP = SP - 1; " ++ get_write_byte_action "tmp_SP" (part WQW 23 16) ++ " SP <= tmp_SP;") = true := by decide

theorem busf_7 : is_bus_action ("tmp_SP = SP - 1; " ++ get_write_byte_action "tmp_SP" (part WQW 15 8) ++ " SP <= tmp_SP;") = true := by decide

theorem busf_8 : is_bus_action (part WQW 55 0 ++ " <= " ++ part PC 55 0 ++ ";") = false := by decide

theorem busf_9 : is_bus_action ("tmp_SP = SP - 1; " ++ get_write_byte_action "tmp_SP" (part PC 63 56) ++ " SP <= tmp_SP;") = true := by decide

theorem busf_10 : is_bus_action ("tmp_SP = SP - 1; " ++ get_write_byte_action "tmp_SP" (part WQW 55 48) ++ " SP <= tmp_SP;") = true := by decide

theorem busf_11 : is_bus_action ("tmp_SP = SP - 1; " ++ get_write_byte_action "tmp_SP" (part WQW 47 40) ++ " SP <= tmp_SP;") = true := by decide

theorem busf_12 : is_bus_action ("tmp_SP = SP - 1; " ++ get_write_byte_action "tmp_SP" (part WQW 39 32) ++ " SP <= tmp_SP;") = true := by decide

theorem busf_13 : is_bus_action ("tmp_SP = SP - 1; " ++ get_write_byte_action "tmp_SP" (part WQW 31 24) ++ " SP <= tmp_SP;") = true := by decide

theorem busf_14 : is_bus_action (part WQW 119 0 ++ " <= " ++ part PC 119 0 ++ ";") = false := by decide

theorem busf_15 : is_bus_action ("tmp_SP = SP - 1; " ++ get_write_byte_action "tmp_SP" (part PC 127 120) ++ " SP <= tmp_SP;") = true := by decide

theorem busf_16 : is_bus_action ("tmp_SP = SP - 1; " ++ get_write_byte_action "tmp_SP" (part WQW 119 112) ++ " SP <= tmp_SP;") = true := by decide

theorem busf_17 : is_bus_action ("tmp_SP = SP - 1; " ++ get_write_byte_action "tmp_SP" (part WQW 111 104) ++ " SP <= tmp_SP;") = true := by decide

theorem busf_18 : is_bus_action ("tmp_SP = SP - 1; " ++ get_write_byte_action "tmp_SP" (part WQW 103 96) ++ " SP <= tmp_SP;") = true := by decide

theorem busf_19 : is_bus_action ("tmp_SP = SP - 1; " ++ get_write_byte_action "tmp_SP" (part WQW 95 88) ++ " SP <= tmp_SP;") = true := by decide

theorem busf_20 : is_bus_action ("tmp_SP = SP - 1; " ++ get_write_byte_action "tmp_SP" (part WQW 87 80) ++ " SP <= tmp_SP;") = true := by decide

theorem busf_21 : is_bus_action ("tmp_SP = SP - 1; " ++ get_write_byte_action "tmp_SP" (part WQW 79 72) ++ " SP <= tmp_SP;") = true := by decide

theorem busf_22 : is_bus_action ("tmp_SP = SP - 1; " ++ get_write_byte_action "tmp_SP" (part WQW 71 64) ++ " SP <= tmp_SP;") = true := by decide

theorem busf_23 : is_bus_action ("tmp_SP = SP - 1; " ++ get_write_byte_action "tmp_SP" (part WQW 63 56) ++ " SP <= tmp_SP;") = true := by decide

theorem busf_24 : is_bus_action (get_read_byte_action SP (part RQW 7 0) ++ " SP <= SP + 1;") = true := by decide

theorem busf_25 : is_bus_action (part X 7 0 ++ " <= " ++ part RQW 7 0 ++ ";") = false := by decide

theorem busf_26 : is_bus_action (get_read_byte_action SP (part X 15 8) ++ " SP <= SP + 1;") = true := by decide

theorem busf_27 : is_bus_action (get_read_byte_action SP (part RQW 15 8) ++ " SP <= SP + 1;") = true := by decide

theorem busf_28 : is_bus_action (get_read_byte_action SP (part RQW 23 16) ++ " SP <= SP + 1;") = true := by decide

theorem busf_29 : is_bus_action (part X 23 0 ++ " <= " ++ part RQW 23 0 ++ ";") = false := by decide

theorem busf_30 : is_bus_action (get_read_byte_action SP (part X 31 24) ++ " SP <= SP + 1;") = true := by decide

theorem busf_31 : is_bus_action (get_read_byte_action SP (part RQW 31 24) ++ " SP <= SP + 1;") = true := by decide

theorem busf_32 : is_bus_action (get_read_byte_action SP (part RQW 39 32) ++ " SP <= SP + 1;") = true := by decide

theorem busf_33 : is_bus_action (get_read_byte_action SP (part RQW 47 40) ++ " SP <= SP + 1;") = true := by decide

theorem busf_34 : is_bus_action (get_read_byte_action SP (part RQW 55 48) ++ " SP <= SP + 1;") = true := by decide

theorem busf_35 : is_bus_action (part X 55 0 ++ " <= " ++ part RQW 55 0 ++ ";") = false := by decide

theorem busf_36 : is_bus_action (get_read_byte_action SP (part X 63 56) ++ " SP <= SP + 1;") = true := by decide

theorem busf_37 : is_bus_action (get_read_byte_action SP (part RQW 63 56) ++ " SP <= SP + 1;") = true := by decide

theorem busf_38 : is_bus_action (get_read_byte_action SP (part RQW 71 64) ++ " SP <= SP + 1;") = true := by decide

theorem busf_39 : is_bus_action (get_read_byte_action SP (part RQW 79 72) ++ " SP <= SP + 1;") = true := by decide

theorem busf_40 : is_bus_action (get_read_byte_action SP (part RQW 87 80) ++ " SP <= SP + 1;") = true := by decide

theorem busf_41 : is_bus_action (get_read_byte_action SP (part RQW 95 88) ++ " SP <= SP + 1;") = true := by decide

theorem busf_42 : is_bus_action (get_read_byte_action SP (part RQW 103 96) ++ " SP <= SP + 1;") = true := by decide

theorem busf_43 : is_bus_action (get_read_byte_action SP (part RQW 111 104) ++ " SP <= SP + 1;") = true := by decide

theorem busf_44 : is_bus_action (get_read_byte_action SP (part RQW 119 112) ++ " SP <= SP + 1;") = true := by decide

theorem busf_45 : is_bus_action (part X 119 0 ++ " <= " ++ part RQW 119 0 ++ ";") = false := by decide

theorem busf_46 : is_bus_action (get_read_byte_action SP (part X 127 120) ++ " SP <= SP + 1;") = true := by decide

theorem busf_47 : is_bus_action (get_read_byte_action EPC (part RQW 7 0) ++ " EPC <= EPC + 1;") = true := by decide

theorem busf_48 : is_bus_action (part ADDR 7 0 ++ " <= " ++ part RQW 7 0 ++ ";") = false := by decide

theorem busf_49 : is_bus_action (get_read_byte_action EPC (part ADDR 15 8) ++ " EPC <= EPC + 1;") = true := by decide

theorem busf_50 : is_bus_action (get_read_byte_action EPC (part RQW 15 8) ++ " EPC <= EPC + 1;") = true := by decide

theorem busf_51 : is_bus_action (get_read_byte_action EPC (part RQW 23 16) ++ " EPC <= EPC + 1;") = true := by decide

theorem busf_52 : is_bus_action (part ADDR 23 0 ++ " <= " ++ part RQW 23 0 ++ ";") = false := by decide

theorem busf_53 : is_bus_action (get_read_byte_action EPC (part ADDR 31 24) ++ " EPC <= EPC + 1;") = true := by decide

theorem busf_54 : is_bus_action (get_read_byte_action EPC (part RQW 31 24) ++ " EPC <= EPC + 1;") = true := by decide

theorem busf_55 : is_bus_action (get_read_byte_action EPC (part RQW 39 32) ++ " EPC <= EPC + 1;") = true := by decide

theorem busf_56 : is_bus_action (get_read_byte_action EPC (part RQW 47 40) ++ " EPC <= EPC + 1;") = true := by decide

theorem busf_57 : is_bus_action (get_read_byte_action EPC (part RQW 55 48) ++ " EPC <= EPC + 1;") = true := by decide

theorem busf_58 : is_bus_action (part ADDR 55 0 ++ " <= " ++ part RQW 55 0 ++ ";") = false := by decide

theorem busf_59 : is_bus_action (get_read_byte_action EPC (part ADDR 63 56) ++ " EPC <= EPC + 1;") = true := by decide

theorem busf_60 : is_bus_action (get_read_byte_action EPC (part RQW 63 56) ++ " EPC <= EPC + 1;") = true := by decide

theorem busf_61 : is_bus_action (get_read_byte_action EPC (part RQW 71 64) ++ " EPC <= EPC + 1;") = true := by decide

theorem busf_62 : is_bus_action (get_read_byte_action EPC (part RQW 79 72) ++ " EPC <= EPC + 1;") = true := by decide

theorem busf_63 : is_bus_action (get_read_byte_action EPC (part RQW 87 80) ++ " EPC <= EPC + 1;") = true := by decide

theorem busf_64 : is_bus_action (get_read_byte_action EPC (part RQW 95 88) ++ " EPC <= EPC + 1;") = true := by decide

theorem busf_65 : is_bus_action (get_read_byte_action EPC (part RQW 103 96) ++ " EPC <= EPC + 1;") = true := by decide

theorem busf_66 : is_bus_action (get_read_byte_action EPC (part RQW 111 104) ++ " EPC <= EPC + 1;") = true := by decide

theorem busf_67 : is_bus_action (get_read_byte_action EPC (part RQW 119 112) ++ " EPC <= EPC + 1;") = true := by decide

theorem busf_68 : is_bus_action (part ADDR 119 0 ++ " <= " ++ part RQW 119 0 ++ ";") = false := by decide

theorem busf_69 : is_bus_action (get_read_byte_action EPC (part ADDR 127 120) ++ " EPC <= EPC + 1;") = true := by decide

theorem busf_70 : is_bus_action (part RQW 15 8 ++ " <= " ++ part A 15 8 ++ ";") = false := by decide

theorem busf_71 : is_bus_action (get_write_byte_action EA (part A 7 0)) = true := by decide

theorem busf_72 : is_bus_action (get_write_byte_action EA (part RQW 15 8)) = true := by decide

theorem busf_73 : is_bus_action (part RQW 31 8 ++ " <= " ++ part RQW 31 8 ++ ";") = false := by decide

theorem busf_74 : is_bus_action (get_write_byte_action EA (part RQW 23 16)) = true := by decide

theorem busf_75 : is_bus_action (get_write_byte_action EA (part RQW 31 24)) = true := by decide

theorem busf_76 : is_bus_action (part A 63 8 ++ " <= " ++ part RQW 63 8 ++ ";") = false := by decide

theorem busf_77 : is_bus_action (get_write_byte_action EA (part RQW 39 32)) = true := by decide

theorem busf_78 : is_bus_action (get_write_byte_action EA (part RQW 47 40)) = true := by decide

theorem busf_79 : is_bus_action (get_write_byte_action EA (part RQW 55 48)) = true := by decide

theorem busf_80 : is_bus_action (get_write_byte_action EA (part RQW 63 56)) = true := by decide

theorem busf_81 : is_bus_action (part A 127 8 ++ " <= " ++ part RQW 127 8 ++ ";") = false := by decide

theorem busf_82 : is_bus_action (get_write_byte_action EA (part RQW 71 64)) = true := by decide

theorem busf_83 : is_bus_action (get_write_byte_action EA (part RQW 79 72)) = true := by decide

theorem busf_84 : is_bus_action (get_write_byte_action EA (part RQW 87 80)) = true := by decide

theorem busf_85 : is_bus_action (get_write_byte_action EA (part RQW 95 88)) = true := by decide

theorem busf_86 : is_bus_action (get_write_byte_action EA (part RQW 103 96)) = true := by decide

theorem busf_87 : is_bus_action (get_write_byte_action EA (part RQW 111 104)) = true := by decide

theorem busf_88 : is_bus_action (get_write_byte_action EA (part RQW 119 112)) = true := by decide

theorem busf_89 : is_bus_action (get_write_byte_action EA (part RQW 127 120)) = true := by decide

/-- C6: each composite push/pop/load/store primitive for an N-byte quantity
(N ∈ {2, 4, 8, 16}), called while describing an opcode (real operation, no
pending action, cycle small enough not to wrap the uint8 counter), captures
exactly N micro-instructions whose action is a single-byte bus access, and
the cycle numbers of those N bus records are contiguous:
cyc, cyc+1, ..., cyc+N-1. -/
theorem claim_C6 : ∀ (cm : CpuMode) (opc : Nat) (opn : Operation) (am : AddressMode)
    (wh cyc : Nat) (acts : List MicroInstruction),
    opn ≠ OP_NONE → cyc ≤ 239 →
    (((push_half_word PC ⟨⟨cm, opc, opn, am, wh, cyc, ""⟩, acts⟩).g_actions =
        acts ++ push_half_word_records cm opc opn am wh cyc) ∧
      ((push_half_word_records cm opc opn am wh cyc).filter
          (fun r => is_bus_action r.action)).map (fun r => r.cycle) = [cyc, cyc + 1] ∧
      (push_half_word_records cm opc opn am wh cyc).countP
          (fun r => is_bus_action r.action) = 2) ∧
    (((push_word PC ⟨⟨cm, opc, opn, am, wh, cyc, ""⟩, acts⟩).g_actions =
        acts ++ push_word_records cm opc opn am wh cyc) ∧
      ((push_word_records cm opc opn am wh cyc).filter
          (fun r => is_bus_action r.action)).map (fun r => r.cycle) = [cyc, cyc + 1, cyc + 2, cyc + 3] ∧
      (push_word_records cm opc opn am wh cyc).countP
          (fun r => is_bus_action r.action) = 4) ∧
    (((push_double_word PC ⟨⟨cm, opc, opn, am, wh, cyc, ""⟩, acts⟩).g_actions =
        acts ++ push_double_word_records cm opc opn am wh cyc) ∧
      ((push_double_word_records cm opc opn am wh cyc).filter
          (fun r => is_bus_action r.action)).map (fun r => r.cycle) = [cyc, cyc + 1, cyc + 2, cyc + 3, cyc + 4, cyc + 5, cyc + 6, cyc + 7] ∧
      (push_double_word_records cm opc opn am wh cyc).countP
          (fun r => is_bus_action r.action) = 8) ∧
    (((push_quad_word PC ⟨⟨cm, opc, opn, am, wh, cyc, ""⟩, acts⟩).g_actions =
        acts ++ push_quad_word_records cm opc opn am wh cyc) ∧
      ((push_quad_word_records cm opc opn am wh cyc).filter
          (fun r => is_bus_action r.action)).map (fun r => r.cycle) = [cyc, cyc + 1, cyc + 2, cyc + 3, cyc + 4, cyc + 5, cyc + 6, cyc + 7, cyc + 8, cyc + 9, cyc + 10, cyc + 11, cyc + 12, cyc + 13, cyc + 14, cyc + 15] ∧
      (push_quad_word_records cm opc opn am wh cyc).countP
          (fun r => is_bus_action r.action) = 16) ∧
    (((pop_half_word X ⟨⟨cm, opc, opn, am, wh, cyc, ""⟩, acts⟩).g_actions =
        acts ++ pop_half_word_records cm opc opn am wh cyc) ∧
      ((pop_half_word_records cm opc opn am wh cyc).filter
          (fun r => is_bus_action r.action)).map (fun r => r.cycle) = [cyc, cyc + 1] ∧
      (pop_half_word_records cm opc opn am wh cyc).countP
          (fun r => is_bus_action r.action) = 2) ∧
    (((pop_word X ⟨⟨cm, opc, opn, am, wh, cyc, ""⟩, acts⟩).g_actions =
        acts ++ pop_word_records cm opc opn am wh cyc) ∧
      ((pop_word_records cm opc opn am wh cyc).filter
          (fun r => is_bus_action r.action)).map (fun r => r.cycle) = [cyc, cyc + 1, cyc + 2, cyc + 3] ∧
      (pop_word_records cm opc opn am wh cyc).countP
          (fun r => is_bus_action r.action) = 4) ∧
    (((pop_double_word X ⟨⟨cm, opc, opn, am, wh, cyc, ""⟩, acts⟩).g_actions =
        acts ++ pop_double_word_records cm opc opn am wh cyc) ∧
      ((pop_double_word_records cm opc opn am wh cyc).filter
          (fun r => is_bus_action r.action)).map (fun r => r.cycle) = [cyc, cyc + 1, cyc + 2, cyc + 3, cyc + 4, cyc + 5, cyc + 6, cyc + 7] ∧
      (pop_double_word_records cm opc opn am wh cyc).countP
          (fun r => is_bus_action r.action) = 8) ∧
    (((pop_quad_word X ⟨⟨cm, opc, opn, am, wh, cyc, ""⟩, acts⟩).g_actions =
        acts ++ pop_quad_word_records cm opc opn am wh cyc) ∧
      ((pop_quad_word_records cm opc opn am wh cyc).filter
          (fun r => is_bus_action r.action)).map (fun r => r.cycle) = [cyc, cyc + 1, cyc + 2, cyc + 3, cyc + 4, cyc + 5, cyc + 6, cyc + 7, cyc + 8, cyc + 9, cyc + 10, cyc + 11, cyc + 12, cyc + 13, cyc + 14, cyc + 15] ∧
      (pop_quad_word_records cm opc opn am wh cyc).countP
          (fun r => is_bus_action r.action) = 16) ∧
    (((load_half_word ADDR ⟨⟨cm, opc, opn, am, wh, cyc, ""⟩, acts⟩).g_actions =
        acts ++ load_half_word_records cm opc opn am wh cyc) ∧
      ((load_half_word_records cm opc opn am wh cyc).filter
          (fun r => is_bus_action r.action)).map (fun r => r.cycle) = [cyc, cyc + 1] ∧
      (load_half_word_records cm opc opn am wh cyc).countP
          (fun r => is_bus_action r.action) = 2) ∧
    (((load_word ADDR ⟨⟨cm, opc, opn, am, wh, cyc, ""⟩, acts⟩).g_actions =
        acts ++ load_word_records cm opc opn am wh cyc) ∧
      ((load_word_records cm opc opn am wh cyc).filter
          (fun r => is_bus_action r.action)).map (fun r => r.cycle) = [cyc, cyc + 1, cyc + 2, cyc + 3] ∧
      (load_word_records cm opc opn am wh cyc).countP
          (fun r => is_bus_action r.action) = 4) ∧
    (((load_double_word ADDR ⟨⟨cm, opc, opn, am, wh, cyc, ""⟩, acts⟩).g_actions =
        acts ++ load_double_word_records cm opc opn am wh cyc) ∧
      ((load_double_word_records cm opc opn am wh cyc).filter
          (fun r => is_bus_action r.action)).map (fun r => r.cycle) = [cyc, cyc + 1, cyc + 2, cyc + 3, cyc + 4, cyc + 5, cyc + 6, cyc + 7] ∧
      (load_double_word_records cm opc opn am wh cyc).countP
          (fun r => is_bus_action r.action) = 8) ∧
    (((load_quad_word ADDR ⟨⟨cm, opc, opn, am, wh, cyc, ""⟩, acts⟩).g_actions =
        acts ++ load_quad_word_records cm opc opn am wh cyc) ∧
      ((load_quad_word_records cm opc opn am wh cyc).filter
          (fun r => is_bus_action r.action)).map (fun r => r.cycle) = [cyc, cyc + 1, cyc + 2, cyc + 3, cyc + 4, cyc + 5, cyc + 6, cyc + 7, cyc + 8, cyc + 9, cyc + 10, cyc + 11, cyc + 12, cyc + 13, cyc + 14, cyc + 15] ∧
      (load_quad_word_records cm opc opn am wh cyc).countP
          (fun r => is_bus_action r.action) = 16) ∧
    (((write_half_word EA A ⟨⟨cm, opc, opn, am, wh, cyc, ""⟩, acts⟩).g_actions =
        acts ++ write_half_word_records cm opc opn am wh cyc) ∧
      ((write_half_word_records cm opc opn am wh cyc).filter
          (fun r => is_bus_action r.action)).map (fun r => r.cycle) = [cyc, cyc + 1] ∧
      (write_half_word_records cm opc opn am wh cyc).countP
          (fun r => is_bus_action r.action) = 2) ∧
    (((write_word EA A ⟨⟨cm, opc, opn, am, wh, cyc, ""⟩, acts⟩).g_actions =
        acts ++ write_word_records cm opc opn am wh cyc) ∧
      ((write_word_records cm opc opn am wh cyc).filter
          (fun r => is_bus_action r.action)).map (fun r => r.cycle) = [cyc, cyc + 1, cyc + 2, cyc + 3] ∧
      (write_word_records cm opc opn am wh cyc).countP
          (fun r => is_bus_action r.action) = 4) ∧
    (((write_double_word EA A ⟨⟨cm, opc, opn, am, wh, cyc, ""⟩, acts⟩).g_actions =
        acts ++ write_double_word_records cm opc opn am wh cyc) ∧
      ((write_double_word_records cm opc opn am wh cyc).filter
          (fun r => is_bus_action r.action)).map (fun r => r.cycle) = [cyc, cyc + 1, cyc + 2, cyc + 3, cyc + 4, cyc + 5, cyc + 6, cyc + 7] ∧
      (write_double_word_records cm opc opn am wh cyc).countP
          (fun r => is_bus_action r.action) = 8) ∧
    (((write_quad_word EA A ⟨⟨cm, opc, opn, am, wh, cyc, ""⟩, acts⟩).g_actions =
        acts ++ write_quad_word_records cm opc opn am wh cyc) ∧
      ((write_quad_word_records cm opc opn am wh cyc).filter
          (fun r => is_bus_action r.action)).map (fun r => r.cycle) = [cyc, cyc + 1, cyc + 2, cyc + 3, cyc + 4, cyc + 5, cyc + 6, cyc + 7, cyc + 8, cyc + 9, cyc + 10, cyc + 11, cyc + 12, cyc + 13, cyc + 14, cyc + 15] ∧
      (write_quad_word_records cm opc opn am wh cyc).countP
          (fun r => is_bus_action r.action) = 16) := by
  intro cm opc opn am wh cyc acts hop hcyc
  refine ⟨⟨?_, ?_, ?_⟩, ⟨?_, ?_, ?_⟩, ⟨?_, ?_, ?_⟩, ⟨?_, ?_, ?_⟩, ⟨?_, ?_, ?_⟩, ⟨?_, ?_, ?_⟩, ⟨?_, ?_, ?_⟩, ⟨?_, ?_, ?_⟩, ⟨?_, ?_, ?_⟩, ⟨?_, ?_, ?_⟩, ⟨?_, ?_, ?_⟩, ⟨?_, ?_, ?_⟩, ⟨?_, ?_, ?_⟩, ⟨?_, ?_, ?_⟩, ⟨?_, ?_, ?_⟩, ⟨?_, ?_, ?_⟩⟩
  · rw [push_half_word_run cm opc opn am wh cyc acts hop hcyc]
  · simp [push_half_word_records, busf_1, busf_2, busf_3, busf_4, busf_5, busf_6, busf_7, busf_8, busf_9, busf_10, busf_11, busf_12, busf_13, busf_14, busf_15, busf_16, busf_17, busf_18, busf_19, busf_20, busf_21, busf_22, busf_23, busf_24, busf_25, busf_26, busf_27, busf_28, busf_29, busf_30, busf_31, busf_32, busf_33, busf_34, busf_35, busf_36, busf_37, busf_38, busf_39, busf_40, busf_41, busf_42, busf_43, busf_44, busf_45, busf_46, busf_47, busf_48, busf_49, busf_50, busf_51, busf_52, busf_53, busf_54, busf_55, busf_56, busf_57, busf_58, busf_59, busf_60, busf_61, busf_62, busf_63, busf_64, busf_65, busf_66, busf_67, busf_68, busf_69, busf_70, busf_71, busf_72, busf_73, busf_74, busf_75, busf_76, busf_77, busf_78, busf_79, busf_80, busf_81, busf_82, busf_83, busf_84, busf_85, busf_86, busf_87, busf_88, busf_89]
  · simp [push_half_word_records, busf_1, busf_2, busf_3, busf_4, busf_5, busf_6, busf_7, busf_8, busf_9, busf_10, busf_11, busf_12, busf_13, busf_14, busf_15, busf_16, busf_17, busf_18, busf_19, busf_20, busf_21, busf_22, busf_23, busf_24, busf_25, busf_26, busf_27, busf_28, busf_29, busf_30, busf_31, busf_32, busf_33, busf_34, busf_35, busf_36, busf_37, busf_38, busf_39, busf_40, busf_41, busf_42, busf_43, busf_44, busf_45, busf_46, busf_47, busf_48, busf_49, busf_50, busf_51, busf_52, busf_53, busf_54, busf_55, busf_56, busf_57, busf_58, busf_59, busf_60, busf_61, busf_62, busf_63, busf_64, busf_65, busf_66, busf_67, busf_68, busf_69, busf_70, busf_71, busf_72, busf_73, busf_74, busf_75, busf_76, busf_77, busf_78, busf_79, busf_80, busf_81, busf_82, busf_83, busf_84, busf_85, busf_86, busf_87, busf_88, busf_89]
  · rw [push_word_run cm opc opn am wh cyc acts hop hcyc]
  · simp [push_word_records, busf_1, busf_2, busf_3, busf_4, busf_5, busf_6, busf_7, busf_8, busf_9, busf_10, busf_11, busf_12, busf_13, busf_14, busf_15, busf_16, busf_17, busf_18, busf_19, busf_20, busf_21, busf_22, busf_23, busf_24, busf_25, busf_26, busf_27, busf_28, busf_29, busf_30, busf_31, busf_32, busf_33, busf_34, busf_35, busf_36, busf_37, busf_38, busf_39, busf_40, busf_41, busf_42, busf_43, busf_44, busf_45, busf_46, busf_47, busf_48, busf_49, busf_50, busf_51, busf_52, busf_53, busf_54, busf_55, busf_56, busf_57, busf_58, busf_59, busf_60, busf_61, busf_62, busf_63, busf_64, busf_65, busf_66, busf_67, busf_68, busf_69, busf_70, busf_71, busf_72, busf_73, busf_74, busf_75, busf_76, busf_77, busf_78, busf_79, busf_80, busf_81, busf_82, busf_83, busf_84, busf_85, busf_86, busf_87, busf_88, busf_89]
  · simp [push_word_records, busf_1, busf_2, busf_3, busf_4, busf_5, busf_6, busf_7, busf_8, busf_9, busf_10, busf_11, busf_12, busf_13, busf_14, busf_15, busf_16, busf_17, busf_18, busf_19, busf_20, busf_21, busf_22, busf_23, busf_24, busf_25, busf_26, busf_27, busf_28, busf_29, busf_30, busf_31, busf_32, busf_33, busf_34, busf_35, busf_36, busf_37, busf_38, busf_39, busf_40, busf_41, busf_42, busf_43, busf_44, busf_45, busf_46, busf_47, busf_48, busf_49, busf_50, busf_51, busf_52, busf_53, busf_54, busf_55, busf_56, busf_57, busf_58, busf_59, busf_60, busf_61, busf_62, busf_63, busf_64, busf_65, busf_66, busf_67, busf_68, busf_69, busf_70, busf_71, busf_72, busf_73, busf_74, busf_75, busf_76, busf_77, busf_78, busf_79, busf_80, busf_81, busf_82, busf_83, busf_84, busf_85, busf_86, busf_87, busf_88, busf_89]
  · rw [push_double_word_run cm opc opn am wh cyc acts hop hcyc]
  · simp [push_double_word_records, busf_1, busf_2, busf_3, busf_4, busf_5, busf_6, busf_7, busf_8, busf_9, busf_10, busf_11, busf_12, busf_13, busf_14, busf_15, busf_16, busf_17, busf_18, busf_19, busf_20, busf_21, busf_22, busf_23, busf_24, busf_25, busf_26, busf_27, busf_28, busf_29, busf_30, busf_31, busf_32, busf_33, busf_34, busf_35, busf_36, busf_37, busf_38, busf_39, busf_40, busf_41, busf_42, busf_43, busf_44, busf_45, busf_46, busf_47, busf_48, busf_49, busf_50, busf_51, busf_52, busf_53, busf_54, busf_55, busf_56, busf_57, busf_58, busf_59, busf_60, busf_61, busf_62, busf_63, busf_64, busf_65, busf_66, busf_67, busf_68, busf_69, busf_70, busf_71, busf_72, busf_73, busf_74, busf_75, busf_76, busf_77, busf_78, busf_79, busf_80, busf_81, busf_82, busf_83, busf_84, busf_85, busf_86, busf_87, busf_88, busf_89]
  · simp [push_double_word_records, busf_1, busf_2, busf_3, busf_4, busf_5, busf_6, busf_7, busf_8, busf_9, busf_10, busf_11, busf_12, busf_13, busf_14, busf_15, busf_16, busf_17, busf_18, busf_19, busf_20, busf_21, busf_22, busf_23, busf_24, busf_25, busf_26, busf_27, busf_28, busf_29, busf_30, busf_31, busf_32, busf_33, busf_34, busf_35, busf_36, busf_37, busf_38, busf_39, busf_40, busf_41, busf_42, busf_43, busf_44, busf_45, busf_46, busf_47, busf_48, busf_49, busf_50, busf_51, busf_52, busf_53, busf_54, busf_55, busf_56, busf_57, busf_58, busf_59, busf_60, busf_61, busf_62, busf_63, busf_64, busf_65, busf_66, busf_67, busf_68, busf_69, busf_70, busf_71, busf_72, busf_73, busf_74, busf_75, busf_76, busf_77, busf_78, busf_79, busf_80, busf_81, busf_82, busf_83, busf_84, busf_85, busf_86, busf_87, busf_88, busf_89]
  · rw [push_quad_word_run cm opc opn am wh cyc acts hop hcyc]
  · simp [push_quad_word_records, busf_1, busf_2, busf_3, busf_4, busf_5, busf_6, busf_7, busf_8, busf_9, busf_10, busf_11, busf_12, busf_13, busf_14, busf_15, busf_16, busf_17, busf_18, busf_19, busf_20, busf_21, busf_22, busf_23, busf_24, busf_25, busf_26, busf_27, busf_28, busf_29, busf_30, busf_31, busf_32, busf_33, busf_34, busf_35, busf_36, busf_37, busf_38, busf_39, busf_40, busf_41, busf_42, busf_43, busf_44, busf_45, busf_46, busf_47, busf_48, busf_49, busf_50, busf_51, busf_52, busf_53, busf_54, busf_55, busf_56, busf_57, busf_58, busf_59, busf_60, busf_61, busf_62, busf_63, busf_64, busf_65, busf_66, busf_67, busf_68, busf_69, busf_70, busf_71, busf_72, busf_73, busf_74, busf_75, busf_76, busf_77, busf_78, busf_79, busf_80, busf_81, busf_82, busf_83, busf_84, busf_85, busf_86, busf_87, busf_88, busf_89]
  · simp [push_quad_word_records, busf_1, busf_2, busf_3, busf_4, busf_5, busf_6, busf_7, busf_8, busf_9, busf_10, busf_11, busf_12, busf_13, busf_14, busf_15, busf_16, busf_17, busf_18, busf_19, busf_20, busf_21, busf_22, busf_23, busf_24, busf_25, busf_26, busf_27, busf_28, busf_29, busf_30, busf_31, busf_32, busf_33, busf_34, busf_35, busf_36, busf_37, busf_38, busf_39, busf_40, busf_41, busf_42, busf_43, busf_44, busf_45, busf_46, busf_47, busf_48, busf_49, busf_50, busf_51, busf_52, busf_53, busf_54, busf_55, busf_56, busf_57, busf_58, busf_59, busf_60, busf_61, busf_62, busf_63, busf_64, busf_65, busf_66, busf_67, busf_68, busf_69, busf_70, busf_71, busf_72, busf_73, busf_74, busf_75, busf_76, busf_77, busf_78, busf_79, busf_80, busf_81, busf_82, busf_83, busf_84, busf_85, busf_86, busf_87, busf_88, busf_89]
  · rw [pop_half_word_run cm opc opn am wh cyc acts hop hcyc]
  · simp [pop_half_word_records, busf_1, busf_2, busf_3, busf_4, busf_5, busf_6, busf_7, busf_8, busf_9, busf_10, busf_11, busf_12, busf_13, busf_14, busf_15, busf_16, busf_17, busf_18, busf_19, busf_20, busf_21, busf_22, busf_23, busf_24, busf_25, busf_26, busf_27, busf_28, busf_29, busf_30, busf_31, busf_32, busf_33, busf_34, busf_35, busf_36, busf_37, busf_38, busf_39, busf_40, busf_41, busf_42, busf_43, busf_44, busf_45, busf_46, busf_47, busf_48, busf_49, busf_50, busf_51, busf_52, busf_53, busf_54, busf_55, busf_56, busf_57, busf_58, busf_59, busf_60, busf_61, busf_62, busf_63, busf_64, busf_65, busf_66, busf_67, busf_68, busf_69, busf_70, busf_71, busf_72, busf_73, busf_74, busf_75, busf_76, busf_77, busf_78, busf_79, busf_80, busf_81, busf_82, busf_83, busf_84, busf_85, busf_86, busf_87, busf_88, busf_89]
  · simp [pop_half_word_records, busf_1, busf_2, busf_3, busf_4, busf_5, busf_6, busf_7, busf_8, busf_9, busf_10, busf_11, busf_12, busf_13, busf_14, busf_15, busf_16, busf_17, busf_18, busf_19, busf_20, busf_21, busf_22, busf_23, busf_24, busf_25, busf_26, busf_27, busf_28, busf_29, busf_30, busf_31, busf_32, busf_33, busf_34, busf_35, busf_36, busf_37, busf_38, busf_39, busf_40, busf_41, busf_42, busf_43, busf_44, busf_45, busf_46, busf_47, busf_48, busf_49, busf_50, busf_51, busf_52, busf_53, busf_54, busf_55, busf_56, busf_57, busf_58, busf_59, busf_60, busf_61, busf_62, busf_63, busf_64, busf_65, busf_66, busf_67, busf_68, busf_69, busf_70, busf_71, busf_72, busf_73, busf_74, busf_75, busf_76, busf_77, busf_78, busf_79, busf_80, busf_81, busf_82, busf_83, busf_84, busf_85, busf_86, busf_87, busf_88, busf_89]
  · rw [pop_word_run cm opc opn am wh cyc acts hop hcyc]
  · simp [pop_word_records, busf_1, busf_2, busf_3, busf_4, busf_5, busf_6, busf_7, busf_8, busf_9, busf_10, busf_11, busf_12, busf_13, busf_14, busf_15, busf_16, busf_17, busf_18, busf_19, busf_20, busf_21, busf_22, busf_23, busf_24, busf_25, busf_26, busf_27, busf_28, busf_29, busf_30, busf_31, busf_32, busf_33, busf_34, busf_35, busf_36, busf_37, busf_38, busf_39, busf_40, busf_41, busf_42, busf_43, busf_44, busf_45, busf_46, busf_47, busf_48, busf_49, busf_50, busf_51, busf_52, busf_53, busf_54, busf_55, busf_56, busf_57, busf_58, busf_59, busf_60, busf_61, busf_62, busf_63, busf_64, busf_65, busf_66, busf_67, busf_68, busf_69, busf_70, busf_71, busf_72, busf_73, busf_74, busf_75, busf_76, busf_77, busf_78, busf_79, busf_80, busf_81, busf_82, busf_83, busf_84, busf_85, busf_86, busf_87, busf_88, busf_89]
  · simp [pop_word_records, busf_1, busf_2, busf_3, busf_4, busf_5, busf_6, busf_7, busf_8, busf_9, busf_10, busf_11, busf_12, busf_13, busf_14, busf_15, busf_16, busf_17, busf_18, busf_19, busf_20, busf_21, busf_22, busf_23, busf_24, busf_25, busf_26, busf_27, busf_28, busf_29, busf_30, busf_31, busf_32, busf_33, busf_34, busf_35, busf_36, busf_37, busf_38, busf_39, busf_40, busf_41, busf_42, busf_43, busf_44, busf_45, busf_46, busf_47, busf_48, busf_49, busf_50, busf_51, busf_52, busf_53, busf_54, busf_55, busf_56, busf_57, busf_58, busf_59, busf_60, busf_61, busf_62, busf_63, busf_64, busf_65, busf_66, busf_67, busf_68, busf_69, busf_70, busf_71, busf_72, busf_73, busf_74, busf_75, busf_76, busf_77, busf_78, busf_79, busf_80, busf_81, busf_82, busf_83, busf_84, busf_85, busf_86, busf_87, busf_88, busf_89]
  · rw [pop_double_word_run cm opc opn am wh cyc acts hop hcyc]
  · simp [pop_double_word_records, busf_1, busf_2, busf_3, busf_4, busf_5, busf_6, busf_7, busf_8, busf_9, busf_10, busf_11, busf_12, busf_13, busf_14, busf_15, busf_16, busf_17, busf_18, busf_19, busf_20, busf_21, busf_22, busf_23, busf_24, busf_25, busf_26, busf_27, busf_28, busf_29, busf_30, busf_31, busf_32, busf_33, busf_34, busf_35, busf_36, busf_37, busf_38, busf_39, busf_40, busf_41, busf_42, busf_43, busf_44, busf_45, busf_46, busf_47, busf_48, busf_49, busf_50, busf_51, busf_52, busf_53, busf_54, busf_55, busf_56, busf_57, busf_58, busf_59, busf_60, busf_61, busf_62, busf_63, busf_64, busf_65, busf_66, busf_67, busf_68, busf_69, busf_70, busf_71, busf_72, busf_73, busf_74, busf_75, busf_76, busf_77, busf_78, busf_79, busf_80, busf_81, busf_82, busf_83, busf_84, busf_85, busf_86, busf_87, busf_88, busf_89]
  · simp [pop_double_word_records, busf_1, busf_2, busf_3, busf_4, busf_5, busf_6, busf_7, busf_8, busf_9, busf_10, busf_11, busf_12, busf_13, busf_14, busf_15, busf_16, busf_17, busf_18, busf_19, busf_20, busf_21, busf_22, busf_23, busf_24, busf_25, busf_26, busf_27, busf_28, busf_29, busf_30, busf_31, busf_32, busf_33, busf_34, busf_35, busf_36, busf_37, busf_38, busf_39, busf_40, busf_41, busf_42, busf_43, busf_44, busf_45, busf_46, busf_47, busf_48, busf_49, busf_50, busf_51, busf_52, busf_53, busf_54, busf_55, busf_56, busf_57, busf_58, busf_59, busf_60, busf_61, busf_62, busf_63, busf_64, busf_65, busf_66, busf_67, busf_68, busf_69, busf_70, busf_71, busf_72, busf_73, busf_74, busf_75, busf_76, busf_77, busf_78, busf_79, busf_80, busf_81, busf_82, busf_83, busf_84, busf_85, busf_86, busf_87, busf_88, busf_89]
  · rw [pop_quad_word_run cm opc opn am wh cyc acts hop hcyc]
  · simp [pop_quad_word_records, busf_1, busf_2, busf_3, busf_4, busf_5, busf_6, busf_7, busf_8, busf_9, busf_10, busf_11, busf_12, busf_13, busf_14, busf_15, busf_16, busf_17, busf_18, busf_19, busf_20, busf_21, busf_22, busf_23, busf_24, busf_25, busf_26, busf_27, busf_28, busf_29, busf_30, busf_31, busf_32, busf_33, busf_34, busf_35, busf_36, busf_37, busf_38, busf_39, busf_40, busf_41, busf_42, busf_43, busf_44, busf_45, busf_46, busf_47, busf_48, busf_49, busf_50, busf_51, busf_52, busf_53, busf_54, busf_55, busf_56, busf_57, busf_58, busf_59, busf_60, busf_61, busf_62, busf_63, busf_64, busf_65, busf_66, busf_67, busf_68, busf_69, busf_70, busf_71, busf_72, busf_73, busf_74, busf_75, busf_76, busf_77, busf_78, busf_79, busf_80, busf_81, busf_82, busf_83, busf_84, busf_85, busf_86, busf_87, busf_88, busf_89]
  · simp [pop_quad_word_records, busf_1, busf_2, busf_3, busf_4, busf_5, busf_6, busf_7, busf_8, busf_9, busf_10, busf_11, busf_12, busf_13, busf_14, busf_15, busf_16, busf_17, busf_18, busf_19, busf_20, busf_21, busf_22, busf_23, busf_24, busf_25, busf_26, busf_27, busf_28, busf_29, busf_30, busf_31, busf_32, busf_33, busf_34, busf_35, busf_36, busf_37, busf_38, busf_39, busf_40, busf_41, busf_42, busf_43, busf_44, busf_45, busf_46, busf_47, busf_48, busf_49, busf_50, busf_51, busf_52, busf_53, busf_54, busf_55, busf_56, busf_57, busf_58, busf_59, busf_60, busf_61, busf_62, busf_63, busf_64, busf_65, busf_66, busf_67, busf_68, busf_69, busf_70, busf_71, busf_72, busf_73, busf_74, busf_75, busf_76, busf_77, busf_78, busf_79, busf_80, busf_81, busf_82, busf_83, busf_84, busf_85, busf_86, busf_87, busf_88, busf_89]
  · rw [load_half_word_run cm opc opn am wh cyc acts hop hcyc]
  · simp [load_half_word_records, busf_1, busf_2, busf_3, busf_4, busf_5, busf_6, busf_7, busf_8, busf_9, busf_10, busf_11, busf_12, busf_13, busf_14, busf_15, busf_16, busf_17, busf_18, busf_19, busf_20, busf_21, busf_22, busf_23, busf_24, busf_25, busf_26, busf_27, busf_28, busf_29, busf_30, busf_31, busf_32, busf_33, busf_34, busf_35, busf_36, busf_37, busf_38, busf_39, busf_40, busf_41, busf_42, busf_43, busf_44, busf_45, busf_46, busf_47, busf_48, busf_49, busf_50, busf_51, busf_52, busf_53, busf_54, busf_55, busf_56, busf_57, busf_58, busf_59, busf_60, busf_61, busf_62, busf_63, busf_64, busf_65, busf_66, busf_67, busf_68, busf_69, busf_70, busf_71, busf_72, busf_73, busf_74, busf_75, busf_76, busf_77, busf_78, busf_79, busf_80, busf_81, busf_82, busf_83, busf_84, busf_85, busf_86, busf_87, busf_88, busf_89]
  · simp [load_half_word_records, busf_1, busf_2, busf_3, busf_4, busf_5, busf_6, busf_7, busf_8, busf_9, busf_10, busf_11, busf_12, busf_13, busf_14, busf_15, busf_16, busf_17, busf_18, busf_19, busf_20, busf_21, busf_22, busf_23, busf_24, busf_25, busf_26, busf_27, busf_28, busf_29, busf_30, busf_31, busf_32, busf_33, busf_34, busf_35, busf_36, busf_37, busf_38, busf_39, busf_40, busf_41, busf_42, busf_43, busf_44, busf_45, busf_46, busf_47, busf_48, busf_49, busf_50, busf_51, busf_52, busf_53, busf_54, busf_55, busf_56, busf_57, busf_58, busf_59, busf_60, busf_61, busf_62, busf_63, busf_64, busf_65, busf_66, busf_67, busf_68, busf_69, busf_70, busf_71, busf_72, busf_73, busf_74, busf_75, busf_76, busf_77, busf_78, busf_79, busf_80, busf_81, busf_82, busf_83, busf_84, busf_85, busf_86, busf_87, busf_88, busf_89]
  · rw [load_word_run cm opc opn am wh cyc acts hop hcyc]
  · simp [load_word_records, busf_1, busf_2, busf_3, busf_4, busf_5, busf_6, busf_7, busf_8, busf_9, busf_10, busf_11, busf_12, busf_13, busf_14, busf_15, busf_16, busf_17, busf_18, busf_19, busf_20, busf_21, busf_22, busf_23, busf_24, busf_25, busf_26, busf_27, busf_28, busf_29, busf_30, busf_31, busf_32, busf_33, busf_34, busf_35, busf_36, busf_37, busf_38, busf_39, busf_40, busf_41, busf_42, busf_43, busf_44, busf_45, busf_46, busf_47, busf_48, busf_49, busf_50, busf_51, busf_52, busf_53, busf_54, busf_55, busf_56, busf_57, busf_58, busf_59, busf_60, busf_61, busf_62, busf_63, busf_64, busf_65, busf_66, busf_67, busf_68, busf_69, busf_70, busf_71, busf_72, busf_73, busf_74, busf_75, busf_76, busf_77, busf_78, busf_79, busf_80, busf_81, busf_82, busf_83, busf_84, busf_85, busf_86, busf_87, busf_88, busf_89]
  · simp [load_word_records, busf_1, busf_2, busf_3, busf_4, busf_5, busf_6, busf_7, busf_8, busf_9, busf_10, busf_11, busf_12, busf_13, busf_14, busf_15, busf_16, busf_17, busf_18, busf_19, busf_20, busf_21, busf_22, busf_23, busf_24, busf_25, busf_26, busf_27, busf_28, busf_29, busf_30, busf_31, busf_32, busf_33, busf_34, busf_35, busf_36, busf_37, busf_38, busf_39, busf_40, busf_41, busf_42, busf_43, busf_44, busf_45, busf_46, busf_47, busf_48, busf_49, busf_50, busf_51, busf_52, busf_53, busf_54, busf_55, busf_56, busf_57, busf_58, busf_59, busf_60, busf_61, busf_62, busf_63, busf_64, busf_65, busf_66, busf_67, busf_68, busf_69, busf_70, busf_71, busf_72, busf_73, busf_74, busf_75, busf_76, busf_77, busf_78, busf_79, busf_80, busf_81, busf_82, busf_83, busf_84, busf_85, busf_86, busf_87, busf_88, busf_89]
  · rw [load_double_word_run cm opc opn am wh cyc acts hop hcyc]
  · simp [load_double_word_records, busf_1, busf_2, busf_3, busf_4, busf_5, busf_6, busf_7, busf_8, busf_9, busf_10, busf_11, busf_12, busf_13, busf_14, busf_15, busf_16, busf_17, busf_18, busf_19, busf_20, busf_21, busf_22, busf_23, busf_24, busf_25, busf_26, busf_27, busf_28, busf_29, busf_30, busf_31, busf_32, busf_33, busf_34, busf_35, busf_36, busf_37, busf_38, busf_39, busf_40, busf_41, busf_42, busf_43, busf_44, busf_45, busf_46, busf_47, busf_48, busf_49, busf_50, busf_51, busf_52, busf_53, busf_54, busf_55, busf_56, busf_57, busf_58, busf_59, busf_60, busf_61, busf_62, busf_63, busf_64, busf_65, busf_66, busf_67, busf_68, busf_69, busf_70, busf_71, busf_72, busf_73, busf_74, busf_75, busf_76, busf_77, busf_78, busf_79, busf_80, busf_81, busf_82, busf_83, busf_84, busf_85, busf_86, busf_87, busf_88, busf_89]
  · simp [load_double_word_records, busf_1, busf_2, busf_3, busf_4, busf_5, busf_6, busf_7, busf_8, busf_9, busf_10, busf_11, busf_12, busf_13, busf_14, busf_15, busf_16, busf_17, busf_18, busf_19, busf_20, busf_21, busf_22, busf_23, busf_24, busf_25, busf_26, busf_27, busf_28, busf_29, busf_30, busf_31, busf_32, busf_33, busf_34, busf_35, busf_36, busf_37, busf_38, busf_39, busf_40, busf_41, busf_42, busf_43, busf_44, busf_45, busf_46, busf_47, busf_48, busf_49, busf_50, busf_51, busf_52, busf_53, busf_54, busf_55, busf_56, busf_57, busf_58, busf_59, busf_60, busf_61, busf_62, busf_63, busf_64, busf_65, busf_66, busf_67, busf_68, busf_69, busf_70, busf_71, busf_72, busf_73, busf_74, busf_75, busf_76, busf_77, busf_78, busf_79, busf_80, busf_81, busf_82, busf_83, busf_84, busf_85, busf_86, busf_87, busf_88, busf_89]
  · rw [load_quad_word_run cm opc opn am wh cyc acts hop hcyc]
  · simp [load_quad_word_records, busf_1, busf_2, busf_3, busf_4, busf_5, busf_6, busf_7, busf_8, busf_9, busf_10, busf_11, busf_12, busf_13, busf_14, busf_15, busf_16, busf_17, busf_18, busf_19, busf_20, busf_21, busf_22, busf_23, busf_24, busf_25, busf_26, busf_27, busf_28, busf_29, busf_30, busf_31, busf_32, busf_33, busf_34, busf_35, busf_36, busf_37, busf_38, busf_39, busf_40, busf_41, busf_42, busf_43, busf_44, busf_45, busf_46, busf_47, busf_48, busf_49, busf_50, busf_51, busf_52, busf_53, busf_54, busf_55, busf_56, busf_57, busf_58, busf_59, busf_60, busf_61, busf_62, busf_63, busf_64, busf_65, busf_66, busf_67, busf_68, busf_69, busf_70, busf_71, busf_72, busf_73, busf_74, busf_75, busf_76, busf_77, busf_78, busf_79, busf_80, busf_81, busf_82, busf_83, busf_84, busf_85, busf_86, busf_87, busf_88, busf_89]
  · simp [load_quad_word_records, busf_1, busf_2, busf_3, busf_4, busf_5, busf_6, busf_7, busf_8, busf_9, busf_10, busf_11, busf_12, busf_13, busf_14, busf_15, busf_16, busf_17, busf_18, busf_19, busf_20, busf_21, busf_22, busf_23, busf_24, busf_25, busf_26, busf_27, busf_28, busf_29, busf_30, busf_31, busf_32, busf_33, busf_34, busf_35, busf_36, busf_37, busf_38, busf_39, busf_40, busf_41, busf_42, busf_43, busf_44, busf_45, busf_46, busf_47, busf_48, busf_49, busf_50, busf_51, busf_52, busf_53, busf_54, busf_55, busf_56, busf_57, busf_58, busf_59, busf_60, busf_61, busf_62, busf_63, busf_64, busf_65, busf_66, busf_67, busf_68, busf_69, busf_70, busf_71, busf_72, busf_73, busf_74, busf_75, busf_76, busf_77, busf_78, busf_79, busf_80, busf_81, busf_82, busf_83, busf_84, busf_85, busf_86, busf_87, busf_88, busf_89]
  · rw [write_half_word_run cm opc opn am wh cyc acts hop hcyc]
  · simp [write_half_word_records, busf_1, busf_2, busf_3, busf_4, busf_5, busf_6, busf_7, busf_8, busf_9, busf_10, busf_11, busf_12, busf_13, busf_14, busf_15, busf_16, busf_17, busf_18, busf_19, busf_20, busf_21, busf_22, busf_23, busf_24, busf_25, busf_26, busf_27, busf_28, busf_29, busf_30, busf_31, busf_32, busf_33, busf_34, busf_35, busf_36, busf_37, busf_38, busf_39, busf_40, busf_41, busf_42, busf_43, busf_44, busf_45, busf_46, busf_47, busf_48, busf_49, busf_50, busf_51, busf_52, busf_53, busf_54, busf_55, busf_56, busf_57, busf_58, busf_59, busf_60, busf_61, busf_62, busf_63, busf_64, busf_65, busf_66, busf_67, busf_68, busf_69, busf_70, busf_71, busf_72, busf_73, busf_74, busf_75, busf_76, busf_77, busf_78, busf_79, busf_80, busf_81, busf_82, busf_83, busf_84, busf_85, busf_86, busf_87, busf_88, busf_89]
  · simp [write_half_word_records, busf_1, busf_2, busf_3, busf_4, busf_5, busf_6, busf_7, busf_8, busf_9, busf_10, busf_11, busf_12, busf_13, busf_14, busf_15, busf_16, busf_17, busf_18, busf_19, busf_20, busf_21, busf_22, busf_23, busf_24, busf_25, busf_26, busf_27, busf_28, busf_29, busf_30, busf_31, busf_32, busf_33, busf_34, busf_35, busf_36, busf_37, busf_38, busf_39, busf_40, busf_41, busf_42, busf_43, busf_44, busf_45, busf_46, busf_47, busf_48, busf_49, busf_50, busf_51, busf_52, busf_53, busf_54, busf_55, busf_56, busf_57, busf_58, busf_59, busf_60, busf_61, busf_62, busf_63, busf_64, busf_65, busf_66, busf_67, busf_68, busf_69, busf_70, busf_71, busf_72, busf_73, busf_74, busf_75, busf_76, busf_77, busf_78, busf_79, busf_80, busf_81, busf_82, busf_83, busf_84, busf_85, busf_86, busf_87, busf_88, busf_89]
  · rw [write_word_run cm opc opn am wh cyc acts hop hcyc]
  · simp [write_word_records, busf_1, busf_2, busf_3, busf_4, busf_5, busf_6, busf_7, busf_8, busf_9, busf_10, busf_11, busf_12, busf_13, busf_14, busf_15, busf_16, busf_17, busf_18, busf_19, busf_20, busf_21, busf_22, busf_23, busf_24, busf_25, busf_26, busf_27, busf_28, busf_29, busf_30, busf_31, busf_32, busf_33, busf_34, busf_35, busf_36, busf_37, busf_38, busf_39, busf_40, busf_41, busf_42, busf_43, busf_44, busf_45, busf_46, busf_47, busf_48, busf_49, busf_50, busf_51, busf_52, busf_53, busf_54, busf_55, busf_56, busf_57, busf_58, busf_59, busf_60, busf_61, busf_62, busf_63, busf_64, busf_65, busf_66, busf_67, busf_68, busf_69, busf_70, busf_71, busf_72, busf_73, busf_74, busf_75, busf_76, busf_77, busf_78, busf_79, busf_80, busf_81, busf_82, busf_83, busf_84, busf_85, busf_86, busf_87, busf_88, busf_89]
  · simp [write_word_records, busf_1, busf_2, busf_3, busf_4, busf_5, busf_6, busf_7, busf_8, busf_9, busf_10, busf_11, busf_12, busf_13, busf_14, busf_15, busf_16, busf_17, busf_18, busf_19, busf_20, busf_21, busf_22, busf_23, busf_24, busf_25, busf_26, busf_27, busf_28, busf_29, busf_30, busf_31, busf_32, busf_33, busf_34, busf_35, busf_36, busf_37, busf_38, busf_39, busf_40, busf_41, busf_42, busf_43, busf_44, busf_45, busf_46, busf_47, busf_48, busf_49, busf_50, busf_51, busf_52, busf_53, busf_54, busf_55, busf_56, busf_57, busf_58, busf_59, busf_60, busf_61, busf_62, busf_63, busf_64, busf_65, busf_66, busf_67, busf_68, busf_69, busf_70, busf_71, busf_72, busf_73, busf_74, busf_75, busf_76, busf_77, busf_78, busf_79, busf_80, busf_81, busf_82, busf_83, busf_84, busf_85, busf_86, busf_87, busf_88, busf_89]
  · rw [write_double_word_run cm opc opn am wh cyc acts hop hcyc]
  · simp [write_double_word_records, busf_1, busf_2, busf_3, busf_4, busf_5, busf_6, busf_7, busf_8, busf_9, busf_10, busf_11, busf_12, busf_13, busf_14, busf_15, busf_16, busf_17, busf_18, busf_19, busf_20, busf_21, busf_22, busf_23, busf_24, busf_25, busf_26, busf_27, busf_28, busf_29, busf_30, busf_31, busf_32, busf_33, busf_34, busf_35, busf_36, busf_37, busf_38, busf_39, busf_40, busf_41, busf_42, busf_43, busf_44, busf_45, busf_46, busf_47, busf_48, busf_49, busf_50, busf_51, busf_52, busf_53, busf_54, busf_55, busf_56, busf_57, busf_58, busf_59, busf_60, busf_61, busf_62, busf_63, busf_64, busf_65, busf_66, busf_67, busf_68, busf_69, busf_70, busf_71, busf_72, busf_73, busf_74, busf_75, busf_76, busf_77, busf_78, busf_79, busf_80, busf_81, busf_82, busf_83, busf_84, busf_85, busf_86, busf_87, busf_88, busf_89]
  · simp [write_double_word_records, busf_1, busf_2, busf_3, busf_4, busf_5, busf_6, busf_7, busf_8, busf_9, busf_10, busf_11, busf_12, busf_13, busf_14, busf_15, busf_16, busf_17, busf_18, busf_19, busf_20, busf_21, busf_22, busf_23, busf_24, busf_25, busf_26, busf_27, busf_28, busf_29, busf_30, busf_31, busf_32, busf_33, busf_34, busf_35, busf_36, busf_37, busf_38, busf_39, busf_40, busf_41, busf_42, busf_43, busf_44, busf_45, busf_46, busf_47, busf_48, busf_49, busf_50, busf_51, busf_52, busf_53, busf_54, busf_55, busf_56, busf_57, busf_58, busf_59, busf_60, busf_61, busf_62, busf_63, busf_64, busf_65, busf_66, busf_67, busf_68, busf_69, busf_70, busf_71, busf_72, busf_73, busf_74, busf_75, busf_76, busf_77, busf_78, busf_79, busf_80, busf_81, busf_82, busf_83, busf_84, busf_85, busf_86, busf_87, busf_88, busf_89]
  · rw [write_quad_word_run cm opc opn am wh cyc acts hop hcyc]
  · simp [write_quad_word_records, busf_1, busf_2, busf_3, busf_4, busf_5, busf_6, busf_7, busf_8, busf_9, busf_10, busf_11, busf_12, busf_13, busf_14, busf_15, busf_16, busf_17, busf_18, busf_19, busf_20, busf_21, busf_22, busf_23, busf_24, busf_25, busf_26, busf_27, busf_28, busf_29, busf_30, busf_31, busf_32, busf_33, busf_34, busf_35, busf_36, busf_37, busf_38, busf_39, busf_40, busf_41, busf_42, busf_43, busf_44, busf_45, busf_46, busf_47, busf_48, busf_49, busf_50, busf_51, busf_52, busf_53, busf_54, busf_55, busf_56, busf_57, busf_58, busf_59, busf_60, busf_61, busf_62, busf_63, busf_64, busf_65, busf_66, busf_67, busf_68, busf_69, busf_70, busf_71, busf_72, busf_73, busf_74, busf_75, busf_76, busf_77, busf_78, busf_79, busf_80, busf_81, busf_82, busf_83, busf_84, busf_85, busf_86, busf_87, busf_88, busf_89]
  · simp [write_quad_word_records, busf_1, busf_2, busf_3, busf_4, busf_5, busf_6, busf_7, busf_8, busf_9, busf_10, busf_11, busf_12, busf_13, busf_14, busf_15, busf_16, busf_17, busf_18, busf_19, busf_20, busf_21, busf_22, busf_23, busf_24, busf_25, busf_26, busf_27, busf_28, busf_29, busf_30, busf_31, busf_32, busf_33, busf_34, busf_35, busf_36, busf_37, busf_38, busf_39, busf_40, busf_41, busf_42, busf_43, busf_44, busf_45, busf_46, busf_47, busf_48, busf_49, busf_50, busf_51, busf_52, busf_53, busf_54, busf_55, busf_56, busf_57, busf_58, busf_59, busf_60, busf_61, busf_62, busf_63, busf_64, busf_65, busf_66, busf_67, busf_68, busf_69, busf_70, busf_71, busf_72, busf_73, busf_74, busf_75, busf_76, busf_77, busf_78, busf_79, busf_80, busf_81, busf_82, busf_83, busf_84, busf_85, busf_86, busf_87, busf_88, busf_89]

/-- Witness for C6 at a concrete builder state (PHA, opcode 0x48, cycle 0). -/
theorem claim_C6_witness :
    (((push_half_word PC ⟨⟨MODE_6502, (0x48 : Nat), OP_PHA, STK_s, (0 : Nat), (0 : Nat), ""⟩, ([] : List MicroInstruction)⟩).g_actions =
        ([] : List MicroInstruction) ++ push_half_word_records MODE_6502 (0x48 : Nat) OP_PHA STK_s (0 : Nat) (0 : Nat)) ∧
      ((push_half_word_records MODE_6502 (0x48 : Nat) OP_PHA STK_s (0 : Nat) (0 : Nat)).filter
          (fun r => is_bus_action r.action)).map (fun r => r.cycle) = [(0 : Nat), (0 : Nat) + 1] ∧
      (push_half_word_records MODE_6502 (0x48 : Nat) OP_PHA STK_s (0 : Nat) (0 : Nat)).countP
          (fun r => is_bus_action r.action) = 2) ∧
    (((push_word PC ⟨⟨MODE_6502, (0x48 : Nat), OP_PHA, STK_s, (0 : Nat), (0 : Nat), ""⟩, ([] : List MicroInstruction)⟩).g_actions =
        ([] : List MicroInstruction) ++ push_word_records MODE_6502 (0x48 : Nat) OP_PHA STK_s (0 : Nat) (0 : Nat)) ∧
      ((push_word_records MODE_6502 (0x48 : Nat) OP_PHA STK_s (0 : Nat) (0 : Nat)).filter
          (fun r => is_bus_action r.action)).map (fun r => r.cycle) = [(0 : Nat), (0 : Nat) + 1, (0 : Nat) + 2, (0 : Nat) + 3] ∧
      (push_word_records MODE_6502 (0x48 : Nat) OP_PHA STK_s (0 : Nat) (0 : Nat)).countP
          (fun r => is_bus_action r.action) = 4) ∧
    (((push_double_word PC ⟨⟨MODE_6502, (0x48 : Nat), OP_PHA, STK_s, (0 : Nat), (0 : Nat), ""⟩, ([] : List MicroInstruction)⟩).g_actions =
        ([] : List MicroInstruction) ++ push_double_word_records MODE_6502 (0x48 : Nat) OP_PHA STK_s (0 : Nat) (0 : Nat)) ∧
      ((push_double_word_records MODE_6502 (0x48 : Nat) OP_PHA STK_s (0 : Nat) (0 : Nat)).filter
          (fun r => is_bus_action r.action)).map (fun r => r.cycle) = [(0 : Nat), (0 : Nat) + 1, (0 : Nat) + 2, (0 : Nat) + 3, (0 : Nat) + 4, (0 : Nat) + 5, (0 : Nat) + 6, (0 : Nat) + 7] ∧
      (push_double_word_records MODE_6502 (0x48 : Nat) OP_PHA STK_s (0 : Nat) (0 : Nat)).countP
          (fun r => is_bus_action r.action) = 8) ∧
    (((push_quad_word PC ⟨⟨MODE_6502, (0x48 : Nat), OP_PHA, STK_s, (0 : Nat), (0 : Nat), ""⟩, ([] : List MicroInstruction)⟩).g_actions =
        ([] : List MicroInstruction) ++ push_quad_word_records MODE_6502 (0x48 : Nat) OP_PHA STK_s (0 : Nat) (0 : Nat)) ∧
      ((push_quad_word_records MODE_6502 (0x48 : Nat) OP_PHA STK_s (0 : Nat) (0 : Nat)).filter
          (fun r => is_bus_action r.action)).map (fun r => r.cycle) = [(0 : Nat), (0 : Nat) + 1, (0 : Nat) + 2, (0 : Nat) + 3, (0 : Nat) + 4, (0 : Nat) + 5, (0 : Nat) + 6, (0 : Nat) + 7, (0 : Nat) + 8, (0 : Nat) + 9, (0 : Nat) + 10, (0 : Nat) + 11, (0 : Nat) + 12, (0 : Nat) + 13, (0 : Nat) + 14, (0 : Nat) + 15] ∧
      (push_quad_word_records MODE_6502 (0x48 : Nat) OP_PHA STK_s (0 : Nat) (0 : Nat)).countP
          (fun r => is_bus_action r.action) = 16) ∧
    (((pop_half_word X ⟨⟨MODE_6502, (0x48 : Nat), OP_PHA, STK_s, (0 : Nat), (0 : Nat), ""⟩, ([] : List MicroInstruction)⟩).g_actions =
        ([] : List MicroInstruction) ++ pop_half_word_records MODE_6502 (0x48 : Nat) OP_PHA STK_s (0 : Nat) (0 : Nat)) ∧
      ((pop_half_word_records MODE_6502 (0x48 : Nat) OP_PHA STK_s (0 : Nat) (0 : Nat)).filter
          (fun r => is_bus_action r.action)).map (fun r => r.cycle) = [(0 : Nat), (0 : Nat) + 1] ∧
      (pop_half_word_records MODE_6502 (0x48 : Nat) OP_PHA STK_s (0 : Nat) (0 : Nat)).countP
          (fun r => is_bus_action r.action) = 2) ∧
    (((pop_word X ⟨⟨MODE_6502, (0x48 : Nat), OP_PHA, STK_s, (0 : Nat), (0 : Nat), ""⟩, ([] : List MicroInstruction)⟩).g_actions =
        ([] : List MicroInstruction) ++ pop_word_records MODE_6502 (0x48 : Nat) OP_PHA STK_s (0 : Nat) (0 : Nat)) ∧
      ((pop_word_records MODE_6502 (0x48 : Nat) OP_PHA STK_s (0 : Nat) (0 : Nat)).filter
          (fun r => is_bus_action r.action)).map (fun r => r.cycle) = [(0 : Nat), (0 : Nat) + 1, (0 : Nat) + 2, (0 : Nat) + 3] ∧
      (pop_word_records MODE_6502 (0x48 : Nat) OP_PHA STK_s (0 : Nat) (0 : Nat)).countP
          (fun r => is_bus_action r.action) = 4) ∧
    (((pop_double_word X ⟨⟨MODE_6502, (0x48 : Nat), OP_PHA, STK_s, (0 : Nat), (0 : Nat), ""⟩, ([] : List MicroInstruction)⟩).g_actions =
        ([] : List MicroInstruction) ++ pop_double_word_records MODE_6502 (0x48 : Nat) OP_PHA STK_s (0 : Nat) (0 : Nat)) ∧
      ((pop_double_word_records MODE_6502 (0x48 : Nat) OP_PHA STK_s (0 : Nat) (0 : Nat)).filter
          (fun r => is_bus_action r.action)).map (fun r => r.cycle) = [(0 : Nat), (0 : Nat) + 1, (0 : Nat) + 2, (0 : Nat) + 3, (0 : Nat) + 4, (0 : Nat) + 5, (0 : Nat) + 6, (0 : Nat) + 7] ∧
      (pop_double_word_records MODE_6502 (0x48 : Nat) OP_PHA STK_s (0 : Nat) (0 : Nat)).countP
          (fun r => is_bus_action r.action) = 8) ∧
    (((pop_quad_word X ⟨⟨MODE_6502, (0x48 : Nat), OP_PHA, STK_s, (0 : Nat), (0 : Nat), ""⟩, ([] : List MicroInstruction)⟩).g_actions =
        ([] : List MicroInstruction) ++ pop_quad_word_records MODE_6502 (0x48 : Nat) OP_PHA STK_s (0 : Nat) (0 : Nat)) ∧
      ((pop_quad_word_records MODE_6502 (0x48 : Nat) OP_PHA STK_s (0 : Nat) (0 : Nat)).filter
          (fun r => is_bus_action r.action)).map (fun r => r.cycle) = [(0 : Nat), (0 : Nat) + 1, (0 : Nat) + 2, (0 : Nat) + 3, (0 : Nat) + 4, (0 : Nat) + 5, (0 : Nat) + 6, (0 : Nat) + 7, (0 : Nat) + 8, (0 : Nat) + 9, (0 : Nat) + 10, (0 : Nat) + 11, (0 : Nat) + 12, (0 : Nat) + 13, (0 : Nat) + 14, (0 : Nat) + 15] ∧
      (pop_quad_word_records MODE_6502 (0x48 : Nat) OP_PHA STK_s (0 : Nat) (0 : Nat)).countP
          (fun r => is_bus_action r.action) = 16) ∧
    (((load_half_word ADDR ⟨⟨MODE_6502, (0x48 : Nat), OP_PHA, STK_s, (0 : Nat), (0 : Nat), ""⟩, ([] : List MicroInstruction)⟩).g_actions =
        ([] : List MicroInstruction) ++ load_half_word_records MODE_6502 (0x48 : Nat) OP_PHA STK_s (0 : Nat) (0 : Nat)) ∧
      ((load_half_word_records MODE_6502 (0x48 : Nat) OP_PHA STK_s (0 : Nat) (0 : Nat)).filter
          (fun r => is_bus_action r.action)).map (fun r => r.cycle) = [(0 : Nat), (0 : Nat) + 1] ∧
      (load_half_word_records MODE_6502 (0x48 : Nat) OP_PHA STK_s (0 : Nat) (0 : Nat)).countP
          (fun r => is_bus_action r.action) = 2) ∧
    (((load_word ADDR ⟨⟨MODE_6502, (0x48 : Nat), OP_PHA, STK_s, (0 : Nat), (0 : Nat), ""⟩, ([] : List MicroInstruction)⟩).g_actions =
        ([] : List MicroInstruction) ++ load_word_records MODE_6502 (0x48 : Nat) OP_PHA STK_s (0 : Nat) (0 : Nat)) ∧
      ((load_word_records MODE_6502 (0x48 : Nat) OP_PHA STK_s (0 : Nat) (0 : Nat)).filter
          (fun r => is_bus_action r.action)).map (fun r => r.cycle) = [(0 : Nat), (0 : Nat) + 1, (0 : Nat) + 2, (0 : Nat) + 3] ∧
      (load_word_records MODE_6502 (0x48 : Nat) OP_PHA STK_s (0 : Nat) (0 : Nat)).countP
          (fun r => is_bus_action r.action) = 4) ∧
    (((load_double_word ADDR ⟨⟨MODE_6502, (0x48 : Nat), OP_PHA, STK_s, (0 : Nat), (0 : Nat), ""⟩, ([] : List MicroInstruction)⟩).g_actions =
        ([] : List MicroInstruction) ++ load_double_word_records MODE_6502 (0x48 : Nat) OP_PHA STK_s (0 : Nat) (0 : Nat)) ∧
      ((load_double_word_records MODE_6502 (0x48 : Nat) OP_PHA STK_s (0 : Nat) (0 : Nat)).filter
          (fun r => is_bus_action r.action)).map (fun r => r.cycle) = [(0 : Nat), (0 : Nat) + 1, (0 : Nat) + 2, (0 : Nat) + 3, (0 : Nat) + 4, (0 : Nat) + 5, (0 : Nat) + 6, (0 : Nat) + 7] ∧
      (load_double_word_records MODE_6502 (0x48 : Nat) OP_PHA STK_s (0 : Nat) (0 : Nat)).countP
          (fun r => is_bus_action r.action) = 8) ∧
    (((load_quad_word ADDR ⟨⟨MODE_6502, (0x48 : Nat), OP_PHA, STK_s, (0 : Nat), (0 : Nat), ""⟩, ([] : List MicroInstruction)⟩).g_actions =
        ([] : List MicroInstruction) ++ load_quad_word_records MODE_6502 (0x48 : Nat) OP_PHA STK_s (0 : Nat) (0 : Nat)) ∧
      ((load_quad_word_records MODE_6502 (0x48 : Nat) OP_PHA STK_s (0 : Nat) (0 : Nat)).filter
          (fun r => is_bus_action r.action)).map (fun r => r.cycle) = [(0 : Nat), (0 : Nat) + 1, (0 : Nat) + 2, (0 : Nat) + 3, (0 : Nat) + 4, (0 : Nat) + 5, (0 : Nat) + 6, (0 : Nat) + 7, (0 : Nat) + 8, (0 : Nat) + 9, (0 : Nat) + 10, (0 : Nat) + 11, (0 : Nat) + 12, (0 : Nat) + 13, (0 : Nat) + 14, (0 : Nat) + 15] ∧
      (load_quad_word_records MODE_6502 (0x48 : Nat) OP_PHA STK_s (0 : Nat) (0 : Nat)).countP
          (fun r => is_bus_action r.action) = 16) ∧
    (((write_half_word EA A ⟨⟨MODE_6502, (0x48 : Nat), OP_PHA, STK_s, (0 : Nat), (0 : Nat), ""⟩, ([] : List MicroInstruction)⟩).g_actions =
        ([] : List MicroInstruction) ++ write_half_word_records MODE_6502 (0x48 : Nat) OP_PHA STK_s (0 : Nat) (0 : Nat)) ∧
      ((write_half_word_records MODE_6502 (0x48 : Nat) OP_PHA STK_s (0 : Nat) (0 : Nat)).filter
          (fun r => is_bus_action r.action)).map (fun r => r.cycle) = [(0 : Nat), (0 : Nat) + 1] ∧
      (write_half_word_records MODE_6502 (0x48 : Nat) OP_PHA STK_s (0 : Nat) (0 : Nat)).countP
          (fun r => is_bus_action r.action) = 2) ∧
    (((write_word EA A ⟨⟨MODE_6502, (0x48 : Nat), OP_PHA, STK_s, (0 : Nat), (0 : Nat), ""⟩, ([] : List MicroInstruction)⟩).g_actions =
        ([] : List MicroInstruction) ++ write_word_records MODE_6502 (0x48 : Nat) OP_PHA STK_s (0 : Nat) (0 : Nat)) ∧
      ((write_word_records MODE_6502 (0x48 : Nat) OP_PHA STK_s (0 : Nat) (0 : Nat)).filter
          (fun r => is_bus_action r.action)).map (fun r => r.cycle) = [(0 : Nat), (0 : Nat) + 1, (0 : Nat) + 2, (0 : Nat) + 3] ∧
      (write_word_records MODE_6502 (0x48 : Nat) OP_PHA STK_s (0 : Nat) (0 : Nat)).countP
          (fun r => is_bus_action r.action) = 4) ∧
    (((write_double_word EA A ⟨⟨MODE_6502, (0x48 : Nat), OP_PHA, STK_s, (0 : Nat), (0 : Nat), ""⟩, ([] : List MicroInstruction)⟩).g_actions =
        ([] : List MicroInstruction) ++ write_double_word_records MODE_6502 (0x48 : Nat) OP_PHA STK_s (0 : Nat) (0 : Nat)) ∧
      ((write_double_word_records MODE_6502 (0x48 : Nat) OP_PHA STK_s (0 : Nat) (0 : Nat)).filter
          (fun r => is_bus_action r.action)).map (fun r => r.cycle) = [(0 : Nat), (0 : Nat) + 1, (0 : Nat) + 2, (0 : Nat) + 3, (0 : Nat) + 4, (0 : Nat) + 5, (0 : Nat) + 6, (0 : Nat) + 7] ∧
      (write_double_word_records MODE_6502 (0x48 : Nat) OP_PHA STK_s (0 : Nat) (0 : Nat)).countP
          (fun r => is_bus_action r.action) = 8) ∧
    (((write_quad_word EA A ⟨⟨MODE_6502, (0x48 : Nat), OP_PHA, STK_s, (0 : Nat), (0 : Nat), ""⟩, ([] : List MicroInstruction)⟩).g_actions =
        ([] : List MicroInstruction) ++ write_quad_word_records MODE_6502 (0x48 : Nat) OP_PHA STK_s (0 : Nat) (0 : Nat)) ∧
      ((write_quad_word_records MODE_6502 (0x48 : Nat) OP_PHA STK_s (0 : Nat) (0 : Nat)).filter
          (fun r => is_bus_action r.action)).map (fun r => r.cycle) = [(0 : Nat), (0 : Nat) + 1, (0 : Nat) + 2, (0 : Nat) + 3, (0 : Nat) + 4, (0 : Nat) + 5, (0 : Nat) + 6, (0 : Nat) + 7, (0 : Nat) + 8, (0 : Nat) + 9, (0 : Nat) + 10, (0 : Nat) + 11, (0 : Nat) + 12, (0 : Nat) + 13, (0 : Nat) + 14, (0 : Nat) + 15] ∧
      (write_quad_word_records MODE_6502 (0x48 : Nat) OP_PHA STK_s (0 : Nat) (0 : Nat)).countP
          (fun r => is_bus_action r.action) = 16) :=
  claim_C6 MODE_6502 0x48 OP_PHA STK_s 0 0 [] (by decide) (by decide)

/-- C7 (amended): every composite push primitive emits its single-byte push
bus actions most-significant byte first — the first bus record pushes the
highest byte of the value (`val[15:8]`, `val[31:24]`, `val[63:56]`,
`val[127:120]` respectively), followed by the remaining bytes of the wide
temporary in descending order down to `WQW[7:0]`. -/
theorem claim_C7 : ∀ (cm : CpuMode) (opc : Nat) (opn : Operation) (am : AddressMode)
    (wh cyc : Nat) (acts : List MicroInstruction),
    opn ≠ OP_NONE → cyc ≤ 239 →
    (((push_half_word PC ⟨⟨cm, opc, opn, am, wh, cyc, ""⟩, acts⟩).g_actions =
        acts ++ push_half_word_records cm opc opn am wh cyc) ∧
      ((push_half_word_records cm opc opn am wh cyc).filter
          (fun r => is_bus_action r.action)).map (fun r => r.action) =
        ["tmp_SP = SP - 1;" ++ " " ++ get_write_byte_action "tmp_SP" (part PC 15 8) ++ " SP <= tmp_SP;",
         "tmp_SP = SP - 1;" ++ " " ++ get_write_byte_action "tmp_SP" (part WQW 7 0) ++ " SP <= tmp_SP;"]) ∧
    (((push_word PC ⟨⟨cm, opc, opn, am, wh, cyc, ""⟩, acts⟩).g_actions =
        acts ++ push_word_records cm opc opn am wh cyc) ∧
      ((push_word_records cm opc opn am wh cyc).filter
          (fun r => is_bus_action r.action)).map (fun r => r.action) =
        ["tmp_SP = SP - 1;" ++ " " ++ get_write_byte_action "tmp_SP" (part PC 31 24) ++ " SP <= tmp_SP;",
         "tmp_SP = SP - 1;" ++ " " ++ get_write_byte_action "tmp_SP" (part WQW 23 16) ++ " SP <= tmp_SP;",
         "tmp_SP = SP - 1;" ++ " " ++ get_write_byte_action "tmp_SP" (part WQW 15 8) ++ " SP <= tmp_SP;",
         "tmp_SP = SP - 1;" ++ " " ++ get_write_byte_action "tmp_SP" (part WQW 7 0) ++ " SP <= tmp_SP;"]) ∧
    (((push_double_word PC ⟨⟨cm, opc, opn, am, wh, cyc, ""⟩, acts⟩).g_actions =
        acts ++ push_double_word_records cm opc opn am wh cyc) ∧
      ((push_double_word_records cm opc opn am wh cyc).filter
          (fun r => is_bus_action r.action)).map (fun r => r.action) =
        ["tmp_SP = SP - 1;" ++ " " ++ get_write_byte_action "tmp_SP" (part PC 63 56) ++ " SP <= tmp_SP;",
         "tmp_SP = SP - 1;" ++ " " ++ get_write_byte_action "tmp_SP" (part WQW 55 48) ++ " SP <= tmp_SP;",
         "tmp_SP = SP - 1;" ++ " " ++ get_write_byte_action "tmp_SP" (part WQW 47 40) ++ " SP <= tmp_SP;",
         "tmp_SP = SP - 1;" ++ " " ++ get_write_byte_action "tmp_SP" (part WQW 39 32) ++ " SP <= tmp_SP;",
         "tmp_SP = SP - 1;" ++ " " ++ get_write_byte_action "tmp_SP" (part WQW 31 24) ++ " SP <= tmp_SP;",
         "tmp_SP = SP - 1;" ++ " " ++ get_write_byte_action "tmp_SP" (part WQW 23 16) ++ " SP <= tmp_SP;",
         "tmp_SP = SP - 1;" ++ " " ++ get_write_byte_action "tmp_SP" (part WQW 15 8) ++ " SP <= tmp_SP;",
         "tmp_SP = SP - 1;" ++ " " ++ get_write_byte_action "tmp_SP" (part WQW 7 0) ++ " SP <= tmp_SP;"]) ∧
    (((push_quad_word PC ⟨⟨cm, opc, opn, am, wh, cyc, ""⟩, acts⟩).g_actions =
        acts ++ push_quad_word_records cm opc opn am wh cyc) ∧
      ((push_quad_word_records cm opc opn am wh cyc).filter
          (fun r => is_bus_action r.action)).map (fun r => r.action) =
        ["tmp_SP = SP - 1;" ++ " " ++ get_write_byte_action "tmp_SP" (part PC 127 120) ++ " SP <= tmp_SP;",
         "tmp_SP = SP - 1;" ++ " " ++ get_write_byte_action "tmp_SP" (part WQW 119 112) ++ " SP <= tmp_SP;",
         "tmp_SP = SP - 1;" ++ " " ++ get_write_byte_action "tmp_SP" (part WQW 111 104) ++ " SP <= tmp_SP;",
         "tmp_SP = SP - 1;" ++ " " ++ get_write_byte_action "tmp_SP" (part WQW 103 96) ++ " SP <= tmp_SP;",
         "tmp_SP = SP - 1;" ++ " " ++ get_write_byte_action "tmp_SP" (part WQW 95 88) ++ " SP <= tmp_SP;",
         "tmp_SP = SP - 1;" ++ " " ++ get_write_byte_action "tmp_SP" (part WQW 87 80) ++ " SP <= tmp_SP;",
         "tmp_SP = SP - 1;" ++ " " ++ get_write_byte_action "tmp_SP" (part WQW 79 72) ++ " SP <= tmp_SP;",
         "tmp_SP = SP - 1;" ++ " " ++ get_write_byte_action "tmp_SP" (part WQW 71 64) ++ " SP <= tmp_SP;",
         "tmp_SP = SP - 1;" ++ " " ++ get_write_byte_action "tmp_SP" (part WQW 63 56) ++ " SP <= tmp_SP;",
         "tmp_SP = SP - 1;" ++ " " ++ get_write_byte_action "tmp_SP" (part WQW 55 48) ++ " SP <= tmp_SP;",
         "tmp_SP = SP - 1;" ++ " " ++ get_write_byte_action "tmp_SP" (part WQW 47 40) ++ " SP <= tmp_SP;",
         "tmp_SP = SP - 1;" ++ " " ++ get_write_byte_action "tmp_SP" (part WQW 39 32) ++ " SP <= tmp_SP;",
         "tmp_SP = SP - 1;" ++ " " ++ get_write_byte_action "tmp_SP" (part WQW 31 24) ++ " SP <= tmp_SP;",
         "tmp_SP = SP - 1;" ++ " " ++ get_write_byte_action "tmp_SP" (part WQW 23 16) ++ " SP <= tmp_SP;",
         "tmp_SP = SP - 1;" ++ " " ++ get_write_byte_action "tmp_SP" (part WQW 15 8) ++ " SP <= tmp_SP;",
         "tmp_SP = SP - 1;" ++ " " ++ get_write_byte_action "tmp_SP" (part WQW 7 0) ++ " SP <= tmp_SP;"]) := by
  intro cm opc opn am wh cyc acts hop hcyc
  refine ⟨⟨?_, ?_⟩, ⟨?_, ?_⟩, ⟨?_, ?_⟩, ⟨?_, ?_⟩⟩
  · rw [push_half_word_run cm opc opn am wh cyc acts hop hcyc]
  · simp [push_half_word_records, busf_1, busf_2, busf_3, busf_4, busf_5, busf_6, busf_7, busf_8, busf_9, busf_10, busf_11, busf_12, busf_13, busf_14, busf_15, busf_16, busf_17, busf_18, busf_19, busf_20, busf_21, busf_22, busf_23, busf_24, busf_25, busf_26, busf_27, busf_28, busf_29, busf_30, busf_31, busf_32, busf_33, busf_34, busf_35, busf_36, busf_37, busf_38, busf_39, busf_40, busf_41, busf_42, busf_43, busf_44, busf_45, busf_46, busf_47, busf_48, busf_49, busf_50, busf_51, busf_52, busf_53, busf_54, busf_55, busf_56, busf_57, busf_58, busf_59, busf_60, busf_61, busf_62, busf_63, busf_64, busf_65, busf_66, busf_67, busf_68, busf_69, busf_70, busf_71, busf_72, busf_73, busf_74, busf_75, busf_76, busf_77, busf_78, busf_79, busf_80, busf_81, busf_82, busf_83, busf_84, busf_85, busf_86, busf_87, busf_88, busf_89]
  · rw [push_word_run cm opc opn am wh cyc acts hop hcyc]
  · simp [push_word_records, busf_1, busf_2, busf_3, busf_4, busf_5, busf_6, busf_7, busf_8, busf_9, busf_10, busf_11, busf_12, busf_13, busf_14, busf_15, busf_16, busf_17, busf_18, busf_19, busf_20, busf_21, busf_22, busf_23, busf_24, busf_25, busf_26, busf_27, busf_28, busf_29, busf_30, busf_31, busf_32, busf_33, busf_34, busf_35, busf_36, busf_37, busf_38, busf_39, busf_40, busf_41, busf_42, busf_43, busf_44, busf_45, busf_46, busf_47, busf_48, busf_49, busf_50, busf_51, busf_52, busf_53, busf_54, busf_55, busf_56, busf_57, busf_58, busf_59, busf_60, busf_61, busf_62, busf_63, busf_64, busf_65, busf_66, busf_67, busf_68, busf_69, busf_70, busf_71, busf_72, busf_73, busf_74, busf_75, busf_76, busf_77, busf_78, busf_79, busf_80, busf_81, busf_82, busf_83, busf_84, busf_85, busf_86, busf_87, busf_88, busf_89]
  · rw [push_double_word_run cm opc opn am wh cyc acts hop hcyc]
  · simp [push_double_word_records, busf_1, busf_2, busf_3, busf_4, busf_5, busf_6, busf_7, busf_8, busf_9, busf_10, busf_11, busf_12, busf_13, busf_14, busf_15, busf_16, busf_17, busf_18, busf_19, busf_20, busf_21, busf_22, busf_23, busf_24, busf_25, busf_26, busf_27, busf_28, busf_29, busf_30, busf_31, busf_32, busf_33, busf_34, busf_35, busf_36, busf_37, busf_38, busf_39, busf_40, busf_41, busf_42, busf_43, busf_44, busf_45, busf_46, busf_47, busf_48, busf_49, busf_50, busf_51, busf_52, busf_53, busf_54, busf_55, busf_56, busf_57, busf_58, busf_59, busf_60, busf_61, busf_62, busf_63, busf_64, busf_65, busf_66, busf_67, busf_68, busf_69, busf_70, busf_71, busf_72, busf_73, busf_74, busf_75, busf_76, busf_77, busf_78, busf_79, busf_80, busf_81, busf_82, busf_83, busf_84, busf_85, busf_86, busf_87, busf_88, busf_89]
  · rw [push_quad_word_run cm opc opn am wh cyc acts hop hcyc]
  · simp [push_quad_word_records, busf_1, busf_2, busf_3, busf_4, busf_5, busf_6, busf_7, busf_8, busf_9, busf_10, busf_11, busf_12, busf_13, busf_14, busf_15, busf_16, busf_17, busf_18, busf_19, busf_20, busf_21, busf_22, busf_23, busf_24, busf_25, busf_26, busf_27, busf_28, busf_29, busf_30, busf_31, busf_32, busf_33, busf_34, busf_35, busf_36, busf_37, busf_38, busf_39, busf_40, busf_41, busf_42, busf_43, busf_44, busf_45, busf_46, busf_47, busf_48, busf_49, busf_50, busf_51, busf_52, busf_53, busf_54, busf_55, busf_56, busf_57, busf_58, busf_59, busf_60, busf_61, busf_62, busf_63, busf_64, busf_65, busf_66, busf_67, busf_68, busf_69, busf_70, busf_71, busf_72, busf_73, busf_74, busf_75, busf_76, busf_77, busf_78, busf_79, busf_80, busf_81, busf_82, busf_83, busf_84, busf_85, busf_86, busf_87, busf_88, busf_89]

/-- Witness for C7 at a concrete builder state (PHA, opcode 0x48, cycle 0). -/
theorem claim_C7_witness :
    (((push_half_word PC ⟨⟨MODE_6502, (0x48 : Nat), OP_PHA, STK_s, (0 : Nat), (0 : Nat), ""⟩, ([] : List MicroInstruction)⟩).g_actions =
        ([] : List MicroInstruction) ++ push_half_word_records MODE_6502 (0x48 : Nat) OP_PHA STK_s (0 : Nat) (0 : Nat)) ∧
      ((push_half_word_records MODE_6502 (0x48 : Nat) OP_PHA STK_s (0 : Nat) (0 : Nat)).filter
          (fun r => is_bus_action r.action)).map (fun r => r.action) =
        ["tmp_SP = SP - 1;" ++ " " ++ get_write_byte_action "tmp_SP" (part PC 15 8) ++ " SP <= tmp_SP;",
         "tmp_SP = SP - 1;" ++ " " ++ get_write_byte_action "tmp_SP" (part WQW 7 0) ++ " SP <= tmp_SP;"]) ∧
    (((push_word PC ⟨⟨MODE_6502, (0x48 : Nat), OP_PHA, STK_s, (0 : Nat), (0 : Nat), ""⟩, ([] : List MicroInstruction)⟩).g_actions =
        ([] : List MicroInstruction) ++ push_word_records MODE_6502 (0x48 : Nat) OP_PHA STK_s (0 : Nat) (0 : Nat)) ∧
      ((push_word_records MODE_6502 (0x48 : Nat) OP_PHA STK_s (0 : Nat) (0 : Nat)).filter
          (fun r => is_bus_action r.action)).map (fun r => r.action) =
        ["tmp_SP = SP - 1;" ++ " " ++ get_write_byte_action "tmp_SP" (part PC 31 24) ++ " SP <= tmp_SP;",
         "tmp_SP = SP - 1;" ++ " " ++ get_write_byte_action "tmp_SP" (part WQW 23 16) ++ " SP <= tmp_SP;",
         "tmp_SP = SP - 1;" ++ " " ++ get_write_byte_action "tmp_SP" (part WQW 15 8) ++ " SP <= tmp_SP;",
         "tmp_SP = SP - 1;" ++ " " ++ get_write_byte_action "tmp_SP" (part WQW 7 0) ++ " SP <= tmp_SP;"]) ∧
    (((push_double_word PC ⟨⟨MODE_6502, (0x48 : Nat), OP_PHA, STK_s, (0 : Nat), (0 : Nat), ""⟩, ([] : List MicroInstruction)⟩).g_actions =
        ([] : List MicroInstruction) ++ push_double_word_records MODE_6502 (0x48 : Nat) OP_PHA STK_s (0 : Nat) (0 : Nat)) ∧
      ((push_double_word_records MODE_6502 (0x48 : Nat) OP_PHA STK_s (0 : Nat) (0 : Nat)).filter
          (fun r => is_bus_action r.action)).map (fun r => r.action) =
        ["tmp_SP = SP - 1;" ++ " " ++ get_write_byte_action "tmp_SP" (part PC 63 56) ++ " SP <= tmp_SP;",
         "tmp_SP = SP - 1;" ++ " " ++ get_write_byte_action "tmp_SP" (part WQW 55 48) ++ " SP <= tmp_SP;",
         "tmp_SP = SP - 1;" ++ " " ++ get_write_byte_action "tmp_SP" (part WQW 47 40) ++ " SP <= tmp_SP;",
         "tmp_SP = SP - 1;" ++ " " ++ get_write_byte_action "tmp_SP" (part WQW 39 32) ++ " SP <= tmp_SP;",
         "tmp_SP = SP - 1;" ++ " " ++ get_write_byte_action "tmp_SP" (part WQW 31 24) ++ " SP <= tmp_SP;",
         "tmp_SP = SP - 1;" ++ " " ++ get_write_byte_action "tmp_SP" (part WQW 23 16) ++ " SP <= tmp_SP;",
         "tmp_SP = SP - 1;" ++ " " ++ get_write_byte_action "tmp_SP" (part WQW 15 8) ++ " SP <= tmp_SP;",
         "tmp_SP = SP - 1;" ++ " " ++ get_write_byte_action "tmp_SP" (part WQW 7 0) ++ " SP <= tmp_SP;"]) ∧
    (((push_quad_word PC ⟨⟨MODE_6502, (0x48 : Nat), OP_PHA, STK_s, (0 : Nat), (0 : Nat), ""⟩, ([] : List MicroInstruction)⟩).g_actions =
        ([] : List MicroInstruction) ++ push_quad_word_records MODE_6502 (0x48 : Nat) OP_PHA STK_s (0 : Nat) (0 : Nat)) ∧
      ((push_quad_word_records MODE_6502 (0x48 : Nat) OP_PHA STK_s (0 : Nat) (0 : Nat)).filter
          (fun r => is_bus_action r.action)).map (fun r => r.action) =
        ["tmp_SP = SP - 1;" ++ " " ++ get_write_byte_action "tmp_SP" (part PC 127 120) ++ " SP <= tmp_SP;",
         "tmp_SP = SP - 1;" ++ " " ++ get_write_byte_action "tmp_SP" (part WQW 119 112) ++ " SP <= tmp_SP;",
         "tmp_SP = SP - 1;" ++ " " ++ get_write_byte_action "tmp_SP" (part WQW 111 104) ++ " SP <= tmp_SP;",
         "tmp_SP = SP - 1;" ++ " " ++ get_write_byte_action "tmp_SP" (part WQW 103 96) ++ " SP <= tmp_SP;",
         "tmp_SP = SP - 1;" ++ " " ++ get_write_byte_action "tmp_SP" (part WQW 95 88) ++ " SP <= tmp_SP;",
         "tmp_SP = SP - 1;" ++ " " ++ get_write_byte_action "tmp_SP" (part WQW 87 80) ++ " SP <= tmp_SP;",
         "tmp_SP = SP - 1;" ++ " " ++ get_write_byte_action "tmp_SP" (part WQW 79 72) ++ " SP <= tmp_SP;",
         "tmp_SP = SP - 1;" ++ " " ++ get_write_byte_action "tmp_SP" (part WQW 71 64) ++ " SP <= tmp_SP;",
         "tmp_SP = SP - 1;" ++ " " ++ get_write_byte_action "tmp_SP" (part WQW 63 56) ++ " SP <= tmp_SP;",
         "tmp_SP = SP - 1;" ++ " " ++ get_write_byte_action "tmp_SP" (part WQW 55 48) ++ " SP <= tmp_SP;",
         "tmp_SP = SP - 1;" ++ " " ++ get_write_byte_action "tmp_SP" (part WQW 47 40) ++ " SP <= tmp_SP;",
         "tmp_SP = SP - 1;" ++ " " ++ get_write_byte_action "tmp_SP" (part WQW 39 32) ++ " SP <= tmp_SP;",
         "tmp_SP = SP - 1;" ++ " " ++ get_write_byte_action "tmp_SP" (part WQW 31 24) ++ " SP <= tmp_SP;",
         "tmp_SP = SP - 1;" ++ " " ++ get_write_byte_action "tmp_SP" (part WQW 23 16) ++ " SP <= tmp_SP;",
         "tmp_SP = SP - 1;" ++ " " ++ get_write_byte_action "tmp_SP" (part WQW 15 8) ++ " SP <= tmp_SP;",
         "tmp_SP = SP - 1;" ++ " " ++ get_write_byte_action "tmp_SP" (part WQW 7 0) ++ " SP <= tmp_SP;"]) :=
  claim_C7 MODE_6502 0x48 OP_PHA STK_s 0 0 [] (by decide) (by decide)

/-- Counterexample to C7 as stated: for `push_half_word PC` the first
emitted bus action pushes `PC[15:8]` — the most significant byte — and not
the least significant byte `PC[7:0]`; least-significant-byte-first emission
is refuted at this concrete call. -/
theorem claim_C7_counterexample :
    (((push_half_word PC ⟨⟨MODE_6502, 0x48, OP_PHA, STK_s, 0, 0, ""⟩, []⟩).g_actions.filter
        (fun r => is_bus_action r.action)).map (fun r => r.action)) =
      ["tmp_SP = SP - 1; `WRITE_BYTE(tmp_SP,`PC[15:8]); SP <= tmp_SP;",
       "tmp_SP = SP - 1; `WRITE_BYTE(tmp_SP,`WQW[7:0]); SP <= tmp_SP;"] ∧
    (((push_half_word PC ⟨⟨MODE_6502, 0x48, OP_PHA, STK_s, 0, 0, ""⟩, []⟩).g_actions.filter
        (fun r => is_bus_action r.action)).map (fun r => r.action)).head? ≠
      some "tmp_SP = SP - 1; `WRITE_BYTE(tmp_SP,`PC[7:0]); SP <= tmp_SP;" := by
  refine ⟨by decide, by decide⟩

/-! ## Claim C2: merge correctness of `gen_code_for_action`

For a comparator-sorted store, the run of records sharing the head's
(cycle, address mode, action) triple is consumed into a single guarded
block: the `true`-marked entries (guard predicates) list each distinct
operation of the run exactly once, `false`-marked entries (annotation
comments) are exactly the records whose operation equals the immediately
preceding entry's operation, and the shared action text is the block's one
body.  The lemmas below analyse `gen_action_loop` and lift the result
through `emit_chunks` to `main_emit_loop`. -/

/-- The (cycle, address mode, action) grouping key of an emitted block. -/
def block_key (b : GuardedBlock) : Nat × String × String :=
  (b.cycle, b.address_mode, b.action)

/-- The operations of the `true`-marked (predicate) entries, in order. -/
def preds_of (entries : List (MicroInstruction × Bool)) : List Operation :=
  (entries.filter (fun e => e.2)).map (fun e => e.1.operation)

def GuardedBlock.preds (b : GuardedBlock) : List Operation :=
  preds_of b.entries

/-- The relation between consecutive consumed entries: an entry is marked
as an annotation (`false`) exactly when its operation repeats the operation
of the entry immediately before it. -/
def annotation_rel (e1 e2 : MicroInstruction × Bool) : Prop :=
  e2.2 = false ↔ e2.1.operation = e1.1.operation

theorem tripleEq_action {a b : MicroInstruction} (h : tripleEq a b = true) :
    a.action = b.action :=
  congrArg (fun p => p.2.2) ((tripleEq_iff_key3 a b).mp h)

theorem compare_mi_objects_self (a : MicroInstruction) :
    compare_mi_objects a a = 0 := by
  rw [compare_mi_objects_eq_key, (cmp3_isCmp.eq_zero _ _).mpr rfl, lex_step_zero, rest_cmp,
    (str_cmp_isCmp.eq_zero _ _).mpr rfl, (str_cmp_isCmp.eq_zero _ _).mpr rfl,
    (nat_cmp_isCmp.eq_zero _ _).mpr rfl, (nat_cmp_isCmp.eq_zero _ _).mpr rfl,
    lex_step_zero, lex_step_zero, lex_step_zero]

theorem mi_le_refl (a : MicroInstruction) : mi_le a a := by
  rw [mi_le, compare_mi_objects_self]

theorem IsCmp.lt_le_trans {α : Type} {f : α → α → Int} (hf : IsCmp f) {x y z : α}
    (h1 : f x y < 0) (h2 : f y z ≤ 0) : f x z < 0 := by
  rcases lt_or_eq_of_le h2 with h | h
  · exact hf.lt_trans x y z h1 h
  · have hyz : y = z := (hf.eq_zero y z).mp h
    subst hyz
    exact h1

theorem chain_pairwise_of_trans {α : Type} {R : α → α → Prop}
    (tr : ∀ a b c, R a b → R b c → R a c) :
    ∀ (a : α) (l : List α), List.Chain R a l → List.Pairwise R (a :: l) := by
  intro a l
  induction l generalizing a with
  | nil => intro _; exact List.pairwise_singleton R a
  | cons b l ih =>
    intro h
    rw [List.chain_cons] at h
    obtain ⟨hab, hbl⟩ := h
    have hp := ih b hbl
    refine List.pairwise_cons.mpr ⟨?_, hp⟩
    intro x hx
    rcases List.mem_cons.mp hx with rfl | hx2
    · exact hab
    · exact tr a b x hab ((List.pairwise_cons.mp hp).1 x hx2)

theorem gen_action_loop_cons_ann (first : MicroInstruction) (lop : Operation)
    (mi : MicroInstruction) (rest : List MicroInstruction)
    (h : tripleEq mi first = true) (h2 : (lop == mi.operation) = true) :
    gen_action_loop first (some lop) (mi :: rest) =
      ((mi, false) :: (gen_action_loop first (some lop) rest).1,
       (gen_action_loop first (some lop) rest).2) := by
  simp [gen_action_loop, h, h2]

theorem gen_action_loop_cons_new (first : MicroInstruction) (lop : Operation)
    (mi : MicroInstruction) (rest : List MicroInstruction)
    (h : tripleEq mi first = true) (h2 : (lop == mi.operation) = false) :
    gen_action_loop first (some lop) (mi :: rest) =
      ((mi, true) :: (gen_action_loop first (some mi.operation) rest).1,
       (gen_action_loop first (some mi.operation) rest).2) := by
  simp [gen_action_loop, h, h2]

theorem gen_action_loop_cons_none (first : MicroInstruction)
    (mi : MicroInstruction) (rest : List MicroInstruction)
    (h : tripleEq mi first = true) :
    gen_action_loop first none (mi :: rest) =
      ((mi, true) :: (gen_action_loop first (some mi.operation) rest).1,
       (gen_action_loop first (some mi.operation) rest).2) := by
  simp [gen_action_loop, h]

theorem gen_action_loop_cons_stop (first : MicroInstruction) (last : Option Operation)
    (mi : MicroInstruction) (rest : List MicroInstruction)
    (h : ¬ (tripleEq mi first = true)) :
    gen_action_loop first last (mi :: rest) = ([], mi :: rest) := by
  simp [gen_action_loop, h]

theorem gen_action_loop_head (mi : MicroInstruction) (rest : List MicroInstruction) :
    gen_action_loop mi none (mi :: rest) =
      ((mi, true) :: (gen_action_loop mi (some mi.operation) rest).1,
       (gen_action_loop mi (some mi.operation) rest).2) :=
  gen_action_loop_cons_none mi mi rest (tripleEq_self mi)

theorem gen_code_for_action_entries (mi : MicroInstruction) (rest : List MicroInstruction) :
    (gen_code_for_action (mi :: rest)).1.entries = (gen_action_loop mi none (mi :: rest)).1 :=
  rfl

theorem gen_code_for_action_rem_eq (mi : MicroInstruction) (rest : List MicroInstruction) :
    (gen_code_for_action (mi :: rest)).2 = (gen_action_loop mi none (mi :: rest)).2 :=
  rfl

theorem gen_code_for_action_key (mi : MicroInstruction) (rest : List MicroInstruction) :
    block_key (gen_code_for_action (mi :: rest)).1 = key3 mi :=
  rfl

theorem gen_code_for_action_action_eq (mi : MicroInstruction) (rest : List MicroInstruction) :
    (gen_code_for_action (mi :: rest)).1.action = mi.action :=
  rfl

theorem gen_code_for_action_rem_suffix (mi : MicroInstruction) (rest : List MicroInstruction) :
    (gen_code_for_action (mi :: rest)).2 <:+ (mi :: rest) :=
  ⟨(gen_action_loop mi none (mi :: rest)).1.map Prod.fst,
    gen_action_loop_flatten mi none (mi :: rest)⟩

/-- Every record consumed into the run agrees with the run head on the
grouping triple. -/
theorem gen_action_loop_entries_triple (first : MicroInstruction) (last : Option Operation)
    (l : List MicroInstruction) :
    ∀ e ∈ (gen_action_loop first last l).1, tripleEq e.1 first = true := by
  induction l generalizing last with
  | nil => intro e he; simp [gen_action_loop] at he
  | cons mi rest ih =>
    intro e he
    by_cases h : tripleEq mi first = true
    · cases last with
      | none =>
        rw [gen_action_loop_cons_none first mi rest h] at he
        rcases List.mem_cons.mp he with rfl | he2
        · exact h
        · exact ih (some mi.operation) e he2
      | some lop =>
        by_cases h2 : (lop == mi.operation) = true
        · rw [gen_action_loop_cons_ann first lop mi rest h h2] at he
          rcases List.mem_cons.mp he with rfl | he2
          · exact h
          · exact ih (some lop) e he2
        · rw [gen_action_loop_cons_new first lop mi rest h
            (by simpa using h2)] at he
          rcases List.mem_cons.mp he with rfl | he2
          · exact h
          · exact ih (some mi.operation) e he2
    · rw [gen_action_loop_cons_stop first last mi rest h] at he
      simp at he

/-- For a sorted list whose members all dominate `first`, every record left
unconsumed by the run loop has a grouping key different from `first`'s. -/
theorem gen_action_loop_rem_key (first : MicroInstruction) (last : Option Operation)
    (l : List MicroInstruction) :
    l.Pairwise mi_le → (∀ x ∈ l, mi_le first x) →
    ∀ x ∈ (gen_action_loop first last l).2, cmp3 (key3 x) (key3 first) ≠ 0 := by
  induction l generalizing last with
  | nil => intro _ _ x hx; simp [gen_action_loop] at hx
  | cons mi rest ih =>
    intro hsort hfirst
    have hp := List.pairwise_cons.mp hsort
    have hfr : ∀ x ∈ rest, mi_le first x := fun x hx => hfirst x (List.mem_cons_of_mem _ hx)
    by_cases h : tripleEq mi first = true
    · cases last with
      | none =>
        rw [gen_action_loop_cons_none first mi rest h]
        exact ih (some mi.operation) hp.2 hfr
      | some lop =>
        by_cases h2 : (lop == mi.operation) = true
        · rw [gen_action_loop_cons_ann first lop mi rest h h2]
          exact ih (some lop) hp.2 hfr
        · rw [gen_action_loop_cons_new first lop mi rest h (by simpa using h2)]
          exact ih (some mi.operation) hp.2 hfr
    · rw [gen_action_loop_cons_stop first last mi rest h]
      intro x hx
      have hmi_ne : cmp3 (key3 mi) (key3 first) ≠ 0 := by
        intro hc
        exact h ((tripleEq_iff_key3 mi first).mpr ((cmp3_isCmp.eq_zero _ _).mp hc))
      have ha1 : cmp3 (key3 mi) (key3 first) = -(cmp3 (key3 first) (key3 mi)) :=
        cmp3_isCmp.antisymm _ _
      have hle1 : cmp3 (key3 first) (key3 mi) ≤ 0 :=
        mi_le_triple_le (hfirst mi (List.mem_cons_self _ _))
      have hfm : cmp3 (key3 first) (key3 mi) < 0 := by omega
      rcases List.mem_cons.mp hx with rfl | hxr
      · exact hmi_ne
      · have hmx : cmp3 (key3 mi) (key3 x) ≤ 0 := mi_le_triple_le (hp.1 x hxr)
        have hfx : cmp3 (key3 first) (key3 x) < 0 := cmp3_isCmp.lt_le_trans hfm hmx
        have ha2 : cmp3 (key3 x) (key3 first) = -(cmp3 (key3 first) (key3 x)) :=
          cmp3_isCmp.antisymm _ _
        omega

/-- Marking invariant of the run loop: the head of the produced entry list
is an annotation iff its operation equals the pending `last` operation, and
consecutive entries satisfy `annotation_rel`. -/
theorem gen_action_loop_ann (first : MicroInstruction) (lop : Operation)
    (l : List MicroInstruction) :
    (∀ e ∈ ((gen_action_loop first (some lop) l).1).head?,
      (e.2 = false ↔ e.1.operation = lop)) ∧
    List.Chain' annotation_rel (gen_action_loop first (some lop) l).1 := by
  induction l generalizing lop with
  | nil =>
    constructor
    · intro e he; simp [gen_action_loop] at he
    · simp [gen_action_loop]
  | cons mi rest ih =>
    by_cases h : tripleEq mi first = true
    · by_cases h2 : (lop == mi.operation) = true
      · rw [gen_action_loop_cons_ann first lop mi rest h h2]
        obtain ⟨ihh, ihc⟩ := ih lop
        have hop : lop = mi.operation := eq_of_beq h2
        constructor
        · intro e he
          simp only [List.head?_cons, Option.mem_def, Option.some.injEq] at he
          rw [← he]
          rw [← hop]
          simp
        · rw [List.chain'_cons']
          refine ⟨?_, ihc⟩
          intro b hb
          have hiff := ihh b hb
          show b.2 = false ↔ b.1.operation = mi.operation
          rw [← hop]
          exact hiff
      · rw [gen_action_loop_cons_new first lop mi rest h (by simpa using h2)]
        obtain ⟨ihh, ihc⟩ := ih mi.operation
        have hop : ¬ (mi.operation = lop) := by
          intro hh
          rw [hh] at h2
          simp at h2
        constructor
        · intro e he
          simp only [List.head?_cons, Option.mem_def, Option.some.injEq] at he
          rw [← he]
          simp [hop]
        · rw [List.chain'_cons']
          refine ⟨?_, ihc⟩
          intro b hb
          exact ihh b hb
    · rw [gen_action_loop_cons_stop first (some lop) mi rest h]
      constructor
      · intro e he; simp at he
      · simp

/-- Guard-predicate invariant of the run loop on a sorted input dominated
by `lop`: the predicate operations extend `lop` into a strictly increasing
chain (hence are distinct and all differ from `lop`), and every consumed
entry's operation is `lop` or one of the predicates. -/
theorem gen_action_loop_ops (first : MicroInstruction) (lop : Operation)
    (l : List MicroInstruction) :
    l.Pairwise mi_le →
    (∀ x ∈ l, tripleEq x first = true → str_cmp lop x.operation ≤ 0) →
    List.Chain (fun a b => str_cmp a b < 0) lop
      (preds_of (gen_action_loop first (some lop) l).1) ∧
    ∀ e ∈ (gen_action_loop first (some lop) l).1,
      e.1.operation = lop ∨
        e.1.operation ∈ preds_of (gen_action_loop first (some lop) l).1 := by
  induction l generalizing lop with
  | nil =>
    intro _ _
    constructor
    · exact List.Chain.nil
    · intro e he; simp [gen_action_loop] at he
  | cons mi rest ih =>
    intro hsort hmono
    have hp := List.pairwise_cons.mp hsort
    by_cases h : tripleEq mi first = true
    · by_cases h2 : (lop == mi.operation) = true
      · rw [gen_action_loop_cons_ann first lop mi rest h h2]
        have hop : lop = mi.operation := eq_of_beq h2
        have hmono2 : ∀ x ∈ rest, tripleEq x first = true → str_cmp lop x.operation ≤ 0 :=
          fun x hx => hmono x (List.mem_cons_of_mem _ hx)
        obtain ⟨ihc, ihcov⟩ := ih lop hp.2 hmono2
        have hpr : preds_of ((mi, false) :: (gen_action_loop first (some lop) rest).1) =
            preds_of (gen_action_loop first (some lop) rest).1 := by
          simp [preds_of]
        constructor
        · rw [hpr]; exact ihc
        · intro e he
          rw [hpr]
          rcases List.mem_cons.mp he with rfl | he2
          · exact Or.inl hop.symm
          · exact ihcov e he2
      · rw [gen_action_loop_cons_new first lop mi rest h (by simpa using h2)]
        have hmono2 : ∀ x ∈ rest, tripleEq x first = true →
            str_cmp mi.operation x.operation ≤ 0 := by
          intro x hx ht
          have hkey : cmp3 (key3 mi) (key3 x) = 0 := by
            have hmk : key3 mi = key3 first := (tripleEq_iff_key3 mi first).mp h
            have hxk : key3 x = key3 first := (tripleEq_iff_key3 x first).mp ht
            exact (cmp3_isCmp.eq_zero _ _).mpr (hmk.trans hxk.symm)
          exact mi_le_op_le hkey (hp.1 x hx)
        obtain ⟨ihc, ihcov⟩ := ih mi.operation hp.2 hmono2
        have hpr : preds_of ((mi, true) :: (gen_action_loop first (some mi.operation) rest).1) =
            mi.operation :: preds_of (gen_action_loop first (some mi.operation) rest).1 := by
          simp [preds_of]
        have hlt : str_cmp lop mi.operation < 0 := by
          have hle := hmono mi (List.mem_cons_self _ _) h
          have hne : str_cmp lop mi.operation ≠ 0 := by
            intro hz
            have hx := (str_cmp_isCmp.eq_zero _ _).mp hz
            rw [hx] at h2
            simp at h2
          omega
        constructor
        · rw [hpr]
          exact List.Chain.cons hlt ihc
        · intro e he
          rw [hpr]
          rcases List.mem_cons.mp he with rfl | he2
          · exact Or.inr (List.mem_cons_self _ _)
          · rcases ihcov e he2 with hh | hh
            · refine Or.inr ?_
              rw [hh]
              exact List.mem_cons_self _ _
            · exact Or.inr (List.mem_cons_of_mem _ hh)
    · rw [gen_action_loop_cons_stop first (some lop) mi rest h]
      constructor
      · exact List.Chain.nil
      · intro e he; simp at he

/-- Every emitted chunk's header triple is the grouping key of some input
record. -/
theorem emit_chunks_block_key (l : List MicroInstruction) :
    ∀ b ∈ emit_chunks l, ∃ x ∈ l, block_key b = key3 x := by
  match l with
  | [] => intro b hb; simp [emit_chunks] at hb
  | mi :: rest =>
    intro b hb
    rw [emit_chunks] at hb
    rcases List.mem_cons.mp hb with rfl | hb2
    · exact ⟨mi, List.mem_cons_self _ _, gen_code_for_action_key mi rest⟩
    · obtain ⟨x, hx, hk⟩ := emit_chunks_block_key (gen_code_for_action (mi :: rest)).2 b hb2
      exact ⟨x, (gen_code_for_action_rem_suffix mi rest).subset hx, hk⟩
termination_by l.length
decreasing_by
  exact gen_code_for_action_rem_length _ _

/-- On a sorted input, each grouping key present in the list is the header
triple of exactly one emitted block. -/
theorem emit_chunks_countP_key (l : List MicroInstruction) (hsort : l.Pairwise mi_le)
    (r : MicroInstruction) (hr : r ∈ l) :
    (emit_chunks l).countP (fun b => block_key b == key3 r) = 1 := by
  match l with
  | [] => simp at hr
  | mi :: rest =>
    have hp := List.pairwise_cons.mp hsort
    have hfirst : ∀ y ∈ mi :: rest, mi_le mi y := by
      intro y hy
      rcases List.mem_cons.mp hy with rfl | hy2
      · exact mi_le_refl y
      · exact hp.1 y hy2
    have hremkey : ∀ x ∈ (gen_code_for_action (mi :: rest)).2,
        cmp3 (key3 x) (key3 mi) ≠ 0 := by
      intro x hx
      rw [gen_code_for_action_rem_eq] at hx
      exact gen_action_loop_rem_key mi none (mi :: rest) hsort hfirst x hx
    rw [emit_chunks, List.countP_cons]
    by_cases heq : key3 r = key3 mi
    · have hzero : (emit_chunks (gen_code_for_action (mi :: rest)).2).countP
          (fun b => block_key b == key3 r) = 0 := by
        refine List.countP_eq_zero.mpr ?_
        intro b hb hbeq
        have hbk : block_key b = key3 r := eq_of_beq hbeq
        obtain ⟨x, hx, hkx⟩ := emit_chunks_block_key (gen_code_for_action (mi :: rest)).2 b hb
        apply hremkey x hx
        apply (cmp3_isCmp.eq_zero _ _).mpr
        rw [← hkx, hbk, heq]
      rw [hzero]
      simp [gen_code_for_action_key, heq]
    · have hne2 : (block_key (gen_code_for_action (mi :: rest)).1 == key3 r) = false := by
        rw [gen_code_for_action_key]
        exact beq_eq_false_iff_ne.mpr (fun hh => heq hh.symm)
      have hrmem : r ∈ (gen_code_for_action (mi :: rest)).2 := by
        have hfl := gen_action_loop_flatten mi none (mi :: rest)
        have hr2 : r ∈ ((gen_action_loop mi none (mi :: rest)).1.map Prod.fst) ++
            (gen_action_loop mi none (mi :: rest)).2 := by
          rw [hfl]; exact hr
        rcases List.mem_append.mp hr2 with hin | hin
        · exfalso
          obtain ⟨e, he, hef⟩ := List.mem_map.mp hin
          apply heq
          rw [← hef]
          exact (tripleEq_iff_key3 e.1 mi).mp
            (gen_action_loop_entries_triple mi none (mi :: rest) e he)
        · rw [gen_code_for_action_rem_eq]
          exact hin
      have hsort_rem : (gen_code_for_action (mi :: rest)).2.Pairwise mi_le :=
        List.Pairwise.sublist (gen_code_for_action_rem_suffix mi rest).sublist hsort
      have ih := emit_chunks_countP_key (gen_code_for_action (mi :: rest)).2 hsort_rem r hrmem
      simp [ih, hne2]
termination_by l.length
decreasing_by
  exact gen_code_for_action_rem_length _ _

/-- The block built by one `gen_code_for_action` call on a sorted list:
its body is the head's action text, its predicates are pairwise distinct,
every consumed entry's operation is covered by a predicate and shares the
body text, the first entry is a predicate, consecutive entries satisfy the
annotation-marking relation, and every run member appears among the
entries. -/
theorem gen_code_for_action_props (mi : MicroInstruction) (rest : List MicroInstruction)
    (hsort : (mi :: rest).Pairwise mi_le) :
    (gen_code_for_action (mi :: rest)).1.action = mi.action ∧
    (gen_code_for_action (mi :: rest)).1.preds.Nodup ∧
    (∀ e ∈ (gen_code_for_action (mi :: rest)).1.entries,
      e.1.operation ∈ (gen_code_for_action (mi :: rest)).1.preds ∧
      e.1.action = (gen_code_for_action (mi :: rest)).1.action) ∧
    (∀ e ∈ ((gen_code_for_action (mi :: rest)).1.entries).head?, e.2 = true) ∧
    List.Chain' annotation_rel (gen_code_for_action (mi :: rest)).1.entries ∧
    (∀ x ∈ mi :: rest, tripleEq x mi = true →
      ∃ e ∈ (gen_code_for_action (mi :: rest)).1.entries, e.1 = x) := by
  have hp := List.pairwise_cons.mp hsort
  have hent : (gen_code_for_action (mi :: rest)).1.entries =
      (mi, true) :: (gen_action_loop mi (some mi.operation) rest).1 := by
    rw [gen_code_for_action_entries, gen_action_loop_head]
  have hpreds : (gen_code_for_action (mi :: rest)).1.preds =
      mi.operation :: preds_of (gen_action_loop mi (some mi.operation) rest).1 := by
    show preds_of (gen_code_for_action (mi :: rest)).1.entries = _
    rw [hent]
    simp [preds_of]
  have hmono2 : ∀ x ∈ rest, tripleEq x mi = true → str_cmp mi.operation x.operation ≤ 0 := by
    intro x hx ht
    have hkey : cmp3 (key3 mi) (key3 x) = 0 :=
      (cmp3_isCmp.eq_zero _ _).mpr ((tripleEq_iff_key3 x mi).mp ht).symm
    exact mi_le_op_le hkey (hp.1 x hx)
  obtain ⟨hchain, hcov⟩ := gen_action_loop_ops mi mi.operation rest hp.2 hmono2
  obtain ⟨hannh, hannc⟩ := gen_action_loop_ann mi mi.operation rest
  have htrip : ∀ e ∈ (gen_code_for_action (mi :: rest)).1.entries,
      tripleEq e.1 mi = true := by
    intro e he
    rw [hent] at he
    rcases List.mem_cons.mp he with rfl | he2
    · exact tripleEq_self mi
    · exact gen_action_loop_entries_triple mi (some mi.operation) rest e he2
  refine ⟨gen_code_for_action_action_eq mi rest, ?_, ?_, ?_, ?_, ?_⟩
  · rw [hpreds]
    have hpw := chain_pairwise_of_trans
      (fun a b c hab hbc => str_cmp_isCmp.lt_trans a b c hab hbc)
      mi.operation (preds_of (gen_action_loop mi (some mi.operation) rest).1) hchain
    have hne : ∀ {a b : Operation}, str_cmp a b < 0 → a ≠ b := by
      intro a b hab hh
      rw [hh] at hab
      rw [(str_cmp_isCmp.eq_zero b b).mpr rfl] at hab
      omega
    exact List.Pairwise.imp hne hpw
  · intro e he
    constructor
    · rw [hpreds]
      rw [hent] at he
      rcases List.mem_cons.mp he with rfl | he2
      · exact List.mem_cons_self _ _
      · rcases hcov e he2 with hh | hh
        · refine List.mem_cons.mpr (Or.inl ?_)
          exact hh
        · exact List.mem_cons_of_mem _ hh
    · rw [gen_code_for_action_action_eq]
      exact tripleEq_action (htrip e he)
  · intro e he
    rw [hent] at he
    simp only [List.head?_cons, Option.mem_def, Option.some.injEq] at he
    rw [← he]
  · rw [hent, List.chain'_cons']
    refine ⟨?_, hannc⟩
    intro b hb
    exact hannh b hb
  · intro x hx ht
    have hfl := gen_action_loop_flatten mi none (mi :: rest)
    have hx2 : x ∈ ((gen_action_loop mi none (mi :: rest)).1.map Prod.fst) ++
        (gen_action_loop mi none (mi :: rest)).2 := by
      rw [hfl]; exact hx
    rcases List.mem_append.mp hx2 with hin | hin
    · obtain ⟨e, he, hef⟩ := List.mem_map.mp hin
      refine ⟨e, ?_, hef⟩
      rw [gen_code_for_action_entries]
      exact he
    · exfalso
      have hfirst : ∀ y ∈ mi :: rest, mi_le mi y := by
        intro y hy
        rcases List.mem_cons.mp hy with rfl | hy2
        · exact mi_le_refl y
        · exact hp.1 y hy2
      exact gen_action_loop_rem_key mi none (mi :: rest) hsort hfirst x hin
        ((cmp3_isCmp.eq_zero _ _).mpr ((tripleEq_iff_key3 x mi).mp ht))

/-- Any emitted block whose header triple is the grouping key of a record
`r` of the sorted input has the merge-correctness properties, and covers
`r`'s operation with a predicate. -/
theorem emit_chunks_block_props (l : List MicroInstruction) :
    l.Pairwise mi_le →
    ∀ r ∈ l, ∀ b ∈ emit_chunks l, block_key b = key3 r →
      b.action = r.action ∧ b.preds.Nodup ∧
      (∀ e ∈ b.entries, e.1.operation ∈ b.preds ∧ e.1.action = b.action) ∧
      r.operation ∈ b.preds ∧
      (∀ e ∈ b.entries.head?, e.2 = true) ∧
      List.Chain' annotation_rel b.entries := by
  match l with
  | [] => intro _ r hr; simp at hr
  | mi :: rest =>
    intro hsort r hr b hb hk
    have hp := List.pairwise_cons.mp hsort
    have hfirst : ∀ y ∈ mi :: rest, mi_le mi y := by
      intro y hy
      rcases List.mem_cons.mp hy with rfl | hy2
      · exact mi_le_refl y
      · exact hp.1 y hy2
    rw [emit_chunks] at hb
    rcases List.mem_cons.mp hb with rfl | hb2
    · have hkey : key3 r = key3 mi := by
        rw [← hk, gen_code_for_action_key]
      have htr : tripleEq r mi = true := (tripleEq_iff_key3 r mi).mpr hkey
      obtain ⟨hact, hnd, hcov, hhead, hch, hmem⟩ := gen_code_for_action_props mi rest hsort
      obtain ⟨e, he, hef⟩ := hmem r hr htr
      refine ⟨?_, hnd, hcov, ?_, hhead, hch⟩
      · exact hact.trans (tripleEq_action htr).symm
      · have hco := (hcov e he).1
        rw [hef] at hco
        exact hco
    · have hremkey : ∀ x ∈ (gen_code_for_action (mi :: rest)).2,
          cmp3 (key3 x) (key3 mi) ≠ 0 := by
        intro x hx
        rw [gen_code_for_action_rem_eq] at hx
        exact gen_action_loop_rem_key mi none (mi :: rest) hsort hfirst x hx
      obtain ⟨x, hx, hkx⟩ := emit_chunks_block_key (gen_code_for_action (mi :: rest)).2 b hb2
      have hrk : key3 r ≠ key3 mi := by
        intro hh
        have hxr : key3 x = key3 r := hkx.symm.trans hk
        exact hremkey x hx ((cmp3_isCmp.eq_zero _ _).mpr (hxr.trans hh))
      have hrmem : r ∈ (gen_code_for_action (mi :: rest)).2 := by
        have hfl := gen_action_loop_flatten mi none (mi :: rest)
        have hr2 : r ∈ ((gen_action_loop mi none (mi :: rest)).1.map Prod.fst) ++
            (gen_action_loop mi none (mi :: rest)).2 := by
          rw [hfl]; exact hr
        rcases List.mem_append.mp hr2 with hin | hin
        · exfalso
          obtain ⟨e, he, hef⟩ := List.mem_map.mp hin
          apply hrk
          rw [← hef]
          exact (tripleEq_iff_key3 e.1 mi).mp
            (gen_action_loop_entries_triple mi none (mi :: rest) e he)
        · rw [gen_code_for_action_rem_eq]
          exact hin
      have hsort_rem : (gen_code_for_action (mi :: rest)).2.Pairwise mi_le :=
        List.Pairwise.sublist (gen_code_for_action_rem_suffix mi rest).sublist hsort
      exact emit_chunks_block_props (gen_code_for_action (mi :: rest)).2 hsort_rem
        r hrmem b hb2 hk
termination_by l.length
decreasing_by
  exact gen_code_for_action_rem_length _ _

/-- C2: for any comparator-sorted store containing two records that share
(cycle, addressing mode, action) and `which` but are distinct records
(differing in operation, opcode or cpu variant), the emission pass produces
exactly one guarded block whose header triple is that shared key; in it the
guard predicates (`true`-marked entries) list each distinct operation of
the run exactly once, an entry is marked as an annotation (`false`) exactly
when its operation equals the immediately preceding entry's operation (the
first entry is always a predicate), both records' operations are covered by
predicates, and the shared action text is the block's single body, shared
by every consumed entry. -/
theorem claim_C2 (l : List MicroInstruction) (hsort : l.Pairwise mi_le)
    (r1 r2 : MicroInstruction) (h1 : r1 ∈ l) (h2 : r2 ∈ l) (hne : r1 ≠ r2)
    (hcyc : r1.cycle = r2.cycle) (ham : r1.address_mode = r2.address_mode)
    (hact : r1.action = r2.action) (hwh : r1.which = r2.which) :
    (main_emit_loop l).countP (fun b => block_key b == key3 r1) = 1 ∧
    ∀ b ∈ main_emit_loop l, block_key b = key3 r1 →
      b.action = r1.action ∧
      b.preds.Nodup ∧
      (∀ e ∈ b.entries, e.1.operation ∈ b.preds ∧ e.1.action = b.action) ∧
      r1.operation ∈ b.preds ∧ r2.operation ∈ b.preds ∧
      (∀ e ∈ b.entries.head?, e.2 = true) ∧
      List.Chain' annotation_rel b.entries := by
  have hk12 : key3 r1 = key3 r2 := by
    simp [key3, hcyc, ham, hact]
  rw [main_emit_eq_chunks]
  refine ⟨emit_chunks_countP_key l hsort r1 h1, ?_⟩
  intro b hb hk
  obtain ⟨ha, hnd, hcov, hop1, hhd, hch⟩ := emit_chunks_block_props l hsort r1 h1 b hb hk
  obtain ⟨-, -, -, hop2, -, -⟩ := emit_chunks_block_props l hsort r2 h2 b hb
    (by rw [hk, hk12])
  exact ⟨ha, hnd, hcov, hop1, hop2, hhd, hch⟩

/-- The two synthetic records of the C2 witness: `CLC` described for both
cpu variants, sharing (cycle, addressing mode, action) and `which`. -/
def c2_r1 : MicroInstruction := ⟨MODE_6502, 0x18, OP_CLC, IMP_i, 0, 0, "`C <= 0;"⟩

def c2_r2 : MicroInstruction := ⟨MODE_65832, 0x18, OP_CLC, IMP_i, 0, 0, "`C <= 0;"⟩

def c2_store : List MicroInstruction := [c2_r1, c2_r2]

theorem c2_store_sorted : List.Pairwise mi_le c2_store := by
  refine List.pairwise_cons.mpr ⟨?_, List.pairwise_singleton _ _⟩
  intro x hx
  rw [List.mem_singleton.mp hx]
  show compare_mi_objects c2_r1 c2_r2 ≤ 0
  decide

theorem claim_C2_witness :
    List.Pairwise mi_le c2_store ∧ c2_r1 ≠ c2_r2 ∧
    ((main_emit_loop c2_store).countP (fun b => block_key b == key3 c2_r1) = 1 ∧
     ∀ b ∈ main_emit_loop c2_store, block_key b = key3 c2_r1 →
       b.action = c2_r1.action ∧
       b.preds.Nodup ∧
       (∀ e ∈ b.entries, e.1.operation ∈ b.preds ∧ e.1.action = b.action) ∧
       c2_r1.operation ∈ b.preds ∧ c2_r2.operation ∈ b.preds ∧
       (∀ e ∈ b.entries.head?, e.2 = true) ∧
       List.Chain' annotation_rel b.entries) :=
  ⟨c2_store_sorted, by decide,
    claim_C2 c2_store c2_store_sorted c2_r1 c2_r2 (by decide) (by decide) (by decide)
      rfl rfl rfl rfl⟩

end Ogege
